import Mathlib

/-! ## ADRV9001 radio control: channel state machine and mailbox protocol

Shallow embedding of `adi_adrv9001_radio.c`.

* A C function that returns a recovery action is a `Func`: from the device
  state it yields the returned action, the list of device accesses it made
  (in order) and the new device state, or `none` when it does not return
  within the given number of loop iterations (`fuel`).
* A block of statements is a `Stmt`: it either runs to its end with a value
  or executes a C `return` with an action.
* The register, mailbox and pin collaborators, and the constants and helper
  functions declared in headers outside the sources, are the fields of
  `Platform`.
* The arrays `ports[]`, `channels[]` and their common `length` are one list of
  (port, channel) pairs; `length` is the length of that list.
-/

namespace Adrv9001

/-! ## Data model -/

/-- Modelled from the spec: `adi_common_Port_e`, the enumeration {RX, TX, ORX}
in that order (the range check `ADI_RX .. ADI_TX` excludes `ADI_ORX`). -/
inductive adi_common_Port_e
  | ADI_RX
  | ADI_TX
  | ADI_ORX
  deriving DecidableEq, Repr

/-- Modelled from the spec: `adi_common_ChannelNumber_e`, the enumeration
{CHANNEL_1, CHANNEL_2}. -/
inductive adi_common_ChannelNumber_e
  | ADI_CHANNEL_1
  | ADI_CHANNEL_2
  deriving DecidableEq, Repr

open adi_common_Port_e adi_common_ChannelNumber_e

/-- Order of the port enumeration, used by `ADI_RANGE_CHECK` on a port. -/
def adi_common_Port_e.toNat : adi_common_Port_e → Nat
  | ADI_RX => 0
  | ADI_TX => 1
  | ADI_ORX => 2

/-- Order of the channel enumeration, used by `ADI_RANGE_CHECK` on a channel. -/
def adi_common_ChannelNumber_e.toNat : adi_common_ChannelNumber_e → Nat
  | ADI_CHANNEL_1 => 1
  | ADI_CHANNEL_2 => 2

/-- Modelled from the spec: the recovery action a call returns.  `NO_ACTION` is
success; the other values are the failures of section 7 (parameter or
precondition violation: `ERR_CHECK_PARAM`; exhausted tries: `ERR_RESET_MODULE`;
the two transport failures reported by the collaborators). -/
inductive Action
  | ADI_COMMON_ACT_NO_ACTION
  | ADI_COMMON_ACT_ERR_CHECK_PARAM
  | ADI_COMMON_ACT_ERR_RESET_MODULE
  | transportTimeout
  | transportFailure
  deriving DecidableEq, Repr

open Action

/-- Channel states are the 2-bit values of the status register fields. -/
abbrev adi_adrv9001_ChannelState_e := Nat

@[reducible] def ADI_ADRV9001_CHANNEL_STANDBY : adi_adrv9001_ChannelState_e := 0
@[reducible] def ADI_ADRV9001_CHANNEL_CALIBRATED : adi_adrv9001_ChannelState_e := 1
@[reducible] def ADI_ADRV9001_CHANNEL_PRIMED : adi_adrv9001_ChannelState_e := 2
@[reducible] def ADI_ADRV9001_CHANNEL_RF_ENABLED : adi_adrv9001_ChannelState_e := 3

/-- Modelled from the spec: `adi_adrv9001_ChannelEnableMode_e`; the
register-controlled mode is the value 0 of the pin-mode bit field. -/
@[reducible] def ADI_ADRV9001_SPI_MODE : Nat := 0

/-- Modelled from the spec: the pin-controlled value of the pin-mode bit field. -/
@[reducible] def ADI_ADRV9001_PIN_MODE : Nat := 1

/-- The snapshot `adi_adrv9001_RadioState_t`; `channelStates` is the 2x2
matrix indexed by port index and channel index. -/
structure adi_adrv9001_RadioState_t where
  systemState : Nat
  monitorModeState : Nat
  bootState : Nat
  channelStates : List (List Nat)
  deriving DecidableEq, Repr

/-- The C initialiser `{ 0 }` of a radio state. -/
def adi_adrv9001_RadioState_t.zero : adi_adrv9001_RadioState_t :=
  { systemState := 0, monitorModeState := 0, bootState := 0, channelStates := [[0, 0], [0, 0]] }

/-- The matrix read `channelStates[port_index][chan_index]`. -/
def adi_adrv9001_RadioState_t.stateAt (rs : adi_adrv9001_RadioState_t) (port_index chan_index : Nat) : Nat :=
  (rs.channelStates.getD port_index []).getD chan_index 0

/-- The two status registers read by the state queries. -/
inductive RegAddr
  | ADRV9001_ADDR_ARM_CMD_STATUS_8
  | ADRV9001_ADDR_ARM_CMD_STATUS_9
  deriving DecidableEq, Repr

/-- The two mailbox regions. -/
inductive ArmAddr
  | ADRV9001_ADDR_ARM_MAILBOX_SET
  | ADRV9001_ADDR_ARM_MAILBOX_GET
  deriving DecidableEq, Repr

/-- Modelled from the spec: the six mailbox opcodes, pairwise distinct. -/
inductive Opcode
  | ADRV9001_ARM_SET_OPCODE
  | ADRV9001_ARM_GET_OPCODE
  | ADRV9001_ARM_RADIOON_OPCODE
  | ADRV9001_ARM_RADIOOFF_OPCODE
  | ADRV9001_ARM_POWERUP_OPCODE
  | ADRV9001_ARM_POWERDOWN_OPCODE
  deriving DecidableEq, Repr

/-- The per-channel bit fields `adrv9001_NvsRegmapCore2_Bbic<X>PinMode` and
`adrv9001_NvsRegmapCore2_Bbic<X>Enable`, one accessor per field in the C code. -/
inductive BbicField
  | Rx1
  | Rx2
  | Tx1
  | Tx2
  | Orx1
  | Orx2
  deriving DecidableEq, Repr

/-- The PLL bit-field instances of `adrv9001_BfNvsPllMemMap_e` used by the
lock-status query. -/
inductive adrv9001_BfNvsPllMemMap_e
  | ADRV9001_BF_RF1_PLL
  | ADRV9001_BF_RF2_PLL
  | ADRV9001_BF_AUX_PLL
  | ADRV9001_BF_CLK_PLL
  | ADRV9001_BF_CLK_PLL_LP
  deriving DecidableEq, Repr

/-- The four front-end-control signals consulted by the delay validation. -/
inductive adi_adrv9001_GpioSignal_e
  | ADI_ADRV9001_GPIO_SIGNAL_RX1_EXT_FRONTEND_CONTROL
  | ADI_ADRV9001_GPIO_SIGNAL_RX2_EXT_FRONTEND_CONTROL
  | ADI_ADRV9001_GPIO_SIGNAL_TX1_EXT_FRONTEND_CONTROL
  | ADI_ADRV9001_GPIO_SIGNAL_TX2_EXT_FRONTEND_CONTROL
  deriving DecidableEq, Repr

/-- One device access, with the arguments passed and the action the
collaborator reported. -/
inductive Event
  | spiReadByte (addr : RegAddr) (result : Action)
  | pinModeGet (field : BbicField) (result : Action)
  | pinModeSet (field : BbicField) (mode : Nat) (result : Action)
  | enableSet (field : BbicField) (enable : Bool) (result : Action)
  | cmdWrite (opCode : Opcode) (extData : List Nat) (result : Action)
  | cmdStatusWait (opCode : Opcode) (objectId timeout_us interval_us : Nat) (result : Action)
  | memoryWrite (addr : ArmAddr) (data : List Nat) (result : Action)
  | memoryRead (addr : ArmAddr) (count : Nat) (autoIncrement : Bool) (result : Action)
  | gpioInspect (signal : adi_adrv9001_GpioSignal_e) (result : Action)
  | synLockGet (inst : adrv9001_BfNvsPllMemMap_e) (result : Action)
  deriving DecidableEq, Repr

/-- The collaborators the radio code calls and the constants it takes from
headers outside the sources.  Every collaborator maps the device state to the
action it reports, the value it delivers and the next device state. -/
structure Platform (σ : Type) where
  ADRV9001_ARM_OBJECTID_CHANNEL_CARRIER_FREQUENCY : Nat
  ADRV9001_ARM_OBJECTID_PLL_LOOPFILTER : Nat
  ADRV9001_ARM_OBJECTID_TDD_TIMING_PARAMS : Nat
  ADI_ADRV9001_SETCARRIER_FREQUENCY_TIMEOUT_US : Nat
  ADI_ADRV9001_SETCARRIER_FREQUENCY_INTERVAL_US : Nat
  ADI_ADRV9001_GETCARRIER_FREQUENCY_TIMEOUT_US : Nat
  ADI_ADRV9001_GETCARRIER_FREQUENCY_INTERVAL_US : Nat
  ADI_ADRV9001_RADIOONOFF_TIMEOUT_US : Nat
  ADI_ADRV9001_RADIOONOFF_INTERVAL_US : Nat
  ADI_ADRV9001_SETLOOPFILTER_TIMEOUT_US : Nat
  ADI_ADRV9001_SETLOOPFILTER_INTERVAL_US : Nat
  ADI_ADRV9001_GETLOOPFILTER_TIMEOUT_US : Nat
  ADI_ADRV9001_GETLOOPFILTER_INTERVAL_US : Nat
  ADI_ADRV9001_DEFAULT_TIMEOUT_US : Nat
  ADI_ADRV9001_DEFAULT_INTERVAL_US : Nat
  ADI_ADRV9001_PLL_CALIBRATION_NORMAL : Nat
  ADI_ADRV9001_PLL_CALIBRATION_RESERVED : Nat
  ADI_ADRV9001_LO_GEN_OPTIMIZATION_PHASE_NOISE : Nat
  ADI_ADRV9001_LO_GEN_OPTIMIZATION_POWER_CONSUMPTION : Nat
  ADI_ADRV9001_PLL_POWER_LOW : Nat
  ADI_ADRV9001_PLL_POWER_HIGH : Nat
  adi_adrv9001_Port_Validate : adi_common_Port_e → Action
  adi_adrv9001_Channel_Validate : adi_common_ChannelNumber_e → Action
  adi_adrv9001_Channel_State_GenericValidate :
    List (adi_common_Port_e × adi_common_ChannelNumber_e) → Action
  spiReadByte : RegAddr → σ → Action × Nat × σ
  BbicPinMode_Get : BbicField → σ → Action × Nat × σ
  BbicPinMode_Set : BbicField → Nat → σ → Action × σ
  BbicEnable_Set : BbicField → Bool → σ → Action × σ
  adi_adrv9001_arm_Cmd_Write : Opcode → List Nat → σ → Action × σ
  adrv9001_ARM_CMD_STATUS_WAIT : Opcode → Nat → Nat → Nat → σ → Action × σ
  adi_adrv9001_arm_Memory_Write : ArmAddr → List Nat → σ → Action × σ
  adi_adrv9001_arm_Memory_Read : ArmAddr → Nat → Bool → σ → Action × List Nat × σ
  adi_adrv9001_gpio_Inspect : adi_adrv9001_GpioSignal_e → σ → Action × Nat × σ
  adrv9001_NvsPllMemMap_SynLock_Get : adrv9001_BfNvsPllMemMap_e → σ → Action × Nat × σ

/-! ## Statements and functions -/

/-- How a block of statements ends: at its end with a value, or by a C
`return` of an action. -/
inductive Step (β : Type)
  | next (b : β)
  | ret (a : Action)
  deriving DecidableEq, Repr

/-- A block of statements over device state `σ`: `none` when it does not
finish within the fuel of its loops. -/
def Stmt (σ β : Type) : Type := σ → Option (Step β × List Event × σ)

/-- A C function returning a recovery action. -/
def Func (σ : Type) : Type := σ → Option (Action × List Event × σ)

/-- A C function returning a recovery action and filling an output structure. -/
def FuncOut (σ α : Type) : Type := σ → Option (Action × α × List Event × σ)

/-- The block that ends with value `b` and does nothing. -/
def Stmt.pure {σ β : Type} (b : β) : Stmt σ β := fun d => some (Step.next b, [], d)

/-- The C statement `return a;`. -/
def Stmt.ret {σ β : Type} (a : Action) : Stmt σ β := fun d => some (Step.ret a, [], d)

/-- Sequencing of two blocks: a `return` in the first skips the second. -/
def Stmt.bind {σ α β : Type} (m : Stmt σ α) (k : α → Stmt σ β) : Stmt σ β := fun d =>
  match m d with
  | none => none
  | some (Step.ret a, tr, d1) => some (Step.ret a, tr, d1)
  | some (Step.next x, tr, d1) =>
    match k x d1 with
    | none => none
    | some (r, tr2, d2) => some (r, tr ++ tr2, d2)

instance {σ : Type} : Monad (Stmt σ) where
  pure := Stmt.pure
  bind := Stmt.bind

/-- A function body as a function: the value the body ends with is the
action of its final `ADI_API_RETURN`. -/
def Stmt.toFunc {σ : Type} (m : Stmt σ Action) : Func σ := fun d =>
  match m d with
  | none => none
  | some (Step.ret a, tr, d1) => some (a, tr, d1)
  | some (Step.next a, tr, d1) => some (a, tr, d1)

/-- A function body with an output structure: the body ends with the final
content of the structure on success; on a failing `return` the structure
keeps the content `out` it had when the failure was detected. -/
def Stmt.toFuncOut {σ α : Type} (out : α) (m : Stmt σ α) : FuncOut σ α := fun d =>
  match m d with
  | none => none
  | some (Step.ret a, tr, d1) => some (a, out, tr, d1)
  | some (Step.next x, tr, d1) => some (ADI_COMMON_ACT_NO_ACTION, x, tr, d1)

/-- Modelled from the spec: the macro `ADI_EXPECT(f, ...)`; a failure of the
callee is surfaced at once by returning its action, success continues. -/
def ADI_EXPECT {σ : Type} (f : Func σ) : Stmt σ Unit := fun d =>
  match f d with
  | none => none
  | some (a, tr, d1) =>
    if a = ADI_COMMON_ACT_NO_ACTION then some (Step.next (), tr, d1) else some (Step.ret a, tr, d1)

/-- The macro `ADI_EXPECT` for a callee with an output structure. -/
def ADI_EXPECT_OUT {σ α : Type} (f : FuncOut σ α) : Stmt σ α := fun d =>
  match f d with
  | none => none
  | some (a, x, tr, d1) =>
    if a = ADI_COMMON_ACT_NO_ACTION then some (Step.next x, tr, d1) else some (Step.ret a, tr, d1)

/-- Modelled from the spec: `ADI_ERROR_REPORT(..., action, ...)` followed by
`ADI_API_RETURN`: the reported action is what the function returns. -/
def ADI_ERROR_REPORT_RETURN {σ β : Type} (a : Action) : Stmt σ β := Stmt.ret a

/-- Modelled from the spec: `ADI_RANGE_CHECK(dev, value, minimum, maximum)`, a
parameter range violation reported before anything else is done. -/
def ADI_RANGE_CHECK {σ : Type} (value minimum maximum : Nat) : Stmt σ Unit :=
  if value < minimum ∨ value > maximum then Stmt.ret ADI_COMMON_ACT_ERR_CHECK_PARAM
  else Stmt.pure ()

/-- A pure validation helper called through `ADI_EXPECT`. -/
def expectPure {σ : Type} (a : Action) : Stmt σ Unit :=
  if a = ADI_COMMON_ACT_NO_ACTION then Stmt.pure () else Stmt.ret a

/-- A collaborator call without a delivered value, under `ADI_EXPECT`. -/
def callDev {σ : Type} (f : σ → Action × σ) (ev : Action → Event) : Stmt σ Unit := fun d =>
  match f d with
  | (a, d1) =>
    if a = ADI_COMMON_ACT_NO_ACTION then some (Step.next (), [ev a], d1)
    else some (Step.ret a, [ev a], d1)

/-- A collaborator call delivering a value, under `ADI_EXPECT`. -/
def callDevVal {σ α : Type} (f : σ → Action × α × σ) (ev : Action → Event) : Stmt σ α := fun d =>
  match f d with
  | (a, x, d1) =>
    if a = ADI_COMMON_ACT_NO_ACTION then some (Step.next x, [ev a], d1)
    else some (Step.ret a, [ev a], d1)

/-- The loop `for (i = 0; i < length; i++)` with `uint8_t i` and locals `b`
that live across iterations: the counter wraps modulo 256. -/
def forU8 {σ β : Type} (length : Nat) (body : Nat → β → Stmt σ β) : Nat → Nat → β → Stmt σ β
  | 0, _, _ => fun _ => none
  | fuel + 1, i, b =>
    if i < length then Stmt.bind (body i b) (fun b1 => forU8 length body fuel ((i + 1) % 256) b1)
    else Stmt.pure b

/-- A pure helper whose loop may not finish, used inside a block. -/
def liftOption {σ β : Type} (o : Option β) : Stmt σ β := fun d =>
  match o with
  | none => none
  | some b => some (Step.next b, [], d)

/-! ## Index helpers and channel masks -/

/-- Modelled from the spec: `adi_common_port_to_index`, whose result code the
callers ignore; RX is row 0 and TX is row 1 of the state matrix, and for any
other port the caller's index variable is left as it was. -/
def adi_common_port_to_index (port : adi_common_Port_e) (index : Nat) : Nat :=
  match port with
  | ADI_RX => 0
  | ADI_TX => 1
  | ADI_ORX => index

/-- Modelled from the spec: `adi_common_channel_to_index`; channel 1 is column
0 and channel 2 is column 1 of the state matrix. -/
def adi_common_channel_to_index (channel : adi_common_ChannelNumber_e) (_index : Nat) : Nat :=
  match channel with
  | ADI_CHANNEL_1 => 0
  | ADI_CHANNEL_2 => 1

/-- Modelled from the spec: the channel mask bit of RX1 (one bit per
combination, in the order RX1, RX2, TX1, TX2, ORX1, ORX2). -/
@[reducible] def ADI_ADRV9001_RX1 : Nat := 0x01
/-- Modelled from the spec: the channel mask bit of RX2. -/
@[reducible] def ADI_ADRV9001_RX2 : Nat := 0x02
/-- Modelled from the spec: the channel mask bit of TX1. -/
@[reducible] def ADI_ADRV9001_TX1 : Nat := 0x04
/-- Modelled from the spec: the channel mask bit of TX2. -/
@[reducible] def ADI_ADRV9001_TX2 : Nat := 0x08
/-- Modelled from the spec: the channel mask bit of ORX1. -/
@[reducible] def ADI_ADRV9001_ORX1 : Nat := 0x10
/-- Modelled from the spec: the channel mask bit of ORX2. -/
@[reducible] def ADI_ADRV9001_ORX2 : Nat := 0x20

/-- The element `(ports[i], channels[i])` of a batch. -/
def batchAt (batch : List (adi_common_Port_e × adi_common_ChannelNumber_e)) (i : Nat) :
    adi_common_Port_e × adi_common_ChannelNumber_e :=
  batch.getD i (ADI_RX, ADI_CHANNEL_1)

/-- One iteration of the loop of `adi_adrv9001_Radio_MailboxChannelMask_Get`. -/
def maskStep (port : adi_common_Port_e) (channel : adi_common_ChannelNumber_e)
    (channelMask : Nat) : Nat :=
  if port = ADI_RX ∧ channel = ADI_CHANNEL_1 then channelMask ||| ADI_ADRV9001_RX1
  else if port = ADI_RX ∧ channel = ADI_CHANNEL_2 then channelMask ||| ADI_ADRV9001_RX2
  else if port = ADI_TX ∧ channel = ADI_CHANNEL_1 then channelMask ||| ADI_ADRV9001_TX1
  else if port = ADI_TX ∧ channel = ADI_CHANNEL_2 then channelMask ||| ADI_ADRV9001_TX2
  else if port = ADI_ORX ∧ channel = ADI_CHANNEL_1 then channelMask ||| ADI_ADRV9001_ORX1
  else if port = ADI_ORX ∧ channel = ADI_CHANNEL_2 then channelMask ||| ADI_ADRV9001_ORX2
  else channelMask

/-- The loop of `adi_adrv9001_Radio_MailboxChannelMask_Get`, counter `uint8_t i`. -/
def maskLoop (batch : List (adi_common_Port_e × adi_common_ChannelNumber_e)) :
    Nat → Nat → Nat → Option Nat
  | 0, _, _ => none
  | fuel + 1, i, channelMask =>
    if i < batch.length then
      maskLoop batch fuel ((i + 1) % 256) (maskStep (batchAt batch i).1 (batchAt batch i).2 channelMask)
    else some channelMask

/-- The function `adi_adrv9001_Radio_MailboxChannelMask_Get(ports, channels, length)`. -/
def adi_adrv9001_Radio_MailboxChannelMask_Get (fuel : Nat)
    (batch : List (adi_common_Port_e × adi_common_ChannelNumber_e)) : Option Nat :=
  maskLoop batch fuel 0 0

/-- The function `adi_adrv9001_Radio_MailboxChannel_Get(port, channel)`: the
mask of the batch of length 1. -/
def adi_adrv9001_Radio_MailboxChannel_Get (fuel : Nat) (port : adi_common_Port_e)
    (channel : adi_common_ChannelNumber_e) : Option Nat :=
  adi_adrv9001_Radio_MailboxChannelMask_Get fuel [(port, channel)]

/-! ## State queries -/

/-- The function `adi_adrv9001_Radio_State_Get`: reads the two status registers
and decodes their bit fields into `radioState`. -/
def adi_adrv9001_Radio_State_Get {σ : Type} (hal : Platform σ)
    (radioState : adi_adrv9001_RadioState_t) : FuncOut σ adi_adrv9001_RadioState_t := fun d =>
  match hal.spiReadByte RegAddr.ADRV9001_ADDR_ARM_CMD_STATUS_8 d with
  | (a, v, d1) =>
    if a ≠ ADI_COMMON_ACT_NO_ACTION then
      some (a, radioState, [Event.spiReadByte RegAddr.ADRV9001_ADDR_ARM_CMD_STATUS_8 a], d1)
    else
      let regValue := v % 256
      let radioState1 : adi_adrv9001_RadioState_t :=
        { radioState with
          systemState := regValue &&& 0x03
          monitorModeState := (regValue >>> 2) &&& 0x03
          bootState := (regValue >>> 4) &&& 0x0F }
      match hal.spiReadByte RegAddr.ADRV9001_ADDR_ARM_CMD_STATUS_9 d1 with
      | (a2, v2, d2) =>
        let tr := [Event.spiReadByte RegAddr.ADRV9001_ADDR_ARM_CMD_STATUS_8 a,
                   Event.spiReadByte RegAddr.ADRV9001_ADDR_ARM_CMD_STATUS_9 a2]
        if a2 ≠ ADI_COMMON_ACT_NO_ACTION then some (a2, radioState1, tr, d2)
        else
          let regValue2 := v2 % 256
          some (ADI_COMMON_ACT_NO_ACTION,
            { radioState1 with
              channelStates :=
                [[(regValue2 >>> 0) &&& 0x03, (regValue2 >>> 2) &&& 0x03],
                 [(regValue2 >>> 4) &&& 0x03, (regValue2 >>> 6) &&& 0x03]] },
            tr, d2)

/-- The function `adi_adrv9001_Radio_Channel_State_Get_Validate`. -/
def adi_adrv9001_Radio_Channel_State_Get_Validate {σ : Type}
    (port : adi_common_Port_e) (channel : adi_common_ChannelNumber_e) : Func σ :=
  Stmt.toFunc (do
    ADI_RANGE_CHECK port.toNat ADI_RX.toNat ADI_TX.toNat
    ADI_RANGE_CHECK channel.toNat ADI_CHANNEL_1.toNat ADI_CHANNEL_2.toNat
    pure ADI_COMMON_ACT_NO_ACTION)

/-- The function `adi_adrv9001_Radio_Channel_State_Get`; `channelState` is the
content of the output variable before the call. -/
def adi_adrv9001_Radio_Channel_State_Get {σ : Type} (hal : Platform σ)
    (port : adi_common_Port_e) (channel : adi_common_ChannelNumber_e)
    (channelState : Nat) : FuncOut σ Nat :=
  Stmt.toFuncOut channelState (do
    ADI_EXPECT (adi_adrv9001_Radio_Channel_State_Get_Validate port channel)
    let v ← callDevVal (hal.spiReadByte RegAddr.ADRV9001_ADDR_ARM_CMD_STATUS_9)
      (Event.spiReadByte RegAddr.ADRV9001_ADDR_ARM_CMD_STATUS_9)
    let regValue := v % 256
    if ADI_RX = port ∧ ADI_CHANNEL_1 = channel then pure ((regValue >>> 0) &&& 0x03)
    else if ADI_RX = port ∧ ADI_CHANNEL_2 = channel then pure ((regValue >>> 2) &&& 0x03)
    else if ADI_TX = port ∧ ADI_CHANNEL_1 = channel then pure ((regValue >>> 4) &&& 0x03)
    else if ADI_TX = port ∧ ADI_CHANNEL_2 = channel then pure ((regValue >>> 6) &&& 0x03)
    else pure channelState)

/-- The function `adi_adrv9001_Radio_ChannelEnableMode_Get_Validate`. -/
def adi_adrv9001_Radio_ChannelEnableMode_Get_Validate {σ : Type} (hal : Platform σ)
    (port : adi_common_Port_e) (channel : adi_common_ChannelNumber_e) : Func σ :=
  Stmt.toFunc (do
    expectPure (hal.adi_adrv9001_Channel_Validate channel)
    expectPure (hal.adi_adrv9001_Port_Validate port)
    pure ADI_COMMON_ACT_NO_ACTION)

/-- The function `adi_adrv9001_Radio_ChannelEnableMode_Get`; the final branch
is `ADI_SHOULD_NOT_EXECUTE`, a reported failure. -/
def adi_adrv9001_Radio_ChannelEnableMode_Get {σ : Type} (hal : Platform σ)
    (port : adi_common_Port_e) (channel : adi_common_ChannelNumber_e) (mode : Nat) :
    FuncOut σ Nat :=
  Stmt.toFuncOut mode (do
    ADI_EXPECT (adi_adrv9001_Radio_ChannelEnableMode_Get_Validate hal port channel)
    let regVal ←
      if port = ADI_RX ∧ channel = ADI_CHANNEL_1 then
        callDevVal (hal.BbicPinMode_Get BbicField.Rx1) (Event.pinModeGet BbicField.Rx1)
      else if port = ADI_RX ∧ channel = ADI_CHANNEL_2 then
        callDevVal (hal.BbicPinMode_Get BbicField.Rx2) (Event.pinModeGet BbicField.Rx2)
      else if port = ADI_TX ∧ channel = ADI_CHANNEL_1 then
        callDevVal (hal.BbicPinMode_Get BbicField.Tx1) (Event.pinModeGet BbicField.Tx1)
      else if port = ADI_TX ∧ channel = ADI_CHANNEL_2 then
        callDevVal (hal.BbicPinMode_Get BbicField.Tx2) (Event.pinModeGet BbicField.Tx2)
      else ADI_ERROR_REPORT_RETURN ADI_COMMON_ACT_ERR_CHECK_PARAM
    pure (regVal % 256))

/-! ## Channel state machine -/

/-- The function `adi_adrv9001_Radio_Channels_EnableRf`.  The locals
`port_index` and `chan_index` are declared before the loop and live across
its iterations. -/
def adi_adrv9001_Radio_Channels_EnableRf {σ : Type} (hal : Platform σ) (fuel : Nat)
    (batch : List (adi_common_Port_e × adi_common_ChannelNumber_e)) (enable : Bool) : Func σ :=
  Stmt.toFunc (do
    expectPure (hal.adi_adrv9001_Channel_State_GenericValidate batch)
    let currentState ← ADI_EXPECT_OUT (adi_adrv9001_Radio_State_Get hal adi_adrv9001_RadioState_t.zero)
    let _ ← forU8 batch.length (fun i (idx : Nat × Nat) => do
      let port := (batchAt batch i).1
      let channel := (batchAt batch i).2
      let enableMode ← ADI_EXPECT_OUT
        (adi_adrv9001_Radio_ChannelEnableMode_Get hal port channel ADI_ADRV9001_SPI_MODE)
      if ADI_ADRV9001_SPI_MODE ≠ enableMode then
        ADI_ERROR_REPORT_RETURN ADI_COMMON_ACT_ERR_CHECK_PARAM
      else
        let port_index := adi_common_port_to_index port idx.1
        let chan_index := adi_common_channel_to_index channel idx.2
        if currentState.stateAt port_index chan_index ≠ ADI_ADRV9001_CHANNEL_PRIMED ∧
            currentState.stateAt port_index chan_index ≠ ADI_ADRV9001_CHANNEL_RF_ENABLED then
          ADI_ERROR_REPORT_RETURN ADI_COMMON_ACT_ERR_CHECK_PARAM
        else do
          (if port = ADI_RX ∧ channel = ADI_CHANNEL_1 then
            callDev (hal.BbicEnable_Set BbicField.Rx1 enable) (Event.enableSet BbicField.Rx1 enable)
          else if port = ADI_RX ∧ channel = ADI_CHANNEL_2 then
            callDev (hal.BbicEnable_Set BbicField.Rx2 enable) (Event.enableSet BbicField.Rx2 enable)
          else if port = ADI_TX ∧ channel = ADI_CHANNEL_1 then
            callDev (hal.BbicEnable_Set BbicField.Tx1 enable) (Event.enableSet BbicField.Tx1 enable)
          else if port = ADI_TX ∧ channel = ADI_CHANNEL_2 then
            callDev (hal.BbicEnable_Set BbicField.Tx2 enable) (Event.enableSet BbicField.Tx2 enable)
          else if port = ADI_ORX ∧ channel = ADI_CHANNEL_1 then
            callDev (hal.BbicEnable_Set BbicField.Orx1 enable) (Event.enableSet BbicField.Orx1 enable)
          else if port = ADI_ORX ∧ channel = ADI_CHANNEL_2 then
            callDev (hal.BbicEnable_Set BbicField.Orx2 enable) (Event.enableSet BbicField.Orx2 enable)
          else ADI_ERROR_REPORT_RETURN ADI_COMMON_ACT_ERR_CHECK_PARAM)
          pure (port_index, chan_index)) fuel 0 (0, 0)
    pure ADI_COMMON_ACT_NO_ACTION)

/-- The function `adi_adrv9001_Radio_Channel_EnableRf`: the batch of length 1. -/
def adi_adrv9001_Radio_Channel_EnableRf {σ : Type} (hal : Platform σ) (fuel : Nat)
    (port : adi_common_Port_e) (channel : adi_common_ChannelNumber_e) (enable : Bool) : Func σ :=
  adi_adrv9001_Radio_Channels_EnableRf hal fuel [(port, channel)] enable

/-- The function `adi_adrv9001_Channel_DisableRF_Wait`; both the counter and
`numTries` are `uint8_t`. -/
def adi_adrv9001_Channel_DisableRF_Wait {σ : Type} (hal : Platform σ) (fuel : Nat)
    (port : adi_common_Port_e) (channel : adi_common_ChannelNumber_e) (numTries : Nat) : Func σ :=
  Stmt.toFunc (do
    let port_index := adi_common_port_to_index port 0
    let chan_index := adi_common_channel_to_index channel 0
    ADI_EXPECT (adi_adrv9001_Radio_Channel_EnableRf hal fuel port channel false)
    let _ ← forU8 numTries (fun _ (currentState : adi_adrv9001_RadioState_t) => do
      let currentState1 ← ADI_EXPECT_OUT (adi_adrv9001_Radio_State_Get hal currentState)
      if currentState1.stateAt port_index chan_index = ADI_ADRV9001_CHANNEL_PRIMED then
        Stmt.ret ADI_COMMON_ACT_NO_ACTION
      else pure currentState1) fuel 0 adi_adrv9001_RadioState_t.zero
    Stmt.ret ADI_COMMON_ACT_ERR_RESET_MODULE)

/-- The function `adi_adrv9001_Radio_ToPrimed_Fix`, the errata compensation
run after a prime command; `NUM_TRIES` is 5. -/
def adi_adrv9001_Radio_ToPrimed_Fix {σ : Type} (hal : Platform σ) (fuel : Nat)
    (batch : List (adi_common_Port_e × adi_common_ChannelNumber_e)) : Func σ :=
  Stmt.toFunc (do
    let currentState ← ADI_EXPECT_OUT (adi_adrv9001_Radio_State_Get hal adi_adrv9001_RadioState_t.zero)
    forU8 batch.length (fun i (_ : Unit) =>
      let port := (batchAt batch i).1
      let channel := (batchAt batch i).2
      if port ≠ ADI_TX then pure ()
      else
        let port_index := adi_common_port_to_index ADI_RX 0
        let chan_index := adi_common_channel_to_index channel 0
        if currentState.stateAt port_index chan_index ≠ ADI_ADRV9001_CHANNEL_RF_ENABLED then pure ()
        else do
          ADI_EXPECT (adi_adrv9001_Channel_DisableRF_Wait hal fuel ADI_RX channel 5)
          ADI_EXPECT (adi_adrv9001_Radio_Channel_EnableRf hal fuel ADI_RX channel true)) fuel 0 ()
    pure ADI_COMMON_ACT_NO_ACTION)

/-- The function `adi_adrv9001_Radio_Channels_Prime`. -/
def adi_adrv9001_Radio_Channels_Prime {σ : Type} (hal : Platform σ) (fuel : Nat)
    (batch : List (adi_common_Port_e × adi_common_ChannelNumber_e)) (prime : Bool) : Func σ :=
  Stmt.toFunc (do
    expectPure (hal.adi_adrv9001_Channel_State_GenericValidate batch)
    let currentState ← ADI_EXPECT_OUT (adi_adrv9001_Radio_State_Get hal adi_adrv9001_RadioState_t.zero)
    let _ ← forU8 batch.length (fun i (idx : Nat × Nat) =>
      let port_index := adi_common_port_to_index (batchAt batch i).1 idx.1
      let chan_index := adi_common_channel_to_index (batchAt batch i).2 idx.2
      if currentState.stateAt port_index chan_index ≠ ADI_ADRV9001_CHANNEL_CALIBRATED ∧
          currentState.stateAt port_index chan_index ≠ ADI_ADRV9001_CHANNEL_PRIMED then
        if prime then ADI_ERROR_REPORT_RETURN ADI_COMMON_ACT_ERR_CHECK_PARAM
        else ADI_ERROR_REPORT_RETURN ADI_COMMON_ACT_ERR_CHECK_PARAM
      else pure (port_index, chan_index)) fuel 0 (0, 0)
    let mailboxChannelMask ← liftOption (adi_adrv9001_Radio_MailboxChannelMask_Get fuel batch)
    let opCode :=
      if prime = true then Opcode.ADRV9001_ARM_RADIOON_OPCODE
      else Opcode.ADRV9001_ARM_RADIOOFF_OPCODE
    callDev (hal.adi_adrv9001_arm_Cmd_Write opCode [mailboxChannelMask])
      (Event.cmdWrite opCode [mailboxChannelMask])
    callDev (hal.adrv9001_ARM_CMD_STATUS_WAIT opCode 0 hal.ADI_ADRV9001_RADIOONOFF_TIMEOUT_US
        hal.ADI_ADRV9001_RADIOONOFF_INTERVAL_US)
      (Event.cmdStatusWait opCode 0 hal.ADI_ADRV9001_RADIOONOFF_TIMEOUT_US
        hal.ADI_ADRV9001_RADIOONOFF_INTERVAL_US)
    (if prime then ADI_EXPECT (adi_adrv9001_Radio_ToPrimed_Fix hal fuel batch) else pure ())
    pure ADI_COMMON_ACT_NO_ACTION)

/-- The function `adi_adrv9001_Radio_Channel_Prime`: the batch of length 1. -/
def adi_adrv9001_Radio_Channel_Prime {σ : Type} (hal : Platform σ) (fuel : Nat)
    (port : adi_common_Port_e) (channel : adi_common_ChannelNumber_e) (prime : Bool) : Func σ :=
  adi_adrv9001_Radio_Channels_Prime hal fuel [(port, channel)] prime

/-- The function `adi_adrv9001_Radio_Channels_PowerDown_Validate`. -/
def adi_adrv9001_Radio_Channels_PowerDown_Validate {σ : Type} (hal : Platform σ) (fuel : Nat)
    (batch : List (adi_common_Port_e × adi_common_ChannelNumber_e)) : Func σ :=
  Stmt.toFunc (do
    let currentState ← ADI_EXPECT_OUT (adi_adrv9001_Radio_State_Get hal adi_adrv9001_RadioState_t.zero)
    let _ ← forU8 batch.length (fun i (idx : Nat × Nat) =>
      let port_index := adi_common_port_to_index (batchAt batch i).1 idx.1
      let chan_index := adi_common_channel_to_index (batchAt batch i).2 idx.2
      if currentState.stateAt port_index chan_index ≠ ADI_ADRV9001_CHANNEL_CALIBRATED then
        ADI_ERROR_REPORT_RETURN ADI_COMMON_ACT_ERR_CHECK_PARAM
      else pure (port_index, chan_index)) fuel 0 (0, 0)
    pure ADI_COMMON_ACT_NO_ACTION)

/-- The function `adi_adrv9001_Radio_Channels_PowerDown`. -/
def adi_adrv9001_Radio_Channels_PowerDown {σ : Type} (hal : Platform σ) (fuel : Nat)
    (batch : List (adi_common_Port_e × adi_common_ChannelNumber_e)) : Func σ :=
  Stmt.toFunc (do
    expectPure (hal.adi_adrv9001_Channel_State_GenericValidate batch)
    ADI_EXPECT (adi_adrv9001_Radio_Channels_PowerDown_Validate hal fuel batch)
    let mailboxChannelMask ← liftOption (adi_adrv9001_Radio_MailboxChannelMask_Get fuel batch)
    callDev (hal.adi_adrv9001_arm_Cmd_Write Opcode.ADRV9001_ARM_POWERDOWN_OPCODE [mailboxChannelMask])
      (Event.cmdWrite Opcode.ADRV9001_ARM_POWERDOWN_OPCODE [mailboxChannelMask])
    callDev (hal.adrv9001_ARM_CMD_STATUS_WAIT Opcode.ADRV9001_ARM_POWERDOWN_OPCODE 0
        hal.ADI_ADRV9001_RADIOONOFF_TIMEOUT_US hal.ADI_ADRV9001_RADIOONOFF_INTERVAL_US)
      (Event.cmdStatusWait Opcode.ADRV9001_ARM_POWERDOWN_OPCODE 0
        hal.ADI_ADRV9001_RADIOONOFF_TIMEOUT_US hal.ADI_ADRV9001_RADIOONOFF_INTERVAL_US)
    pure ADI_COMMON_ACT_NO_ACTION)

/-- The function `adi_adrv9001_Radio_Channel_PowerDown`: the batch of length 1. -/
def adi_adrv9001_Radio_Channel_PowerDown {σ : Type} (hal : Platform σ) (fuel : Nat)
    (port : adi_common_Port_e) (channel : adi_common_ChannelNumber_e) : Func σ :=
  adi_adrv9001_Radio_Channels_PowerDown hal fuel [(port, channel)]

/-- The function `adi_adrv9001_Radio_Channels_PowerUp`. -/
def adi_adrv9001_Radio_Channels_PowerUp {σ : Type} (hal : Platform σ) (fuel : Nat)
    (batch : List (adi_common_Port_e × adi_common_ChannelNumber_e)) : Func σ :=
  Stmt.toFunc (do
    expectPure (hal.adi_adrv9001_Channel_State_GenericValidate batch)
    let mailboxChannelMask ← liftOption (adi_adrv9001_Radio_MailboxChannelMask_Get fuel batch)
    callDev (hal.adi_adrv9001_arm_Cmd_Write Opcode.ADRV9001_ARM_POWERUP_OPCODE [mailboxChannelMask])
      (Event.cmdWrite Opcode.ADRV9001_ARM_POWERUP_OPCODE [mailboxChannelMask])
    callDev (hal.adrv9001_ARM_CMD_STATUS_WAIT Opcode.ADRV9001_ARM_POWERUP_OPCODE 0
        hal.ADI_ADRV9001_RADIOONOFF_TIMEOUT_US hal.ADI_ADRV9001_RADIOONOFF_INTERVAL_US)
      (Event.cmdStatusWait Opcode.ADRV9001_ARM_POWERUP_OPCODE 0
        hal.ADI_ADRV9001_RADIOONOFF_TIMEOUT_US hal.ADI_ADRV9001_RADIOONOFF_INTERVAL_US)
    pure ADI_COMMON_ACT_NO_ACTION)

/-- The function `adi_adrv9001_Radio_Channel_PowerUp`: the batch of length 1. -/
def adi_adrv9001_Radio_Channel_PowerUp {σ : Type} (hal : Platform σ) (fuel : Nat)
    (port : adi_common_Port_e) (channel : adi_common_ChannelNumber_e) : Func σ :=
  adi_adrv9001_Radio_Channels_PowerUp hal fuel [(port, channel)]

/-- The function `adi_adrv9001_Radio_Channel_ToCalibrated`; `NUM_TRIES` is 10. -/
def adi_adrv9001_Radio_Channel_ToCalibrated {σ : Type} (hal : Platform σ) (fuel : Nat)
    (port : adi_common_Port_e) (channel : adi_common_ChannelNumber_e) : Func σ :=
  Stmt.toFunc (do
    let port_index := adi_common_port_to_index port 0
    let chan_index := adi_common_channel_to_index channel 0
    let currentState ← ADI_EXPECT_OUT (adi_adrv9001_Radio_State_Get hal adi_adrv9001_RadioState_t.zero)
    if currentState.stateAt port_index chan_index = ADI_ADRV9001_CHANNEL_STANDBY then
      ADI_ERROR_REPORT_RETURN ADI_COMMON_ACT_ERR_CHECK_PARAM
    else if currentState.stateAt port_index chan_index = ADI_ADRV9001_CHANNEL_CALIBRATED then
      pure ADI_COMMON_ACT_NO_ACTION
    else do
      (if currentState.stateAt port_index chan_index = ADI_ADRV9001_CHANNEL_RF_ENABLED then
        ADI_EXPECT (adi_adrv9001_Channel_DisableRF_Wait hal fuel port channel 10)
      else pure ())
      ADI_EXPECT (adi_adrv9001_Radio_Channel_Prime hal fuel port channel false)
      pure ADI_COMMON_ACT_NO_ACTION)

/-- The function `adi_adrv9001_Radio_Channel_ToPrimed`; `NUM_TRIES` is 5. -/
def adi_adrv9001_Radio_Channel_ToPrimed {σ : Type} (hal : Platform σ) (fuel : Nat)
    (port : adi_common_Port_e) (channel : adi_common_ChannelNumber_e) : Func σ :=
  Stmt.toFunc (do
    let port_index := adi_common_port_to_index port 0
    let chan_index := adi_common_channel_to_index channel 0
    let currentState ← ADI_EXPECT_OUT (adi_adrv9001_Radio_State_Get hal adi_adrv9001_RadioState_t.zero)
    if currentState.stateAt port_index chan_index = ADI_ADRV9001_CHANNEL_STANDBY then
      ADI_ERROR_REPORT_RETURN ADI_COMMON_ACT_ERR_CHECK_PARAM
    else if currentState.stateAt port_index chan_index = ADI_ADRV9001_CHANNEL_CALIBRATED then do
      ADI_EXPECT (adi_adrv9001_Radio_Channel_Prime hal fuel port channel true)
      pure ADI_COMMON_ACT_NO_ACTION
    else if currentState.stateAt port_index chan_index = ADI_ADRV9001_CHANNEL_PRIMED then
      pure ADI_COMMON_ACT_NO_ACTION
    else do
      ADI_EXPECT (adi_adrv9001_Channel_DisableRF_Wait hal fuel port channel 5)
      pure ADI_COMMON_ACT_NO_ACTION)

/-- The function `adi_adrv9001_Radio_Channel_ToRfEnabled`. -/
def adi_adrv9001_Radio_Channel_ToRfEnabled {σ : Type} (hal : Platform σ) (fuel : Nat)
    (port : adi_common_Port_e) (channel : adi_common_ChannelNumber_e) : Func σ :=
  Stmt.toFunc (do
    let port_index := adi_common_port_to_index port 0
    let chan_index := adi_common_channel_to_index channel 0
    let currentState ← ADI_EXPECT_OUT (adi_adrv9001_Radio_State_Get hal adi_adrv9001_RadioState_t.zero)
    if currentState.stateAt port_index chan_index = ADI_ADRV9001_CHANNEL_STANDBY then
      ADI_ERROR_REPORT_RETURN ADI_COMMON_ACT_ERR_CHECK_PARAM
    else if currentState.stateAt port_index chan_index = ADI_ADRV9001_CHANNEL_RF_ENABLED then
      pure ADI_COMMON_ACT_NO_ACTION
    else do
      (if currentState.stateAt port_index chan_index = ADI_ADRV9001_CHANNEL_CALIBRATED then
        ADI_EXPECT (adi_adrv9001_Radio_Channel_Prime hal fuel port channel true)
      else pure ())
      ADI_EXPECT (adi_adrv9001_Radio_Channel_EnableRf hal fuel port channel true)
      pure ADI_COMMON_ACT_NO_ACTION)

/-- The function `adi_adrv9001_Radio_Channel_ToState_Validate`. -/
def adi_adrv9001_Radio_Channel_ToState_Validate {σ : Type}
    (port : adi_common_Port_e) (channel : adi_common_ChannelNumber_e)
    (state : adi_adrv9001_ChannelState_e) : Func σ :=
  Stmt.toFunc (do
    ADI_RANGE_CHECK port.toNat ADI_RX.toNat ADI_TX.toNat
    ADI_RANGE_CHECK channel.toNat ADI_CHANNEL_1.toNat ADI_CHANNEL_2.toNat
    ADI_RANGE_CHECK state ADI_ADRV9001_CHANNEL_CALIBRATED ADI_ADRV9001_CHANNEL_RF_ENABLED
    pure ADI_COMMON_ACT_NO_ACTION)

/-- The function `adi_adrv9001_Radio_Channel_ToState`; the `default` branch of
the switch is `ADI_SHOULD_NOT_EXECUTE`, a reported failure. -/
def adi_adrv9001_Radio_Channel_ToState {σ : Type} (hal : Platform σ) (fuel : Nat)
    (port : adi_common_Port_e) (channel : adi_common_ChannelNumber_e)
    (state : adi_adrv9001_ChannelState_e) : Func σ :=
  Stmt.toFunc (do
    ADI_EXPECT (adi_adrv9001_Radio_Channel_ToState_Validate port channel state)
    (if state = ADI_ADRV9001_CHANNEL_CALIBRATED then
      ADI_EXPECT (adi_adrv9001_Radio_Channel_ToCalibrated hal fuel port channel)
    else if state = ADI_ADRV9001_CHANNEL_PRIMED then
      ADI_EXPECT (adi_adrv9001_Radio_Channel_ToPrimed hal fuel port channel)
    else if state = ADI_ADRV9001_CHANNEL_RF_ENABLED then
      ADI_EXPECT (adi_adrv9001_Radio_Channel_ToRfEnabled hal fuel port channel)
    else ADI_ERROR_REPORT_RETURN ADI_COMMON_ACT_ERR_CHECK_PARAM)
    pure ADI_COMMON_ACT_NO_ACTION)

/-! ## Byte codec -/

/-- Modelled from the spec: `adrv9001_LoadFourBytes(&offset, data, value)`,
which stores the 32-bit value little-endian at the cursor and advances the
cursor by 4. -/
def adrv9001_LoadFourBytes (offset : Nat) (data : List Nat) (value : Nat) : Nat × List Nat :=
  (offset + 4,
   (((data.set offset ((value >>> 0) % 256)).set (offset + 1) ((value >>> 8) % 256)).set
      (offset + 2) ((value >>> 16) % 256)).set (offset + 3) ((value >>> 24) % 256))

/-- Modelled from the spec: `adrv9001_LoadEightBytes(&offset, data, value)`,
which stores the 64-bit value little-endian at the cursor and advances the
cursor by 8. -/
def adrv9001_LoadEightBytes (offset : Nat) (data : List Nat) (value : Nat) : Nat × List Nat :=
  (offset + 8,
   (((((((data.set offset ((value >>> 0) % 256)).set (offset + 1) ((value >>> 8) % 256)).set
      (offset + 2) ((value >>> 16) % 256)).set (offset + 3) ((value >>> 24) % 256)).set
      (offset + 4) ((value >>> 32) % 256)).set (offset + 5) ((value >>> 40) % 256)).set
      (offset + 6) ((value >>> 48) % 256)).set (offset + 7) ((value >>> 56) % 256))

/-- Modelled from the spec: `adrv9001_ParseFourBytes(&offset, data, &value)`,
which reads a little-endian 32-bit value at the cursor and advances the cursor
by 4. -/
def adrv9001_ParseFourBytes (offset : Nat) (data : List Nat) : Nat × Nat :=
  (offset + 4,
   (data.getD offset 0 % 256) ||| ((data.getD (offset + 1) 0 % 256) <<< 8) |||
   ((data.getD (offset + 2) 0 % 256) <<< 16) ||| ((data.getD (offset + 3) 0 % 256) <<< 24))

/-- Modelled from the spec: `adrv9001_ParseEightBytes(&offset, data, &value)`,
which reads a little-endian 64-bit value at the cursor and advances the cursor
by 8. -/
def adrv9001_ParseEightBytes (offset : Nat) (data : List Nat) : Nat × Nat :=
  (offset + 8,
   (data.getD offset 0 % 256) ||| ((data.getD (offset + 1) 0 % 256) <<< 8) |||
   ((data.getD (offset + 2) 0 % 256) <<< 16) ||| ((data.getD (offset + 3) 0 % 256) <<< 24) |||
   ((data.getD (offset + 4) 0 % 256) <<< 32) ||| ((data.getD (offset + 5) 0 % 256) <<< 40) |||
   ((data.getD (offset + 6) 0 % 256) <<< 48) ||| ((data.getD (offset + 7) 0 % 256) <<< 56))

/-- The bytes a mailbox read delivers into a zero-initialised array of
`count` bytes. -/
def readInto (count : Nat) (bytes : List Nat) : List Nat :=
  (List.range count).map (fun k => bytes.getD k 0 % 256)

/-! ## Carrier -/

/-- The structure `adi_adrv9001_Carrier_t`. -/
structure adi_adrv9001_Carrier_t where
  pllCalibration : Nat
  loGenOptimization : Nat
  pllPower : Nat
  carrierFrequency_Hz : Nat
  intermediateFrequency_Hz : Nat
  deriving DecidableEq, Repr

/-- The function `adi_adrv9001_Radio_Carrier_Configure_Validate`. -/
def adi_adrv9001_Radio_Carrier_Configure_Validate {σ : Type} (hal : Platform σ)
    (port : adi_common_Port_e) (channel : adi_common_ChannelNumber_e)
    (carrier : adi_adrv9001_Carrier_t) : Func σ :=
  Stmt.toFunc (do
    let INTERMEDIATE_FREQUENCY_MIN_HZ := 200000
    let INTERMEDIATE_FREQUENCY_MAX_HZ := 20000000
    let CARRIER_FREQUENCY_MIN_HZ := 30000000
    let CARRIER_FREQUENCY_MAX_HZ := 6000000000
    expectPure (hal.adi_adrv9001_Port_Validate port)
    expectPure (hal.adi_adrv9001_Channel_Validate channel)
    ADI_RANGE_CHECK carrier.pllCalibration hal.ADI_ADRV9001_PLL_CALIBRATION_NORMAL
      hal.ADI_ADRV9001_PLL_CALIBRATION_RESERVED
    ADI_RANGE_CHECK carrier.loGenOptimization hal.ADI_ADRV9001_LO_GEN_OPTIMIZATION_PHASE_NOISE
      hal.ADI_ADRV9001_LO_GEN_OPTIMIZATION_POWER_CONSUMPTION
    ADI_RANGE_CHECK carrier.pllPower hal.ADI_ADRV9001_PLL_POWER_LOW hal.ADI_ADRV9001_PLL_POWER_HIGH
    ADI_RANGE_CHECK carrier.carrierFrequency_Hz CARRIER_FREQUENCY_MIN_HZ CARRIER_FREQUENCY_MAX_HZ
    (if 0 ≠ carrier.intermediateFrequency_Hz then
      ADI_RANGE_CHECK carrier.intermediateFrequency_Hz INTERMEDIATE_FREQUENCY_MIN_HZ
        INTERMEDIATE_FREQUENCY_MAX_HZ
    else pure ())
    let state ← ADI_EXPECT_OUT
      (adi_adrv9001_Radio_Channel_State_Get hal port channel ADI_ADRV9001_CHANNEL_STANDBY)
    if state = ADI_ADRV9001_CHANNEL_STANDBY ∨ state = ADI_ADRV9001_CHANNEL_CALIBRATED then
      pure ADI_COMMON_ACT_NO_ACTION
    else ADI_ERROR_REPORT_RETURN ADI_COMMON_ACT_ERR_CHECK_PARAM)

/-- The 16 bytes `armData` that `adi_adrv9001_Radio_Carrier_Configure`
serialises, with the final value of the cursor `offset`. -/
def carrierPayload (carrier : adi_adrv9001_Carrier_t) : Nat × List Nat :=
  let armData := List.replicate 16 0
  let offset := 0
  let r1 := adrv9001_LoadEightBytes offset armData carrier.carrierFrequency_Hz
  let armData := r1.2.set r1.1 (carrier.pllCalibration % 256)
  let offset := r1.1 + 1
  let armData := armData.set offset 0
  let offset := offset + 1
  let armData := armData.set offset (carrier.loGenOptimization % 256)
  let offset := offset + 1
  let armData := armData.set offset (carrier.pllPower % 256)
  let offset := offset + 1
  adrv9001_LoadFourBytes offset armData carrier.intermediateFrequency_Hz

/-- The function `adi_adrv9001_Radio_Carrier_Configure`. -/
def adi_adrv9001_Radio_Carrier_Configure {σ : Type} (hal : Platform σ) (fuel : Nat)
    (port : adi_common_Port_e) (channel : adi_common_ChannelNumber_e)
    (carrier : adi_adrv9001_Carrier_t) : Func σ :=
  Stmt.toFunc (do
    ADI_EXPECT (adi_adrv9001_Radio_Carrier_Configure_Validate hal port channel carrier)
    let armData := (carrierPayload carrier).2
    callDev (hal.adi_adrv9001_arm_Memory_Write ArmAddr.ADRV9001_ADDR_ARM_MAILBOX_SET armData)
      (Event.memoryWrite ArmAddr.ADRV9001_ADDR_ARM_MAILBOX_SET armData)
    let extData0 ← liftOption (adi_adrv9001_Radio_MailboxChannel_Get fuel port channel)
    let extData1 := hal.ADRV9001_ARM_OBJECTID_CHANNEL_CARRIER_FREQUENCY
    callDev (hal.adi_adrv9001_arm_Cmd_Write Opcode.ADRV9001_ARM_SET_OPCODE [extData0, extData1])
      (Event.cmdWrite Opcode.ADRV9001_ARM_SET_OPCODE [extData0, extData1])
    callDev (hal.adrv9001_ARM_CMD_STATUS_WAIT Opcode.ADRV9001_ARM_SET_OPCODE extData1
        hal.ADI_ADRV9001_SETCARRIER_FREQUENCY_TIMEOUT_US
        hal.ADI_ADRV9001_SETCARRIER_FREQUENCY_INTERVAL_US)
      (Event.cmdStatusWait Opcode.ADRV9001_ARM_SET_OPCODE extData1
        hal.ADI_ADRV9001_SETCARRIER_FREQUENCY_TIMEOUT_US
        hal.ADI_ADRV9001_SETCARRIER_FREQUENCY_INTERVAL_US)
    pure ADI_COMMON_ACT_NO_ACTION)

/-- The function `adi_adrv9001_Radio_Carrier_Inspect_Validate`. -/
def adi_adrv9001_Radio_Carrier_Inspect_Validate {σ : Type} (hal : Platform σ)
    (port : adi_common_Port_e) (channel : adi_common_ChannelNumber_e) : Func σ :=
  Stmt.toFunc (do
    expectPure (hal.adi_adrv9001_Port_Validate port)
    expectPure (hal.adi_adrv9001_Channel_Validate channel)
    pure ADI_COMMON_ACT_NO_ACTION)

/-- The deserialisation done by `adi_adrv9001_Radio_Carrier_Inspect` on the 16
bytes read from the mailbox. -/
def carrierParse (port : adi_common_Port_e) (armData : List Nat)
    (carrier : adi_adrv9001_Carrier_t) : adi_adrv9001_Carrier_t :=
  let offset := 0
  let r1 := adrv9001_ParseEightBytes offset armData
  let carrier := { carrier with carrierFrequency_Hz := r1.2 }
  let offset := r1.1
  let carrier := { carrier with pllCalibration := armData.getD offset 0 }
  let offset := offset + 1
  let offset := offset + 1
  let carrier := { carrier with loGenOptimization := armData.getD offset 0 }
  let offset := offset + 1
  let carrier := { carrier with pllPower := armData.getD offset 0 }
  let offset := offset + 1
  if ADI_RX = port then
    { carrier with intermediateFrequency_Hz := (adrv9001_ParseFourBytes offset armData).2 }
  else { carrier with intermediateFrequency_Hz := 0 }

/-- The function `adi_adrv9001_Radio_Carrier_Inspect`; `carrier` is the
content of the caller's structure before the call. -/
def adi_adrv9001_Radio_Carrier_Inspect {σ : Type} (hal : Platform σ) (fuel : Nat)
    (port : adi_common_Port_e) (channel : adi_common_ChannelNumber_e)
    (carrier : adi_adrv9001_Carrier_t) : FuncOut σ adi_adrv9001_Carrier_t :=
  Stmt.toFuncOut carrier (do
    ADI_EXPECT (adi_adrv9001_Radio_Carrier_Inspect_Validate hal port channel)
    let extData0 ← liftOption (adi_adrv9001_Radio_MailboxChannel_Get fuel port channel)
    let extData1 := hal.ADRV9001_ARM_OBJECTID_CHANNEL_CARRIER_FREQUENCY
    callDev (hal.adi_adrv9001_arm_Cmd_Write Opcode.ADRV9001_ARM_GET_OPCODE [extData0, extData1])
      (Event.cmdWrite Opcode.ADRV9001_ARM_GET_OPCODE [extData0, extData1])
    callDev (hal.adrv9001_ARM_CMD_STATUS_WAIT Opcode.ADRV9001_ARM_GET_OPCODE extData1
        hal.ADI_ADRV9001_GETCARRIER_FREQUENCY_TIMEOUT_US
        hal.ADI_ADRV9001_GETCARRIER_FREQUENCY_INTERVAL_US)
      (Event.cmdStatusWait Opcode.ADRV9001_ARM_GET_OPCODE extData1
        hal.ADI_ADRV9001_GETCARRIER_FREQUENCY_TIMEOUT_US
        hal.ADI_ADRV9001_GETCARRIER_FREQUENCY_INTERVAL_US)
    let bytes ← callDevVal
      (hal.adi_adrv9001_arm_Memory_Read ArmAddr.ADRV9001_ADDR_ARM_MAILBOX_GET 16 true)
      (Event.memoryRead ArmAddr.ADRV9001_ADDR_ARM_MAILBOX_GET 16 true)
    let armData := readInto 16 bytes
    pure (carrierParse port armData carrier))

/-! ## PLL lock status and loop filter -/

/-- Modelled from the spec: `adi_adrv9001_Pll_e`, the PLL selectors LO1, LO2,
AUX, CLK, CLK_LP in that order. -/
inductive adi_adrv9001_Pll_e
  | ADI_ADRV9001_PLL_LO1
  | ADI_ADRV9001_PLL_LO2
  | ADI_ADRV9001_PLL_AUX
  | ADI_ADRV9001_PLL_CLK
  | ADI_ADRV9001_PLL_CLK_LP
  deriving DecidableEq, Repr

open adi_adrv9001_Pll_e

/-- Order of the PLL selectors, used by `ADI_RANGE_CHECK` and as table index. -/
def adi_adrv9001_Pll_e.toNat : adi_adrv9001_Pll_e → Nat
  | ADI_ADRV9001_PLL_LO1 => 0
  | ADI_ADRV9001_PLL_LO2 => 1
  | ADI_ADRV9001_PLL_AUX => 2
  | ADI_ADRV9001_PLL_CLK => 3
  | ADI_ADRV9001_PLL_CLK_LP => 4

/-- The function `adi_adrv9001_Radio_PllStatus_Get_Validate`. -/
def adi_adrv9001_Radio_PllStatus_Get_Validate {σ : Type} (pll : adi_adrv9001_Pll_e) : Func σ :=
  Stmt.toFunc (do
    ADI_RANGE_CHECK pll.toNat ADI_ADRV9001_PLL_LO1.toNat ADI_ADRV9001_PLL_CLK_LP.toNat
    pure ADI_COMMON_ACT_NO_ACTION)

/-- The table `instances[]` of `adi_adrv9001_Radio_PllStatus_Get`. -/
def pllInstances : List adrv9001_BfNvsPllMemMap_e :=
  [adrv9001_BfNvsPllMemMap_e.ADRV9001_BF_RF1_PLL,
   adrv9001_BfNvsPllMemMap_e.ADRV9001_BF_RF2_PLL,
   adrv9001_BfNvsPllMemMap_e.ADRV9001_BF_AUX_PLL,
   adrv9001_BfNvsPllMemMap_e.ADRV9001_BF_CLK_PLL,
   adrv9001_BfNvsPllMemMap_e.ADRV9001_BF_CLK_PLL_LP]

/-- The function `adi_adrv9001_Radio_PllStatus_Get`; a table index out of
bounds has no defined result. -/
def adi_adrv9001_Radio_PllStatus_Get {σ : Type} (hal : Platform σ) (pll : adi_adrv9001_Pll_e)
    (locked : Bool) : FuncOut σ Bool :=
  Stmt.toFuncOut locked (do
    ADI_EXPECT (adi_adrv9001_Radio_PllStatus_Get_Validate pll)
    let inst ← liftOption (pllInstances.get? pll.toNat)
    let pllLockStatusRead ← callDevVal (hal.adrv9001_NvsPllMemMap_SynLock_Get inst)
      (Event.synLockGet inst)
    pure (decide (pllLockStatusRead % 256 ≠ 0)))

/-- The structure `adi_adrv9001_PllLoopFilterCfg_t`. -/
structure adi_adrv9001_PllLoopFilterCfg_t where
  effectiveLoopBandwidth_kHz : Nat
  loopBandwidth_kHz : Nat
  phaseMargin_degrees : Nat
  powerScale : Nat
  deriving DecidableEq, Repr

/-- The function `adi_adrv9001_Radio_PllLoopFilter_Set_Validate`. -/
def adi_adrv9001_Radio_PllLoopFilter_Set_Validate {σ : Type} (pll : adi_adrv9001_Pll_e)
    (pllLoopFilterConfig : adi_adrv9001_PllLoopFilterCfg_t) : Func σ :=
  Stmt.toFunc (do
    let MINIMUM_PLL_LOOP_FILTER_PHASE_MARGIN_DEGREES := 40
    let MAXIMUM_PLL_LOOP_FILTER_PHASE_MARGIN_DEGREES := 85
    let MINIMUM_LOOP_FILTER_BANDWIDTH_KHZ := 50
    let MAXIMUM_LOOP_FILTER_BANDWIDTH_KHZ := 1500
    let MINIMUM_POWER_SCALE_FACTOR := 0
    let MAXIMUM_POWER_SCALE_FACTOR := 10
    ADI_RANGE_CHECK pll.toNat ADI_ADRV9001_PLL_LO1.toNat ADI_ADRV9001_PLL_AUX.toNat
    ADI_RANGE_CHECK pllLoopFilterConfig.phaseMargin_degrees
      MINIMUM_PLL_LOOP_FILTER_PHASE_MARGIN_DEGREES MAXIMUM_PLL_LOOP_FILTER_PHASE_MARGIN_DEGREES
    ADI_RANGE_CHECK pllLoopFilterConfig.loopBandwidth_kHz
      MINIMUM_LOOP_FILTER_BANDWIDTH_KHZ MAXIMUM_LOOP_FILTER_BANDWIDTH_KHZ
    ADI_RANGE_CHECK pllLoopFilterConfig.powerScale
      MINIMUM_POWER_SCALE_FACTOR MAXIMUM_POWER_SCALE_FACTOR
    pure ADI_COMMON_ACT_NO_ACTION)

/-- The 4 bytes `armData` that `adi_adrv9001_Radio_PllLoopFilter_Set` serialises. -/
def pllLoopFilterPayload (pllLoopFilterConfig : adi_adrv9001_PllLoopFilterCfg_t) : List Nat :=
  [pllLoopFilterConfig.phaseMargin_degrees % 256,
   (pllLoopFilterConfig.loopBandwidth_kHz &&& 0x00FF) % 256,
   ((pllLoopFilterConfig.loopBandwidth_kHz >>> 8) &&& 0x00FF) % 256,
   pllLoopFilterConfig.powerScale % 256]

/-- The function `adi_adrv9001_Radio_PllLoopFilter_Set`. -/
def adi_adrv9001_Radio_PllLoopFilter_Set {σ : Type} (hal : Platform σ)
    (pll : adi_adrv9001_Pll_e) (pllLoopFilterConfig : adi_adrv9001_PllLoopFilterCfg_t) : Func σ :=
  Stmt.toFunc (do
    ADI_EXPECT (adi_adrv9001_Radio_PllLoopFilter_Set_Validate pll pllLoopFilterConfig)
    let armData := pllLoopFilterPayload pllLoopFilterConfig
    callDev (hal.adi_adrv9001_arm_Memory_Write ArmAddr.ADRV9001_ADDR_ARM_MAILBOX_SET armData)
      (Event.memoryWrite ArmAddr.ADRV9001_ADDR_ARM_MAILBOX_SET armData)
    let extData := [0, hal.ADRV9001_ARM_OBJECTID_PLL_LOOPFILTER, pll.toNat]
    callDev (hal.adi_adrv9001_arm_Cmd_Write Opcode.ADRV9001_ARM_SET_OPCODE extData)
      (Event.cmdWrite Opcode.ADRV9001_ARM_SET_OPCODE extData)
    callDev (hal.adrv9001_ARM_CMD_STATUS_WAIT Opcode.ADRV9001_ARM_SET_OPCODE
        hal.ADRV9001_ARM_OBJECTID_PLL_LOOPFILTER
        hal.ADI_ADRV9001_SETLOOPFILTER_TIMEOUT_US hal.ADI_ADRV9001_SETLOOPFILTER_INTERVAL_US)
      (Event.cmdStatusWait Opcode.ADRV9001_ARM_SET_OPCODE
        hal.ADRV9001_ARM_OBJECTID_PLL_LOOPFILTER
        hal.ADI_ADRV9001_SETLOOPFILTER_TIMEOUT_US hal.ADI_ADRV9001_SETLOOPFILTER_INTERVAL_US)
    pure ADI_COMMON_ACT_NO_ACTION)

/-- The function `adi_adrv9001_Radio_PllLoopFilter_Get_Validate`. -/
def adi_adrv9001_Radio_PllLoopFilter_Get_Validate {σ : Type} (pll : adi_adrv9001_Pll_e) : Func σ :=
  Stmt.toFunc (do
    ADI_RANGE_CHECK pll.toNat ADI_ADRV9001_PLL_LO1.toNat ADI_ADRV9001_PLL_AUX.toNat
    pure ADI_COMMON_ACT_NO_ACTION)

/-- The deserialisation done by `adi_adrv9001_Radio_PllLoopFilter_Get` on the 6
bytes read from the mailbox. -/
def pllLoopFilterParse (armData : List Nat) : adi_adrv9001_PllLoopFilterCfg_t :=
  { phaseMargin_degrees := armData.getD 0 0
    loopBandwidth_kHz := (armData.getD 1 0 ||| (armData.getD 2 0 <<< 8)) % 65536
    powerScale := armData.getD 3 0
    effectiveLoopBandwidth_kHz := (armData.getD 4 0 ||| (armData.getD 5 0 <<< 8)) % 65536 }

/-- The function `adi_adrv9001_Radio_PllLoopFilter_Get`; `pllLoopFilterConfig`
is the content of the caller's structure before the call. -/
def adi_adrv9001_Radio_PllLoopFilter_Get {σ : Type} (hal : Platform σ)
    (pll : adi_adrv9001_Pll_e) (pllLoopFilterConfig : adi_adrv9001_PllLoopFilterCfg_t) :
    FuncOut σ adi_adrv9001_PllLoopFilterCfg_t :=
  Stmt.toFuncOut pllLoopFilterConfig (do
    ADI_EXPECT (adi_adrv9001_Radio_PllLoopFilter_Get_Validate pll)
    let extData := [0, hal.ADRV9001_ARM_OBJECTID_PLL_LOOPFILTER, pll.toNat]
    callDev (hal.adi_adrv9001_arm_Cmd_Write Opcode.ADRV9001_ARM_GET_OPCODE extData)
      (Event.cmdWrite Opcode.ADRV9001_ARM_GET_OPCODE extData)
    callDev (hal.adrv9001_ARM_CMD_STATUS_WAIT Opcode.ADRV9001_ARM_GET_OPCODE
        hal.ADRV9001_ARM_OBJECTID_PLL_LOOPFILTER
        hal.ADI_ADRV9001_GETLOOPFILTER_TIMEOUT_US hal.ADI_ADRV9001_GETLOOPFILTER_INTERVAL_US)
      (Event.cmdStatusWait Opcode.ADRV9001_ARM_GET_OPCODE
        hal.ADRV9001_ARM_OBJECTID_PLL_LOOPFILTER
        hal.ADI_ADRV9001_GETLOOPFILTER_TIMEOUT_US hal.ADI_ADRV9001_GETLOOPFILTER_INTERVAL_US)
    let bytes ← callDevVal
      (hal.adi_adrv9001_arm_Memory_Read ArmAddr.ADRV9001_ADDR_ARM_MAILBOX_GET 6 false)
      (Event.memoryRead ArmAddr.ADRV9001_ADDR_ARM_MAILBOX_GET 6 false)
    pure (pllLoopFilterParse (readInto 6 bytes)))

/-! ## Channel enablement delays -/

/-- The structure `adi_adrv9001_ChannelEnablementDelays_t`. -/
structure adi_adrv9001_ChannelEnablementDelays_t where
  riseToOnDelay : Nat
  riseToAnalogOnDelay : Nat
  fallToOffDelay : Nat
  guardDelay : Nat
  holdDelay : Nat
  deriving DecidableEq, Repr

/-- Modelled from the spec: the pin value of a signal not assigned to any pin. -/
@[reducible] def ADI_ADRV9001_GPIO_UNASSIGNED : Nat := 0

/-- The table `frontendControlSignals[2][2]` of the delay validation. -/
def frontendControlSignals : List (List adi_adrv9001_GpioSignal_e) :=
  [[adi_adrv9001_GpioSignal_e.ADI_ADRV9001_GPIO_SIGNAL_RX1_EXT_FRONTEND_CONTROL,
    adi_adrv9001_GpioSignal_e.ADI_ADRV9001_GPIO_SIGNAL_RX2_EXT_FRONTEND_CONTROL],
   [adi_adrv9001_GpioSignal_e.ADI_ADRV9001_GPIO_SIGNAL_TX1_EXT_FRONTEND_CONTROL,
    adi_adrv9001_GpioSignal_e.ADI_ADRV9001_GPIO_SIGNAL_TX2_EXT_FRONTEND_CONTROL]]

/-- The function `adi_adrv9001_Radio_ChannelEnablementDelays_Configure_Validate`. -/
def adi_adrv9001_Radio_ChannelEnablementDelays_Configure_Validate {σ : Type} (hal : Platform σ)
    (port : adi_common_Port_e) (channel : adi_common_ChannelNumber_e)
    (delays : adi_adrv9001_ChannelEnablementDelays_t) : Func σ :=
  Stmt.toFunc (do
    let MAX_DELAY := 0x00FFFFFF
    ADI_RANGE_CHECK port.toNat ADI_RX.toNat ADI_TX.toNat
    ADI_RANGE_CHECK channel.toNat ADI_CHANNEL_1.toNat ADI_CHANNEL_2.toNat
    ADI_RANGE_CHECK delays.riseToOnDelay 0 MAX_DELAY
    ADI_RANGE_CHECK delays.riseToAnalogOnDelay 0 MAX_DELAY
    ADI_RANGE_CHECK delays.fallToOffDelay 0 MAX_DELAY
    ADI_RANGE_CHECK delays.guardDelay 0 MAX_DELAY
    ADI_RANGE_CHECK delays.holdDelay 0 MAX_DELAY
    (if ADI_TX = port then ADI_RANGE_CHECK delays.holdDelay 0 delays.fallToOffDelay else pure ())
    (if ADI_RX = port then ADI_RANGE_CHECK delays.fallToOffDelay 0 delays.holdDelay else pure ())
    let port_idx := adi_common_port_to_index port 0
    let chan_idx := adi_common_channel_to_index channel 0
    let signal ← liftOption ((frontendControlSignals.getD port_idx []).get? chan_idx)
    let pin ← callDevVal (hal.adi_adrv9001_gpio_Inspect signal) (Event.gpioInspect signal)
    (if ADI_ADRV9001_GPIO_UNASSIGNED ≠ pin then
      ADI_RANGE_CHECK delays.riseToAnalogOnDelay 0 delays.riseToOnDelay
    else pure ())
    let state ← ADI_EXPECT_OUT
      (adi_adrv9001_Radio_Channel_State_Get hal port channel ADI_ADRV9001_CHANNEL_STANDBY)
    if state = ADI_ADRV9001_CHANNEL_STANDBY ∨ state = ADI_ADRV9001_CHANNEL_CALIBRATED then
      pure ADI_COMMON_ACT_NO_ACTION
    else ADI_ERROR_REPORT_RETURN ADI_COMMON_ACT_ERR_CHECK_PARAM)

/-- The 20 bytes `armData` that
`adi_adrv9001_Radio_ChannelEnablementDelays_Configure` serialises, with the
final value of the cursor `offset`. -/
def delaysPayload (delays : adi_adrv9001_ChannelEnablementDelays_t) : Nat × List Nat :=
  let r1 := adrv9001_LoadFourBytes 0 (List.replicate 20 0) delays.riseToOnDelay
  let r2 := adrv9001_LoadFourBytes r1.1 r1.2 delays.riseToAnalogOnDelay
  let r3 := adrv9001_LoadFourBytes r2.1 r2.2 delays.fallToOffDelay
  let r4 := adrv9001_LoadFourBytes r3.1 r3.2 delays.guardDelay
  adrv9001_LoadFourBytes r4.1 r4.2 delays.holdDelay

/-- The function `adi_adrv9001_Radio_ChannelEnablementDelays_Configure`. -/
def adi_adrv9001_Radio_ChannelEnablementDelays_Configure {σ : Type} (hal : Platform σ)
    (fuel : Nat) (port : adi_common_Port_e) (channel : adi_common_ChannelNumber_e)
    (delays : adi_adrv9001_ChannelEnablementDelays_t) : Func σ :=
  Stmt.toFunc (do
    ADI_EXPECT (adi_adrv9001_Radio_ChannelEnablementDelays_Configure_Validate hal port channel delays)
    let armData := (delaysPayload delays).2
    callDev (hal.adi_adrv9001_arm_Memory_Write ArmAddr.ADRV9001_ADDR_ARM_MAILBOX_SET armData)
      (Event.memoryWrite ArmAddr.ADRV9001_ADDR_ARM_MAILBOX_SET armData)
    let extData0 ← liftOption (adi_adrv9001_Radio_MailboxChannel_Get fuel port channel)
    let extData1 := hal.ADRV9001_ARM_OBJECTID_TDD_TIMING_PARAMS
    callDev (hal.adi_adrv9001_arm_Cmd_Write Opcode.ADRV9001_ARM_SET_OPCODE [extData0, extData1])
      (Event.cmdWrite Opcode.ADRV9001_ARM_SET_OPCODE [extData0, extData1])
    callDev (hal.adrv9001_ARM_CMD_STATUS_WAIT Opcode.ADRV9001_ARM_SET_OPCODE extData1
        hal.ADI_ADRV9001_DEFAULT_TIMEOUT_US hal.ADI_ADRV9001_DEFAULT_INTERVAL_US)
      (Event.cmdStatusWait Opcode.ADRV9001_ARM_SET_OPCODE extData1
        hal.ADI_ADRV9001_DEFAULT_TIMEOUT_US hal.ADI_ADRV9001_DEFAULT_INTERVAL_US)
    pure ADI_COMMON_ACT_NO_ACTION)

/-- The function `adi_adrv9001_Radio_ChannelEnablementDelays_Inspect_Validate`. -/
def adi_adrv9001_Radio_ChannelEnablementDelays_Inspect_Validate {σ : Type} (hal : Platform σ)
    (port : adi_common_Port_e) (channel : adi_common_ChannelNumber_e) : Func σ :=
  Stmt.toFunc (do
    ADI_RANGE_CHECK port.toNat ADI_RX.toNat ADI_TX.toNat
    ADI_RANGE_CHECK channel.toNat ADI_CHANNEL_1.toNat ADI_CHANNEL_2.toNat
    let state ← ADI_EXPECT_OUT
      (adi_adrv9001_Radio_Channel_State_Get hal port channel ADI_ADRV9001_CHANNEL_STANDBY)
    if state = ADI_ADRV9001_CHANNEL_PRIMED ∨ state = ADI_ADRV9001_CHANNEL_RF_ENABLED then
      pure ADI_COMMON_ACT_NO_ACTION
    else ADI_ERROR_REPORT_RETURN ADI_COMMON_ACT_ERR_CHECK_PARAM)

/-- The parsing done by `adi_adrv9001_Radio_ChannelEnablementDelays_Inspect` on
the 20 bytes read from the mailbox, with the final value of the cursor. -/
def delaysParse (armData : List Nat) : Nat × adi_adrv9001_ChannelEnablementDelays_t :=
  let r1 := adrv9001_ParseFourBytes 0 armData
  let r2 := adrv9001_ParseFourBytes r1.1 armData
  let r3 := adrv9001_ParseFourBytes r2.1 armData
  let r4 := adrv9001_ParseFourBytes r3.1 armData
  let r5 := adrv9001_ParseFourBytes r4.1 armData
  (r5.1, { riseToOnDelay := r1.2, riseToAnalogOnDelay := r2.2, fallToOffDelay := r3.2,
           guardDelay := r4.2, holdDelay := r5.2 })

/-- The function `adi_adrv9001_Radio_ChannelEnablementDelays_Inspect`; `delays`
is the content of the caller's structure before the call. -/
def adi_adrv9001_Radio_ChannelEnablementDelays_Inspect {σ : Type} (hal : Platform σ)
    (fuel : Nat) (port : adi_common_Port_e) (channel : adi_common_ChannelNumber_e)
    (delays : adi_adrv9001_ChannelEnablementDelays_t) :
    FuncOut σ adi_adrv9001_ChannelEnablementDelays_t :=
  Stmt.toFuncOut delays (do
    ADI_EXPECT (adi_adrv9001_Radio_ChannelEnablementDelays_Inspect_Validate hal port channel)
    let extData0 ← liftOption (adi_adrv9001_Radio_MailboxChannel_Get fuel port channel)
    let extData1 := hal.ADRV9001_ARM_OBJECTID_TDD_TIMING_PARAMS
    callDev (hal.adi_adrv9001_arm_Cmd_Write Opcode.ADRV9001_ARM_GET_OPCODE [extData0, extData1])
      (Event.cmdWrite Opcode.ADRV9001_ARM_GET_OPCODE [extData0, extData1])
    callDev (hal.adrv9001_ARM_CMD_STATUS_WAIT Opcode.ADRV9001_ARM_GET_OPCODE extData1
        hal.ADI_ADRV9001_DEFAULT_TIMEOUT_US hal.ADI_ADRV9001_DEFAULT_INTERVAL_US)
      (Event.cmdStatusWait Opcode.ADRV9001_ARM_GET_OPCODE extData1
        hal.ADI_ADRV9001_DEFAULT_TIMEOUT_US hal.ADI_ADRV9001_DEFAULT_INTERVAL_US)
    let bytes ← callDevVal
      (hal.adi_adrv9001_arm_Memory_Read ArmAddr.ADRV9001_ADDR_ARM_MAILBOX_GET 20 true)
      (Event.memoryRead ArmAddr.ADRV9001_ADDR_ARM_MAILBOX_GET 20 true)
    pure (delaysParse (readInto 20 bytes)).2)

/-! ## A simulated device

A concrete platform on which the code can be run: every register access
succeeds, the co-processor executes RADIO-ON and RADIO-OFF on the masked
channels, and an enable field write switches RF on a primed channel. -/

/-- State of the simulated device: the four channel states, the pin-mode bit
of each channel, the status register A, the two mailbox regions, and whether
the co-processor answers commands at all. -/
structure SimDev where
  status8 : Nat
  rx1 : Fin 4
  rx2 : Fin 4
  tx1 : Fin 4
  tx2 : Fin 4
  pinRx1 : Nat
  pinRx2 : Nat
  pinTx1 : Nat
  pinTx2 : Nat
  armResponds : Bool
  mailboxSet : List Nat
  mailboxGet : List Nat
  frontendPin : Nat
  pllLock : Nat
  deriving DecidableEq, Repr

/-- Status register B of the simulated device: Rx1, Rx2, Tx1, Tx2 in bits
[1:0], [3:2], [5:4], [7:6]. -/
def SimDev.status9 (d : SimDev) : Nat :=
  d.rx1.val ||| (d.rx2.val <<< 2) ||| (d.tx1.val <<< 4) ||| (d.tx2.val <<< 6)

/-- RADIO-ON on one channel: a masked CALIBRATED channel becomes PRIMED. -/
def simRadioOn (masked : Bool) (st : Fin 4) : Fin 4 :=
  if masked ∧ st = 1 then 2 else st

/-- RADIO-OFF on one channel: a masked PRIMED channel becomes CALIBRATED. -/
def simRadioOff (masked : Bool) (st : Fin 4) : Fin 4 :=
  if masked ∧ st = 2 then 1 else st

/-- An enable field write on one channel: enabling a PRIMED channel makes it
RF_ENABLED, disabling an RF_ENABLED channel makes it PRIMED. -/
def simEnable (enable : Bool) (st : Fin 4) : Fin 4 :=
  if enable then (if st = 2 then 3 else st) else (if st = 3 then 2 else st)

/-- The co-processor of the simulated device executing a command. -/
def simFirmware (opCode : Opcode) (extData : List Nat) (d : SimDev) : SimDev :=
  let mask := extData.getD 0 0
  match opCode with
  | Opcode.ADRV9001_ARM_RADIOON_OPCODE =>
    { d with
      rx1 := simRadioOn (decide (mask &&& ADI_ADRV9001_RX1 ≠ 0)) d.rx1
      rx2 := simRadioOn (decide (mask &&& ADI_ADRV9001_RX2 ≠ 0)) d.rx2
      tx1 := simRadioOn (decide (mask &&& ADI_ADRV9001_TX1 ≠ 0)) d.tx1
      tx2 := simRadioOn (decide (mask &&& ADI_ADRV9001_TX2 ≠ 0)) d.tx2 }
  | Opcode.ADRV9001_ARM_RADIOOFF_OPCODE =>
    { d with
      rx1 := simRadioOff (decide (mask &&& ADI_ADRV9001_RX1 ≠ 0)) d.rx1
      rx2 := simRadioOff (decide (mask &&& ADI_ADRV9001_RX2 ≠ 0)) d.rx2
      tx1 := simRadioOff (decide (mask &&& ADI_ADRV9001_TX1 ≠ 0)) d.tx1
      tx2 := simRadioOff (decide (mask &&& ADI_ADRV9001_TX2 ≠ 0)) d.tx2 }
  | Opcode.ADRV9001_ARM_SET_OPCODE => { d with mailboxGet := d.mailboxSet }
  | _ => d

/-- The simulated platform.  Its validation helpers accept the ports RX and
TX and both channels; its constants are arbitrary values. -/
def simPlatform : Platform SimDev where
  ADRV9001_ARM_OBJECTID_CHANNEL_CARRIER_FREQUENCY := 0x50
  ADRV9001_ARM_OBJECTID_PLL_LOOPFILTER := 0x58
  ADRV9001_ARM_OBJECTID_TDD_TIMING_PARAMS := 0x56
  ADI_ADRV9001_SETCARRIER_FREQUENCY_TIMEOUT_US := 800000
  ADI_ADRV9001_SETCARRIER_FREQUENCY_INTERVAL_US := 80000
  ADI_ADRV9001_GETCARRIER_FREQUENCY_TIMEOUT_US := 800000
  ADI_ADRV9001_GETCARRIER_FREQUENCY_INTERVAL_US := 80000
  ADI_ADRV9001_RADIOONOFF_TIMEOUT_US := 1000000
  ADI_ADRV9001_RADIOONOFF_INTERVAL_US := 50000
  ADI_ADRV9001_SETLOOPFILTER_TIMEOUT_US := 1000000
  ADI_ADRV9001_SETLOOPFILTER_INTERVAL_US := 100000
  ADI_ADRV9001_GETLOOPFILTER_TIMEOUT_US := 1000000
  ADI_ADRV9001_GETLOOPFILTER_INTERVAL_US := 100000
  ADI_ADRV9001_DEFAULT_TIMEOUT_US := 500000
  ADI_ADRV9001_DEFAULT_INTERVAL_US := 50000
  ADI_ADRV9001_PLL_CALIBRATION_NORMAL := 0
  ADI_ADRV9001_PLL_CALIBRATION_RESERVED := 2
  ADI_ADRV9001_LO_GEN_OPTIMIZATION_PHASE_NOISE := 1
  ADI_ADRV9001_LO_GEN_OPTIMIZATION_POWER_CONSUMPTION := 2
  ADI_ADRV9001_PLL_POWER_LOW := 0
  ADI_ADRV9001_PLL_POWER_HIGH := 2
  adi_adrv9001_Port_Validate := fun port =>
    if port = ADI_ORX then ADI_COMMON_ACT_ERR_CHECK_PARAM else ADI_COMMON_ACT_NO_ACTION
  adi_adrv9001_Channel_Validate := fun _ => ADI_COMMON_ACT_NO_ACTION
  adi_adrv9001_Channel_State_GenericValidate := fun batch =>
    if batch.all (fun pc => decide (pc.1 ≠ ADI_ORX)) then ADI_COMMON_ACT_NO_ACTION
    else ADI_COMMON_ACT_ERR_CHECK_PARAM
  spiReadByte := fun addr d =>
    match addr with
    | RegAddr.ADRV9001_ADDR_ARM_CMD_STATUS_8 => (ADI_COMMON_ACT_NO_ACTION, d.status8, d)
    | RegAddr.ADRV9001_ADDR_ARM_CMD_STATUS_9 => (ADI_COMMON_ACT_NO_ACTION, d.status9, d)
  BbicPinMode_Get := fun field d =>
    match field with
    | BbicField.Rx1 => (ADI_COMMON_ACT_NO_ACTION, d.pinRx1, d)
    | BbicField.Rx2 => (ADI_COMMON_ACT_NO_ACTION, d.pinRx2, d)
    | BbicField.Tx1 => (ADI_COMMON_ACT_NO_ACTION, d.pinTx1, d)
    | BbicField.Tx2 => (ADI_COMMON_ACT_NO_ACTION, d.pinTx2, d)
    | _ => (ADI_COMMON_ACT_NO_ACTION, 0, d)
  BbicPinMode_Set := fun field mode d =>
    match field with
    | BbicField.Rx1 => (ADI_COMMON_ACT_NO_ACTION, { d with pinRx1 := mode })
    | BbicField.Rx2 => (ADI_COMMON_ACT_NO_ACTION, { d with pinRx2 := mode })
    | BbicField.Tx1 => (ADI_COMMON_ACT_NO_ACTION, { d with pinTx1 := mode })
    | BbicField.Tx2 => (ADI_COMMON_ACT_NO_ACTION, { d with pinTx2 := mode })
    | _ => (ADI_COMMON_ACT_NO_ACTION, d)
  BbicEnable_Set := fun field enable d =>
    match field with
    | BbicField.Rx1 => (ADI_COMMON_ACT_NO_ACTION, { d with rx1 := simEnable enable d.rx1 })
    | BbicField.Rx2 => (ADI_COMMON_ACT_NO_ACTION, { d with rx2 := simEnable enable d.rx2 })
    | BbicField.Tx1 => (ADI_COMMON_ACT_NO_ACTION, { d with tx1 := simEnable enable d.tx1 })
    | BbicField.Tx2 => (ADI_COMMON_ACT_NO_ACTION, { d with tx2 := simEnable enable d.tx2 })
    | _ => (ADI_COMMON_ACT_NO_ACTION, d)
  adi_adrv9001_arm_Cmd_Write := fun opCode extData d =>
    (ADI_COMMON_ACT_NO_ACTION, if d.armResponds then simFirmware opCode extData d else d)
  adrv9001_ARM_CMD_STATUS_WAIT := fun _ _ _ _ d =>
    (if d.armResponds then ADI_COMMON_ACT_NO_ACTION else transportTimeout, d)
  adi_adrv9001_arm_Memory_Write := fun _ data d =>
    (ADI_COMMON_ACT_NO_ACTION, { d with mailboxSet := data })
  adi_adrv9001_arm_Memory_Read := fun _ _ _ d => (ADI_COMMON_ACT_NO_ACTION, d.mailboxGet, d)
  adi_adrv9001_gpio_Inspect := fun _ d => (ADI_COMMON_ACT_NO_ACTION, d.frontendPin, d)
  adrv9001_NvsPllMemMap_SynLock_Get := fun _ d => (ADI_COMMON_ACT_NO_ACTION, d.pllLock, d)

/-- A simulated device with the given channel states, every channel in SPI
enable mode and a responsive co-processor. -/
def simDev (rx1 rx2 tx1 tx2 : Fin 4) : SimDev :=
  { status8 := 0, rx1 := rx1, rx2 := rx2, tx1 := tx1, tx2 := tx2,
    pinRx1 := 0, pinRx2 := 0, pinTx1 := 0, pinTx2 := 0, armResponds := true,
    mailboxSet := [], mailboxGet := [], frontendPin := 0, pllLock := 1 }

/-! ## Reasoning about blocks and functions -/

/-- Total correctness of a block: started in `d` it finishes, and its result,
the accesses it made and the final device state satisfy `Q`. -/
def Stmt.Sat {σ β : Type} (m : Stmt σ β) (d : σ) (Q : Step β → List Event → σ → Prop) : Prop :=
  ∃ r tr d1, m d = some (r, tr, d1) ∧ Q r tr d1

/-- Total correctness of a function. -/
def Func.Sat {σ : Type} (f : Func σ) (d : σ) (Q : Action → List Event → σ → Prop) : Prop :=
  ∃ a tr d1, f d = some (a, tr, d1) ∧ Q a tr d1

/-- Total correctness of a function with an output structure. -/
def FuncOut.Sat {σ α : Type} (f : FuncOut σ α) (d : σ)
    (Q : Action → α → List Event → σ → Prop) : Prop :=
  ∃ a x tr d1, f d = some (a, x, tr, d1) ∧ Q a x tr d1


/-! ## Classifying device accesses -/

/-- The bit field of a (port, channel) combination, as selected by the
if-chains of the enable-mode and enable-field accesses. -/
def bbicFieldOf (port : adi_common_Port_e) (channel : adi_common_ChannelNumber_e) : BbicField :=
  match port, channel with
  | ADI_RX, ADI_CHANNEL_1 => BbicField.Rx1
  | ADI_RX, ADI_CHANNEL_2 => BbicField.Rx2
  | ADI_TX, ADI_CHANNEL_1 => BbicField.Tx1
  | ADI_TX, ADI_CHANNEL_2 => BbicField.Tx2
  | ADI_ORX, ADI_CHANNEL_1 => BbicField.Orx1
  | ADI_ORX, ADI_CHANNEL_2 => BbicField.Orx2

/-- The state of a (port, channel) combination in a radio state snapshot. -/
def channelStateIn (rs : adi_adrv9001_RadioState_t) (port : adi_common_Port_e)
    (channel : adi_common_ChannelNumber_e) : Nat :=
  rs.stateAt (adi_common_port_to_index port 0) (adi_common_channel_to_index channel 0)

/-- A mailbox command (an opcode written to the co-processor). -/
def Event.isMailboxCommand : Event → Bool
  | Event.cmdWrite _ _ _ => true
  | _ => false

/-- A write into the mailbox memory. -/
def Event.isMailboxWrite : Event → Bool
  | Event.memoryWrite _ _ _ => true
  | _ => false

/-- A read of the mailbox memory. -/
def Event.isMailboxRead : Event → Bool
  | Event.memoryRead _ _ _ _ => true
  | _ => false

/-- A register write (enable field or pin-mode field). -/
def Event.isRegisterWrite : Event → Bool
  | Event.enableSet _ _ _ => true
  | Event.pinModeSet _ _ _ => true
  | _ => false

/-- A write of the enable field `field`. -/
def Event.isEnableWriteOf (field : BbicField) : Event → Bool
  | Event.enableSet f _ _ => decide (f = field)
  | _ => false

/-- A write of any enable field. -/
def Event.isEnableWrite : Event → Bool
  | Event.enableSet _ _ _ => true
  | _ => false

/-- A read of one of the two status registers. -/
def Event.isStatusRead : Event → Bool
  | Event.spiReadByte _ _ => true
  | _ => false

/-- A command-status wait that reported a failure. -/
def Event.isFailedWait : Event → Bool
  | Event.cmdStatusWait _ _ _ _ r => decide (r ≠ ADI_COMMON_ACT_NO_ACTION)
  | _ => false

/-- A command-status wait. -/
def Event.isWait : Event → Bool
  | Event.cmdStatusWait _ _ _ _ _ => true
  | _ => false

/-- A read-only register or pin query: status register read, pin-mode read,
pin assignment inspection, PLL lock read. -/
def Event.isQuery : Event → Bool
  | Event.spiReadByte _ _ => true
  | Event.pinModeGet _ _ => true
  | Event.gpioInspect _ _ => true
  | Event.synLockGet _ _ => true
  | _ => false

/-- The enable field writes of a list of accesses, in order. -/
def enableWrites (tr : List Event) : List Event := tr.filter Event.isEnableWrite

/-- The enable field writes of the errata compensation for one batch entry,
given the radio state read after the prime command: for a TX entry whose
paired RX channel is RF_ENABLED, RF is disabled and enabled again on that RX
channel; for any other entry nothing is done. -/
def errataCompensation (rs : adi_adrv9001_RadioState_t)
    (entry : adi_common_Port_e × adi_common_ChannelNumber_e) : List Event :=
  if entry.1 = ADI_TX ∧ channelStateIn rs ADI_RX entry.2 = ADI_ADRV9001_CHANNEL_RF_ENABLED then
    [Event.enableSet (bbicFieldOf ADI_RX entry.2) false ADI_COMMON_ACT_NO_ACTION,
     Event.enableSet (bbicFieldOf ADI_RX entry.2) true ADI_COMMON_ACT_NO_ACTION]
  else []

/-- The combined channel mask of a batch: the bitwise OR of the mask bits of
its entries. -/
def batchMask (batch : List (adi_common_Port_e × adi_common_ChannelNumber_e)) : Nat :=
  batch.foldl (fun m pc => maskStep pc.1 pc.2 m) 0

/-- A list of accesses that touches neither the mailbox nor the command
interface: no command, no wait, no mailbox read or write. -/
def noMailboxAccess (tr : List Event) : Prop :=
  ∀ e ∈ tr, e.isWait = false ∧ e.isMailboxCommand = false ∧ e.isMailboxRead = false ∧
    e.isMailboxWrite = false

/-- No device access follows a failed command-status wait. -/
def stopsAtFailedWait : List Event → Bool
  | [] => true
  | e :: rest => if e.isFailedWait then rest.isEmpty else stopsAtFailedWait rest

/-- What a call owes to a wait that reported a failure: nothing is accessed
after the failed wait, and if a wait failed the call returns a failure, has
written no enable field and has not read the mailbox. -/
def timeoutRespected (a : Action) (tr : List Event) : Prop :=
  stopsAtFailedWait tr = true ∧
  (tr.any Event.isFailedWait = true →
    a ≠ ADI_COMMON_ACT_NO_ACTION ∧ enableWrites tr = [] ∧ tr.any Event.isMailboxRead = false)

/-- A block that always finishes and only makes read-only queries. -/
def Stmt.QueryOnly {σ β : Type} (m : Stmt σ β) : Prop :=
  ∀ d, m.Sat d (fun _ tr _ => ∀ e ∈ tr, e.isQuery = true)

/-! ## The ideal device model -/

/-- Effect of an enable field write on the state of its channel: an enable
write moves a PRIMED channel to RF_ENABLED, a disable write moves an RF_ENABLED
channel to PRIMED, anything else leaves the state. -/
def enableEffect (enable : Bool) (state : Nat) : Nat :=
  if enable then
    (if state = ADI_ADRV9001_CHANNEL_PRIMED then ADI_ADRV9001_CHANNEL_RF_ENABLED else state)
  else
    (if state = ADI_ADRV9001_CHANNEL_RF_ENABLED then ADI_ADRV9001_CHANNEL_PRIMED else state)

/-- Effect of a completed RADIO-ON (`prime`) or RADIO-OFF command on the state
of a masked channel: RADIO-ON moves a CALIBRATED channel to PRIMED, RADIO-OFF
moves a PRIMED channel to CALIBRATED, anything else leaves the state. -/
def radioEffect (prime : Bool) (state : Nat) : Nat :=
  if prime then
    (if state = ADI_ADRV9001_CHANNEL_CALIBRATED then ADI_ADRV9001_CHANNEL_PRIMED else state)
  else
    (if state = ADI_ADRV9001_CHANNEL_PRIMED then ADI_ADRV9001_CHANNEL_CALIBRATED else state)

/-- The opcode of a prime (RADIO-ON) or un-prime (RADIO-OFF) command. -/
def radioOpcode (prime : Bool) : Opcode :=
  if prime = true then Opcode.ADRV9001_ARM_RADIOON_OPCODE
  else Opcode.ADRV9001_ARM_RADIOOFF_OPCODE

/-- An ideal device: on the device states satisfying `good`, with `st` the
state of each RX/TX channel,
* the validation helpers accept every RX/TX channel,
* every register access and every mailbox wait succeeds,
* status register B shows the four channel states in its 2-bit fields,
* every channel is in SPI enable-mode,
* an enable field write acts on its channel as `enableEffect` and on no other,
* a RADIO-ON or RADIO-OFF command for one channel, once waited for, acts on
  that channel as `radioEffect` and on no other. -/
structure IdealDevice {σ : Type} (hal : Platform σ) (good : σ → Prop)
    (st : σ → adi_common_Port_e → adi_common_ChannelNumber_e → Nat) : Prop where
  validators : ∀ p c, p ≠ ADI_ORX →
    hal.adi_adrv9001_Channel_State_GenericValidate [(p, c)] = ADI_COMMON_ACT_NO_ACTION ∧
    hal.adi_adrv9001_Port_Validate p = ADI_COMMON_ACT_NO_ACTION ∧
    hal.adi_adrv9001_Channel_Validate c = ADI_COMMON_ACT_NO_ACTION
  read8 : ∀ d, good d → ∃ v,
    hal.spiReadByte RegAddr.ADRV9001_ADDR_ARM_CMD_STATUS_8 d = (ADI_COMMON_ACT_NO_ACTION, v, d)
  read9 : ∀ d, good d → ∃ v,
    hal.spiReadByte RegAddr.ADRV9001_ADDR_ARM_CMD_STATUS_9 d = (ADI_COMMON_ACT_NO_ACTION, v, d) ∧
    ((v % 256) >>> 0) &&& 0x03 = st d ADI_RX ADI_CHANNEL_1 ∧
    ((v % 256) >>> 2) &&& 0x03 = st d ADI_RX ADI_CHANNEL_2 ∧
    ((v % 256) >>> 4) &&& 0x03 = st d ADI_TX ADI_CHANNEL_1 ∧
    ((v % 256) >>> 6) &&& 0x03 = st d ADI_TX ADI_CHANNEL_2
  pinMode : ∀ p c d, good d → p ≠ ADI_ORX → ∃ v,
    hal.BbicPinMode_Get (bbicFieldOf p c) d = (ADI_COMMON_ACT_NO_ACTION, v, d) ∧
    v % 256 = ADI_ADRV9001_SPI_MODE
  enable : ∀ p c enable d, good d → p ≠ ADI_ORX → ∃ d1,
    hal.BbicEnable_Set (bbicFieldOf p c) enable d = (ADI_COMMON_ACT_NO_ACTION, d1) ∧ good d1 ∧
    ∀ q e, q ≠ ADI_ORX →
      st d1 q e = if q = p ∧ e = c then enableEffect enable (st d p c) else st d q e
  radio : ∀ p c prime d, good d → p ≠ ADI_ORX → ∃ d1 d2,
    hal.adi_adrv9001_arm_Cmd_Write (radioOpcode prime) [batchMask [(p, c)]] d =
      (ADI_COMMON_ACT_NO_ACTION, d1) ∧
    hal.adrv9001_ARM_CMD_STATUS_WAIT (radioOpcode prime) 0 hal.ADI_ADRV9001_RADIOONOFF_TIMEOUT_US
      hal.ADI_ADRV9001_RADIOONOFF_INTERVAL_US d1 = (ADI_COMMON_ACT_NO_ACTION, d2) ∧ good d2 ∧
    ∀ q e, q ≠ ADI_ORX →
      st d2 q e = if q = p ∧ e = c then radioEffect prime (st d p c) else st d q e

/-- The states of the simulated device on which it is ideal: the co-processor
answers and the four channels are in SPI enable-mode. -/
def simGood (d : SimDev) : Prop :=
  d.armResponds = true ∧ d.pinRx1 % 256 = 0 ∧ d.pinRx2 % 256 = 0 ∧ d.pinTx1 % 256 = 0 ∧
    d.pinTx2 % 256 = 0

/-- The channel states of the simulated device. -/
def simState (d : SimDev) (port : adi_common_Port_e) (channel : adi_common_ChannelNumber_e) :
    Nat :=
  match port, channel with
  | ADI_RX, ADI_CHANNEL_1 => d.rx1.val
  | ADI_RX, ADI_CHANNEL_2 => d.rx2.val
  | ADI_TX, ADI_CHANNEL_1 => d.tx1.val
  | ADI_TX, ADI_CHANNEL_2 => d.tx2.val
  | ADI_ORX, _ => 0

/-- A primitive transition of the channel (port, channel): a RADIO-ON or
RADIO-OFF command whose mask holds the channel, or a write of the enable field
of the channel. -/
def Event.isTransitionOf (port : adi_common_Port_e) (channel : adi_common_ChannelNumber_e) :
    Event → Bool
  | Event.cmdWrite op ext _ =>
    decide ((op = Opcode.ADRV9001_ARM_RADIOON_OPCODE ∨ op = Opcode.ADRV9001_ARM_RADIOOFF_OPCODE) ∧
      ext.getD 0 0 &&& batchMask [(port, channel)] ≠ 0)
  | Event.enableSet f _ _ => decide (f = bbicFieldOf port channel)
  | _ => false

/-- The adjacent transitions from state `s` to state `t` of the channel
(port, channel), in order: prime then enable going up, disable then un-prime
going down. -/
def transitionPlan (port : adi_common_Port_e) (channel : adi_common_ChannelNumber_e)
    (s t : Nat) : List Event :=
  let primeCmd := Event.cmdWrite Opcode.ADRV9001_ARM_RADIOON_OPCODE [batchMask [(port, channel)]]
    ADI_COMMON_ACT_NO_ACTION
  let unprimeCmd := Event.cmdWrite Opcode.ADRV9001_ARM_RADIOOFF_OPCODE
    [batchMask [(port, channel)]] ADI_COMMON_ACT_NO_ACTION
  let enableWrite := Event.enableSet (bbicFieldOf port channel) true ADI_COMMON_ACT_NO_ACTION
  let disableWrite := Event.enableSet (bbicFieldOf port channel) false ADI_COMMON_ACT_NO_ACTION
  if s = ADI_ADRV9001_CHANNEL_CALIBRATED ∧ t = ADI_ADRV9001_CHANNEL_PRIMED then [primeCmd]
  else if s = ADI_ADRV9001_CHANNEL_CALIBRATED ∧ t = ADI_ADRV9001_CHANNEL_RF_ENABLED then
    [primeCmd, enableWrite]
  else if s = ADI_ADRV9001_CHANNEL_PRIMED ∧ t = ADI_ADRV9001_CHANNEL_RF_ENABLED then [enableWrite]
  else if s = ADI_ADRV9001_CHANNEL_PRIMED ∧ t = ADI_ADRV9001_CHANNEL_CALIBRATED then [unprimeCmd]
  else if s = ADI_ADRV9001_CHANNEL_RF_ENABLED ∧ t = ADI_ADRV9001_CHANNEL_PRIMED then
    [disableWrite]
  else if s = ADI_ADRV9001_CHANNEL_RF_ENABLED ∧ t = ADI_ADRV9001_CHANNEL_CALIBRATED then
    [disableWrite, unprimeCmd]
  else []

/-- The accesses of one successful radio state read. -/
def statusReadEvents : List Event :=
  [Event.spiReadByte RegAddr.ADRV9001_ADDR_ARM_CMD_STATUS_8 ADI_COMMON_ACT_NO_ACTION,
   Event.spiReadByte RegAddr.ADRV9001_ADDR_ARM_CMD_STATUS_9 ADI_COMMON_ACT_NO_ACTION]

/-- The accesses of one successful single-channel RF enable or disable. -/
def enableRfEvents (port : adi_common_Port_e) (channel : adi_common_ChannelNumber_e)
    (enable : Bool) : List Event :=
  statusReadEvents ++
    [Event.pinModeGet (bbicFieldOf port channel) ADI_COMMON_ACT_NO_ACTION,
     Event.enableSet (bbicFieldOf port channel) enable ADI_COMMON_ACT_NO_ACTION]

/-- Effect of a primitive transition on the state of its channel under the
ideal device model: a RADIO-ON or RADIO-OFF command acts as `radioEffect`, an
enable field write as `enableEffect`. -/
def Event.transitionEffect : Event → Nat → Nat
  | Event.cmdWrite Opcode.ADRV9001_ARM_RADIOON_OPCODE _ _, s => radioEffect true s
  | Event.cmdWrite Opcode.ADRV9001_ARM_RADIOOFF_OPCODE _ _, s => radioEffect false s
  | Event.enableSet _ enable _, s => enableEffect enable s
  | _, s => s

/-- The states a channel passes through, starting in `s`, under a list of
primitive transitions. -/
def statesAlong (s : Nat) (transitions : List Event) : List Nat :=
  transitions.scanl (fun x e => e.transitionEffect x) s

/-- The states from `s` to `t` in steps of one adjacent state. -/
def adjacentPath (s t : Nat) : List Nat :=
  if s ≤ t then List.range' s (t - s + 1) else (List.range' t (s - t + 1)).reverse

/-- The distance between two channel states. -/
def stateDistance (s t : Nat) : Nat :=
  if s ≤ t then t - s else s - t

/-! ## Little-endian layout and front-end signals -/

/-- The `width` bytes of `value` in little-endian order: least significant
byte first. -/
def littleEndianBytes : Nat → Nat → List Nat
  | 0, _ => []
  | width + 1, value => value % 256 :: littleEndianBytes width (value / 256)

/-- The value of a list of bytes read in little-endian order. -/
def littleEndianValue : List Nat → Nat
  | [] => 0
  | b :: rest => b + 256 * littleEndianValue rest


/-- The front-end-control signal named after an RX/TX (port, channel)
combination.  ORX channels have no such signal; the delay validation rejects
them before any signal is consulted, and the RX signal of the channel number
is listed only to keep the function total. -/
def frontendSignalOf (port : adi_common_Port_e) (channel : adi_common_ChannelNumber_e) :
    adi_adrv9001_GpioSignal_e :=
  match port, channel with
  | ADI_RX, ADI_CHANNEL_1 => adi_adrv9001_GpioSignal_e.ADI_ADRV9001_GPIO_SIGNAL_RX1_EXT_FRONTEND_CONTROL
  | ADI_RX, ADI_CHANNEL_2 => adi_adrv9001_GpioSignal_e.ADI_ADRV9001_GPIO_SIGNAL_RX2_EXT_FRONTEND_CONTROL
  | ADI_TX, ADI_CHANNEL_1 => adi_adrv9001_GpioSignal_e.ADI_ADRV9001_GPIO_SIGNAL_TX1_EXT_FRONTEND_CONTROL
  | ADI_TX, ADI_CHANNEL_2 => adi_adrv9001_GpioSignal_e.ADI_ADRV9001_GPIO_SIGNAL_TX2_EXT_FRONTEND_CONTROL
  | ADI_ORX, ADI_CHANNEL_1 => adi_adrv9001_GpioSignal_e.ADI_ADRV9001_GPIO_SIGNAL_RX1_EXT_FRONTEND_CONTROL
  | ADI_ORX, ADI_CHANNEL_2 => adi_adrv9001_GpioSignal_e.ADI_ADRV9001_GPIO_SIGNAL_RX2_EXT_FRONTEND_CONTROL

/-- The carrier payload as the specification words it: 8 bytes of carrier
frequency, little-endian; the calibration mode; one reserved byte that is 0;
the LO optimisation; the PLL power; 4 bytes of intermediate frequency,
little-endian. -/
def carrierLayout (carrier : adi_adrv9001_Carrier_t) : List Nat :=
  littleEndianBytes 8 carrier.carrierFrequency_Hz ++
    [carrier.pllCalibration, 0, carrier.loGenOptimization, carrier.pllPower] ++
    littleEndianBytes 4 carrier.intermediateFrequency_Hz

/-- The delays payload as the specification words it: five consecutive
little-endian 32-bit fields in the order riseToOnDelay, riseToAnalogOnDelay,
fallToOffDelay, guardDelay, holdDelay. -/
def delaysLayout (delays : adi_adrv9001_ChannelEnablementDelays_t) : List Nat :=
  littleEndianBytes 4 delays.riseToOnDelay ++ littleEndianBytes 4 delays.riseToAnalogOnDelay ++
    littleEndianBytes 4 delays.fallToOffDelay ++ littleEndianBytes 4 delays.guardDelay ++
    littleEndianBytes 4 delays.holdDelay

/-- The bytes the mailbox read of a GET exchange delivers when the exchange
starts in device state `d`: the device sees the command write, the status wait
and the mailbox read, in this order. -/
def mailboxReply {σ : Type} (hal : Platform σ) (extData : List Nat)
    (timeout_us interval_us count : Nat) (d : σ) : List Nat :=
  (hal.adi_adrv9001_arm_Memory_Read ArmAddr.ADRV9001_ADDR_ARM_MAILBOX_GET count true
    (hal.adrv9001_ARM_CMD_STATUS_WAIT Opcode.ADRV9001_ARM_GET_OPCODE (extData.getD 1 0)
      timeout_us interval_us
      (hal.adi_adrv9001_arm_Cmd_Write Opcode.ADRV9001_ARM_GET_OPCODE extData d).2).2).2.1

/-- A simulated platform whose enable field writes are accepted but have no
effect on the channel states: an RF_ENABLED channel stays RF_ENABLED after a
disable. -/
def stuckPlatform : Platform SimDev :=
  { simPlatform with BbicEnable_Set := fun _ _ d => (ADI_COMMON_ACT_NO_ACTION, d) }

/-- The accesses of one completed iteration of the loop of
`adi_adrv9001_Radio_Channels_EnableRf` on a batch entry: the pin-mode read of
the enable-mode query and the enable field write, both successful. -/
def enableRfStep (enable : Bool) (entry : adi_common_Port_e × adi_common_ChannelNumber_e) :
    List Event :=
  [Event.pinModeGet (bbicFieldOf entry.1 entry.2) ADI_COMMON_ACT_NO_ACTION,
   Event.enableSet (bbicFieldOf entry.1 entry.2) enable ADI_COMMON_ACT_NO_ACTION]

/-- The state structure and the device before the read number `n` (counted
from 0) of the poll loop of `adi_adrv9001_Channel_DisableRF_Wait`, started on
the device `d` left by the RF disable: `currentState` starts zeroed and every
read works on the structure and the device left by the read before it. -/
def snapshotState {σ : Type} (hal : Platform σ) (d : σ) : Nat → adi_adrv9001_RadioState_t × σ
  | 0 => (adi_adrv9001_RadioState_t.zero, d)
  | n + 1 =>
    match adi_adrv9001_Radio_State_Get hal (snapshotState hal d n).1 (snapshotState hal d n).2 with
    | some (_, rs, _, d1) => (rs, d1)
    | none => snapshotState hal d n

/-- The read number `n` of the poll loop: the call of
`adi_adrv9001_Radio_State_Get` it makes when it gets that far. -/
def snapshot {σ : Type} (hal : Platform σ) (d : σ) (n : Nat) :
    Option (Action × adi_adrv9001_RadioState_t × List Event × σ) :=
  adi_adrv9001_Radio_State_Get hal (snapshotState hal d n).1 (snapshotState hal d n).2

/-- The action returned by the read number `n` of the poll loop. -/
def snapshotAction {σ : Type} (hal : Platform σ) (d : σ) (n : Nat) : Action :=
  match snapshot hal d n with
  | some (a, _, _, _) => a
  | none => ADI_COMMON_ACT_NO_ACTION

/-- The state of the channel in the structure filled by the read number `n` of
the poll loop, `currentState.channelStates[port_index][chan_index]`. -/
def snapshotChannelState {σ : Type} (hal : Platform σ) (port : adi_common_Port_e)
    (channel : adi_common_ChannelNumber_e) (d : σ) (n : Nat) : Nat :=
  (snapshotState hal d (n + 1)).1.stateAt (adi_common_port_to_index port 0)
    (adi_common_channel_to_index channel 0)

/-- The register accesses of the first `n` reads of the poll loop. -/
def snapshotTrace {σ : Type} (hal : Platform σ) (d : σ) : Nat → List Event
  | 0 => []
  | n + 1 =>
    snapshotTrace hal d n ++
      (match snapshot hal d n with
       | some (_, _, tr, _) => tr
       | none => [])

/-- A read of the first status register, with which every read of the radio
state starts. -/
def Event.isStatusARead : Event → Bool
  | Event.spiReadByte RegAddr.ADRV9001_ADDR_ARM_CMD_STATUS_8 _ => true
  | _ => false

/-! ## Lemmas of the calculus -/

theorem stmt_bind_eq {σ α β : Type} (m : Stmt σ α) (k : α → Stmt σ β) :
    (m >>= k) = Stmt.bind m k := rfl

theorem stmt_pure_eq {σ β : Type} (b : β) : (Pure.pure b : Stmt σ β) = Stmt.pure b := rfl

theorem stmt_sat_mono {σ β : Type} {m : Stmt σ β} {d : σ}
    {Q Q2 : Step β → List Event → σ → Prop}
    (h : m.Sat d Q) (hq : ∀ r tr d1, Q r tr d1 → Q2 r tr d1) : m.Sat d Q2 := by
  obtain ⟨r, tr, d1, h1, h2⟩ := h
  exact ⟨r, tr, d1, h1, hq _ _ _ h2⟩

theorem sat_pure {σ β : Type} (b : β) (d : σ) (Q : Step β → List Event → σ → Prop) :
    (Stmt.pure b).Sat d Q ↔ Q (Step.next b) [] d := by
  unfold Stmt.Sat Stmt.pure
  constructor
  · rintro ⟨r, tr, d1, h1, h2⟩
    simp only [Option.some.injEq, Prod.mk.injEq] at h1
    obtain ⟨rfl, rfl, rfl⟩ := h1
    exact h2
  · intro h
    exact ⟨_, _, _, rfl, h⟩

theorem sat_ret {σ β : Type} (a : Action) (d : σ) (Q : Step β → List Event → σ → Prop) :
    (Stmt.ret a : Stmt σ β).Sat d Q ↔ Q (Step.ret a) [] d := by
  unfold Stmt.Sat Stmt.ret
  constructor
  · rintro ⟨r, tr, d1, h1, h2⟩
    simp only [Option.some.injEq, Prod.mk.injEq] at h1
    obtain ⟨rfl, rfl, rfl⟩ := h1
    exact h2
  · intro h
    exact ⟨_, _, _, rfl, h⟩

theorem sat_bind {σ α β : Type} (m : Stmt σ α) (k : α → Stmt σ β) (d : σ)
    (Q : Step β → List Event → σ → Prop) :
    (Stmt.bind m k).Sat d Q ↔
      m.Sat d (fun r tr d1 =>
        match r with
        | Step.ret a => Q (Step.ret a) tr d1
        | Step.next x => (k x).Sat d1 (fun r2 tr2 d2 => Q r2 (tr ++ tr2) d2)) := by
  unfold Stmt.Sat Stmt.bind
  rcases hm : m d with _ | ⟨r0, tr0, d0⟩
  · simp
  · cases r0 with
    | ret a =>
      constructor
      · rintro ⟨r, tr, d1, h1, h2⟩
        simp only [Option.some.injEq, Prod.mk.injEq] at h1
        obtain ⟨rfl, rfl, rfl⟩ := h1
        exact ⟨_, _, _, rfl, h2⟩
      · rintro ⟨r, tr, d1, h1, h2⟩
        simp only [Option.some.injEq, Prod.mk.injEq] at h1
        obtain ⟨rfl, rfl, rfl⟩ := h1
        exact ⟨_, _, _, rfl, h2⟩
    | next x =>
      constructor
      · rintro ⟨r, tr, d1, h1, h2⟩
        rcases hk : k x d0 with _ | ⟨r3, tr3, d3⟩
        · simp [hk] at h1
        · simp only [hk, Option.some.injEq, Prod.mk.injEq] at h1
          obtain ⟨rfl, rfl, rfl⟩ := h1
          exact ⟨_, _, _, rfl, _, _, _, hk, h2⟩
      · rintro ⟨r, tr, d1, h1, h2⟩
        simp only [Option.some.injEq, Prod.mk.injEq] at h1
        obtain ⟨rfl, rfl, rfl⟩ := h1
        obtain ⟨r2, tr2, d2, h3, h4⟩ := h2
        exact ⟨_, _, _, by simp [h3], h4⟩

theorem sat_toFunc {σ : Type} (m : Stmt σ Action) (d : σ)
    (Q : Action → List Event → σ → Prop) :
    Func.Sat (Stmt.toFunc m) d Q ↔
      m.Sat d (fun r tr d1 =>
        match r with
        | Step.ret a => Q a tr d1
        | Step.next a => Q a tr d1) := by
  unfold Stmt.Sat Func.Sat Stmt.toFunc
  rcases hm : m d with _ | ⟨r0, tr0, d0⟩
  · simp
  · cases r0 <;>
    · constructor
      · rintro ⟨r, tr, d1, h1, h2⟩
        simp only [Option.some.injEq, Prod.mk.injEq] at h1
        obtain ⟨rfl, rfl, rfl⟩ := h1
        exact ⟨_, _, _, rfl, h2⟩
      · rintro ⟨r, tr, d1, h1, h2⟩
        simp only [Option.some.injEq, Prod.mk.injEq] at h1
        obtain ⟨rfl, rfl, rfl⟩ := h1
        exact ⟨_, _, _, rfl, h2⟩

theorem sat_toFuncOut {σ α : Type} (out : α) (m : Stmt σ α) (d : σ)
    (Q : Action → α → List Event → σ → Prop) :
    FuncOut.Sat (Stmt.toFuncOut out m) d Q ↔
      m.Sat d (fun r tr d1 =>
        match r with
        | Step.ret a => Q a out tr d1
        | Step.next x => Q ADI_COMMON_ACT_NO_ACTION x tr d1) := by
  unfold Stmt.Sat FuncOut.Sat Stmt.toFuncOut
  rcases hm : m d with _ | ⟨r0, tr0, d0⟩
  · simp
  · cases r0 <;>
    · constructor
      · rintro ⟨r, x, tr, d1, h1, h2⟩
        simp only [Option.some.injEq, Prod.mk.injEq] at h1
        obtain ⟨rfl, rfl, rfl, rfl⟩ := h1
        exact ⟨_, _, _, rfl, h2⟩
      · rintro ⟨r, tr, d1, h1, h2⟩
        simp only [Option.some.injEq, Prod.mk.injEq] at h1
        obtain ⟨rfl, rfl, rfl⟩ := h1
        exact ⟨_, _, _, _, rfl, h2⟩

theorem sat_ADI_EXPECT {σ : Type} (f : Func σ) (d : σ) (Q : Step Unit → List Event → σ → Prop) :
    (ADI_EXPECT f).Sat d Q ↔
      Func.Sat f d (fun a tr d1 =>
        if a = ADI_COMMON_ACT_NO_ACTION then Q (Step.next ()) tr d1 else Q (Step.ret a) tr d1) := by
  unfold Stmt.Sat Func.Sat ADI_EXPECT
  rcases hf : f d with _ | ⟨a0, tr0, d0⟩
  · simp
  · by_cases ha : a0 = ADI_COMMON_ACT_NO_ACTION
    · subst ha
      constructor
      · rintro ⟨r, tr, d1, h1, h2⟩
        simp only [if_true, Option.some.injEq, Prod.mk.injEq] at h1
        obtain ⟨rfl, rfl, rfl⟩ := h1
        exact ⟨_, _, _, rfl, by simpa using h2⟩
      · rintro ⟨r, tr, d1, h1, h2⟩
        simp only [Option.some.injEq, Prod.mk.injEq] at h1
        obtain ⟨rfl, rfl, rfl⟩ := h1
        exact ⟨_, _, _, if_pos rfl, by simpa using h2⟩
    · constructor
      · rintro ⟨r, tr, d1, h1, h2⟩
        simp only [ha, if_false, Option.some.injEq, Prod.mk.injEq] at h1
        obtain ⟨rfl, rfl, rfl⟩ := h1
        exact ⟨_, _, _, rfl, by simpa [ha] using h2⟩
      · rintro ⟨r, tr, d1, h1, h2⟩
        simp only [Option.some.injEq, Prod.mk.injEq] at h1
        obtain ⟨rfl, rfl, rfl⟩ := h1
        exact ⟨_, _, _, if_neg ha, by simpa [ha] using h2⟩

theorem sat_ADI_EXPECT_OUT {σ α : Type} (f : FuncOut σ α) (d : σ)
    (Q : Step α → List Event → σ → Prop) :
    (ADI_EXPECT_OUT f).Sat d Q ↔
      FuncOut.Sat f d (fun a x tr d1 =>
        if a = ADI_COMMON_ACT_NO_ACTION then Q (Step.next x) tr d1 else Q (Step.ret a) tr d1) := by
  unfold Stmt.Sat FuncOut.Sat ADI_EXPECT_OUT
  rcases hf : f d with _ | ⟨a0, x0, tr0, d0⟩
  · simp
  · by_cases ha : a0 = ADI_COMMON_ACT_NO_ACTION
    · subst ha
      constructor
      · rintro ⟨r, tr, d1, h1, h2⟩
        simp only [if_true, Option.some.injEq, Prod.mk.injEq] at h1
        obtain ⟨rfl, rfl, rfl⟩ := h1
        exact ⟨_, _, _, _, rfl, by simpa using h2⟩
      · rintro ⟨r, x, tr, d1, h1, h2⟩
        simp only [Option.some.injEq, Prod.mk.injEq] at h1
        obtain ⟨rfl, rfl, rfl, rfl⟩ := h1
        exact ⟨_, _, _, if_pos rfl, by simpa using h2⟩
    · constructor
      · rintro ⟨r, tr, d1, h1, h2⟩
        simp only [ha, if_false, Option.some.injEq, Prod.mk.injEq] at h1
        obtain ⟨rfl, rfl, rfl⟩ := h1
        exact ⟨_, _, _, _, rfl, by simpa [ha] using h2⟩
      · rintro ⟨r, x, tr, d1, h1, h2⟩
        simp only [Option.some.injEq, Prod.mk.injEq] at h1
        obtain ⟨rfl, rfl, rfl, rfl⟩ := h1
        exact ⟨_, _, _, if_neg ha, by simpa [ha] using h2⟩

theorem sat_expectPure {σ : Type} (a : Action) (d : σ) (Q : Step Unit → List Event → σ → Prop) :
    (expectPure a : Stmt σ Unit).Sat d Q ↔
      if a = ADI_COMMON_ACT_NO_ACTION then Q (Step.next ()) [] d else Q (Step.ret a) [] d := by
  unfold expectPure
  split_ifs <;> simp [sat_pure, sat_ret]

theorem sat_ADI_RANGE_CHECK {σ : Type} (value minimum maximum : Nat) (d : σ)
    (Q : Step Unit → List Event → σ → Prop) :
    (ADI_RANGE_CHECK value minimum maximum : Stmt σ Unit).Sat d Q ↔
      if value < minimum ∨ value > maximum then Q (Step.ret ADI_COMMON_ACT_ERR_CHECK_PARAM) [] d
      else Q (Step.next ()) [] d := by
  unfold ADI_RANGE_CHECK
  split_ifs <;> simp [sat_pure, sat_ret]

theorem sat_callDev {σ : Type} (f : σ → Action × σ) (ev : Action → Event) (d : σ)
    (Q : Step Unit → List Event → σ → Prop) :
    (callDev f ev).Sat d Q ↔
      if (f d).1 = ADI_COMMON_ACT_NO_ACTION then Q (Step.next ()) [ev (f d).1] (f d).2
      else Q (Step.ret (f d).1) [ev (f d).1] (f d).2 := by
  unfold Stmt.Sat callDev
  rcases hf : f d with ⟨a, d1⟩
  by_cases ha : a = ADI_COMMON_ACT_NO_ACTION
  · subst ha
    constructor
    · rintro ⟨r, tr, d2, h1, h2⟩
      simp only [if_true, Option.some.injEq, Prod.mk.injEq] at h1
      obtain ⟨rfl, rfl, rfl⟩ := h1
      simpa using h2
    · intro h
      exact ⟨_, _, _, if_pos rfl, by simpa using h⟩
  · constructor
    · rintro ⟨r, tr, d2, h1, h2⟩
      simp only [ha, if_false, Option.some.injEq, Prod.mk.injEq] at h1
      obtain ⟨rfl, rfl, rfl⟩ := h1
      simpa [ha] using h2
    · intro h
      exact ⟨_, _, _, if_neg ha, by simpa [ha] using h⟩

theorem sat_callDevVal {σ α : Type} (f : σ → Action × α × σ) (ev : Action → Event) (d : σ)
    (Q : Step α → List Event → σ → Prop) :
    (callDevVal f ev).Sat d Q ↔
      if (f d).1 = ADI_COMMON_ACT_NO_ACTION then Q (Step.next (f d).2.1) [ev (f d).1] (f d).2.2
      else Q (Step.ret (f d).1) [ev (f d).1] (f d).2.2 := by
  unfold Stmt.Sat callDevVal
  rcases hf : f d with ⟨a, x, d1⟩
  by_cases ha : a = ADI_COMMON_ACT_NO_ACTION
  · subst ha
    constructor
    · rintro ⟨r, tr, d2, h1, h2⟩
      simp only [if_true, Option.some.injEq, Prod.mk.injEq] at h1
      obtain ⟨rfl, rfl, rfl⟩ := h1
      simpa using h2
    · intro h
      exact ⟨_, _, _, if_pos rfl, by simpa using h⟩
  · constructor
    · rintro ⟨r, tr, d2, h1, h2⟩
      simp only [ha, if_false, Option.some.injEq, Prod.mk.injEq] at h1
      obtain ⟨rfl, rfl, rfl⟩ := h1
      simpa [ha] using h2
    · intro h
      exact ⟨_, _, _, if_neg ha, by simpa [ha] using h⟩

theorem sat_liftOption {σ β : Type} (o : Option β) (d : σ) (Q : Step β → List Event → σ → Prop) :
    (liftOption o : Stmt σ β).Sat d Q ↔ ∃ b, o = some b ∧ Q (Step.next b) [] d := by
  unfold Stmt.Sat liftOption
  cases o with
  | none => simp
  | some b0 =>
    constructor
    · rintro ⟨r, tr, d1, h1, h2⟩
      simp only [Option.some.injEq, Prod.mk.injEq] at h1
      obtain ⟨rfl, rfl, rfl⟩ := h1
      exact ⟨_, rfl, h2⟩
    · rintro ⟨b, hb, h⟩
      simp only [Option.some.injEq] at hb
      subst hb
      exact ⟨_, _, _, rfl, h⟩

/-- Loop rule: an invariant over the counter, the locals, the accesses made so
far and the device state, for a loop of at most 255 iterations and enough fuel. -/
theorem sat_forU8 {σ β : Type} (length : Nat) (body : Nat → β → Stmt σ β)
    (Inv : Nat → β → List Event → σ → Prop) (Q : Step β → List Event → σ → Prop)
    (hlen : length ≤ 255)
    (hbody : ∀ i b tr d, i < length → Inv i b tr d →
      (body i b).Sat d (fun r tr2 d2 =>
        match r with
        | Step.next b2 => Inv (i + 1) b2 (tr ++ tr2) d2
        | Step.ret a => Q (Step.ret a) (tr ++ tr2) d2))
    (hexit : ∀ b tr d, Inv length b tr d → Q (Step.next b) tr d) :
    ∀ (fuel i : Nat) (b : β) (tr : List Event) (d : σ), i ≤ length → length - i < fuel →
      Inv i b tr d → (forU8 length body fuel i b).Sat d (fun r tr2 d2 => Q r (tr ++ tr2) d2) := by
  intro fuel
  induction fuel with
  | zero => intro i b tr d _ h; omega
  | succ n ih =>
    intro i b tr d hi hf hinv
    unfold forU8
    by_cases hlt : i < length
    · simp only [hlt, if_true]
      rw [sat_bind]
      refine stmt_sat_mono (hbody i b tr d hlt hinv) ?_
      intro r tr2 d2 hr
      cases r with
      | ret a => exact hr
      | next b2 =>
        have h256 : (i + 1) % 256 = i + 1 := Nat.mod_eq_of_lt (by omega)
        simp only [h256]
        have := ih (i + 1) b2 (tr ++ tr2) d2 (by omega) (by omega) hr
        refine stmt_sat_mono this ?_
        intro r3 tr3 d3 h3
        simpa [List.append_assoc] using h3
    · simp only [hlt, if_false]
      rw [sat_pure]
      have : i = length := by omega
      subst this
      simpa using hexit b tr d hinv


theorem funcOut_sat_of_eq {σ α : Type} {f : FuncOut σ α} {d : σ} {a : Action} {x : α}
    {tr : List Event} {d1 : σ} (h : f d = some (a, x, tr, d1))
    (Q : Action → α → List Event → σ → Prop) : FuncOut.Sat f d Q ↔ Q a x tr d1 := by
  unfold FuncOut.Sat
  constructor
  · rintro ⟨a2, x2, tr2, d2, h1, h2⟩
    rw [h] at h1
    simp only [Option.some.injEq, Prod.mk.injEq] at h1
    obtain ⟨rfl, rfl, rfl, rfl⟩ := h1
    exact h2
  · intro hq
    exact ⟨_, _, _, _, h, hq⟩

/-- The status read is total and only reads the two status registers. -/
theorem State_Get_total {σ : Type} (hal : Platform σ) (rs0 : adi_adrv9001_RadioState_t) (d : σ) :
    ∃ a rs tr d1, adi_adrv9001_Radio_State_Get hal rs0 d = some (a, rs, tr, d1) ∧
      ∀ e ∈ tr, ∃ addr r, e = Event.spiReadByte addr r := by
  unfold adi_adrv9001_Radio_State_Get
  rcases h8 : hal.spiReadByte RegAddr.ADRV9001_ADDR_ARM_CMD_STATUS_8 d with ⟨a, v, d1⟩
  by_cases ha : a = ADI_COMMON_ACT_NO_ACTION
  · rcases h9 : hal.spiReadByte RegAddr.ADRV9001_ADDR_ARM_CMD_STATUS_9 d1 with ⟨a2, v2, d2⟩
    by_cases ha2 : a2 = ADI_COMMON_ACT_NO_ACTION
    · simp only [ha, ha2, h9, ne_eq, not_true_eq_false, if_false]
      exact ⟨_, _, _, _, rfl, by simp⟩
    · simp only [ha, ha2, h9, ne_eq, not_true_eq_false, not_false_eq_true, if_false, if_true]
      exact ⟨_, _, _, _, rfl, by simp⟩
  · simp only [ha, ne_eq, not_false_eq_true, if_true]
    exact ⟨_, _, _, _, rfl, by simp⟩


/-! ## Batch validation lemmas -/

theorem port_to_index_of_ne_orx (port : adi_common_Port_e) (index : Nat) (h : port ≠ ADI_ORX) :
    adi_common_port_to_index port index = adi_common_port_to_index port 0 := by
  cases port <;> simp_all [adi_common_port_to_index]

theorem channel_to_index_any (channel : adi_common_ChannelNumber_e) (index : Nat) :
    adi_common_channel_to_index channel index = adi_common_channel_to_index channel 0 := by
  cases channel <;> simp [adi_common_channel_to_index]

/-- The enable-mode query is total and only reads a pin-mode field. -/
theorem sat_ChannelEnableMode_Get {σ : Type} (hal : Platform σ) (port : adi_common_Port_e)
    (channel : adi_common_ChannelNumber_e) (mode : Nat) (d : σ) :
    FuncOut.Sat (adi_adrv9001_Radio_ChannelEnableMode_Get hal port channel mode) d
      (fun _ _ tr _ => ∀ e ∈ tr, ∃ r, e = Event.pinModeGet (bbicFieldOf port channel) r) := by
  unfold adi_adrv9001_Radio_ChannelEnableMode_Get adi_adrv9001_Radio_ChannelEnableMode_Get_Validate
  simp only [stmt_bind_eq, stmt_pure_eq, sat_toFuncOut, sat_toFunc, sat_bind,
    sat_expectPure, sat_ADI_EXPECT, sat_pure]
  cases port <;> cases channel <;>
    simp [sat_callDevVal, sat_pure, sat_ret, ADI_ERROR_REPORT_RETURN, bbicFieldOf,
      sat_bind]

theorem funcOut_sat_mono {σ α : Type} {f : FuncOut σ α} {d : σ}
    {Q Q2 : Action → α → List Event → σ → Prop}
    (h : FuncOut.Sat f d Q) (hq : ∀ a x tr d1, Q a x tr d1 → Q2 a x tr d1) : FuncOut.Sat f d Q2 := by
  obtain ⟨a, x, tr, d1, h1, h2⟩ := h
  exact ⟨a, x, tr, d1, h1, hq _ _ _ _ h2⟩

theorem func_sat_mono {σ : Type} {f : Func σ} {d : σ}
    {Q Q2 : Action → List Event → σ → Prop}
    (h : Func.Sat f d Q) (hq : ∀ a tr d1, Q a tr d1 → Q2 a tr d1) : Func.Sat f d Q2 := by
  obtain ⟨a, tr, d1, h1, h2⟩ := h
  exact ⟨a, tr, d1, h1, hq _ _ _ h2⟩

/-- The if-chain over the six enable fields is the write of the field of the
(port, channel) combination. -/
theorem enable_chain_eq {σ : Type} (hal : Platform σ) (port : adi_common_Port_e)
    (channel : adi_common_ChannelNumber_e) (enable : Bool) :
    (if port = ADI_RX ∧ channel = ADI_CHANNEL_1 then
        callDev (hal.BbicEnable_Set BbicField.Rx1 enable) (Event.enableSet BbicField.Rx1 enable)
      else if port = ADI_RX ∧ channel = ADI_CHANNEL_2 then
        callDev (hal.BbicEnable_Set BbicField.Rx2 enable) (Event.enableSet BbicField.Rx2 enable)
      else if port = ADI_TX ∧ channel = ADI_CHANNEL_1 then
        callDev (hal.BbicEnable_Set BbicField.Tx1 enable) (Event.enableSet BbicField.Tx1 enable)
      else if port = ADI_TX ∧ channel = ADI_CHANNEL_2 then
        callDev (hal.BbicEnable_Set BbicField.Tx2 enable) (Event.enableSet BbicField.Tx2 enable)
      else if port = ADI_ORX ∧ channel = ADI_CHANNEL_1 then
        callDev (hal.BbicEnable_Set BbicField.Orx1 enable) (Event.enableSet BbicField.Orx1 enable)
      else if port = ADI_ORX ∧ channel = ADI_CHANNEL_2 then
        callDev (hal.BbicEnable_Set BbicField.Orx2 enable) (Event.enableSet BbicField.Orx2 enable)
      else (ADI_ERROR_REPORT_RETURN ADI_COMMON_ACT_ERR_CHECK_PARAM : Stmt σ Unit)) =
    callDev (hal.BbicEnable_Set (bbicFieldOf port channel) enable)
      (Event.enableSet (bbicFieldOf port channel) enable) := by
  cases port <;> cases channel <;> simp [bbicFieldOf]

theorem bbicFieldOf_inj (p q : adi_common_Port_e) (c e : adi_common_ChannelNumber_e)
    (h : bbicFieldOf p c = bbicFieldOf q e) : p = q ∧ c = e := by
  cases p <;> cases c <;> cases q <;> cases e <;> simp_all [bbicFieldOf]

/-- A batch holding an RX/TX channel that the snapshot shows neither PRIMED nor
RF_ENABLED is rejected by `adi_adrv9001_Radio_Channels_EnableRf` without a
mailbox command and without a write of that channel's enable field. -/
theorem EnableRf_rejects {σ : Type} (hal : Platform σ) (fuel : Nat)
    (batch : List (adi_common_Port_e × adi_common_ChannelNumber_e)) (enable : Bool) (d : σ)
    (rs : adi_adrv9001_RadioState_t) (tr1 : List Event) (d1 : σ) (k : Nat)
    (hlen : batch.length ≤ 255) (hfuel : batch.length < fuel)
    (hread : adi_adrv9001_Radio_State_Get hal adi_adrv9001_RadioState_t.zero d =
      some (ADI_COMMON_ACT_NO_ACTION, rs, tr1, d1))
    (hk : k < batch.length) (hport : (batchAt batch k).1 ≠ ADI_ORX)
    (hpri : channelStateIn rs (batchAt batch k).1 (batchAt batch k).2 ≠ ADI_ADRV9001_CHANNEL_PRIMED)
    (hrf : channelStateIn rs (batchAt batch k).1 (batchAt batch k).2 ≠
      ADI_ADRV9001_CHANNEL_RF_ENABLED) :
    ∃ a tr d2, adi_adrv9001_Radio_Channels_EnableRf hal fuel batch enable d = some (a, tr, d2) ∧
      a ≠ ADI_COMMON_ACT_NO_ACTION ∧
      ∀ e ∈ tr, e.isMailboxCommand = false ∧
        e.isEnableWriteOf (bbicFieldOf (batchAt batch k).1 (batchAt batch k).2) = false := by
  have htr1 : ∀ e ∈ tr1, ∃ addr r, e = Event.spiReadByte addr r := by
    obtain ⟨a, rs2, tr2, d2, h1, h2⟩ := State_Get_total hal adi_adrv9001_RadioState_t.zero d
    rw [hread] at h1
    simp only [Option.some.injEq, Prod.mk.injEq] at h1
    obtain ⟨_, _, rfl, _⟩ := h1
    exact h2
  show Func.Sat _ d (fun a tr d2 => a ≠ ADI_COMMON_ACT_NO_ACTION ∧
      ∀ e ∈ tr, e.isMailboxCommand = false ∧
        e.isEnableWriteOf (bbicFieldOf (batchAt batch k).1 (batchAt batch k).2) = false)
  unfold adi_adrv9001_Radio_Channels_EnableRf
  simp only [stmt_bind_eq, stmt_pure_eq, sat_toFunc, sat_bind, sat_expectPure,
    sat_ADI_EXPECT_OUT, funcOut_sat_of_eq hread, enable_chain_eq]
  by_cases hg : hal.adi_adrv9001_Channel_State_GenericValidate batch = ADI_COMMON_ACT_NO_ACTION
  · simp only [hg, if_true]
    refine stmt_sat_mono (sat_forU8 batch.length _
      (fun i _ tr _ => i ≤ k ∧ ∀ e ∈ tr, e.isMailboxCommand = false ∧
        e.isEnableWriteOf (bbicFieldOf (batchAt batch k).1 (batchAt batch k).2) = false)
      (fun r tr _ => (∃ a, r = Step.ret a ∧ a ≠ ADI_COMMON_ACT_NO_ACTION) ∧
        ∀ e ∈ tr, e.isMailboxCommand = false ∧
        e.isEnableWriteOf (bbicFieldOf (batchAt batch k).1 (batchAt batch k).2) = false)
      hlen ?_ ?_ fuel 0 (0, 0) [] d1 (Nat.zero_le _) (by omega) ⟨Nat.zero_le _, by simp⟩) ?_
    · intro i b tr d hi ⟨hik, htr⟩
      rw [sat_bind, sat_ADI_EXPECT_OUT]
      refine funcOut_sat_mono (sat_ChannelEnableMode_Get hal _ _ _ d) ?_
      intro a mode tr2 d2 htr2
      have hok2 : ∀ e ∈ tr2, e.isMailboxCommand = false ∧
          e.isEnableWriteOf (bbicFieldOf (batchAt batch k).1 (batchAt batch k).2) = false := by
        intro e he
        obtain ⟨r, rfl⟩ := htr2 e he
        simp [Event.isMailboxCommand, Event.isEnableWriteOf]
      have hok : ∀ e ∈ tr ++ tr2, e.isMailboxCommand = false ∧
          e.isEnableWriteOf (bbicFieldOf (batchAt batch k).1 (batchAt batch k).2) = false := by
        intro e he
        rcases List.mem_append.1 he with h | h
        · exact htr e h
        · exact hok2 e h
      by_cases ha : a = ADI_COMMON_ACT_NO_ACTION
      · simp only [ha, if_true]
        by_cases hm : ADI_ADRV9001_SPI_MODE ≠ mode
        · rw [if_pos hm]
          simp only [ADI_ERROR_REPORT_RETURN, sat_ret]
          refine ⟨⟨_, rfl, by decide⟩, ?_⟩
          simpa using hok
        · rw [if_neg hm]
          by_cases hst : rs.stateAt (adi_common_port_to_index (batchAt batch i).1 b.1)
                (adi_common_channel_to_index (batchAt batch i).2 b.2) ≠ ADI_ADRV9001_CHANNEL_PRIMED ∧
              rs.stateAt (adi_common_port_to_index (batchAt batch i).1 b.1)
                (adi_common_channel_to_index (batchAt batch i).2 b.2) ≠
                  ADI_ADRV9001_CHANNEL_RF_ENABLED
          · rw [if_pos hst]
            simp only [ADI_ERROR_REPORT_RETURN, sat_ret]
            refine ⟨⟨_, rfl, by decide⟩, ?_⟩
            simpa using hok
          · rw [if_neg hst]
            have hne : bbicFieldOf (batchAt batch i).1 (batchAt batch i).2 ≠
                bbicFieldOf (batchAt batch k).1 (batchAt batch k).2 := by
              intro heq
              obtain ⟨hp, hc⟩ := bbicFieldOf_inj _ _ _ _ heq
              apply hst
              rw [hp, hc, port_to_index_of_ne_orx _ _ hport, channel_to_index_any]
              exact ⟨hpri, hrf⟩
            have hik2 : i ≠ k := fun h => hne (by rw [h])
            rw [sat_bind, sat_callDev]
            have hev : ∀ r, ∀ e ∈ (tr ++ tr2) ++ [Event.enableSet
                (bbicFieldOf (batchAt batch i).1 (batchAt batch i).2) enable r],
                e.isMailboxCommand = false ∧
                e.isEnableWriteOf (bbicFieldOf (batchAt batch k).1 (batchAt batch k).2) = false := by
              intro r e he
              rcases List.mem_append.1 he with h | h
              · exact hok e h
              · simp only [List.mem_singleton] at h
                subst h
                simp [Event.isMailboxCommand, Event.isEnableWriteOf, hne]
            split_ifs with hw
            · simp only [sat_pure]
              exact ⟨by omega, by simpa using hev _⟩
            · exact ⟨⟨_, rfl, hw⟩, by simpa using hev _⟩
      · simp only [ha, if_false]
        exact ⟨⟨_, rfl, ha⟩, by simpa using hok⟩
    · intro b tr d ⟨h1, _⟩
      omega
    · rintro r tr d2 ⟨⟨a, rfl, ha⟩, htr⟩
      refine ⟨ha, ?_⟩
      intro e he
      simp only [List.nil_append, List.mem_append] at he
      rcases he with h | h
      · obtain ⟨addr, r, rfl⟩ := htr1 e h
        simp [Event.isMailboxCommand, Event.isEnableWriteOf]
      · exact htr e (by simpa using h)
  · simp [hg]

/-- A batch holding an RX/TX channel that the snapshot shows neither CALIBRATED
nor PRIMED is rejected by `adi_adrv9001_Radio_Channels_Prime` after the status
read at most. -/
theorem Prime_rejects {σ : Type} (hal : Platform σ) (fuel : Nat)
    (batch : List (adi_common_Port_e × adi_common_ChannelNumber_e)) (prime : Bool) (d : σ)
    (rs : adi_adrv9001_RadioState_t) (tr1 : List Event) (d1 : σ) (k : Nat)
    (hlen : batch.length ≤ 255) (hfuel : batch.length < fuel)
    (hread : adi_adrv9001_Radio_State_Get hal adi_adrv9001_RadioState_t.zero d =
      some (ADI_COMMON_ACT_NO_ACTION, rs, tr1, d1))
    (hk : k < batch.length) (hport : (batchAt batch k).1 ≠ ADI_ORX)
    (hcal : channelStateIn rs (batchAt batch k).1 (batchAt batch k).2 ≠
      ADI_ADRV9001_CHANNEL_CALIBRATED)
    (hpri : channelStateIn rs (batchAt batch k).1 (batchAt batch k).2 ≠
      ADI_ADRV9001_CHANNEL_PRIMED) :
    ∃ a tr d2, adi_adrv9001_Radio_Channels_Prime hal fuel batch prime d = some (a, tr, d2) ∧
      a ≠ ADI_COMMON_ACT_NO_ACTION ∧ (tr = [] ∨ tr = tr1) := by
  show Func.Sat _ d (fun a tr d2 => a ≠ ADI_COMMON_ACT_NO_ACTION ∧ (tr = [] ∨ tr = tr1))
  unfold adi_adrv9001_Radio_Channels_Prime
  simp only [stmt_bind_eq, stmt_pure_eq, sat_toFunc, sat_bind, sat_expectPure,
    sat_ADI_EXPECT_OUT, funcOut_sat_of_eq hread]
  by_cases hg : hal.adi_adrv9001_Channel_State_GenericValidate batch = ADI_COMMON_ACT_NO_ACTION
  · simp only [hg, if_true]
    refine stmt_sat_mono (sat_forU8 batch.length _
      (fun i _ tr _ => i ≤ k ∧ tr = [])
      (fun r tr _ => (∃ a, r = Step.ret a ∧ a ≠ ADI_COMMON_ACT_NO_ACTION) ∧ tr = [])
      hlen ?_ ?_ fuel 0 (0, 0) [] d1 (Nat.zero_le _) (by omega) ⟨Nat.zero_le _, rfl⟩) ?_
    · intro i b tr d hi ⟨hik, htr⟩
      subst htr
      by_cases hik2 : i = k
      · subst hik2
        rw [port_to_index_of_ne_orx _ _ hport, channel_to_index_any, if_pos ⟨hcal, hpri⟩]
        simp [ADI_ERROR_REPORT_RETURN, sat_ret]
      · split_ifs
        · simp [ADI_ERROR_REPORT_RETURN, sat_ret]
        · simp [ADI_ERROR_REPORT_RETURN, sat_ret]
        · simp only [sat_pure]
          exact ⟨by omega, by simp⟩
    · intro b tr d ⟨h1, _⟩
      omega
    · rintro r tr d2 ⟨⟨a, rfl, ha⟩, htr⟩
      simp at htr
      subst htr
      simp [ha]
  · simp [hg]

theorem State_Get_events {σ : Type} (hal : Platform σ) (rs0 rs : adi_adrv9001_RadioState_t)
    (d d1 : σ) (a : Action) (tr1 : List Event)
    (hread : adi_adrv9001_Radio_State_Get hal rs0 d = some (a, rs, tr1, d1)) :
    ∀ e ∈ tr1, ∃ addr r, e = Event.spiReadByte addr r := by
  obtain ⟨a2, rs2, tr2, d2, h1, h2⟩ := State_Get_total hal rs0 d
  rw [hread] at h1
  simp only [Option.some.injEq, Prod.mk.injEq] at h1
  obtain ⟨_, _, rfl, _⟩ := h1
  exact h2

theorem func_sat_eq {σ : Type} (f : Func σ) (d : σ) (a0 : Action) (tr0 : List Event) (d0 : σ) :
    Func.Sat f d (fun a tr d2 => a = a0 ∧ tr = tr0 ∧ d2 = d0) ↔ f d = some (a0, tr0, d0) := by
  unfold Func.Sat
  constructor
  · rintro ⟨a, tr, d2, h, rfl, rfl, rfl⟩
    exact h
  · intro h
    exact ⟨_, _, _, h, rfl, rfl, rfl⟩

theorem func_sat_of_eq {σ : Type} {f : Func σ} {d : σ} {a : Action}
    {tr : List Event} {d1 : σ} (h : f d = some (a, tr, d1))
    (Q : Action → List Event → σ → Prop) : Func.Sat f d Q ↔ Q a tr d1 := by
  unfold Func.Sat
  constructor
  · rintro ⟨a2, tr2, d2, h1, h2⟩
    rw [h] at h1
    simp only [Option.some.injEq, Prod.mk.injEq] at h1
    obtain ⟨rfl, rfl, rfl⟩ := h1
    exact h2
  · intro hq
    exact ⟨_, _, _, h, hq⟩

/-- Validation of a transition request accepts the RX and TX ports, both
channels and the targets CALIBRATED, PRIMED and RF_ENABLED, without any device
access. -/
theorem ToState_Validate_ok {σ : Type} (port : adi_common_Port_e)
    (channel : adi_common_ChannelNumber_e) (state : Nat) (d : σ) (hport : port ≠ ADI_ORX)
    (hs : state = ADI_ADRV9001_CHANNEL_CALIBRATED ∨ state = ADI_ADRV9001_CHANNEL_PRIMED ∨
      state = ADI_ADRV9001_CHANNEL_RF_ENABLED) :
    adi_adrv9001_Radio_Channel_ToState_Validate port channel state d =
      some (ADI_COMMON_ACT_NO_ACTION, [], d) := by
  rw [← func_sat_eq]
  unfold adi_adrv9001_Radio_Channel_ToState_Validate
  simp only [stmt_bind_eq, stmt_pure_eq, sat_toFunc, sat_bind, sat_ADI_RANGE_CHECK, sat_pure]
  rcases hs with rfl | rfl | rfl <;> cases port <;> cases channel <;>
    simp_all [adi_common_Port_e.toNat, adi_common_ChannelNumber_e.toNat,
      ADI_ADRV9001_CHANNEL_CALIBRATED, ADI_ADRV9001_CHANNEL_PRIMED,
      ADI_ADRV9001_CHANNEL_RF_ENABLED]

/-! ## Single-channel transitions -/

theorem sat_State_Get {σ : Type} (hal : Platform σ) (rs0 : adi_adrv9001_RadioState_t) (d : σ) :
    FuncOut.Sat (adi_adrv9001_Radio_State_Get hal rs0) d
      (fun _ _ tr _ => ∀ e ∈ tr, ∃ addr r, e = Event.spiReadByte addr r) := by
  obtain ⟨a, rs, tr, d1, h1, h2⟩ := State_Get_total hal rs0 d
  exact ⟨a, rs, tr, d1, h1, h2⟩

theorem noMailboxAccess_nil : noMailboxAccess [] := by
  intro e he
  simp at he

theorem noMailboxAccess_append (a b : List Event) :
    noMailboxAccess (a ++ b) ↔ noMailboxAccess a ∧ noMailboxAccess b := by
  unfold noMailboxAccess
  simp only [List.mem_append]
  constructor
  · intro h
    exact ⟨fun e he => h e (Or.inl he), fun e he => h e (Or.inr he)⟩
  · rintro ⟨h1, h2⟩ e (he | he)
    · exact h1 e he
    · exact h2 e he

theorem noMailboxAccess_of_statusReads (tr : List Event)
    (h : ∀ e ∈ tr, ∃ addr r, e = Event.spiReadByte addr r) : noMailboxAccess tr := by
  intro e he
  obtain ⟨addr, r, rfl⟩ := h e he
  simp [Event.isWait, Event.isMailboxCommand, Event.isMailboxRead, Event.isMailboxWrite]

theorem noMailboxAccess_of_pinModeGets (tr : List Event) (f : BbicField)
    (h : ∀ e ∈ tr, ∃ r, e = Event.pinModeGet f r) : noMailboxAccess tr := by
  intro e he
  obtain ⟨r, rfl⟩ := h e he
  simp [Event.isWait, Event.isMailboxCommand, Event.isMailboxRead, Event.isMailboxWrite]

theorem noMailboxAccess_enableSet (f : BbicField) (en : Bool) (r : Action) :
    noMailboxAccess [Event.enableSet f en r] := by
  intro e he
  simp only [List.mem_singleton] at he
  subst he
  simp [Event.isWait, Event.isMailboxCommand, Event.isMailboxRead, Event.isMailboxWrite]

theorem enableWrites_append (a b : List Event) :
    enableWrites (a ++ b) = enableWrites a ++ enableWrites b := by
  simp [enableWrites]

theorem enableWrites_of_statusReads (tr : List Event)
    (h : ∀ e ∈ tr, ∃ addr r, e = Event.spiReadByte addr r) : enableWrites tr = [] := by
  unfold enableWrites
  rw [List.filter_eq_nil_iff]
  intro e he
  obtain ⟨addr, r, rfl⟩ := h e he
  simp [Event.isEnableWrite]

theorem enableWrites_of_pinModeGets (tr : List Event) (f : BbicField)
    (h : ∀ e ∈ tr, ∃ r, e = Event.pinModeGet f r) : enableWrites tr = [] := by
  unfold enableWrites
  rw [List.filter_eq_nil_iff]
  intro e he
  obtain ⟨r, rfl⟩ := h e he
  simp [Event.isEnableWrite]

/-- A loop over a batch of length one runs its body once. -/
theorem forU8_one {σ β : Type} (body : Nat → β → Stmt σ β) (n : Nat) (b : β) :
    forU8 1 body (n + 2) 0 b = Stmt.bind (body 0 b) (fun b1 => Stmt.pure b1) := by
  simp [forU8]

/-- The single-channel RF enable or disable: it terminates with fuel 2, never
touches the mailbox, and on success has written the enable field of the
channel exactly once, with the requested value. -/
theorem sat_Channel_EnableRf {σ : Type} (hal : Platform σ) (fuel : Nat)
    (port : adi_common_Port_e) (channel : adi_common_ChannelNumber_e) (enable : Bool) (d : σ)
    (hfuel : 2 ≤ fuel) :
    Func.Sat (adi_adrv9001_Radio_Channel_EnableRf hal fuel port channel enable) d
      (fun a tr _ => noMailboxAccess tr ∧
        (a = ADI_COMMON_ACT_NO_ACTION →
          enableWrites tr = [Event.enableSet (bbicFieldOf port channel) enable
            ADI_COMMON_ACT_NO_ACTION])) := by
  obtain ⟨n, rfl⟩ : ∃ n, fuel = n + 2 := ⟨fuel - 2, by omega⟩
  unfold adi_adrv9001_Radio_Channel_EnableRf adi_adrv9001_Radio_Channels_EnableRf
  have hb : batchAt [(port, channel)] 0 = (port, channel) := rfl
  simp only [stmt_bind_eq, stmt_pure_eq, sat_toFunc, sat_bind, sat_expectPure,
    sat_ADI_EXPECT_OUT, enable_chain_eq, List.length_singleton, forU8_one, hb]
  by_cases hg : hal.adi_adrv9001_Channel_State_GenericValidate [(port, channel)] =
      ADI_COMMON_ACT_NO_ACTION
  · rw [if_pos hg]
    refine funcOut_sat_mono (sat_State_Get hal _ d) ?_
    intro a rs tr1 d1 htr1
    have hq1 := noMailboxAccess_of_statusReads tr1 htr1
    have hw1 := enableWrites_of_statusReads tr1 htr1
    by_cases ha : a = ADI_COMMON_ACT_NO_ACTION
    · rw [if_pos ha]
      refine funcOut_sat_mono (sat_ChannelEnableMode_Get hal port channel _ d1) ?_
      intro a2 mode tr2 d2 htr2
      have hq2 := noMailboxAccess_of_pinModeGets tr2 _ htr2
      have hw2 := enableWrites_of_pinModeGets tr2 _ htr2
      by_cases ha2 : a2 = ADI_COMMON_ACT_NO_ACTION
      · rw [if_pos ha2]
        by_cases hm : ADI_ADRV9001_SPI_MODE ≠ mode
        · rw [if_pos hm]
          simp only [ADI_ERROR_REPORT_RETURN, sat_ret]
          refine ⟨?_, by intro h; cases h⟩
          simp [noMailboxAccess_append, hq1, hq2, noMailboxAccess_nil]
        · rw [if_neg hm]
          by_cases hst : rs.stateAt (adi_common_port_to_index port 0)
                (adi_common_channel_to_index channel 0) ≠ ADI_ADRV9001_CHANNEL_PRIMED ∧
              rs.stateAt (adi_common_port_to_index port 0)
                (adi_common_channel_to_index channel 0) ≠ ADI_ADRV9001_CHANNEL_RF_ENABLED
          · rw [if_pos hst]
            simp only [ADI_ERROR_REPORT_RETURN, sat_ret]
            refine ⟨?_, by intro h; cases h⟩
            simp [noMailboxAccess_append, hq1, hq2, noMailboxAccess_nil]
          · rw [if_neg hst]
            simp only [sat_bind, sat_callDev]
            by_cases hw : (hal.BbicEnable_Set (bbicFieldOf port channel) enable d2).1 =
                ADI_COMMON_ACT_NO_ACTION
            · rw [if_pos hw]
              simp only [sat_pure]
              refine ⟨?_, fun _ => ?_⟩
              · simp [noMailboxAccess_append, hq1, hq2, noMailboxAccess_nil,
                  noMailboxAccess_enableSet]
              · simp only [List.nil_append, enableWrites_append, hw1, hw2, hw]
                simp [enableWrites, Event.isEnableWrite]
            · rw [if_neg hw]
              refine ⟨?_, fun h => absurd h hw⟩
              simp [noMailboxAccess_append, hq1, hq2, noMailboxAccess_nil,
                noMailboxAccess_enableSet]
      · rw [if_neg ha2]
        refine ⟨?_, fun h => absurd h ha2⟩
        simp [noMailboxAccess_append, hq1, hq2, noMailboxAccess_nil]
    · rw [if_neg ha]
      refine ⟨?_, fun h => absurd h ha⟩
      simp [noMailboxAccess_append, hq1, noMailboxAccess_nil]
  · rw [if_neg hg]
    exact ⟨noMailboxAccess_nil, fun h => absurd h hg⟩

/-- The RF disable with its bounded wait for PRIMED: it terminates, never
touches the mailbox, and on success has written the enable field of the
channel exactly once, with the value false. -/
theorem sat_DisableRF_Wait {σ : Type} (hal : Platform σ) (fuel : Nat)
    (port : adi_common_Port_e) (channel : adi_common_ChannelNumber_e) (numTries : Nat) (d : σ)
    (hfuel : 2 ≤ fuel) (hn : numTries < fuel) (hn255 : numTries ≤ 255) :
    Func.Sat (adi_adrv9001_Channel_DisableRF_Wait hal fuel port channel numTries) d
      (fun a tr _ => noMailboxAccess tr ∧
        (a = ADI_COMMON_ACT_NO_ACTION →
          enableWrites tr = [Event.enableSet (bbicFieldOf port channel) false
            ADI_COMMON_ACT_NO_ACTION])) := by
  unfold adi_adrv9001_Channel_DisableRF_Wait
  simp only [stmt_bind_eq, stmt_pure_eq, sat_toFunc, sat_bind, sat_ADI_EXPECT]
  refine func_sat_mono (sat_Channel_EnableRf hal fuel port channel false d hfuel) ?_
  intro a tr0 d0 ⟨hq0, hw0⟩
  by_cases ha : a = ADI_COMMON_ACT_NO_ACTION
  · rw [if_pos ha]
    have hw0 := hw0 ha
    refine stmt_sat_mono (sat_forU8 numTries _
      (fun _ _ tr _ => ∀ e ∈ tr, ∃ addr r, e = Event.spiReadByte addr r)
      (fun _ tr _ => ∀ e ∈ tr, ∃ addr r, e = Event.spiReadByte addr r)
      hn255 ?_ ?_ fuel 0 adi_adrv9001_RadioState_t.zero [] d0 (Nat.zero_le _) (by omega)
      (by simp)) ?_
    · intro i b tr d2 _ htr
      simp only [sat_bind, sat_ADI_EXPECT_OUT]
      refine funcOut_sat_mono (sat_State_Get hal b d2) ?_
      intro a2 rs2 tr2 d3 htr2
      have hall : ∀ e ∈ tr ++ tr2, ∃ addr r, e = Event.spiReadByte addr r := by
        intro e he
        rcases List.mem_append.1 he with h | h
        · exact htr e h
        · exact htr2 e h
      by_cases ha2 : a2 = ADI_COMMON_ACT_NO_ACTION
      · rw [if_pos ha2]
        split_ifs
        · simp only [sat_ret, List.append_nil]
          exact hall
        · simp only [sat_pure, List.append_nil]
          exact hall
      · rw [if_neg ha2]
        exact hall
    · intro b tr d2 h
      exact h
    · intro r tr d2 htr
      have htr2 : ∀ e ∈ tr, ∃ addr r, e = Event.spiReadByte addr r := by simpa using htr
      have hq := noMailboxAccess_of_statusReads tr htr2
      have hw := enableWrites_of_statusReads tr htr2
      cases r with
      | ret a2 =>
        refine ⟨by simp [noMailboxAccess_append, hq0, hq], fun _ => ?_⟩
        simp only [enableWrites_append, hw0, hw, List.append_nil]
      | next b =>
        simp only [sat_ret]
        refine ⟨by simp [noMailboxAccess_append, hq0, hq, noMailboxAccess_nil],
          by intro h; cases h⟩
  · rw [if_neg ha]
    exact ⟨hq0, fun h => absurd h ha⟩

theorem take_succ_batchAt (batch : List (adi_common_Port_e × adi_common_ChannelNumber_e))
    (i : Nat) (hi : i < batch.length) :
    batch.take (i + 1) = batch.take i ++ [batchAt batch i] := by
  unfold batchAt
  rw [List.take_succ]
  simp [List.getD, List.getElem?_eq_getElem hi]

/-- The errata compensation: it terminates, never touches the mailbox, and on
success its enable field writes are, entry by entry, the compensation decided
from the radio state read at its start. -/
theorem sat_ToPrimed_Fix {σ : Type} (hal : Platform σ) (fuel : Nat)
    (batch : List (adi_common_Port_e × adi_common_ChannelNumber_e)) (d : σ)
    (hlen : batch.length ≤ 255) (hfuel : batch.length < fuel) (h6 : 6 ≤ fuel) :
    Func.Sat (adi_adrv9001_Radio_ToPrimed_Fix hal fuel batch) d
      (fun a tr _ => noMailboxAccess tr ∧
        (a = ADI_COMMON_ACT_NO_ACTION →
          ∃ rs tr1 d1, adi_adrv9001_Radio_State_Get hal adi_adrv9001_RadioState_t.zero d =
              some (ADI_COMMON_ACT_NO_ACTION, rs, tr1, d1) ∧
            enableWrites tr = batch.flatMap (errataCompensation rs))) := by
  unfold adi_adrv9001_Radio_ToPrimed_Fix
  simp only [stmt_bind_eq, stmt_pure_eq, sat_toFunc, sat_bind, sat_ADI_EXPECT_OUT]
  obtain ⟨a, rs, tr1, d1, hread, htr1⟩ := State_Get_total hal adi_adrv9001_RadioState_t.zero d
  rw [funcOut_sat_of_eq hread]
  have hq1 := noMailboxAccess_of_statusReads tr1 htr1
  have hw1 := enableWrites_of_statusReads tr1 htr1
  by_cases ha : a = ADI_COMMON_ACT_NO_ACTION
  · rw [if_pos ha]
    subst ha
    refine stmt_sat_mono (sat_forU8 batch.length _
      (fun i _ tr _ => noMailboxAccess tr ∧
        enableWrites tr = (batch.take i).flatMap (errataCompensation rs))
      (fun r tr _ => noMailboxAccess tr ∧
        match r with
        | Step.next _ => enableWrites tr = batch.flatMap (errataCompensation rs)
        | Step.ret a => a ≠ ADI_COMMON_ACT_NO_ACTION)
      hlen ?_ ?_ fuel 0 () [] d1 (Nat.zero_le _) (by omega)
      ⟨noMailboxAccess_nil, by simp [enableWrites]⟩) ?_
    · intro i b tr d2 hi ⟨hq, hw⟩
      beta_reduce
      rw [take_succ_batchAt batch i hi, List.flatMap_append]
      by_cases hp : (batchAt batch i).1 ≠ ADI_TX
      · rw [if_pos hp]
        simp only [sat_pure, List.append_nil]
        refine ⟨hq, ?_⟩
        simp [hw, errataCompensation, hp]
      · rw [if_neg hp]
        have hp2 : (batchAt batch i).1 = ADI_TX := by simpa using hp
        by_cases hst : rs.stateAt (adi_common_port_to_index ADI_RX 0)
            (adi_common_channel_to_index (batchAt batch i).2 0) ≠ ADI_ADRV9001_CHANNEL_RF_ENABLED
        · rw [if_pos hst]
          simp only [sat_pure, List.append_nil]
          refine ⟨hq, ?_⟩
          have : ¬ channelStateIn rs ADI_RX (batchAt batch i).2 = ADI_ADRV9001_CHANNEL_RF_ENABLED :=
            hst
          simp [hw, errataCompensation, this]
        · rw [if_neg hst]
          have hst2 : channelStateIn rs ADI_RX (batchAt batch i).2 =
              ADI_ADRV9001_CHANNEL_RF_ENABLED := by
            unfold channelStateIn
            simpa using hst
          simp only [stmt_bind_eq, sat_bind, sat_ADI_EXPECT]
          refine func_sat_mono (sat_DisableRF_Wait hal fuel ADI_RX (batchAt batch i).2 5 d2
            (by omega) (by omega) (by omega)) ?_
          intro a2 tr2 d3 ⟨hq2, hw2⟩
          by_cases ha2 : a2 = ADI_COMMON_ACT_NO_ACTION
          · rw [if_pos ha2]
            refine func_sat_mono (sat_Channel_EnableRf hal fuel ADI_RX (batchAt batch i).2 true d3
              (by omega)) ?_
            intro a3 tr3 d4 ⟨hq3, hw3⟩
            by_cases ha3 : a3 = ADI_COMMON_ACT_NO_ACTION
            · rw [if_pos ha3]
              refine ⟨by simp [noMailboxAccess_append, hq, hq2, hq3], ?_⟩
              simp only [enableWrites_append, hw, hw2 ha2, hw3 ha3]
              simp [errataCompensation, hp2, hst2]
            · rw [if_neg ha3]
              exact ⟨by simp [noMailboxAccess_append, hq, hq2, hq3], ha3⟩
          · rw [if_neg ha2]
            exact ⟨by simp [noMailboxAccess_append, hq, hq2], ha2⟩
    · intro b tr d2 ⟨hq, hw⟩
      refine ⟨hq, ?_⟩
      simpa using hw
    · intro r tr d2 ⟨hq, hr⟩
      cases r with
      | ret a2 =>
        refine ⟨by simpa [noMailboxAccess_append, hq1] using hq, fun h => absurd h hr⟩
      | next b =>
        simp only [sat_pure]
        refine ⟨by simpa [noMailboxAccess_append, hq1, noMailboxAccess_nil] using hq, fun _ => ?_⟩
        refine ⟨rs, tr1, d1, hread, ?_⟩
        simp only [enableWrites_append, hw1, List.nil_append, List.append_nil]
        simpa using hr
  · rw [if_neg ha]
    exact ⟨hq1, fun h => absurd h ha⟩

/-! ## Prime and un-prime -/

theorem drop_eq_batchAt_cons (batch : List (adi_common_Port_e × adi_common_ChannelNumber_e))
    (i : Nat) (hi : i < batch.length) :
    batch.drop i = batchAt batch i :: batch.drop (i + 1) := by
  unfold batchAt
  rw [List.drop_eq_getElem_cons hi]
  simp [List.getD, List.getElem?_eq_getElem hi]

theorem maskLoop_eq (batch : List (adi_common_Port_e × adi_common_ChannelNumber_e))
    (hlen : batch.length ≤ 255) :
    ∀ (fuel i m : Nat), i ≤ batch.length → batch.length - i < fuel →
      maskLoop batch fuel i m =
        some ((batch.drop i).foldl (fun m pc => maskStep pc.1 pc.2 m) m) := by
  intro fuel
  induction fuel with
  | zero => intro i m _ h; omega
  | succ n ih =>
    intro i m hi hf
    unfold maskLoop
    by_cases hlt : i < batch.length
    · rw [if_pos hlt, Nat.mod_eq_of_lt (by omega : i + 1 < 256), ih (i + 1) _ (by omega) (by omega),
        drop_eq_batchAt_cons batch i hlt]
      rfl
    · rw [if_neg hlt]
      have : batch.drop i = [] := List.drop_eq_nil_of_le (by omega)
      rw [this]
      rfl

/-- For a batch of at most 255 entries and enough fuel the mask computation
returns the OR of the mask bits of the entries. -/
theorem MailboxChannelMask_Get_eq (fuel : Nat)
    (batch : List (adi_common_Port_e × adi_common_ChannelNumber_e))
    (hlen : batch.length ≤ 255) (hfuel : batch.length < fuel) :
    adi_adrv9001_Radio_MailboxChannelMask_Get fuel batch = some (batchMask batch) := by
  unfold adi_adrv9001_Radio_MailboxChannelMask_Get batchMask
  rw [maskLoop_eq batch hlen fuel 0 0 (Nat.zero_le _) (by omega)]
  rfl

/-- The five ways a prime or un-prime batch call ends, with the accesses made
in each: rejected before any command; command write failed; wait failed;
un-prime completed; prime completed and followed by the errata compensation
run from the device state the wait left. -/
theorem sat_Channels_Prime {σ : Type} (hal : Platform σ) (fuel : Nat)
    (batch : List (adi_common_Port_e × adi_common_ChannelNumber_e)) (prime : Bool) (d : σ)
    (a0 : Action) (rs0 : adi_adrv9001_RadioState_t) (tr0 : List Event) (d0 : σ)
    (hlen : batch.length ≤ 255) (hfuel : batch.length < fuel) (h6 : 6 ≤ fuel)
    (hread0 : adi_adrv9001_Radio_State_Get hal adi_adrv9001_RadioState_t.zero d =
      some (a0, rs0, tr0, d0)) :
    Func.Sat (adi_adrv9001_Radio_Channels_Prime hal fuel batch prime) d (fun a tr d2 =>
      (a ≠ ADI_COMMON_ACT_NO_ACTION ∧ (tr = [] ∨ tr = tr0)) ∨
      (a ≠ ADI_COMMON_ACT_NO_ACTION ∧
        tr = tr0 ++ [Event.cmdWrite (if prime = true then Opcode.ADRV9001_ARM_RADIOON_OPCODE
          else Opcode.ADRV9001_ARM_RADIOOFF_OPCODE) [batchMask batch] a]) ∨
      (a ≠ ADI_COMMON_ACT_NO_ACTION ∧
        tr = tr0 ++ [Event.cmdWrite (if prime = true then Opcode.ADRV9001_ARM_RADIOON_OPCODE
            else Opcode.ADRV9001_ARM_RADIOOFF_OPCODE) [batchMask batch] ADI_COMMON_ACT_NO_ACTION,
          Event.cmdStatusWait (if prime = true then Opcode.ADRV9001_ARM_RADIOON_OPCODE
            else Opcode.ADRV9001_ARM_RADIOOFF_OPCODE) 0 hal.ADI_ADRV9001_RADIOONOFF_TIMEOUT_US
            hal.ADI_ADRV9001_RADIOONOFF_INTERVAL_US a]) ∨
      (prime = false ∧ a = ADI_COMMON_ACT_NO_ACTION ∧
        tr = tr0 ++ [Event.cmdWrite Opcode.ADRV9001_ARM_RADIOOFF_OPCODE [batchMask batch]
            ADI_COMMON_ACT_NO_ACTION,
          Event.cmdStatusWait Opcode.ADRV9001_ARM_RADIOOFF_OPCODE 0
            hal.ADI_ADRV9001_RADIOONOFF_TIMEOUT_US hal.ADI_ADRV9001_RADIOONOFF_INTERVAL_US
            ADI_COMMON_ACT_NO_ACTION]) ∨
      (prime = true ∧ ∃ trF,
        tr = tr0 ++ [Event.cmdWrite Opcode.ADRV9001_ARM_RADIOON_OPCODE [batchMask batch]
            ADI_COMMON_ACT_NO_ACTION,
          Event.cmdStatusWait Opcode.ADRV9001_ARM_RADIOON_OPCODE 0
            hal.ADI_ADRV9001_RADIOONOFF_TIMEOUT_US hal.ADI_ADRV9001_RADIOONOFF_INTERVAL_US
            ADI_COMMON_ACT_NO_ACTION] ++ trF ∧
        adi_adrv9001_Radio_ToPrimed_Fix hal fuel batch
          (hal.adrv9001_ARM_CMD_STATUS_WAIT Opcode.ADRV9001_ARM_RADIOON_OPCODE 0
            hal.ADI_ADRV9001_RADIOONOFF_TIMEOUT_US hal.ADI_ADRV9001_RADIOONOFF_INTERVAL_US
            (hal.adi_adrv9001_arm_Cmd_Write Opcode.ADRV9001_ARM_RADIOON_OPCODE [batchMask batch]
              d0).2).2 = some (a, trF, d2))) := by
  unfold adi_adrv9001_Radio_Channels_Prime
  simp only [stmt_bind_eq, stmt_pure_eq, sat_toFunc, sat_bind, sat_expectPure,
    sat_ADI_EXPECT_OUT, funcOut_sat_of_eq hread0]
  by_cases hg : hal.adi_adrv9001_Channel_State_GenericValidate batch = ADI_COMMON_ACT_NO_ACTION
  · rw [if_pos hg]
    by_cases ha0 : a0 = ADI_COMMON_ACT_NO_ACTION
    · rw [if_pos ha0]
      refine stmt_sat_mono (sat_forU8 batch.length _
        (fun _ _ tr dd => tr = [] ∧ dd = d0)
        (fun r tr dd => tr = [] ∧ dd = d0 ∧ ∀ a, r = Step.ret a → a ≠ ADI_COMMON_ACT_NO_ACTION)
        hlen ?_ ?_ fuel 0 (0, 0) [] d0 (Nat.zero_le _) (by omega) ⟨rfl, rfl⟩) ?_
      · intro i b tr dd _ ⟨htr, hdd⟩
        subst htr hdd
        split_ifs
        · simp [ADI_ERROR_REPORT_RETURN, sat_ret]
        · simp [ADI_ERROR_REPORT_RETURN, sat_ret]
        · simp [sat_pure]
      · intro b tr dd ⟨htr, hdd⟩
        exact ⟨htr, hdd, by intro a h; cases h⟩
      · intro r tr dd ⟨htr, hdd, hr⟩
        simp only [List.nil_append] at htr
        subst htr hdd
        cases r with
        | ret a => exact Or.inl ⟨hr a rfl, Or.inr (by simp)⟩
        | next b =>
          simp only [sat_liftOption, MailboxChannelMask_Get_eq fuel batch hlen hfuel,
            Option.some.injEq, exists_eq_left', sat_callDev, sat_bind, List.nil_append,
            List.append_nil]
          cases prime with
          | false =>
            simp only [Bool.false_eq_true, if_false, sat_pure]
            rcases hc : hal.adi_adrv9001_arm_Cmd_Write Opcode.ADRV9001_ARM_RADIOOFF_OPCODE
              [batchMask batch] dd with ⟨ac, dC⟩
            rcases hw : hal.adrv9001_ARM_CMD_STATUS_WAIT Opcode.ADRV9001_ARM_RADIOOFF_OPCODE 0
              hal.ADI_ADRV9001_RADIOONOFF_TIMEOUT_US hal.ADI_ADRV9001_RADIOONOFF_INTERVAL_US dC
              with ⟨aw, dW⟩
            by_cases hac : ac = ADI_COMMON_ACT_NO_ACTION
            · by_cases haw : aw = ADI_COMMON_ACT_NO_ACTION
              · subst hac haw
                simp [hw]
              · subst hac
                simp [hw, haw]
            · simp [hac]
          | true =>
            simp only [if_true]
            rcases hc : hal.adi_adrv9001_arm_Cmd_Write Opcode.ADRV9001_ARM_RADIOON_OPCODE
              [batchMask batch] dd with ⟨ac, dC⟩
            rcases hw : hal.adrv9001_ARM_CMD_STATUS_WAIT Opcode.ADRV9001_ARM_RADIOON_OPCODE 0
              hal.ADI_ADRV9001_RADIOONOFF_TIMEOUT_US hal.ADI_ADRV9001_RADIOONOFF_INTERVAL_US dC
              with ⟨aw, dW⟩
            by_cases hac : ac = ADI_COMMON_ACT_NO_ACTION
            · by_cases haw : aw = ADI_COMMON_ACT_NO_ACTION
              · subst hac haw
                obtain ⟨aF, trF, dF, hF, _⟩ := sat_ToPrimed_Fix hal fuel batch dW hlen hfuel h6
                simp only [hw, if_true, sat_ADI_EXPECT, func_sat_of_eq hF]
                by_cases haF : aF = ADI_COMMON_ACT_NO_ACTION
                · subst haF
                  simp [sat_pure, hF]
                · simp [haF, hF]
              · subst hac
                simp [hw, haw]
            · simp [hac]
    · rw [if_neg ha0]
      exact Or.inl ⟨ha0, Or.inr (by simp)⟩
  · rw [if_neg hg]
    exact Or.inl ⟨hg, Or.inl trivial⟩

theorem enableWrites_cmd_wait (tr0 rest : List Event) (op : Opcode) (ext : List Nat)
    (ac aw : Action) (obj t i : Nat)
    (h0 : ∀ e ∈ tr0, ∃ addr r, e = Event.spiReadByte addr r) :
    enableWrites (tr0 ++ [Event.cmdWrite op ext ac, Event.cmdStatusWait op obj t i aw] ++ rest) =
      enableWrites rest := by
  simp only [enableWrites_append, enableWrites_of_statusReads tr0 h0, List.nil_append]
  simp [enableWrites, Event.isEnableWrite]

/-! ## Timeouts of the mailbox operations -/

theorem stopsAtFailedWait_append_of_no_failed_wait (pre rest : List Event)
    (h : ∀ e ∈ pre, e.isFailedWait = false) :
    stopsAtFailedWait (pre ++ rest) = stopsAtFailedWait rest := by
  induction pre with
  | nil => rfl
  | cons e pre ih =>
    have he : e.isFailedWait = false := h e (by simp)
    simp only [List.cons_append, stopsAtFailedWait, he, Bool.false_eq_true, if_false]
    exact ih (fun x hx => h x (by simp [hx]))

theorem any_failed_wait_append_of_none (pre rest : List Event)
    (h : ∀ e ∈ pre, e.isFailedWait = false) :
    (pre ++ rest).any Event.isFailedWait = rest.any Event.isFailedWait := by
  have : pre.any Event.isFailedWait = false := by
    rw [List.any_eq_false]
    intro e he
    simp [h e he]
  simp [List.any_append, this]

/-- A call whose accesses hold no failed wait owes nothing to a timeout. -/
theorem timeoutRespected_of_no_failed_wait (a : Action) (tr : List Event)
    (h : ∀ e ∈ tr, e.isFailedWait = false) : timeoutRespected a tr := by
  constructor
  · have := stopsAtFailedWait_append_of_no_failed_wait tr [] h
    simpa [stopsAtFailedWait] using this
  · intro hany
    have := any_failed_wait_append_of_none tr [] h
    simp only [List.append_nil] at this
    rw [this] at hany
    simp at hany

theorem isFailedWait_of_isQuery (e : Event) (h : e.isQuery = true) : e.isFailedWait = false := by
  cases e <;> simp_all [Event.isQuery, Event.isFailedWait]

theorem isMailboxRead_of_isQuery (e : Event) (h : e.isQuery = true) :
    e.isMailboxRead = false := by
  cases e <;> simp_all [Event.isQuery, Event.isMailboxRead]

theorem isEnableWrite_of_isQuery (e : Event) (h : e.isQuery = true) :
    e.isEnableWrite = false := by
  cases e <;> simp_all [Event.isQuery, Event.isEnableWrite]

/-- Queries made before the mailbox transaction do not matter to the timeout
obligation of the accesses that follow. -/
theorem timeoutRespected_append_queries (a : Action) (pre rest : List Event)
    (h : ∀ e ∈ pre, e.isQuery = true) (hr : timeoutRespected a rest) :
    timeoutRespected a (pre ++ rest) := by
  have hf : ∀ e ∈ pre, e.isFailedWait = false := fun e he => isFailedWait_of_isQuery e (h e he)
  have hw : enableWrites pre = [] := by
    unfold enableWrites
    rw [List.filter_eq_nil_iff]
    intro e he
    simp [isEnableWrite_of_isQuery e (h e he)]
  have hm : pre.any Event.isMailboxRead = false := by
    rw [List.any_eq_false]
    intro e he
    simp [isMailboxRead_of_isQuery e (h e he)]
  constructor
  · rw [stopsAtFailedWait_append_of_no_failed_wait pre rest hf]
    exact hr.1
  · intro hany
    rw [any_failed_wait_append_of_none pre rest hf] at hany
    obtain ⟨h1, h2, h3⟩ := hr.2 hany
    refine ⟨h1, ?_, ?_⟩
    · rw [enableWrites_append, hw, h2]
      rfl
    · rw [List.any_append, hm, h3]
      rfl

theorem queryOnly_pure {σ β : Type} (b : β) : (Stmt.pure b : Stmt σ β).QueryOnly := by
  intro d
  rw [sat_pure]
  simp

theorem queryOnly_ret {σ β : Type} (a : Action) : (Stmt.ret a : Stmt σ β).QueryOnly := by
  intro d
  rw [sat_ret]
  simp

theorem queryOnly_bind {σ α β : Type} (m : Stmt σ α) (k : α → Stmt σ β)
    (hm : m.QueryOnly) (hk : ∀ x, (k x).QueryOnly) : (Stmt.bind m k).QueryOnly := by
  intro d
  rw [sat_bind]
  refine stmt_sat_mono (hm d) ?_
  intro r tr d1 htr
  cases r with
  | ret a => exact htr
  | next x =>
    refine stmt_sat_mono (hk x d1) ?_
    intro r2 tr2 d2 htr2 e he
    rcases List.mem_append.1 he with h | h
    · exact htr e h
    · exact htr2 e h

theorem queryOnly_ite {σ β : Type} (c : Prop) [Decidable c] (m1 m2 : Stmt σ β)
    (h1 : m1.QueryOnly) (h2 : m2.QueryOnly) : (if c then m1 else m2).QueryOnly := by
  split_ifs
  · exact h1
  · exact h2

theorem queryOnly_RANGE_CHECK {σ : Type} (value minimum maximum : Nat) :
    (ADI_RANGE_CHECK value minimum maximum : Stmt σ Unit).QueryOnly := by
  unfold ADI_RANGE_CHECK
  exact queryOnly_ite _ _ _ (queryOnly_ret _) (queryOnly_pure _)

theorem queryOnly_expectPure {σ : Type} (a : Action) : (expectPure a : Stmt σ Unit).QueryOnly := by
  unfold expectPure
  exact queryOnly_ite _ _ _ (queryOnly_pure _) (queryOnly_ret _)

theorem queryOnly_callDevVal {σ α : Type} (f : σ → Action × α × σ) (ev : Action → Event)
    (hev : ∀ r, (ev r).isQuery = true) : (callDevVal f ev).QueryOnly := by
  intro d
  rw [sat_callDevVal]
  split_ifs <;> simp [hev]

theorem queryOnly_liftOption_some {σ β : Type} (b : β) :
    (liftOption (some b) : Stmt σ β).QueryOnly := by
  intro d
  rw [sat_liftOption]
  exact ⟨b, rfl, by simp⟩

theorem queryOnly_EXPECT_OUT {σ α : Type} (f : FuncOut σ α)
    (hf : ∀ d, FuncOut.Sat f d (fun _ _ tr _ => ∀ e ∈ tr, e.isQuery = true)) :
    (ADI_EXPECT_OUT f).QueryOnly := by
  intro d
  rw [sat_ADI_EXPECT_OUT]
  refine funcOut_sat_mono (hf d) ?_
  intro a x tr d1 h
  split_ifs <;> exact h

theorem queryOnly_EXPECT {σ : Type} (f : Func σ)
    (hf : ∀ d, Func.Sat f d (fun _ tr _ => ∀ e ∈ tr, e.isQuery = true)) :
    (ADI_EXPECT f).QueryOnly := by
  intro d
  rw [sat_ADI_EXPECT]
  refine func_sat_mono (hf d) ?_
  intro a tr d1 h
  split_ifs <;> exact h

theorem queryOnly_toFunc {σ : Type} (m : Stmt σ Action) (hm : m.QueryOnly) (d : σ) :
    Func.Sat (Stmt.toFunc m) d (fun _ tr _ => ∀ e ∈ tr, e.isQuery = true) := by
  rw [sat_toFunc]
  refine stmt_sat_mono (hm d) ?_
  intro r tr d1 h
  cases r <;> exact h

theorem queryOnly_toFuncOut {σ α : Type} (out : α) (m : Stmt σ α) (hm : m.QueryOnly) (d : σ) :
    FuncOut.Sat (Stmt.toFuncOut out m) d (fun _ _ tr _ => ∀ e ∈ tr, e.isQuery = true) := by
  rw [sat_toFuncOut]
  refine stmt_sat_mono (hm d) ?_
  intro r tr d1 h
  cases r <;> exact h

/-- The single-channel state query is total and only reads the status
register. -/
theorem sat_Channel_State_Get {σ : Type} (hal : Platform σ) (port : adi_common_Port_e)
    (channel : adi_common_ChannelNumber_e) (st : Nat) (d : σ) :
    FuncOut.Sat (adi_adrv9001_Radio_Channel_State_Get hal port channel st) d
      (fun _ _ tr _ => ∀ e ∈ tr, e.isQuery = true) := by
  unfold adi_adrv9001_Radio_Channel_State_Get adi_adrv9001_Radio_Channel_State_Get_Validate
  refine queryOnly_toFuncOut _ _ ?_ d
  simp only [stmt_bind_eq, stmt_pure_eq]
  refine queryOnly_bind _ _ (queryOnly_EXPECT _ (fun d => queryOnly_toFunc _ ?_ d)) (fun _ => ?_)
  · exact queryOnly_bind _ _ (queryOnly_RANGE_CHECK _ _ _) (fun _ =>
      queryOnly_bind _ _ (queryOnly_RANGE_CHECK _ _ _) (fun _ => queryOnly_pure _))
  · refine queryOnly_bind _ _ (queryOnly_callDevVal _ _ (fun r => rfl)) (fun v => ?_)
    repeat (first | exact queryOnly_pure _ | apply queryOnly_ite)

/-- The carrier validation is total and only makes read-only queries. -/
theorem sat_Carrier_Configure_Validate {σ : Type} (hal : Platform σ) (port : adi_common_Port_e)
    (channel : adi_common_ChannelNumber_e) (carrier : adi_adrv9001_Carrier_t) (d : σ) :
    Func.Sat (adi_adrv9001_Radio_Carrier_Configure_Validate hal port channel carrier) d
      (fun _ tr _ => ∀ e ∈ tr, e.isQuery = true) := by
  unfold adi_adrv9001_Radio_Carrier_Configure_Validate
  refine queryOnly_toFunc _ ?_ d
  simp only [stmt_bind_eq, stmt_pure_eq]
  repeat (first
    | exact queryOnly_pure _
    | exact queryOnly_ret _
    | exact queryOnly_RANGE_CHECK _ _ _
    | exact queryOnly_expectPure _
    | exact queryOnly_EXPECT_OUT _ (fun d => sat_Channel_State_Get hal port channel _ d)
    | apply queryOnly_ite
    | (apply queryOnly_bind; swap; intro _))

theorem sat_Carrier_Inspect_Validate {σ : Type} (hal : Platform σ) (port : adi_common_Port_e)
    (channel : adi_common_ChannelNumber_e) (d : σ) :
    Func.Sat (adi_adrv9001_Radio_Carrier_Inspect_Validate hal port channel) d
      (fun _ tr _ => ∀ e ∈ tr, e.isQuery = true) := by
  unfold adi_adrv9001_Radio_Carrier_Inspect_Validate
  refine queryOnly_toFunc _ ?_ d
  simp only [stmt_bind_eq, stmt_pure_eq]
  repeat (first
    | exact queryOnly_pure _
    | exact queryOnly_expectPure _
    | (apply queryOnly_bind; swap; intro _))

theorem sat_PllLoopFilter_Set_Validate {σ : Type} (pll : adi_adrv9001_Pll_e)
    (cfg : adi_adrv9001_PllLoopFilterCfg_t) (d : σ) :
    Func.Sat (adi_adrv9001_Radio_PllLoopFilter_Set_Validate pll cfg) d
      (fun _ tr _ => ∀ e ∈ tr, e.isQuery = true) := by
  unfold adi_adrv9001_Radio_PllLoopFilter_Set_Validate
  refine queryOnly_toFunc _ ?_ d
  simp only [stmt_bind_eq, stmt_pure_eq]
  repeat (first
    | exact queryOnly_pure _
    | exact queryOnly_RANGE_CHECK _ _ _
    | (apply queryOnly_bind; swap; intro _))

theorem sat_PllLoopFilter_Get_Validate {σ : Type} (pll : adi_adrv9001_Pll_e) (d : σ) :
    Func.Sat (adi_adrv9001_Radio_PllLoopFilter_Get_Validate pll) d
      (fun _ tr _ => ∀ e ∈ tr, e.isQuery = true) := by
  unfold adi_adrv9001_Radio_PllLoopFilter_Get_Validate
  refine queryOnly_toFunc _ ?_ d
  simp only [stmt_bind_eq, stmt_pure_eq]
  repeat (first
    | exact queryOnly_pure _
    | exact queryOnly_RANGE_CHECK _ _ _
    | (apply queryOnly_bind; swap; intro _))

theorem sat_Delays_Configure_Validate {σ : Type} (hal : Platform σ) (port : adi_common_Port_e)
    (channel : adi_common_ChannelNumber_e) (delays : adi_adrv9001_ChannelEnablementDelays_t)
    (d : σ) :
    Func.Sat (adi_adrv9001_Radio_ChannelEnablementDelays_Configure_Validate hal port channel
        delays) d
      (fun _ tr _ => ∀ e ∈ tr, e.isQuery = true) := by
  unfold adi_adrv9001_Radio_ChannelEnablementDelays_Configure_Validate
  refine queryOnly_toFunc _ ?_ d
  simp only [stmt_bind_eq, stmt_pure_eq]
  have hsig : ∃ sig, (frontendControlSignals.getD (adi_common_port_to_index port 0) []).get?
      (adi_common_channel_to_index channel 0) = some sig := by
    cases port <;> cases channel <;>
      simp [frontendControlSignals, adi_common_port_to_index, adi_common_channel_to_index]
  obtain ⟨sig, hsig⟩ := hsig
  rw [hsig]
  repeat (first
    | exact queryOnly_pure _
    | exact queryOnly_ret _
    | exact queryOnly_RANGE_CHECK _ _ _
    | exact queryOnly_liftOption_some _
    | exact queryOnly_callDevVal _ _ (fun r => rfl)
    | exact queryOnly_EXPECT_OUT _ (fun d => sat_Channel_State_Get hal port channel _ d)
    | apply queryOnly_ite
    | (apply queryOnly_bind; swap; intro _))

theorem sat_Delays_Inspect_Validate {σ : Type} (hal : Platform σ) (port : adi_common_Port_e)
    (channel : adi_common_ChannelNumber_e) (d : σ) :
    Func.Sat (adi_adrv9001_Radio_ChannelEnablementDelays_Inspect_Validate hal port channel) d
      (fun _ tr _ => ∀ e ∈ tr, e.isQuery = true) := by
  unfold adi_adrv9001_Radio_ChannelEnablementDelays_Inspect_Validate
  refine queryOnly_toFunc _ ?_ d
  simp only [stmt_bind_eq, stmt_pure_eq]
  repeat (first
    | exact queryOnly_pure _
    | exact queryOnly_ret _
    | exact queryOnly_RANGE_CHECK _ _ _
    | exact queryOnly_EXPECT_OUT _ (fun d => sat_Channel_State_Get hal port channel _ d)
    | apply queryOnly_ite
    | (apply queryOnly_bind; swap; intro _))

theorem sat_PowerDown_Validate {σ : Type} (hal : Platform σ) (fuel : Nat)
    (batch : List (adi_common_Port_e × adi_common_ChannelNumber_e)) (d : σ)
    (hlen : batch.length ≤ 255) (hfuel : batch.length < fuel) :
    Func.Sat (adi_adrv9001_Radio_Channels_PowerDown_Validate hal fuel batch) d
      (fun _ tr _ => ∀ e ∈ tr, e.isQuery = true) := by
  unfold adi_adrv9001_Radio_Channels_PowerDown_Validate
  simp only [stmt_bind_eq, stmt_pure_eq, sat_toFunc, sat_bind, sat_ADI_EXPECT_OUT]
  refine funcOut_sat_mono (sat_State_Get hal _ d) ?_
  intro a rs tr1 d1 htr1
  have hq1 : ∀ e ∈ tr1, e.isQuery = true := by
    intro e he
    obtain ⟨addr, r, rfl⟩ := htr1 e he
    rfl
  by_cases ha : a = ADI_COMMON_ACT_NO_ACTION
  · rw [if_pos ha]
    refine stmt_sat_mono (sat_forU8 batch.length _
      (fun _ _ tr _ => tr = [])
      (fun _ tr _ => tr = [])
      hlen ?_ ?_ fuel 0 (0, 0) [] d1 (Nat.zero_le _) (by omega) rfl) ?_
    · intro i b tr dd _ htr
      subst htr
      split_ifs
      · simp [ADI_ERROR_REPORT_RETURN, sat_ret]
      · simp [sat_pure]
    · intro b tr dd htr
      exact htr
    · intro r tr dd htr
      simp only [List.nil_append] at htr
      subst htr
      cases r with
      | ret a2 => simpa using hq1
      | next b =>
        simp only [sat_pure]
        simpa using hq1
  · rw [if_neg ha]
    exact hq1

theorem MailboxChannel_Get_eq (fuel : Nat) (port : adi_common_Port_e)
    (channel : adi_common_ChannelNumber_e) (hfuel : 2 ≤ fuel) :
    adi_adrv9001_Radio_MailboxChannel_Get fuel port channel =
      some (batchMask [(port, channel)]) := by
  unfold adi_adrv9001_Radio_MailboxChannel_Get
  exact MailboxChannelMask_Get_eq fuel _ (by simp) (by simpa using hfuel)

theorem timeoutRespected_nil (a : Action) : timeoutRespected a [] :=
  timeoutRespected_of_no_failed_wait a [] (by simp)

/-- Timeout obligation of `adi_adrv9001_Radio_Carrier_Configure`. -/
theorem sat_Carrier_Configure_timeout {σ : Type} (hal : Platform σ) (fuel : Nat)
    (port : adi_common_Port_e) (channel : adi_common_ChannelNumber_e)
    (carrier : adi_adrv9001_Carrier_t) (d : σ) (hfuel : 2 ≤ fuel) :
    ∃ a tr d2, adi_adrv9001_Radio_Carrier_Configure hal fuel port channel carrier d =
      some (a, tr, d2) ∧ timeoutRespected a tr := by
  show Func.Sat _ d (fun a tr _ => timeoutRespected a tr)
  unfold adi_adrv9001_Radio_Carrier_Configure
  simp only [stmt_bind_eq, stmt_pure_eq, sat_toFunc, sat_bind, sat_ADI_EXPECT]
  refine func_sat_mono (sat_Carrier_Configure_Validate hal port channel carrier d) ?_
  intro av trv dv hv
  by_cases hav : av = ADI_COMMON_ACT_NO_ACTION
  · rw [if_pos hav]
    simp only [sat_callDev, sat_liftOption, MailboxChannel_Get_eq fuel port channel hfuel,
      Option.some.injEq, exists_eq_left', sat_pure]
    split_ifs <;> refine timeoutRespected_append_queries _ _ _ hv ?_ <;>
      simp_all [timeoutRespected, stopsAtFailedWait, Event.isFailedWait, enableWrites,
        Event.isEnableWrite, Event.isMailboxRead]
  · rw [if_neg hav]
    exact timeoutRespected_of_no_failed_wait _ _
      (fun e he => isFailedWait_of_isQuery e (hv e he))

/-- Timeout obligation of `adi_adrv9001_Radio_Carrier_Inspect`; after a failed
wait the caller's structure is unmodified. -/
theorem sat_Carrier_Inspect_timeout {σ : Type} (hal : Platform σ) (fuel : Nat)
    (port : adi_common_Port_e) (channel : adi_common_ChannelNumber_e)
    (carrier : adi_adrv9001_Carrier_t) (d : σ) (hfuel : 2 ≤ fuel) :
    ∃ a out tr d2, adi_adrv9001_Radio_Carrier_Inspect hal fuel port channel carrier d =
      some (a, out, tr, d2) ∧ timeoutRespected a tr ∧
      (tr.any Event.isFailedWait = true → out = carrier) := by
  show FuncOut.Sat _ d (fun a out tr _ => timeoutRespected a tr ∧
    (tr.any Event.isFailedWait = true → out = carrier))
  unfold adi_adrv9001_Radio_Carrier_Inspect
  simp only [stmt_bind_eq, stmt_pure_eq, sat_toFuncOut, sat_bind, sat_ADI_EXPECT]
  refine func_sat_mono (sat_Carrier_Inspect_Validate hal port channel d) ?_
  intro av trv dv hv
  have hvf : ∀ e ∈ trv, e.isFailedWait = false := fun e he => isFailedWait_of_isQuery e (hv e he)
  by_cases hav : av = ADI_COMMON_ACT_NO_ACTION
  · rw [if_pos hav]
    simp only [sat_callDev, sat_callDevVal, sat_liftOption,
      MailboxChannel_Get_eq fuel port channel hfuel, Option.some.injEq, exists_eq_left', sat_pure]
    split_ifs <;> refine ⟨timeoutRespected_append_queries _ _ _ hv ?_, ?_⟩ <;>
      simp_all [timeoutRespected, stopsAtFailedWait, Event.isFailedWait, enableWrites,
        Event.isEnableWrite, Event.isMailboxRead, any_failed_wait_append_of_none]
  · rw [if_neg hav]
    refine ⟨timeoutRespected_of_no_failed_wait _ _ hvf, fun h => ?_⟩
    have := any_failed_wait_append_of_none trv [] hvf
    simp only [List.append_nil] at this
    rw [this] at h
    simp at h

/-- Timeout obligation of `adi_adrv9001_Radio_PllLoopFilter_Set`. -/
theorem sat_PllLoopFilter_Set_timeout {σ : Type} (hal : Platform σ) (pll : adi_adrv9001_Pll_e)
    (cfg : adi_adrv9001_PllLoopFilterCfg_t) (d : σ)  :
    ∃ a tr d2, adi_adrv9001_Radio_PllLoopFilter_Set hal pll cfg d = some (a, tr, d2) ∧ timeoutRespected a tr := by
  show Func.Sat _ d (fun a tr _ => timeoutRespected a tr)
  unfold adi_adrv9001_Radio_PllLoopFilter_Set
  simp only [stmt_bind_eq, stmt_pure_eq, sat_toFunc, sat_bind, sat_ADI_EXPECT]
  refine func_sat_mono (sat_PllLoopFilter_Set_Validate pll cfg d) ?_
  intro av trv dv hv
  by_cases hav : av = ADI_COMMON_ACT_NO_ACTION
  · rw [if_pos hav]
    simp only [sat_callDev, sat_liftOption, Option.some.injEq, exists_eq_left', sat_pure]
    split_ifs <;> refine timeoutRespected_append_queries _ _ _ hv ?_ <;>
      simp_all [timeoutRespected, stopsAtFailedWait, Event.isFailedWait, enableWrites,
        Event.isEnableWrite, Event.isMailboxRead]
  · rw [if_neg hav]
    exact timeoutRespected_of_no_failed_wait _ _
      (fun e he => isFailedWait_of_isQuery e (hv e he))

/-- Timeout obligation of `adi_adrv9001_Radio_PllLoopFilter_Get`; after a failed wait the caller's structure
is unmodified. -/
theorem sat_PllLoopFilter_Get_timeout {σ : Type} (hal : Platform σ) (pll : adi_adrv9001_Pll_e)
    (cfg : adi_adrv9001_PllLoopFilterCfg_t) (d : σ)  :
    ∃ a out tr d2, adi_adrv9001_Radio_PllLoopFilter_Get hal pll cfg d = some (a, out, tr, d2) ∧ timeoutRespected a tr ∧
      (tr.any Event.isFailedWait = true → out = cfg) := by
  show FuncOut.Sat _ d (fun a out tr _ => timeoutRespected a tr ∧
    (tr.any Event.isFailedWait = true → out = cfg))
  unfold adi_adrv9001_Radio_PllLoopFilter_Get
  simp only [stmt_bind_eq, stmt_pure_eq, sat_toFuncOut, sat_bind, sat_ADI_EXPECT]
  refine func_sat_mono (sat_PllLoopFilter_Get_Validate pll d) ?_
  intro av trv dv hv
  have hvf : ∀ e ∈ trv, e.isFailedWait = false := fun e he => isFailedWait_of_isQuery e (hv e he)
  by_cases hav : av = ADI_COMMON_ACT_NO_ACTION
  · rw [if_pos hav]
    simp only [sat_callDev, sat_callDevVal, sat_liftOption, Option.some.injEq,
      exists_eq_left', sat_pure]
    split_ifs <;> refine ⟨timeoutRespected_append_queries _ _ _ hv ?_, ?_⟩ <;>
      simp_all [timeoutRespected, stopsAtFailedWait, Event.isFailedWait, enableWrites,
        Event.isEnableWrite, Event.isMailboxRead, any_failed_wait_append_of_none]
  · rw [if_neg hav]
    refine ⟨timeoutRespected_of_no_failed_wait _ _ hvf, fun h => ?_⟩
    have := any_failed_wait_append_of_none trv [] hvf
    simp only [List.append_nil] at this
    rw [this] at h
    simp at h

/-- Timeout obligation of `adi_adrv9001_Radio_ChannelEnablementDelays_Configure`. -/
theorem sat_Delays_Configure_timeout {σ : Type} (hal : Platform σ) (fuel : Nat)
    (port : adi_common_Port_e) (channel : adi_common_ChannelNumber_e)
    (delays : adi_adrv9001_ChannelEnablementDelays_t) (d : σ) (hfuel : 2 ≤ fuel) :
    ∃ a tr d2, adi_adrv9001_Radio_ChannelEnablementDelays_Configure hal fuel port channel delays d = some (a, tr, d2) ∧ timeoutRespected a tr := by
  show Func.Sat _ d (fun a tr _ => timeoutRespected a tr)
  unfold adi_adrv9001_Radio_ChannelEnablementDelays_Configure
  simp only [stmt_bind_eq, stmt_pure_eq, sat_toFunc, sat_bind, sat_ADI_EXPECT]
  refine func_sat_mono (sat_Delays_Configure_Validate hal port channel delays d) ?_
  intro av trv dv hv
  by_cases hav : av = ADI_COMMON_ACT_NO_ACTION
  · rw [if_pos hav]
    simp only [sat_callDev, sat_liftOption, MailboxChannel_Get_eq fuel port channel hfuel, Option.some.injEq, exists_eq_left', sat_pure]
    split_ifs <;> refine timeoutRespected_append_queries _ _ _ hv ?_ <;>
      simp_all [timeoutRespected, stopsAtFailedWait, Event.isFailedWait, enableWrites,
        Event.isEnableWrite, Event.isMailboxRead]
  · rw [if_neg hav]
    exact timeoutRespected_of_no_failed_wait _ _
      (fun e he => isFailedWait_of_isQuery e (hv e he))

/-- Timeout obligation of `adi_adrv9001_Radio_ChannelEnablementDelays_Inspect`; after a failed wait the caller's structure
is unmodified. -/
theorem sat_Delays_Inspect_timeout {σ : Type} (hal : Platform σ) (fuel : Nat)
    (port : adi_common_Port_e) (channel : adi_common_ChannelNumber_e)
    (delays : adi_adrv9001_ChannelEnablementDelays_t) (d : σ) (hfuel : 2 ≤ fuel) :
    ∃ a out tr d2, adi_adrv9001_Radio_ChannelEnablementDelays_Inspect hal fuel port channel delays d = some (a, out, tr, d2) ∧ timeoutRespected a tr ∧
      (tr.any Event.isFailedWait = true → out = delays) := by
  show FuncOut.Sat _ d (fun a out tr _ => timeoutRespected a tr ∧
    (tr.any Event.isFailedWait = true → out = delays))
  unfold adi_adrv9001_Radio_ChannelEnablementDelays_Inspect
  simp only [stmt_bind_eq, stmt_pure_eq, sat_toFuncOut, sat_bind, sat_ADI_EXPECT]
  refine func_sat_mono (sat_Delays_Inspect_Validate hal port channel d) ?_
  intro av trv dv hv
  have hvf : ∀ e ∈ trv, e.isFailedWait = false := fun e he => isFailedWait_of_isQuery e (hv e he)
  by_cases hav : av = ADI_COMMON_ACT_NO_ACTION
  · rw [if_pos hav]
    simp only [sat_callDev, sat_callDevVal, sat_liftOption, MailboxChannel_Get_eq fuel port channel hfuel, Option.some.injEq,
      exists_eq_left', sat_pure]
    split_ifs <;> refine ⟨timeoutRespected_append_queries _ _ _ hv ?_, ?_⟩ <;>
      simp_all [timeoutRespected, stopsAtFailedWait, Event.isFailedWait, enableWrites,
        Event.isEnableWrite, Event.isMailboxRead, any_failed_wait_append_of_none]
  · rw [if_neg hav]
    refine ⟨timeoutRespected_of_no_failed_wait _ _ hvf, fun h => ?_⟩
    have := any_failed_wait_append_of_none trv [] hvf
    simp only [List.append_nil] at this
    rw [this] at h
    simp at h

/-- Timeout obligation of `adi_adrv9001_Radio_Channels_PowerDown`. -/
theorem sat_PowerDown_timeout {σ : Type} (hal : Platform σ) (fuel : Nat)
    (batch : List (adi_common_Port_e × adi_common_ChannelNumber_e)) (d : σ)
    (hlen : batch.length ≤ 255) (hfuel : batch.length < fuel) :
    ∃ a tr d2, adi_adrv9001_Radio_Channels_PowerDown hal fuel batch d = some (a, tr, d2) ∧
      timeoutRespected a tr := by
  show Func.Sat _ d (fun a tr _ => timeoutRespected a tr)
  unfold adi_adrv9001_Radio_Channels_PowerDown
  simp only [stmt_bind_eq, stmt_pure_eq, sat_toFunc, sat_bind, sat_ADI_EXPECT, sat_expectPure]
  by_cases hg : hal.adi_adrv9001_Channel_State_GenericValidate batch = ADI_COMMON_ACT_NO_ACTION
  · rw [if_pos hg]
    refine func_sat_mono (sat_PowerDown_Validate hal fuel batch d hlen hfuel) ?_
    intro av trv dv hv
    by_cases hav : av = ADI_COMMON_ACT_NO_ACTION
    · rw [if_pos hav]
      simp only [sat_callDev, sat_liftOption, MailboxChannelMask_Get_eq fuel batch hlen hfuel,
        Option.some.injEq, exists_eq_left', sat_pure, List.nil_append]
      split_ifs <;> refine timeoutRespected_append_queries _ _ _ hv ?_ <;>
        simp_all [timeoutRespected, stopsAtFailedWait, Event.isFailedWait, enableWrites,
          Event.isEnableWrite, Event.isMailboxRead]
    · rw [if_neg hav]
      exact timeoutRespected_of_no_failed_wait _ _
        (fun e he => isFailedWait_of_isQuery e (hv e (by simpa using he)))
  · rw [if_neg hg]
    exact timeoutRespected_nil _

/-- Timeout obligation of `adi_adrv9001_Radio_Channels_PowerUp`. -/
theorem sat_PowerUp_timeout {σ : Type} (hal : Platform σ) (fuel : Nat)
    (batch : List (adi_common_Port_e × adi_common_ChannelNumber_e)) (d : σ)
    (hlen : batch.length ≤ 255) (hfuel : batch.length < fuel) :
    ∃ a tr d2, adi_adrv9001_Radio_Channels_PowerUp hal fuel batch d = some (a, tr, d2) ∧
      timeoutRespected a tr := by
  show Func.Sat _ d (fun a tr _ => timeoutRespected a tr)
  unfold adi_adrv9001_Radio_Channels_PowerUp
  simp only [stmt_bind_eq, stmt_pure_eq, sat_toFunc, sat_bind, sat_expectPure]
  by_cases hg : hal.adi_adrv9001_Channel_State_GenericValidate batch = ADI_COMMON_ACT_NO_ACTION
  · rw [if_pos hg]
    simp only [sat_callDev, sat_liftOption, MailboxChannelMask_Get_eq fuel batch hlen hfuel,
      Option.some.injEq, exists_eq_left', sat_pure, List.nil_append]
    split_ifs <;>
      simp_all [timeoutRespected, stopsAtFailedWait, Event.isFailedWait, enableWrites,
        Event.isEnableWrite, Event.isMailboxRead]
  · rw [if_neg hg]
    exact timeoutRespected_nil _

theorem isFailedWait_of_noMailboxAccess (tr : List Event) (h : noMailboxAccess tr) :
    ∀ e ∈ tr, e.isFailedWait = false := by
  intro e he
  have := (h e he).1
  cases e <;> simp_all [Event.isWait, Event.isFailedWait]

/-- Timeout obligation of `adi_adrv9001_Radio_Channels_Prime`: after a failed
wait no errata compensation is run. -/
theorem sat_Prime_timeout {σ : Type} (hal : Platform σ) (fuel : Nat)
    (batch : List (adi_common_Port_e × adi_common_ChannelNumber_e)) (prime : Bool) (d : σ)
    (hlen : batch.length ≤ 255) (hfuel : batch.length < fuel) (h6 : 6 ≤ fuel) :
    ∃ a tr d2, adi_adrv9001_Radio_Channels_Prime hal fuel batch prime d = some (a, tr, d2) ∧
      timeoutRespected a tr := by
  obtain ⟨a0, rs0, tr0, d0, hread0, h0⟩ := State_Get_total hal adi_adrv9001_RadioState_t.zero d
  have hq0 : ∀ e ∈ tr0, e.isQuery = true := by
    intro e he
    obtain ⟨addr, r, rfl⟩ := h0 e he
    rfl
  obtain ⟨a, tr, d2, heq, hcase⟩ :=
    sat_Channels_Prime hal fuel batch prime d a0 rs0 tr0 d0 hlen hfuel h6 hread0
  refine ⟨a, tr, d2, heq, ?_⟩
  rcases hcase with ⟨_, h | h⟩ | ⟨ha, h⟩ | ⟨ha, h⟩ | ⟨_, ha, h⟩ | ⟨_, trF, h, hF⟩
  · subst h
    exact timeoutRespected_nil _
  · subst h
    exact timeoutRespected_of_no_failed_wait _ _ (fun e he => isFailedWait_of_isQuery e (hq0 e he))
  · subst h
    refine timeoutRespected_append_queries _ _ _ hq0 ?_
    simp [timeoutRespected, stopsAtFailedWait, Event.isFailedWait]
  · subst h
    refine timeoutRespected_append_queries _ _ _ hq0 ?_
    simp [timeoutRespected, stopsAtFailedWait, Event.isFailedWait, ha, enableWrites,
      Event.isEnableWrite, Event.isMailboxRead]
  · subst h ha
    refine timeoutRespected_append_queries _ _ _ hq0 ?_
    simp [timeoutRespected, stopsAtFailedWait, Event.isFailedWait]
  · subst h
    obtain ⟨aF, trF2, dF, hF2, hqF, _⟩ := sat_ToPrimed_Fix hal fuel batch _ hlen hfuel h6
    rw [hF] at hF2
    simp only [Option.some.injEq, Prod.mk.injEq] at hF2
    obtain ⟨rfl, rfl, rfl⟩ := hF2
    rw [List.append_assoc]
    refine timeoutRespected_append_queries _ _ _ hq0 ?_
    refine timeoutRespected_of_no_failed_wait _ _ ?_
    intro e he
    simp only [List.cons_append, List.nil_append, List.mem_cons] at he
    rcases he with rfl | rfl | he
    · rfl
    · simp [Event.isFailedWait]
    · exact isFailedWait_of_noMailboxAccess _ hqF e he

/-! ## The channel state machine on an ideal device -/

/-- On an ideal device the radio state read succeeds, leaves the device as it
is and shows the state of every RX/TX channel. -/
theorem ideal_State_Get {σ : Type} {hal : Platform σ} {good : σ → Prop}
    {st : σ → adi_common_Port_e → adi_common_ChannelNumber_e → Nat}
    (I : IdealDevice hal good st) (rs0 : adi_adrv9001_RadioState_t) (d : σ) (hg : good d) :
    ∃ rs, adi_adrv9001_Radio_State_Get hal rs0 d =
        some (ADI_COMMON_ACT_NO_ACTION, rs, statusReadEvents, d) ∧
      ∀ p c, p ≠ ADI_ORX → channelStateIn rs p c = st d p c := by
  obtain ⟨v8, h8⟩ := I.read8 d hg
  obtain ⟨v9, h9, h1, h2, h3, h4⟩ := I.read9 d hg
  refine ⟨{ systemState := (v8 % 256) &&& 0x03, monitorModeState := ((v8 % 256) >>> 2) &&& 0x03,
              bootState := ((v8 % 256) >>> 4) &&& 0x0F,
              channelStates := [[((v9 % 256) >>> 0) &&& 0x03, ((v9 % 256) >>> 2) &&& 0x03],
                [((v9 % 256) >>> 4) &&& 0x03, ((v9 % 256) >>> 6) &&& 0x03]] }, ?_, ?_⟩
  · unfold adi_adrv9001_Radio_State_Get
    simp only [h8, h9, ne_eq, not_true_eq_false, if_false]
    rfl
  · intro p c hp
    cases p <;> cases c <;>
      simp_all [channelStateIn, adi_adrv9001_RadioState_t.stateAt, adi_common_port_to_index,
        adi_common_channel_to_index]

/-- On an ideal device the enable-mode query of an RX/TX channel reports the
SPI mode. -/
theorem ideal_ChannelEnableMode_Get {σ : Type} {hal : Platform σ} {good : σ → Prop}
    {st : σ → adi_common_Port_e → adi_common_ChannelNumber_e → Nat}
    (I : IdealDevice hal good st) (p : adi_common_Port_e) (c : adi_common_ChannelNumber_e)
    (mode : Nat) (d : σ) (hg : good d) (hp : p ≠ ADI_ORX) :
    adi_adrv9001_Radio_ChannelEnableMode_Get hal p c mode d =
      some (ADI_COMMON_ACT_NO_ACTION, ADI_ADRV9001_SPI_MODE,
        [Event.pinModeGet (bbicFieldOf p c) ADI_COMMON_ACT_NO_ACTION], d) := by
  obtain ⟨_, hpv, hcv⟩ := I.validators p c hp
  obtain ⟨v, hv, hv0⟩ := I.pinMode p c d hg hp
  have key : FuncOut.Sat (adi_adrv9001_Radio_ChannelEnableMode_Get hal p c mode) d
      (fun a x tr d1 => a = ADI_COMMON_ACT_NO_ACTION ∧ x = ADI_ADRV9001_SPI_MODE ∧
        tr = [Event.pinModeGet (bbicFieldOf p c) ADI_COMMON_ACT_NO_ACTION] ∧ d1 = d) := by
    unfold adi_adrv9001_Radio_ChannelEnableMode_Get
      adi_adrv9001_Radio_ChannelEnableMode_Get_Validate
    simp only [stmt_bind_eq, stmt_pure_eq, sat_toFuncOut, sat_toFunc, sat_bind, sat_expectPure,
      sat_ADI_EXPECT, sat_pure, hpv, hcv, if_true]
    cases p <;> cases c <;>
      simp_all [sat_callDevVal, sat_pure, sat_ret, ADI_ERROR_REPORT_RETURN, bbicFieldOf, sat_bind]
  obtain ⟨a, x, tr, d1, heq, rfl, rfl, rfl, rfl⟩ := key
  exact heq

/-- On an ideal device the single-channel RF enable or disable of a PRIMED or
RF_ENABLED channel succeeds and acts on that channel only. -/
theorem ideal_Channel_EnableRf {σ : Type} {hal : Platform σ} {good : σ → Prop}
    {st : σ → adi_common_Port_e → adi_common_ChannelNumber_e → Nat}
    (I : IdealDevice hal good st) (fuel : Nat) (p : adi_common_Port_e)
    (c : adi_common_ChannelNumber_e) (enable : Bool) (d : σ) (hg : good d) (hp : p ≠ ADI_ORX)
    (hfuel : 2 ≤ fuel)
    (hs : st d p c = ADI_ADRV9001_CHANNEL_PRIMED ∨ st d p c = ADI_ADRV9001_CHANNEL_RF_ENABLED) :
    ∃ d1, adi_adrv9001_Radio_Channel_EnableRf hal fuel p c enable d =
        some (ADI_COMMON_ACT_NO_ACTION, enableRfEvents p c enable, d1) ∧ good d1 ∧
      ∀ q e, q ≠ ADI_ORX →
        st d1 q e = if q = p ∧ e = c then enableEffect enable (st d p c) else st d q e := by
  obtain ⟨n, rfl⟩ : ∃ n, fuel = n + 2 := ⟨fuel - 2, by omega⟩
  obtain ⟨hgv, _, _⟩ := I.validators p c hp
  obtain ⟨rs, hrs, hst⟩ := ideal_State_Get I adi_adrv9001_RadioState_t.zero d hg
  obtain ⟨d1, hd1, hg1, hst1⟩ := I.enable p c enable d hg hp
  refine ⟨d1, ?_, hg1, hst1⟩
  rw [← func_sat_eq]
  unfold adi_adrv9001_Radio_Channel_EnableRf adi_adrv9001_Radio_Channels_EnableRf
  have hb : batchAt [(p, c)] 0 = (p, c) := rfl
  have hidx : rs.stateAt (adi_common_port_to_index p 0) (adi_common_channel_to_index c 0) =
      st d p c := hst p c hp
  simp only [stmt_bind_eq, stmt_pure_eq, sat_toFunc, sat_bind, sat_expectPure,
    sat_ADI_EXPECT_OUT, enable_chain_eq, List.length_singleton, forU8_one, hb, hgv, if_true,
    funcOut_sat_of_eq hrs, funcOut_sat_of_eq (ideal_ChannelEnableMode_Get I p c _ d hg hp),
    ne_eq, not_true_eq_false, if_false, hidx, sat_callDev, hd1, sat_pure]
  rcases hs with hs | hs <;>
    simp [hs, enableRfEvents, sat_pure, sat_ret, ADI_ERROR_REPORT_RETURN, sat_bind, sat_callDev,
      hd1]

theorem enableEffect_false_rf : enableEffect false ADI_ADRV9001_CHANNEL_RF_ENABLED =
    ADI_ADRV9001_CHANNEL_PRIMED := by
  decide

theorem enableEffect_true_primed : enableEffect true ADI_ADRV9001_CHANNEL_PRIMED =
    ADI_ADRV9001_CHANNEL_RF_ENABLED := by
  decide

/-- On an ideal device the RF disable of an RF_ENABLED channel with its wait
succeeds at the first state read and leaves the channel PRIMED. -/
theorem ideal_DisableRF_Wait {σ : Type} {hal : Platform σ} {good : σ → Prop}
    {st : σ → adi_common_Port_e → adi_common_ChannelNumber_e → Nat}
    (I : IdealDevice hal good st) (fuel : Nat) (p : adi_common_Port_e)
    (c : adi_common_ChannelNumber_e) (numTries : Nat) (d : σ) (hg : good d) (hp : p ≠ ADI_ORX)
    (hfuel : 2 ≤ fuel) (hn : 1 ≤ numTries)
    (hs : st d p c = ADI_ADRV9001_CHANNEL_RF_ENABLED) :
    ∃ d1, adi_adrv9001_Channel_DisableRF_Wait hal fuel p c numTries d =
        some (ADI_COMMON_ACT_NO_ACTION, enableRfEvents p c false ++ statusReadEvents, d1) ∧
      good d1 ∧
      ∀ q e, q ≠ ADI_ORX →
        st d1 q e = if q = p ∧ e = c then ADI_ADRV9001_CHANNEL_PRIMED else st d q e := by
  obtain ⟨d1, hd1, hg1, hst1⟩ := ideal_Channel_EnableRf I fuel p c false d hg hp hfuel (Or.inr hs)
  rw [hs, enableEffect_false_rf] at hst1
  obtain ⟨rs, hrs, hst⟩ := ideal_State_Get I adi_adrv9001_RadioState_t.zero d1 hg1
  refine ⟨d1, ?_, hg1, hst1⟩
  obtain ⟨n, rfl⟩ : ∃ n, fuel = n + 2 := ⟨fuel - 2, by omega⟩
  have hidx : rs.stateAt (adi_common_port_to_index p 0) (adi_common_channel_to_index c 0) =
      ADI_ADRV9001_CHANNEL_PRIMED := by
    have := hst p c hp
    rw [hst1 p c hp] at this
    simpa [channelStateIn] using this
  have h0 : 0 < numTries := by omega
  rw [← func_sat_eq]
  unfold adi_adrv9001_Channel_DisableRF_Wait
  simp only [stmt_bind_eq, stmt_pure_eq, sat_toFunc, sat_bind, sat_ADI_EXPECT,
    func_sat_of_eq hd1, if_true]
  unfold forU8
  simp only [h0, if_true, sat_bind, sat_ADI_EXPECT_OUT, funcOut_sat_of_eq hrs, hidx, sat_ret]
  simp

/-- On an ideal device the errata compensation of a single-channel batch
succeeds, leaves every channel state as it was and makes no transition of the
batch channel itself. -/
theorem ideal_ToPrimed_Fix {σ : Type} {hal : Platform σ} {good : σ → Prop}
    {st : σ → adi_common_Port_e → adi_common_ChannelNumber_e → Nat}
    (I : IdealDevice hal good st) (fuel : Nat) (p : adi_common_Port_e)
    (c : adi_common_ChannelNumber_e) (d : σ) (hg : good d) (hfuel : 2 ≤ fuel) :
    ∃ tr d1, adi_adrv9001_Radio_ToPrimed_Fix hal fuel [(p, c)] d =
        some (ADI_COMMON_ACT_NO_ACTION, tr, d1) ∧ good d1 ∧
      (∀ q e, q ≠ ADI_ORX → st d1 q e = st d q e) ∧
      tr.filter (Event.isTransitionOf p c) = [] := by
  obtain ⟨rs, hrs, hst⟩ := ideal_State_Get I adi_adrv9001_RadioState_t.zero d hg
  have hb : batchAt [(p, c)] 0 = (p, c) := rfl
  have hidx : rs.stateAt (adi_common_port_to_index ADI_RX 0) (adi_common_channel_to_index c 0) =
      st d ADI_RX c := hst ADI_RX c (by decide)
  have hfuel2 := hfuel
  obtain ⟨n, rfl⟩ : ∃ n, fuel = n + 2 := ⟨fuel - 2, by omega⟩
  by_cases hcomp : p = ADI_TX ∧ st d ADI_RX c = ADI_ADRV9001_CHANNEL_RF_ENABLED
  · obtain ⟨hptx, hrx⟩ := hcomp
    subst hptx
    obtain ⟨d1, hd1, hg1, hst1⟩ :=
      ideal_DisableRF_Wait I (n + 2) ADI_RX c 5 d hg (by decide) hfuel2 (by decide) hrx
    have hrx1 : st d1 ADI_RX c = ADI_ADRV9001_CHANNEL_PRIMED := by
      rw [hst1 ADI_RX c (by decide)]
      simp
    obtain ⟨d2, hd2, hg2, hst2⟩ :=
      ideal_Channel_EnableRf I (n + 2) ADI_RX c true d1 hg1 (by decide) hfuel2 (Or.inl hrx1)
    refine ⟨statusReadEvents ++ ((enableRfEvents ADI_RX c false ++ statusReadEvents) ++
      enableRfEvents ADI_RX c true), d2, ?_, hg2, ?_, ?_⟩
    · rw [← func_sat_eq]
      unfold adi_adrv9001_Radio_ToPrimed_Fix
      simp only [stmt_bind_eq, stmt_pure_eq, sat_toFunc, sat_bind, sat_ADI_EXPECT_OUT,
        funcOut_sat_of_eq hrs, if_true, List.length_singleton, forU8_one, hb, hidx, hrx,
        ne_eq, not_true_eq_false, if_false, sat_ADI_EXPECT, func_sat_of_eq hd1,
        func_sat_of_eq hd2, sat_pure]
      simp
    · intro q e hq
      rw [hst2 q e hq, hrx1, enableEffect_true_primed]
      by_cases hqe : q = ADI_RX ∧ e = c
      · obtain ⟨rfl, rfl⟩ := hqe
        simp [hrx]
      · rw [if_neg hqe, hst1 q e hq, if_neg hqe]
    · cases c <;> decide
  · refine ⟨statusReadEvents, d, ?_, hg, fun _ _ _ => rfl, ?_⟩
    · rw [← func_sat_eq]
      unfold adi_adrv9001_Radio_ToPrimed_Fix
      simp only [stmt_bind_eq, stmt_pure_eq, sat_toFunc, sat_bind, sat_ADI_EXPECT_OUT,
        funcOut_sat_of_eq hrs, if_true, List.length_singleton, forU8_one, hb, hidx]
      by_cases hptx : p = ADI_TX
      · have hrx : ¬ st d ADI_RX c = ADI_ADRV9001_CHANNEL_RF_ENABLED := fun h => hcomp ⟨hptx, h⟩
        simp [hptx, hrx, sat_pure]
      · simp [hptx, sat_pure]
    · cases p <;> cases c <;> decide

theorem batchMask_single_ne_zero (p : adi_common_Port_e) (c : adi_common_ChannelNumber_e) :
    batchMask [(p, c)] ≠ 0 := by
  cases p <;> cases c <;> decide

/-- On an ideal device priming or un-priming a single CALIBRATED or PRIMED
channel succeeds, acts on that channel only, and its one transition of that
channel is the RADIO-ON or RADIO-OFF command. -/
theorem ideal_Channel_Prime {σ : Type} {hal : Platform σ} {good : σ → Prop}
    {st : σ → adi_common_Port_e → adi_common_ChannelNumber_e → Nat}
    (I : IdealDevice hal good st) (fuel : Nat) (p : adi_common_Port_e)
    (c : adi_common_ChannelNumber_e) (prime : Bool) (d : σ) (hg : good d) (hp : p ≠ ADI_ORX)
    (hfuel : 2 ≤ fuel)
    (hs : st d p c = ADI_ADRV9001_CHANNEL_CALIBRATED ∨ st d p c = ADI_ADRV9001_CHANNEL_PRIMED) :
    ∃ tr d1, adi_adrv9001_Radio_Channel_Prime hal fuel p c prime d =
        some (ADI_COMMON_ACT_NO_ACTION, tr, d1) ∧ good d1 ∧
      (∀ q e, q ≠ ADI_ORX →
        st d1 q e = if q = p ∧ e = c then radioEffect prime (st d p c) else st d q e) ∧
      tr.filter (Event.isTransitionOf p c) =
        [Event.cmdWrite (radioOpcode prime) [batchMask [(p, c)]] ADI_COMMON_ACT_NO_ACTION] := by
  obtain ⟨hgv, _, _⟩ := I.validators p c hp
  obtain ⟨rs, hrs, hst⟩ := ideal_State_Get I adi_adrv9001_RadioState_t.zero d hg
  obtain ⟨dC, dW, hC, hW, hgW, hstW⟩ := I.radio p c prime d hg hp
  have hb : batchAt [(p, c)] 0 = (p, c) := rfl
  have hidx : rs.stateAt (adi_common_port_to_index p 0) (adi_common_channel_to_index c 0) =
      st d p c := hst p c hp
  have hmask := MailboxChannelMask_Get_eq fuel [(p, c)] (by simp) (by simpa using hfuel)
  have hcheck : ¬ (st d p c ≠ ADI_ADRV9001_CHANNEL_CALIBRATED ∧
      st d p c ≠ ADI_ADRV9001_CHANNEL_PRIMED) := by
    rcases hs with h | h <;> simp [h]
  have hfilter : ∀ trF : List Event, trF.filter (Event.isTransitionOf p c) = [] →
      (statusReadEvents ++ ([Event.cmdWrite (radioOpcode prime) [batchMask [(p, c)]]
          ADI_COMMON_ACT_NO_ACTION,
        Event.cmdStatusWait (radioOpcode prime) 0 hal.ADI_ADRV9001_RADIOONOFF_TIMEOUT_US
          hal.ADI_ADRV9001_RADIOONOFF_INTERVAL_US ADI_COMMON_ACT_NO_ACTION] ++ trF)).filter
        (Event.isTransitionOf p c) =
      [Event.cmdWrite (radioOpcode prime) [batchMask [(p, c)]] ADI_COMMON_ACT_NO_ACTION] := by
    intro trF hF
    have hop : radioOpcode prime = Opcode.ADRV9001_ARM_RADIOON_OPCODE ∨
        radioOpcode prime = Opcode.ADRV9001_ARM_RADIOOFF_OPCODE := by
      cases prime <;> simp [radioOpcode]
    simp [List.filter_append, hF, statusReadEvents, Event.isTransitionOf, List.filter_cons,
      hop, batchMask_single_ne_zero p c]
  obtain ⟨n, rfl⟩ : ∃ n, fuel = n + 2 := ⟨fuel - 2, by omega⟩
  have key : ∀ (trF : List Event) (dF : σ),
      (if prime = true then ADI_EXPECT (adi_adrv9001_Radio_ToPrimed_Fix hal (n + 2) [(p, c)])
        else Stmt.pure ()) dW = some (Step.next (), trF, dF) →
      adi_adrv9001_Radio_Channel_Prime hal (n + 2) p c prime d =
        some (ADI_COMMON_ACT_NO_ACTION,
          statusReadEvents ++ ([Event.cmdWrite (radioOpcode prime) [batchMask [(p, c)]]
              ADI_COMMON_ACT_NO_ACTION,
            Event.cmdStatusWait (radioOpcode prime) 0 hal.ADI_ADRV9001_RADIOONOFF_TIMEOUT_US
              hal.ADI_ADRV9001_RADIOONOFF_INTERVAL_US ADI_COMMON_ACT_NO_ACTION] ++ trF), dF) := by
    intro trF dF hF
    have hFs : ∀ Q, (if prime = true then
          ADI_EXPECT (adi_adrv9001_Radio_ToPrimed_Fix hal (n + 2) [(p, c)])
        else Stmt.pure ()).Sat dW Q ↔ Q (Step.next ()) trF dF := by
      intro Q
      unfold Stmt.Sat
      rw [hF]
      constructor
      · rintro ⟨r, tr, d2, h1, h2⟩
        simp only [Option.some.injEq, Prod.mk.injEq] at h1
        obtain ⟨rfl, rfl, rfl⟩ := h1
        exact h2
      · intro h
        exact ⟨_, _, _, rfl, h⟩
    rw [← func_sat_eq]
    unfold adi_adrv9001_Radio_Channel_Prime adi_adrv9001_Radio_Channels_Prime
    have hC2 : hal.adi_adrv9001_arm_Cmd_Write
        (if prime = true then Opcode.ADRV9001_ARM_RADIOON_OPCODE
          else Opcode.ADRV9001_ARM_RADIOOFF_OPCODE) [batchMask [(p, c)]] d =
        (ADI_COMMON_ACT_NO_ACTION, dC) := hC
    have hW2 : hal.adrv9001_ARM_CMD_STATUS_WAIT
        (if prime = true then Opcode.ADRV9001_ARM_RADIOON_OPCODE
          else Opcode.ADRV9001_ARM_RADIOOFF_OPCODE) 0 hal.ADI_ADRV9001_RADIOONOFF_TIMEOUT_US
        hal.ADI_ADRV9001_RADIOONOFF_INTERVAL_US dC = (ADI_COMMON_ACT_NO_ACTION, dW) := hW
    simp only [stmt_bind_eq, stmt_pure_eq, sat_toFunc, sat_bind, sat_expectPure,
      sat_ADI_EXPECT_OUT, funcOut_sat_of_eq hrs, hgv, if_true, List.length_singleton, forU8_one,
      hb, hidx, hcheck, if_false, sat_pure, sat_liftOption, hmask, Option.some.injEq,
      exists_eq_left', sat_callDev, hC2, hW2, hFs]
    simp [radioOpcode]
  cases prime with
  | false =>
    refine ⟨_, dW, key [] dW rfl, hgW, hstW, hfilter [] rfl⟩
  | true =>
    obtain ⟨trF, dF, hF, hgF, hstF, hfF⟩ := ideal_ToPrimed_Fix I (n + 2) p c dW hgW (by omega)
    refine ⟨_, dF, key trF dF ?_, hgF, ?_, hfilter trF hfF⟩
    · simp only [if_true]
      unfold ADI_EXPECT
      rw [hF]
      rfl
    · intro q e hq
      rw [hstF q e hq, hstW q e hq]

theorem filter_statusReadEvents (p : adi_common_Port_e) (c : adi_common_ChannelNumber_e) :
    statusReadEvents.filter (Event.isTransitionOf p c) = [] := by
  cases p <;> cases c <;> decide

theorem filter_enableRfEvents (p : adi_common_Port_e) (c : adi_common_ChannelNumber_e)
    (enable : Bool) :
    (enableRfEvents p c enable).filter (Event.isTransitionOf p c) =
      [Event.enableSet (bbicFieldOf p c) enable ADI_COMMON_ACT_NO_ACTION] := by
  cases p <;> cases c <;> cases enable <;> decide

/-- On an ideal device `adi_adrv9001_Radio_Channel_ToCalibrated` brings a
CALIBRATED, PRIMED or RF_ENABLED channel to CALIBRATED by the planned adjacent
transitions. -/
theorem ideal_ToCalibrated {σ : Type} {hal : Platform σ} {good : σ → Prop}
    {st : σ → adi_common_Port_e → adi_common_ChannelNumber_e → Nat}
    (I : IdealDevice hal good st) (fuel : Nat) (p : adi_common_Port_e)
    (c : adi_common_ChannelNumber_e) (d : σ) (hg : good d) (hp : p ≠ ADI_ORX)
    (hfuel : 2 ≤ fuel)
    (hs : st d p c = ADI_ADRV9001_CHANNEL_CALIBRATED ∨ st d p c = ADI_ADRV9001_CHANNEL_PRIMED ∨
      st d p c = ADI_ADRV9001_CHANNEL_RF_ENABLED) :
    ∃ tr d1, adi_adrv9001_Radio_Channel_ToCalibrated hal fuel p c d =
        some (ADI_COMMON_ACT_NO_ACTION, tr, d1) ∧ good d1 ∧
      st d1 p c = ADI_ADRV9001_CHANNEL_CALIBRATED ∧
      tr.filter (Event.isTransitionOf p c) =
        transitionPlan p c (st d p c) ADI_ADRV9001_CHANNEL_CALIBRATED := by
  obtain ⟨rs, hrs, hst⟩ := ideal_State_Get I adi_adrv9001_RadioState_t.zero d hg
  have hidx : rs.stateAt (adi_common_port_to_index p 0) (adi_common_channel_to_index c 0) =
      st d p c := hst p c hp
  rcases hs with hs | hs | hs
  · refine ⟨statusReadEvents, d, ?_, hg, hs, ?_⟩
    · rw [← func_sat_eq]
      unfold adi_adrv9001_Radio_Channel_ToCalibrated
      simp [stmt_bind_eq, stmt_pure_eq, sat_toFunc, sat_bind, sat_ADI_EXPECT_OUT,
        funcOut_sat_of_eq hrs, hidx, hs, sat_pure]
    · rw [hs, filter_statusReadEvents]
      rfl
  · obtain ⟨trP, d1, hP, hg1, hst1, hf1⟩ :=
      ideal_Channel_Prime I fuel p c false d hg hp hfuel (Or.inr hs)
    refine ⟨statusReadEvents ++ trP, d1, ?_, hg1, ?_, ?_⟩
    · rw [← func_sat_eq]
      unfold adi_adrv9001_Radio_Channel_ToCalibrated
      simp [stmt_bind_eq, stmt_pure_eq, sat_toFunc, sat_bind, sat_ADI_EXPECT_OUT,
        funcOut_sat_of_eq hrs, hidx, hs, sat_pure, sat_ADI_EXPECT, func_sat_of_eq hP]
    · rw [hst1 p c hp, hs]
      simp [radioEffect]
    · rw [List.filter_append, filter_statusReadEvents, hf1, hs]
      rfl
  · obtain ⟨d1, hD, hg1, hst1⟩ :=
      ideal_DisableRF_Wait I fuel p c 10 d hg hp hfuel (by decide) hs
    have hs1 : st d1 p c = ADI_ADRV9001_CHANNEL_PRIMED := by
      rw [hst1 p c hp]
      simp
    obtain ⟨trP, d2, hP, hg2, hst2, hf2⟩ :=
      ideal_Channel_Prime I fuel p c false d1 hg1 hp hfuel (Or.inr hs1)
    refine ⟨statusReadEvents ++ ((enableRfEvents p c false ++ statusReadEvents) ++ trP), d2,
      ?_, hg2, ?_, ?_⟩
    · rw [← func_sat_eq]
      unfold adi_adrv9001_Radio_Channel_ToCalibrated
      simp [stmt_bind_eq, stmt_pure_eq, sat_toFunc, sat_bind, sat_ADI_EXPECT_OUT,
        funcOut_sat_of_eq hrs, hidx, hs, sat_pure, sat_ADI_EXPECT, func_sat_of_eq hP,
        func_sat_of_eq hD]
    · rw [hst2 p c hp, hs1]
      simp [radioEffect]
    · simp only [List.filter_append, filter_statusReadEvents, filter_enableRfEvents, hf2, hs]
      rfl

/-- On an ideal device `adi_adrv9001_Radio_Channel_ToPrimed` brings a
CALIBRATED, PRIMED or RF_ENABLED channel to PRIMED by the planned adjacent
transition. -/
theorem ideal_ToPrimed {σ : Type} {hal : Platform σ} {good : σ → Prop}
    {st : σ → adi_common_Port_e → adi_common_ChannelNumber_e → Nat}
    (I : IdealDevice hal good st) (fuel : Nat) (p : adi_common_Port_e)
    (c : adi_common_ChannelNumber_e) (d : σ) (hg : good d) (hp : p ≠ ADI_ORX)
    (hfuel : 2 ≤ fuel)
    (hs : st d p c = ADI_ADRV9001_CHANNEL_CALIBRATED ∨ st d p c = ADI_ADRV9001_CHANNEL_PRIMED ∨
      st d p c = ADI_ADRV9001_CHANNEL_RF_ENABLED) :
    ∃ tr d1, adi_adrv9001_Radio_Channel_ToPrimed hal fuel p c d =
        some (ADI_COMMON_ACT_NO_ACTION, tr, d1) ∧ good d1 ∧
      st d1 p c = ADI_ADRV9001_CHANNEL_PRIMED ∧
      tr.filter (Event.isTransitionOf p c) =
        transitionPlan p c (st d p c) ADI_ADRV9001_CHANNEL_PRIMED := by
  obtain ⟨rs, hrs, hst⟩ := ideal_State_Get I adi_adrv9001_RadioState_t.zero d hg
  have hidx : rs.stateAt (adi_common_port_to_index p 0) (adi_common_channel_to_index c 0) =
      st d p c := hst p c hp
  rcases hs with hs | hs | hs
  · obtain ⟨trP, d1, hP, hg1, hst1, hf1⟩ :=
      ideal_Channel_Prime I fuel p c true d hg hp hfuel (Or.inl hs)
    refine ⟨statusReadEvents ++ trP, d1, ?_, hg1, ?_, ?_⟩
    · rw [← func_sat_eq]
      unfold adi_adrv9001_Radio_Channel_ToPrimed
      simp [stmt_bind_eq, stmt_pure_eq, sat_toFunc, sat_bind, sat_ADI_EXPECT_OUT,
        funcOut_sat_of_eq hrs, hidx, hs, sat_pure, sat_ADI_EXPECT, func_sat_of_eq hP]
    · rw [hst1 p c hp, hs]
      simp [radioEffect]
    · rw [List.filter_append, filter_statusReadEvents, hf1, hs]
      rfl
  · refine ⟨statusReadEvents, d, ?_, hg, hs, ?_⟩
    · rw [← func_sat_eq]
      unfold adi_adrv9001_Radio_Channel_ToPrimed
      simp [stmt_bind_eq, stmt_pure_eq, sat_toFunc, sat_bind, sat_ADI_EXPECT_OUT,
        funcOut_sat_of_eq hrs, hidx, hs, sat_pure]
    · rw [hs, filter_statusReadEvents]
      rfl
  · obtain ⟨d1, hD, hg1, hst1⟩ :=
      ideal_DisableRF_Wait I fuel p c 5 d hg hp hfuel (by decide) hs
    refine ⟨statusReadEvents ++ (enableRfEvents p c false ++ statusReadEvents), d1,
      ?_, hg1, ?_, ?_⟩
    · rw [← func_sat_eq]
      unfold adi_adrv9001_Radio_Channel_ToPrimed
      simp [stmt_bind_eq, stmt_pure_eq, sat_toFunc, sat_bind, sat_ADI_EXPECT_OUT,
        funcOut_sat_of_eq hrs, hidx, hs, sat_pure, sat_ADI_EXPECT, func_sat_of_eq hD]
    · rw [hst1 p c hp]
      simp
    · simp only [List.filter_append, filter_statusReadEvents, filter_enableRfEvents, hs]
      rfl

/-- On an ideal device `adi_adrv9001_Radio_Channel_ToRfEnabled` brings a
CALIBRATED, PRIMED or RF_ENABLED channel to RF_ENABLED by the planned adjacent
transitions. -/
theorem ideal_ToRfEnabled {σ : Type} {hal : Platform σ} {good : σ → Prop}
    {st : σ → adi_common_Port_e → adi_common_ChannelNumber_e → Nat}
    (I : IdealDevice hal good st) (fuel : Nat) (p : adi_common_Port_e)
    (c : adi_common_ChannelNumber_e) (d : σ) (hg : good d) (hp : p ≠ ADI_ORX)
    (hfuel : 2 ≤ fuel)
    (hs : st d p c = ADI_ADRV9001_CHANNEL_CALIBRATED ∨ st d p c = ADI_ADRV9001_CHANNEL_PRIMED ∨
      st d p c = ADI_ADRV9001_CHANNEL_RF_ENABLED) :
    ∃ tr d1, adi_adrv9001_Radio_Channel_ToRfEnabled hal fuel p c d =
        some (ADI_COMMON_ACT_NO_ACTION, tr, d1) ∧ good d1 ∧
      st d1 p c = ADI_ADRV9001_CHANNEL_RF_ENABLED ∧
      tr.filter (Event.isTransitionOf p c) =
        transitionPlan p c (st d p c) ADI_ADRV9001_CHANNEL_RF_ENABLED := by
  obtain ⟨rs, hrs, hst⟩ := ideal_State_Get I adi_adrv9001_RadioState_t.zero d hg
  have hidx : rs.stateAt (adi_common_port_to_index p 0) (adi_common_channel_to_index c 0) =
      st d p c := hst p c hp
  rcases hs with hs | hs | hs
  · obtain ⟨trP, d1, hP, hg1, hst1, hf1⟩ :=
      ideal_Channel_Prime I fuel p c true d hg hp hfuel (Or.inl hs)
    have hs1 : st d1 p c = ADI_ADRV9001_CHANNEL_PRIMED := by
      rw [hst1 p c hp, hs]
      simp [radioEffect]
    obtain ⟨d2, hE, hg2, hst2⟩ :=
      ideal_Channel_EnableRf I fuel p c true d1 hg1 hp hfuel (Or.inl hs1)
    refine ⟨statusReadEvents ++ (trP ++ enableRfEvents p c true), d2, ?_, hg2, ?_, ?_⟩
    · rw [← func_sat_eq]
      unfold adi_adrv9001_Radio_Channel_ToRfEnabled
      simp [stmt_bind_eq, stmt_pure_eq, sat_toFunc, sat_bind, sat_ADI_EXPECT_OUT,
        funcOut_sat_of_eq hrs, hidx, hs, sat_pure, sat_ADI_EXPECT, func_sat_of_eq hP,
        func_sat_of_eq hE]
    · rw [hst2 p c hp, hs1]
      simp [enableEffect]
    · simp only [List.filter_append, filter_statusReadEvents, filter_enableRfEvents, hf1, hs]
      rfl
  · obtain ⟨d2, hE, hg2, hst2⟩ :=
      ideal_Channel_EnableRf I fuel p c true d hg hp hfuel (Or.inl hs)
    refine ⟨statusReadEvents ++ enableRfEvents p c true, d2, ?_, hg2, ?_, ?_⟩
    · rw [← func_sat_eq]
      unfold adi_adrv9001_Radio_Channel_ToRfEnabled
      simp [stmt_bind_eq, stmt_pure_eq, sat_toFunc, sat_bind, sat_ADI_EXPECT_OUT,
        funcOut_sat_of_eq hrs, hidx, hs, sat_pure, sat_ADI_EXPECT, func_sat_of_eq hE]
    · rw [hst2 p c hp, hs]
      simp [enableEffect]
    · simp only [List.filter_append, filter_statusReadEvents, filter_enableRfEvents, hs]
      rfl
  · refine ⟨statusReadEvents, d, ?_, hg, hs, ?_⟩
    · rw [← func_sat_eq]
      unfold adi_adrv9001_Radio_Channel_ToRfEnabled
      simp [stmt_bind_eq, stmt_pure_eq, sat_toFunc, sat_bind, sat_ADI_EXPECT_OUT,
        funcOut_sat_of_eq hrs, hidx, hs, sat_pure]
    · rw [hs, filter_statusReadEvents]
      rfl

/-- On an ideal device `adi_adrv9001_Radio_Channel_ToState` brings a
CALIBRATED, PRIMED or RF_ENABLED channel to any of these targets by the planned
adjacent transitions. -/
theorem ideal_ToState {σ : Type} {hal : Platform σ} {good : σ → Prop}
    {st : σ → adi_common_Port_e → adi_common_ChannelNumber_e → Nat}
    (I : IdealDevice hal good st) (fuel : Nat) (p : adi_common_Port_e)
    (c : adi_common_ChannelNumber_e) (t : Nat) (d : σ) (hg : good d) (hp : p ≠ ADI_ORX)
    (hfuel : 2 ≤ fuel)
    (hs : st d p c = ADI_ADRV9001_CHANNEL_CALIBRATED ∨ st d p c = ADI_ADRV9001_CHANNEL_PRIMED ∨
      st d p c = ADI_ADRV9001_CHANNEL_RF_ENABLED)
    (ht : t = ADI_ADRV9001_CHANNEL_CALIBRATED ∨ t = ADI_ADRV9001_CHANNEL_PRIMED ∨
      t = ADI_ADRV9001_CHANNEL_RF_ENABLED) :
    ∃ tr d1, adi_adrv9001_Radio_Channel_ToState hal fuel p c t d =
        some (ADI_COMMON_ACT_NO_ACTION, tr, d1) ∧ good d1 ∧ st d1 p c = t ∧
      tr.filter (Event.isTransitionOf p c) = transitionPlan p c (st d p c) t := by
  have hval := ToState_Validate_ok (σ := σ) p c t d hp ht
  rcases ht with rfl | rfl | rfl
  · obtain ⟨tr, d1, h1, h2, h3, h4⟩ := ideal_ToCalibrated I fuel p c d hg hp hfuel hs
    refine ⟨tr, d1, ?_, h2, h3, h4⟩
    rw [← func_sat_eq]
    unfold adi_adrv9001_Radio_Channel_ToState
    simp [stmt_bind_eq, stmt_pure_eq, sat_toFunc, sat_bind, sat_ADI_EXPECT, func_sat_of_eq hval,
      func_sat_of_eq h1, sat_pure]
  · obtain ⟨tr, d1, h1, h2, h3, h4⟩ := ideal_ToPrimed I fuel p c d hg hp hfuel hs
    refine ⟨tr, d1, ?_, h2, h3, h4⟩
    rw [← func_sat_eq]
    unfold adi_adrv9001_Radio_Channel_ToState
    simp [stmt_bind_eq, stmt_pure_eq, sat_toFunc, sat_bind, sat_ADI_EXPECT, func_sat_of_eq hval,
      func_sat_of_eq h1, sat_pure]
  · obtain ⟨tr, d1, h1, h2, h3, h4⟩ := ideal_ToRfEnabled I fuel p c d hg hp hfuel hs
    refine ⟨tr, d1, ?_, h2, h3, h4⟩
    rw [← func_sat_eq]
    unfold adi_adrv9001_Radio_Channel_ToState
    simp [stmt_bind_eq, stmt_pure_eq, sat_toFunc, sat_bind, sat_ADI_EXPECT, func_sat_of_eq hval,
      func_sat_of_eq h1, sat_pure]

/-- On an ideal device the single-channel state query of an RX/TX channel
succeeds, leaves the device as it is and returns the state of the channel. -/
theorem ideal_Channel_State_Get {σ : Type} {hal : Platform σ} {good : σ → Prop}
    {st : σ → adi_common_Port_e → adi_common_ChannelNumber_e → Nat}
    (I : IdealDevice hal good st) (p : adi_common_Port_e) (c : adi_common_ChannelNumber_e)
    (x : Nat) (d : σ) (hg : good d) (hp : p ≠ ADI_ORX) :
    adi_adrv9001_Radio_Channel_State_Get hal p c x d =
      some (ADI_COMMON_ACT_NO_ACTION, st d p c,
        [Event.spiReadByte RegAddr.ADRV9001_ADDR_ARM_CMD_STATUS_9 ADI_COMMON_ACT_NO_ACTION], d) := by
  obtain ⟨v9, h9, h1, h2, h3, h4⟩ := I.read9 d hg
  have key : FuncOut.Sat (adi_adrv9001_Radio_Channel_State_Get hal p c x) d
      (fun a y tr d1 => a = ADI_COMMON_ACT_NO_ACTION ∧ y = st d p c ∧
        tr = [Event.spiReadByte RegAddr.ADRV9001_ADDR_ARM_CMD_STATUS_9
          ADI_COMMON_ACT_NO_ACTION] ∧ d1 = d) := by
    unfold adi_adrv9001_Radio_Channel_State_Get adi_adrv9001_Radio_Channel_State_Get_Validate
    cases p <;> cases c <;>
      simp_all [stmt_bind_eq, stmt_pure_eq, sat_toFuncOut, sat_toFunc, sat_bind, sat_ADI_EXPECT,
        sat_ADI_RANGE_CHECK, sat_callDevVal, sat_pure, adi_common_Port_e.toNat,
        adi_common_ChannelNumber_e.toNat]
  obtain ⟨a, y, tr, d1, h, rfl, rfl, rfl, rfl⟩ := key
  exact h

theorem simStatus_decode (a b c e : Fin 4) :
    (((a.val ||| (b.val <<< 2) ||| (c.val <<< 4) ||| (e.val <<< 6)) % 256) >>> 0) &&& 0x03 =
        a.val ∧
    (((a.val ||| (b.val <<< 2) ||| (c.val <<< 4) ||| (e.val <<< 6)) % 256) >>> 2) &&& 0x03 =
        b.val ∧
    (((a.val ||| (b.val <<< 2) ||| (c.val <<< 4) ||| (e.val <<< 6)) % 256) >>> 4) &&& 0x03 =
        c.val ∧
    (((a.val ||| (b.val <<< 2) ||| (c.val <<< 4) ||| (e.val <<< 6)) % 256) >>> 6) &&& 0x03 =
        e.val := by
  revert a b c e
  decide

theorem simEnable_val (enable : Bool) (s : Fin 4) :
    (simEnable enable s).val = enableEffect enable s.val := by
  revert enable s
  decide

theorem simRadioOn_val (s : Fin 4) : (simRadioOn true s).val = radioEffect true s.val := by
  revert s
  decide

theorem simRadioOff_val (s : Fin 4) : (simRadioOff true s).val = radioEffect false s.val := by
  revert s
  decide

theorem simRadioOn_false (s : Fin 4) : simRadioOn false s = s := by
  revert s
  decide

theorem simRadioOff_false (s : Fin 4) : simRadioOff false s = s := by
  revert s
  decide

/-- The simulated device is an ideal device. -/
theorem sim_ideal : IdealDevice simPlatform simGood simState where
  validators := by
    intro p c hp
    cases p <;> cases c <;> first | exact absurd rfl hp | decide
  read8 := by
    intro d _
    exact ⟨d.status8, rfl⟩
  read9 := by
    intro d _
    exact ⟨d.status9, rfl, simStatus_decode d.rx1 d.rx2 d.tx1 d.tx2⟩
  pinMode := by
    intro p c d hg hp
    obtain ⟨_, h1, h2, h3, h4⟩ := hg
    cases p <;> cases c <;>
      first
      | exact absurd rfl hp
      | exact ⟨_, rfl, by assumption⟩
  enable := by
    intro p c enable d hg hp
    cases p <;> cases c <;>
      first
      | exact absurd rfl hp
      | (refine ⟨_, rfl, hg, ?_⟩
         intro q e hq
         cases q <;> cases e <;>
           first
           | exact absurd rfl hq
           | simp [simState, simEnable_val, bbicFieldOf])
  radio := by
    intro p c prime d hg hp
    have hr : d.armResponds = true := hg.1
    refine ⟨simFirmware (radioOpcode prime) [batchMask [(p, c)]] d,
      simFirmware (radioOpcode prime) [batchMask [(p, c)]] d, ?_, ?_, ?_, ?_⟩
    · simp [simPlatform, hr]
    · cases prime <;> simp [simPlatform, hr, simFirmware, radioOpcode]
    · cases prime <;> simpa [simGood, simFirmware, radioOpcode] using hg
    · intro q e hq
      have h24 : (2 &&& 4 : Nat) = 0 := by decide
      have h28 : (2 &&& 8 : Nat) = 0 := by decide
      have h42 : (4 &&& 2 : Nat) = 0 := by decide
      have h48 : (4 &&& 8 : Nat) = 0 := by decide
      have h82 : (8 &&& 2 : Nat) = 0 := by decide
      have h84 : (8 &&& 4 : Nat) = 0 := by decide
      cases p <;> cases c <;> cases prime <;> cases q <;> cases e <;>
        first
        | exact absurd rfl hp
        | exact absurd rfl hq
        | simp [simState, simFirmware, radioOpcode, batchMask, maskStep, ADI_ADRV9001_RX1,
            ADI_ADRV9001_RX2, ADI_ADRV9001_TX1, ADI_ADRV9001_TX2, simRadioOn_val,
            simRadioOff_val, simRadioOn_false, simRadioOff_false, h24, h28, h42, h48, h82, h84]

/-! ## Byte codec lemmas -/

theorem or_shiftLeft_eq_add (x b i : Nat) (hx : x < 2 ^ i) : x ||| (b <<< i) = x + 2 ^ i * b := by
  rw [Nat.or_comm, Nat.shiftLeft_eq, Nat.mul_comm, ← Nat.mul_add_lt_is_or hx, Nat.add_comm]

theorem littleEndianValue_four (b0 b1 b2 b3 : Nat) (h0 : b0 < 256) (h1 : b1 < 256)
    (h2 : b2 < 256) (_h3 : b3 < 256) :
    b0 ||| (b1 <<< 8) ||| (b2 <<< 16) ||| (b3 <<< 24) = littleEndianValue [b0, b1, b2, b3] := by
  rw [or_shiftLeft_eq_add b0 b1 8 (by omega), or_shiftLeft_eq_add _ b2 16 (by omega),
    or_shiftLeft_eq_add _ b3 24 (by omega)]
  simp only [littleEndianValue]
  omega

theorem littleEndianValue_eight (b0 b1 b2 b3 b4 b5 b6 b7 : Nat) (h0 : b0 < 256) (h1 : b1 < 256)
    (h2 : b2 < 256) (h3 : b3 < 256) (h4 : b4 < 256) (h5 : b5 < 256) (h6 : b6 < 256)
    (_h7 : b7 < 256) :
    b0 ||| (b1 <<< 8) ||| (b2 <<< 16) ||| (b3 <<< 24) ||| (b4 <<< 32) ||| (b5 <<< 40) |||
        (b6 <<< 48) ||| (b7 <<< 56) =
      littleEndianValue [b0, b1, b2, b3, b4, b5, b6, b7] := by
  rw [or_shiftLeft_eq_add b0 b1 8 (by omega), or_shiftLeft_eq_add _ b2 16 (by omega),
    or_shiftLeft_eq_add _ b3 24 (by omega), or_shiftLeft_eq_add _ b4 32 (by omega),
    or_shiftLeft_eq_add _ b5 40 (by omega), or_shiftLeft_eq_add _ b6 48 (by omega),
    or_shiftLeft_eq_add _ b7 56 (by omega)]
  simp only [littleEndianValue]
  omega

theorem littleEndianValue_bytes_four (v : Nat) :
    littleEndianValue (littleEndianBytes 4 v) = v % 2 ^ 32 := by
  simp only [littleEndianValue, littleEndianBytes]
  omega

theorem littleEndianValue_bytes_eight (v : Nat) :
    littleEndianValue (littleEndianBytes 8 v) = v % 2 ^ 64 := by
  simp only [littleEndianValue, littleEndianBytes]
  omega

theorem shiftRight_byte (v : Nat) :
    (v >>> 0) % 256 = v % 256 ∧ (v >>> 8) % 256 = v / 256 % 256 ∧
    (v >>> 16) % 256 = v / 256 / 256 % 256 ∧ (v >>> 24) % 256 = v / 256 / 256 / 256 % 256 ∧
    (v >>> 32) % 256 = v / 256 / 256 / 256 / 256 % 256 ∧
    (v >>> 40) % 256 = v / 256 / 256 / 256 / 256 / 256 % 256 ∧
    (v >>> 48) % 256 = v / 256 / 256 / 256 / 256 / 256 / 256 % 256 ∧
    (v >>> 56) % 256 = v / 256 / 256 / 256 / 256 / 256 / 256 / 256 % 256 := by
  refine ⟨rfl, ?_, ?_, ?_, ?_, ?_, ?_, ?_⟩ <;> rw [Nat.shiftRight_eq_div_pow] <;> omega

/-- The payload of the delays: five little-endian 32-bit fields, cursor 20. -/
theorem delaysPayload_eq (delays : adi_adrv9001_ChannelEnablementDelays_t) :
    delaysPayload delays =
      (20, littleEndianBytes 4 delays.riseToOnDelay ++
        littleEndianBytes 4 delays.riseToAnalogOnDelay ++
        littleEndianBytes 4 delays.fallToOffDelay ++ littleEndianBytes 4 delays.guardDelay ++
        littleEndianBytes 4 delays.holdDelay) := by
  simp only [delaysPayload, adrv9001_LoadFourBytes, Nat.zero_add, Nat.reduceAdd, List.replicate,
    List.set_cons_zero, List.set_cons_succ, littleEndianBytes, List.cons_append,
    List.nil_append, (shiftRight_byte _).1, (shiftRight_byte _).2.1, (shiftRight_byte _).2.2.1,
    (shiftRight_byte _).2.2.2.1]

theorem littleEndianBytes_length (width value : Nat) :
    (littleEndianBytes width value).length = width := by
  induction width generalizing value with
  | zero => rfl
  | succ n ih => simp [littleEndianBytes, ih]

theorem littleEndianBytes_lt (width value : Nat) :
    ∀ b ∈ littleEndianBytes width value, b < 256 := by
  induction width generalizing value with
  | zero => simp [littleEndianBytes]
  | succ n ih =>
    intro b hb
    simp only [littleEndianBytes, List.mem_cons] at hb
    rcases hb with rfl | hb
    · exact Nat.mod_lt _ (by decide)
    · exact ih _ b hb

/-- A mailbox read of `count` bytes that delivers `count` byte values fills the
array with exactly them. -/
theorem readInto_eq_self (count : Nat) (bytes : List Nat) (hlen : bytes.length = count)
    (hb : ∀ b ∈ bytes, b < 256) : readInto count bytes = bytes := by
  apply List.ext_getElem
  · simp [readInto, hlen]
  · intro k h1 h2
    simp only [readInto, List.getElem_map, List.getElem_range, List.getD_eq_getElem?_getD,
      List.getElem?_eq_getElem h2, Option.getD_some]
    exact Nat.mod_eq_of_lt (hb _ (List.getElem_mem h2))

theorem ParseFourBytes_eq (offset : Nat) (data : List Nat) :
    adrv9001_ParseFourBytes offset data =
      (offset + 4, littleEndianValue [data.getD offset 0 % 256, data.getD (offset + 1) 0 % 256,
        data.getD (offset + 2) 0 % 256, data.getD (offset + 3) 0 % 256]) := by
  unfold adrv9001_ParseFourBytes
  rw [littleEndianValue_four _ _ _ _ (Nat.mod_lt _ (by decide)) (Nat.mod_lt _ (by decide))
    (Nat.mod_lt _ (by decide)) (Nat.mod_lt _ (by decide))]

theorem ParseEightBytes_eq (offset : Nat) (data : List Nat) :
    adrv9001_ParseEightBytes offset data =
      (offset + 8, littleEndianValue [data.getD offset 0 % 256, data.getD (offset + 1) 0 % 256,
        data.getD (offset + 2) 0 % 256, data.getD (offset + 3) 0 % 256,
        data.getD (offset + 4) 0 % 256, data.getD (offset + 5) 0 % 256,
        data.getD (offset + 6) 0 % 256, data.getD (offset + 7) 0 % 256]) := by
  unfold adrv9001_ParseEightBytes
  rw [littleEndianValue_eight _ _ _ _ _ _ _ _ (Nat.mod_lt _ (by decide)) (Nat.mod_lt _ (by decide))
    (Nat.mod_lt _ (by decide)) (Nat.mod_lt _ (by decide)) (Nat.mod_lt _ (by decide))
    (Nat.mod_lt _ (by decide)) (Nat.mod_lt _ (by decide)) (Nat.mod_lt _ (by decide))]

/-- Parsing the serialised delays gives the delays back, cursor 20. -/
theorem delaysParse_payload (delays : adi_adrv9001_ChannelEnablementDelays_t)
    (h1 : delays.riseToOnDelay < 2 ^ 32) (h2 : delays.riseToAnalogOnDelay < 2 ^ 32)
    (h3 : delays.fallToOffDelay < 2 ^ 32) (h4 : delays.guardDelay < 2 ^ 32)
    (h5 : delays.holdDelay < 2 ^ 32) :
    delaysParse (readInto 20 (delaysPayload delays).2) = (20, delays) := by
  rw [delaysPayload_eq]
  rw [readInto_eq_self 20 _ (by simp [littleEndianBytes_length])
    (by
      intro b hb
      simp only [List.mem_append] at hb
      rcases hb with (((hb | hb) | hb) | hb) | hb <;> exact littleEndianBytes_lt _ _ b hb)]
  obtain ⟨a, b, c, e, f⟩ := delays
  simp only [delaysParse, ParseFourBytes_eq, littleEndianBytes, List.cons_append,
    List.nil_append, Nat.zero_add, Nat.reduceAdd, List.getD_cons_zero, List.getD_cons_succ,
    littleEndianValue, Nat.mod_mod, Prod.mk.injEq,
    adi_adrv9001_ChannelEnablementDelays_t.mk.injEq, true_and]
  simp only [] at h1 h2 h3 h4 h5
  refine ⟨?_, ?_, ?_, ?_, ?_⟩ <;> omega

/-! ## Carrier and delay validation -/

/-- The single-channel state query is total and its only device accesses are
status register reads. -/
theorem sat_Channel_State_Get_statusReads {σ : Type} (hal : Platform σ)
    (port : adi_common_Port_e) (channel : adi_common_ChannelNumber_e) (st0 : Nat) (d : σ) :
    FuncOut.Sat (adi_adrv9001_Radio_Channel_State_Get hal port channel st0) d
      (fun _ _ tr _ => ∀ e ∈ tr, e.isStatusRead = true) := by
  unfold adi_adrv9001_Radio_Channel_State_Get adi_adrv9001_Radio_Channel_State_Get_Validate
  simp only [stmt_bind_eq, stmt_pure_eq, sat_toFuncOut, sat_toFunc, sat_bind, sat_ADI_EXPECT,
    sat_ADI_RANGE_CHECK, sat_callDevVal, sat_pure]
  split_ifs <;> simp [sat_pure, Event.isStatusRead]

/-- The accesses of a single-channel state query are status register reads:
none writes the mailbox or a register, none issues a command or inspects a
pin. -/
theorem Channel_State_Get_events {σ : Type} (hal : Platform σ) (port : adi_common_Port_e)
    (channel : adi_common_ChannelNumber_e) (st0 : Nat) (d : σ) (a : Action) (state : Nat)
    (tr1 : List Event) (d1 : σ)
    (hstate : adi_adrv9001_Radio_Channel_State_Get hal port channel st0 d =
      some (a, state, tr1, d1)) :
    ∀ e ∈ tr1, e.isStatusRead = true ∧ e.isMailboxWrite = false ∧ e.isMailboxCommand = false ∧
      e.isMailboxRead = false ∧ e.isWait = false ∧ e.isRegisterWrite = false := by
  have h := (funcOut_sat_of_eq hstate _).mp
    (sat_Channel_State_Get_statusReads hal port channel st0 d)
  intro e he
  have hq := h e he
  cases e <;> simp_all [Event.isStatusRead, Event.isMailboxWrite, Event.isMailboxCommand,
    Event.isMailboxRead, Event.isWait, Event.isRegisterWrite]

/-- The result of the carrier validation once the state query has answered:
the first failing check decides, in the order of the code. -/
theorem Carrier_Configure_Validate_eq {σ : Type} (hal : Platform σ) (port : adi_common_Port_e)
    (channel : adi_common_ChannelNumber_e) (carrier : adi_adrv9001_Carrier_t) (d : σ)
    (state : Nat) (tr1 : List Event) (d1 : σ)
    (hport : hal.adi_adrv9001_Port_Validate port = ADI_COMMON_ACT_NO_ACTION)
    (hchan : hal.adi_adrv9001_Channel_Validate channel = ADI_COMMON_ACT_NO_ACTION)
    (hcal : hal.ADI_ADRV9001_PLL_CALIBRATION_NORMAL ≤ carrier.pllCalibration ∧
      carrier.pllCalibration ≤ hal.ADI_ADRV9001_PLL_CALIBRATION_RESERVED)
    (hlo : hal.ADI_ADRV9001_LO_GEN_OPTIMIZATION_PHASE_NOISE ≤ carrier.loGenOptimization ∧
      carrier.loGenOptimization ≤ hal.ADI_ADRV9001_LO_GEN_OPTIMIZATION_POWER_CONSUMPTION)
    (hpow : hal.ADI_ADRV9001_PLL_POWER_LOW ≤ carrier.pllPower ∧
      carrier.pllPower ≤ hal.ADI_ADRV9001_PLL_POWER_HIGH)
    (hstate : adi_adrv9001_Radio_Channel_State_Get hal port channel ADI_ADRV9001_CHANNEL_STANDBY d =
      some (ADI_COMMON_ACT_NO_ACTION, state, tr1, d1)) :
    adi_adrv9001_Radio_Carrier_Configure_Validate hal port channel carrier d =
      if carrier.carrierFrequency_Hz < 30000000 ∨ carrier.carrierFrequency_Hz > 6000000000 then
        some (ADI_COMMON_ACT_ERR_CHECK_PARAM, [], d)
      else if carrier.intermediateFrequency_Hz ≠ 0 ∧
          (carrier.intermediateFrequency_Hz < 200000 ∨
            carrier.intermediateFrequency_Hz > 20000000) then
        some (ADI_COMMON_ACT_ERR_CHECK_PARAM, [], d)
      else if state = ADI_ADRV9001_CHANNEL_STANDBY ∨ state = ADI_ADRV9001_CHANNEL_CALIBRATED then
        some (ADI_COMMON_ACT_NO_ACTION, tr1, d1)
      else some (ADI_COMMON_ACT_ERR_CHECK_PARAM, tr1, d1) := by
  have hcal2 : ¬ (carrier.pllCalibration < hal.ADI_ADRV9001_PLL_CALIBRATION_NORMAL ∨
      carrier.pllCalibration > hal.ADI_ADRV9001_PLL_CALIBRATION_RESERVED) := by omega
  have hlo2 : ¬ (carrier.loGenOptimization < hal.ADI_ADRV9001_LO_GEN_OPTIMIZATION_PHASE_NOISE ∨
      carrier.loGenOptimization > hal.ADI_ADRV9001_LO_GEN_OPTIMIZATION_POWER_CONSUMPTION) := by
    omega
  have hpow2 : ¬ (carrier.pllPower < hal.ADI_ADRV9001_PLL_POWER_LOW ∨
      carrier.pllPower > hal.ADI_ADRV9001_PLL_POWER_HIGH) := by omega
  by_cases hcf : carrier.carrierFrequency_Hz < 30000000 ∨ carrier.carrierFrequency_Hz > 6000000000
  · rw [if_pos hcf, ← func_sat_eq]
    unfold adi_adrv9001_Radio_Carrier_Configure_Validate
    simp [stmt_bind_eq, stmt_pure_eq, sat_toFunc, sat_bind, sat_expectPure, hport, hchan,
      sat_ADI_RANGE_CHECK, if_neg hcal2, if_neg hlo2, if_neg hpow2, if_pos hcf]
  · rw [if_neg hcf]
    by_cases hif : carrier.intermediateFrequency_Hz ≠ 0 ∧
        (carrier.intermediateFrequency_Hz < 200000 ∨ carrier.intermediateFrequency_Hz > 20000000)
    · rw [if_pos hif, ← func_sat_eq]
      have h0 : 0 ≠ carrier.intermediateFrequency_Hz := fun h => hif.1 h.symm
      unfold adi_adrv9001_Radio_Carrier_Configure_Validate
      simp [stmt_bind_eq, stmt_pure_eq, sat_toFunc, sat_bind, sat_expectPure, hport, hchan,
        sat_ADI_RANGE_CHECK, if_neg hcal2, if_neg hlo2, if_neg hpow2, if_neg hcf,
        if_pos h0, if_pos hif.2]
    · rw [if_neg hif]
      have hq : ∀ Q : Step Unit → List Event → σ → Prop,
          Stmt.Sat (if 0 ≠ carrier.intermediateFrequency_Hz then
              ADI_RANGE_CHECK carrier.intermediateFrequency_Hz 200000 20000000
            else Stmt.pure ()) d Q ↔ Q (Step.next ()) [] d := by
        intro Q
        by_cases h0 : 0 ≠ carrier.intermediateFrequency_Hz
        · have hr : ¬ (carrier.intermediateFrequency_Hz < 200000 ∨
              carrier.intermediateFrequency_Hz > 20000000) :=
            fun h => hif ⟨fun h2 => h0 h2.symm, h⟩
          rw [if_pos h0, sat_ADI_RANGE_CHECK, if_neg hr]
        · rw [if_neg h0, sat_pure]
      by_cases hs : state = ADI_ADRV9001_CHANNEL_STANDBY ∨ state = ADI_ADRV9001_CHANNEL_CALIBRATED
      · rw [if_pos hs, ← func_sat_eq]
        unfold adi_adrv9001_Radio_Carrier_Configure_Validate
        simp only [stmt_bind_eq, stmt_pure_eq, sat_toFunc, sat_bind, sat_expectPure, hport,
          hchan, if_true, sat_ADI_RANGE_CHECK, if_neg hcal2, if_neg hlo2, if_neg hpow2,
          if_neg hcf, hq, sat_ADI_EXPECT_OUT, funcOut_sat_of_eq hstate, List.nil_append,
          if_pos hs, sat_pure, List.append_nil, and_self]
      · rw [if_neg hs, ← func_sat_eq]
        unfold adi_adrv9001_Radio_Carrier_Configure_Validate
        simp only [stmt_bind_eq, stmt_pure_eq, sat_toFunc, sat_bind, sat_expectPure, hport,
          hchan, if_true, sat_ADI_RANGE_CHECK, if_neg hcal2, if_neg hlo2, if_neg hpow2,
          if_neg hcf, hq, sat_ADI_EXPECT_OUT, funcOut_sat_of_eq hstate, List.nil_append,
          if_neg hs, ADI_ERROR_REPORT_RETURN, sat_ret, List.append_nil, and_self]


/-- The signal the delay validation looks up in its table for an RX/TX
channel. -/
theorem frontendControlSignals_lookup (port : adi_common_Port_e)
    (channel : adi_common_ChannelNumber_e) (hp : port ≠ ADI_ORX) :
    (frontendControlSignals.getD (adi_common_port_to_index port 0) []).get?
      (adi_common_channel_to_index channel 0) = some (frontendSignalOf port channel) := by
  cases port <;> cases channel <;> first | exact absurd rfl hp | rfl

theorem port_range_ok (port : adi_common_Port_e) (hp : port ≠ ADI_ORX) :
    ¬ (port.toNat < ADI_RX.toNat ∨ port.toNat > ADI_TX.toNat) := by
  cases port <;> first | exact absurd rfl hp | decide

theorem channel_range_ok (channel : adi_common_ChannelNumber_e) :
    ¬ (channel.toNat < ADI_CHANNEL_1.toNat ∨ channel.toNat > ADI_CHANNEL_2.toNat) := by
  cases channel <;> decide

/-- The delay validation once the pin inspection and the state query have
answered: the first failing check decides, in the order of the code. -/
theorem sat_Delays_Configure_Validate_iff {σ : Type} (hal : Platform σ)
    (port : adi_common_Port_e) (channel : adi_common_ChannelNumber_e)
    (delays : adi_adrv9001_ChannelEnablementDelays_t)
    (d : σ) (pin : Nat) (d1 : σ) (state : Nat) (tr1 : List Event) (d2 : σ)
    (hp : port ≠ ADI_ORX)
    (hgpio : hal.adi_adrv9001_gpio_Inspect (frontendSignalOf port channel) d =
      (ADI_COMMON_ACT_NO_ACTION, pin, d1))
    (hstate : adi_adrv9001_Radio_Channel_State_Get hal port channel ADI_ADRV9001_CHANNEL_STANDBY
      d1 = some (ADI_COMMON_ACT_NO_ACTION, state, tr1, d2))
    (Q : Action → List Event → σ → Prop) :
    Func.Sat (adi_adrv9001_Radio_ChannelEnablementDelays_Configure_Validate hal port channel
        delays) d Q ↔
      if delays.riseToOnDelay > 0x00FFFFFF ∨ delays.riseToAnalogOnDelay > 0x00FFFFFF ∨
          delays.fallToOffDelay > 0x00FFFFFF ∨ delays.guardDelay > 0x00FFFFFF ∨
          delays.holdDelay > 0x00FFFFFF then
        Q ADI_COMMON_ACT_ERR_CHECK_PARAM [] d
      else if port = ADI_TX ∧ delays.holdDelay > delays.fallToOffDelay then
        Q ADI_COMMON_ACT_ERR_CHECK_PARAM [] d
      else if port = ADI_RX ∧ delays.fallToOffDelay > delays.holdDelay then
        Q ADI_COMMON_ACT_ERR_CHECK_PARAM [] d
      else if pin ≠ ADI_ADRV9001_GPIO_UNASSIGNED ∧
          delays.riseToAnalogOnDelay > delays.riseToOnDelay then
        Q ADI_COMMON_ACT_ERR_CHECK_PARAM
          [Event.gpioInspect (frontendSignalOf port channel) ADI_COMMON_ACT_NO_ACTION] d1
      else if state = ADI_ADRV9001_CHANNEL_STANDBY ∨ state = ADI_ADRV9001_CHANNEL_CALIBRATED then
        Q ADI_COMMON_ACT_NO_ACTION
          (Event.gpioInspect (frontendSignalOf port channel) ADI_COMMON_ACT_NO_ACTION :: tr1) d2
      else
        Q ADI_COMMON_ACT_ERR_CHECK_PARAM
          (Event.gpioInspect (frontendSignalOf port channel) ADI_COMMON_ACT_NO_ACTION :: tr1)
          d2 := by
  have hpr := port_range_ok port hp
  have hcr := channel_range_ok channel
  have hg1 : (hal.adi_adrv9001_gpio_Inspect (frontendSignalOf port channel) d).1 =
      ADI_COMMON_ACT_NO_ACTION := by rw [hgpio]
  have hg2 : (hal.adi_adrv9001_gpio_Inspect (frontendSignalOf port channel) d).2.1 = pin := by
    rw [hgpio]
  have hg3 : (hal.adi_adrv9001_gpio_Inspect (frontendSignalOf port channel) d).2.2 = d1 := by
    rw [hgpio]
  unfold adi_adrv9001_Radio_ChannelEnablementDelays_Configure_Validate
  simp only [stmt_bind_eq, stmt_pure_eq, sat_toFunc, sat_bind, sat_ADI_RANGE_CHECK, if_neg hpr,
    if_neg hcr, Nat.not_lt_zero, false_or]
  by_cases h1 : delays.riseToOnDelay > 0x00FFFFFF
  · simp [h1]
  rw [if_neg h1]
  by_cases h2 : delays.riseToAnalogOnDelay > 0x00FFFFFF
  · simp [h1, h2]
  rw [if_neg h2]
  by_cases h3 : delays.fallToOffDelay > 0x00FFFFFF
  · simp [h1, h2, h3]
  rw [if_neg h3]
  by_cases h4 : delays.guardDelay > 0x00FFFFFF
  · simp [h1, h2, h3, h4]
  rw [if_neg h4]
  by_cases h5 : delays.holdDelay > 0x00FFFFFF
  · simp [h1, h2, h3, h4, h5]
  have hall : ¬ (delays.riseToOnDelay > 0x00FFFFFF ∨ delays.riseToAnalogOnDelay > 0x00FFFFFF ∨
      delays.fallToOffDelay > 0x00FFFFFF ∨ delays.guardDelay > 0x00FFFFFF ∨
      delays.holdDelay > 0x00FFFFFF) := by omega
  rw [if_neg h5, if_neg hall]
  have hq : ∀ Q2 : Step Unit → List Event → σ → Prop,
      Stmt.Sat (if ADI_ADRV9001_GPIO_UNASSIGNED ≠ pin then
          ADI_RANGE_CHECK delays.riseToAnalogOnDelay 0 delays.riseToOnDelay
        else Stmt.pure ()) d1 Q2 ↔
      if pin ≠ ADI_ADRV9001_GPIO_UNASSIGNED ∧
          delays.riseToAnalogOnDelay > delays.riseToOnDelay then
        Q2 (Step.ret ADI_COMMON_ACT_ERR_CHECK_PARAM) [] d1
      else Q2 (Step.next ()) [] d1 := by
    intro Q2
    by_cases h0 : ADI_ADRV9001_GPIO_UNASSIGNED ≠ pin
    · rw [if_pos h0, sat_ADI_RANGE_CHECK]
      simp only [Nat.not_lt_zero, false_or]
      by_cases h9 : delays.riseToAnalogOnDelay > delays.riseToOnDelay
      · rw [if_pos h9, if_pos ⟨Ne.symm h0, h9⟩]
      · rw [if_neg h9, if_neg (fun h => h9 h.2)]
    · rw [if_neg h0, sat_pure, if_neg (fun h => h0 (fun h2 => h.1 h2.symm))]
  cases port
  · simp only [reduceCtorEq, if_false, if_true, sat_pure, sat_ADI_RANGE_CHECK, Nat.not_lt_zero,
      false_or, false_and, true_and, List.nil_append]
    by_cases h6 : delays.fallToOffDelay > delays.holdDelay
    · simp [h6]
    simp only [if_neg h6, sat_liftOption, frontendControlSignals_lookup ADI_RX channel hp,
      Option.some.injEq, exists_eq_left', sat_callDevVal, hg1, hg2, hg3, if_true, hq,
      List.nil_append, List.append_nil]
    by_cases h7 : pin ≠ ADI_ADRV9001_GPIO_UNASSIGNED ∧
        delays.riseToAnalogOnDelay > delays.riseToOnDelay
    · simp only [if_pos h7]
    simp only [if_neg h7, sat_ADI_EXPECT_OUT, funcOut_sat_of_eq hstate, if_true]
    by_cases h8 : state = ADI_ADRV9001_CHANNEL_STANDBY ∨ state = ADI_ADRV9001_CHANNEL_CALIBRATED
    · simp only [if_pos h8, sat_pure, List.append_nil, List.singleton_append]
    · simp only [if_neg h8, ADI_ERROR_REPORT_RETURN, sat_ret, List.append_nil,
        List.singleton_append]
  · simp only [reduceCtorEq, if_false, if_true, sat_pure, sat_ADI_RANGE_CHECK, Nat.not_lt_zero,
      false_or, false_and, true_and, List.nil_append]
    by_cases h6 : delays.holdDelay > delays.fallToOffDelay
    · simp [h6]
    simp only [if_neg h6, sat_liftOption, frontendControlSignals_lookup ADI_TX channel hp,
      Option.some.injEq, exists_eq_left', sat_callDevVal, hg1, hg2, hg3, if_true, hq,
      List.nil_append, List.append_nil, sat_pure]
    by_cases h7 : pin ≠ ADI_ADRV9001_GPIO_UNASSIGNED ∧
        delays.riseToAnalogOnDelay > delays.riseToOnDelay
    · simp only [if_pos h7]
    simp only [if_neg h7, sat_ADI_EXPECT_OUT, funcOut_sat_of_eq hstate, if_true]
    by_cases h8 : state = ADI_ADRV9001_CHANNEL_STANDBY ∨ state = ADI_ADRV9001_CHANNEL_CALIBRATED
    · simp only [if_pos h8, sat_pure, List.append_nil, List.singleton_append]
    · simp only [if_neg h8, ADI_ERROR_REPORT_RETURN, sat_ret, List.append_nil,
        List.singleton_append]
  · exact absurd rfl hp

/-- The validation of the delay inspection once the state query has answered. -/
theorem sat_Delays_Inspect_Validate_iff {σ : Type} (hal : Platform σ)
    (port : adi_common_Port_e) (channel : adi_common_ChannelNumber_e) (d : σ) (state : Nat)
    (tr1 : List Event) (d1 : σ) (hp : port ≠ ADI_ORX)
    (hstate : adi_adrv9001_Radio_Channel_State_Get hal port channel ADI_ADRV9001_CHANNEL_STANDBY
      d = some (ADI_COMMON_ACT_NO_ACTION, state, tr1, d1))
    (Q : Action → List Event → σ → Prop) :
    Func.Sat (adi_adrv9001_Radio_ChannelEnablementDelays_Inspect_Validate hal port channel) d Q ↔
      if state = ADI_ADRV9001_CHANNEL_PRIMED ∨ state = ADI_ADRV9001_CHANNEL_RF_ENABLED then
        Q ADI_COMMON_ACT_NO_ACTION tr1 d1
      else Q ADI_COMMON_ACT_ERR_CHECK_PARAM tr1 d1 := by
  unfold adi_adrv9001_Radio_ChannelEnablementDelays_Inspect_Validate
  simp only [stmt_bind_eq, stmt_pure_eq, sat_toFunc, sat_bind, sat_ADI_RANGE_CHECK,
    if_neg (port_range_ok port hp), if_neg (channel_range_ok channel), sat_ADI_EXPECT_OUT,
    funcOut_sat_of_eq hstate, if_true, List.nil_append]
  by_cases hs : state = ADI_ADRV9001_CHANNEL_PRIMED ∨ state = ADI_ADRV9001_CHANNEL_RF_ENABLED
  · simp only [if_pos hs, sat_pure, List.append_nil]
  · simp only [if_neg hs, ADI_ERROR_REPORT_RETURN, sat_ret, List.append_nil]

/-! ## Mailbox payloads -/

/-- The carrier payload: cursor 16, the enumeration bytes truncated to 8 bits. -/
theorem carrierPayload_eq (carrier : adi_adrv9001_Carrier_t) :
    carrierPayload carrier =
      (16, littleEndianBytes 8 carrier.carrierFrequency_Hz ++
        [carrier.pllCalibration % 256, 0, carrier.loGenOptimization % 256,
          carrier.pllPower % 256] ++
        littleEndianBytes 4 carrier.intermediateFrequency_Hz) := by
  simp only [carrierPayload, adrv9001_LoadFourBytes, adrv9001_LoadEightBytes, Nat.zero_add,
    Nat.reduceAdd, List.replicate, List.set_cons_zero, List.set_cons_succ, littleEndianBytes,
    List.cons_append, List.nil_append, (shiftRight_byte _).1, (shiftRight_byte _).2.1,
    (shiftRight_byte _).2.2.1, (shiftRight_byte _).2.2.2.1, (shiftRight_byte _).2.2.2.2.1,
    (shiftRight_byte _).2.2.2.2.2.1, (shiftRight_byte _).2.2.2.2.2.2.1,
    (shiftRight_byte _).2.2.2.2.2.2.2]

/-- For enumeration values that fit a byte the carrier payload is the layout
of the specification. -/
theorem carrierPayload_eq_layout (carrier : adi_adrv9001_Carrier_t)
    (hcal : carrier.pllCalibration < 256) (hlo : carrier.loGenOptimization < 256)
    (hpow : carrier.pllPower < 256) :
    carrierPayload carrier = (16, carrierLayout carrier) := by
  rw [carrierPayload_eq, Nat.mod_eq_of_lt hcal, Nat.mod_eq_of_lt hlo, Nat.mod_eq_of_lt hpow]
  rfl

theorem carrierLayout_length (carrier : adi_adrv9001_Carrier_t) :
    (carrierLayout carrier).length = 16 := by
  simp [carrierLayout, littleEndianBytes_length]

theorem delaysLayout_length (delays : adi_adrv9001_ChannelEnablementDelays_t) :
    (delaysLayout delays).length = 20 := by
  simp [delaysLayout, littleEndianBytes_length]

/-- The array filled by a mailbox read of 16 bytes. -/
theorem readInto_sixteen (bytes : List Nat) :
    readInto 16 bytes =
      [bytes.getD 0 0 % 256, bytes.getD 1 0 % 256, bytes.getD 2 0 % 256, bytes.getD 3 0 % 256,
       bytes.getD 4 0 % 256, bytes.getD 5 0 % 256, bytes.getD 6 0 % 256, bytes.getD 7 0 % 256,
       bytes.getD 8 0 % 256, bytes.getD 9 0 % 256, bytes.getD 10 0 % 256,
       bytes.getD 11 0 % 256, bytes.getD 12 0 % 256, bytes.getD 13 0 % 256,
       bytes.getD 14 0 % 256, bytes.getD 15 0 % 256] := by
  rfl

/-- The intermediate frequency the carrier inspection parses: for RX the
little-endian value of bytes 12..15 of the array, for any other port 0. -/
theorem carrierParse_intermediateFrequency (port : adi_common_Port_e) (bytes : List Nat)
    (c0 : adi_adrv9001_Carrier_t) :
    (carrierParse port (readInto 16 bytes) c0).intermediateFrequency_Hz =
      if port = ADI_RX then littleEndianValue ((readInto 16 bytes).drop 12) else 0 := by
  unfold carrierParse
  by_cases hp : ADI_RX = port
  · rw [if_pos hp, if_pos hp.symm, ParseFourBytes_eq, readInto_sixteen]
    simp only [adrv9001_ParseEightBytes, Nat.zero_add, Nat.reduceAdd, List.getD_cons_zero,
      List.getD_cons_succ, Nat.mod_mod, List.drop_succ_cons, List.drop_zero]
  · rw [if_neg hp, if_neg (fun h => hp h.symm)]

/-- Parsing the serialised carrier gives the carrier back, except that the
intermediate frequency is kept for RX only. -/
theorem carrierParse_payload (port : adi_common_Port_e) (carrier c0 : adi_adrv9001_Carrier_t)
    (hcal : carrier.pllCalibration < 256) (hlo : carrier.loGenOptimization < 256)
    (hpow : carrier.pllPower < 256) (hcf : carrier.carrierFrequency_Hz < 2 ^ 64)
    (hif : carrier.intermediateFrequency_Hz < 2 ^ 32) :
    carrierParse port (readInto 16 (carrierPayload carrier).2) c0 =
      { carrier with
        intermediateFrequency_Hz :=
          if port = ADI_RX then carrier.intermediateFrequency_Hz else 0 } := by
  rw [carrierPayload_eq_layout carrier hcal hlo hpow]
  rw [readInto_eq_self 16 _ (carrierLayout_length carrier)
    (by
      intro b hb
      simp only [carrierLayout, List.mem_append, List.mem_cons, List.mem_singleton,
        List.not_mem_nil, or_false] at hb
      rcases hb with (hb | hb | hb | hb | hb) | hb
      · exact littleEndianBytes_lt _ _ b hb
      · omega
      · omega
      · omega
      · omega
      · exact littleEndianBytes_lt _ _ b hb)]
  obtain ⟨cal, lo, pow, cf, fi⟩ := carrier
  simp only [] at hcal hlo hpow hcf hif
  by_cases hp : ADI_RX = port
  · simp only [carrierParse, carrierLayout, ParseFourBytes_eq, ParseEightBytes_eq,
      littleEndianBytes, List.cons_append, List.nil_append, Nat.zero_add, Nat.reduceAdd,
      List.getD_cons_zero, List.getD_cons_succ, littleEndianValue, Nat.mod_mod, if_pos hp,
      if_pos hp.symm, adi_adrv9001_Carrier_t.mk.injEq, true_and]
    refine ⟨?_, ?_⟩ <;> omega
  · simp only [carrierParse, carrierLayout, ParseFourBytes_eq, ParseEightBytes_eq,
      littleEndianBytes, List.cons_append, List.nil_append, Nat.zero_add, Nat.reduceAdd,
      List.getD_cons_zero, List.getD_cons_succ, littleEndianValue, Nat.mod_mod, if_neg hp,
      if_neg (fun h => hp (Eq.symm h)), adi_adrv9001_Carrier_t.mk.injEq, true_and, and_true]
    omega

/-- What the carrier validation has established when it accepts, and that it
only makes read-only queries. -/
theorem sat_Carrier_Configure_Validate_accepted {σ : Type} (hal : Platform σ)
    (port : adi_common_Port_e) (channel : adi_common_ChannelNumber_e)
    (carrier : adi_adrv9001_Carrier_t) (d : σ) :
    Func.Sat (adi_adrv9001_Radio_Carrier_Configure_Validate hal port channel carrier) d
      (fun a tr _ => (∀ e ∈ tr, e.isQuery = true) ∧
        (a = ADI_COMMON_ACT_NO_ACTION →
          hal.adi_adrv9001_Port_Validate port = ADI_COMMON_ACT_NO_ACTION ∧
          hal.adi_adrv9001_Channel_Validate channel = ADI_COMMON_ACT_NO_ACTION ∧
          carrier.pllCalibration ≤ hal.ADI_ADRV9001_PLL_CALIBRATION_RESERVED ∧
          carrier.loGenOptimization ≤ hal.ADI_ADRV9001_LO_GEN_OPTIMIZATION_POWER_CONSUMPTION ∧
          carrier.pllPower ≤ hal.ADI_ADRV9001_PLL_POWER_HIGH ∧
          30000000 ≤ carrier.carrierFrequency_Hz ∧ carrier.carrierFrequency_Hz ≤ 6000000000 ∧
          (carrier.intermediateFrequency_Hz = 0 ∨
            (200000 ≤ carrier.intermediateFrequency_Hz ∧
              carrier.intermediateFrequency_Hz ≤ 20000000)))) := by
  unfold adi_adrv9001_Radio_Carrier_Configure_Validate
  simp only [stmt_bind_eq, stmt_pure_eq, sat_toFunc, sat_bind, sat_expectPure,
    sat_ADI_RANGE_CHECK]
  by_cases h1 : hal.adi_adrv9001_Port_Validate port = ADI_COMMON_ACT_NO_ACTION
  swap
  · simp [h1]
  rw [if_pos h1]
  by_cases h2 : hal.adi_adrv9001_Channel_Validate channel = ADI_COMMON_ACT_NO_ACTION
  swap
  · simp [h2]
  rw [if_pos h2]
  by_cases h3 : carrier.pllCalibration < hal.ADI_ADRV9001_PLL_CALIBRATION_NORMAL ∨
      carrier.pllCalibration > hal.ADI_ADRV9001_PLL_CALIBRATION_RESERVED
  · simp [h3]
  rw [if_neg h3]
  by_cases h4 : carrier.loGenOptimization < hal.ADI_ADRV9001_LO_GEN_OPTIMIZATION_PHASE_NOISE ∨
      carrier.loGenOptimization > hal.ADI_ADRV9001_LO_GEN_OPTIMIZATION_POWER_CONSUMPTION
  · simp [h4]
  rw [if_neg h4]
  by_cases h5 : carrier.pllPower < hal.ADI_ADRV9001_PLL_POWER_LOW ∨
      carrier.pllPower > hal.ADI_ADRV9001_PLL_POWER_HIGH
  · simp [h5]
  rw [if_neg h5]
  by_cases h6 : carrier.carrierFrequency_Hz < 30000000 ∨ carrier.carrierFrequency_Hz > 6000000000
  · simp [h6]
  rw [if_neg h6]
  have hfacts : hal.adi_adrv9001_Port_Validate port = ADI_COMMON_ACT_NO_ACTION ∧
      hal.adi_adrv9001_Channel_Validate channel = ADI_COMMON_ACT_NO_ACTION ∧
      carrier.pllCalibration ≤ hal.ADI_ADRV9001_PLL_CALIBRATION_RESERVED ∧
      carrier.loGenOptimization ≤ hal.ADI_ADRV9001_LO_GEN_OPTIMIZATION_POWER_CONSUMPTION ∧
      carrier.pllPower ≤ hal.ADI_ADRV9001_PLL_POWER_HIGH ∧
      30000000 ≤ carrier.carrierFrequency_Hz ∧ carrier.carrierFrequency_Hz ≤ 6000000000 :=
    ⟨h1, h2, by omega, by omega, by omega, by omega, by omega⟩
  obtain ⟨f1, f2, f3, f4, f5, f6, f7⟩ := hfacts
  by_cases h0 : 0 ≠ carrier.intermediateFrequency_Hz
  · rw [if_pos h0, sat_ADI_RANGE_CHECK]
    by_cases h7 : carrier.intermediateFrequency_Hz < 200000 ∨
        carrier.intermediateFrequency_Hz > 20000000
    · simp [h7]
    rw [if_neg h7]
    have hif : carrier.intermediateFrequency_Hz = 0 ∨
        (200000 ≤ carrier.intermediateFrequency_Hz ∧
          carrier.intermediateFrequency_Hz ≤ 20000000) := by omega
    simp only [sat_ADI_EXPECT_OUT]
    refine funcOut_sat_mono (sat_Channel_State_Get hal port channel _ d) ?_
    intro a st tr d1 hq
    split_ifs <;>
      simp_all [sat_pure, sat_ret, ADI_ERROR_REPORT_RETURN]
  · rw [if_neg h0, sat_pure]
    have hif : carrier.intermediateFrequency_Hz = 0 ∨
        (200000 ≤ carrier.intermediateFrequency_Hz ∧
          carrier.intermediateFrequency_Hz ≤ 20000000) := by omega
    simp only [sat_ADI_EXPECT_OUT]
    refine funcOut_sat_mono (sat_Channel_State_Get hal port channel _ d) ?_
    intro a st tr d1 hq
    split_ifs <;>
      simp_all [sat_pure, sat_ret, ADI_ERROR_REPORT_RETURN]

theorem not_memoryWrite_of_isQuery (tr : List Event) (h : ∀ e ∈ tr, e.isQuery = true)
    (addr : ArmAddr) (data : List Nat) (r : Action) : Event.memoryWrite addr data r ∉ tr := by
  intro hmem
  have := h _ hmem
  simp [Event.isQuery] at this

/-- Every mailbox write of `adi_adrv9001_Radio_Carrier_Configure` goes to the
SET region and carries the layout of the specification, provided the
enumeration maxima of the platform fit a byte. -/
theorem sat_Carrier_Configure_writes {σ : Type} (hal : Platform σ) (fuel : Nat)
    (port : adi_common_Port_e) (channel : adi_common_ChannelNumber_e)
    (carrier : adi_adrv9001_Carrier_t) (d : σ) (hfuel : 2 ≤ fuel)
    (h8 : hal.ADI_ADRV9001_PLL_CALIBRATION_RESERVED < 256 ∧
      hal.ADI_ADRV9001_LO_GEN_OPTIMIZATION_POWER_CONSUMPTION < 256 ∧
      hal.ADI_ADRV9001_PLL_POWER_HIGH < 256) :
    Func.Sat (adi_adrv9001_Radio_Carrier_Configure hal fuel port channel carrier) d
      (fun _ tr _ => ∀ addr data r, Event.memoryWrite addr data r ∈ tr →
        addr = ArmAddr.ADRV9001_ADDR_ARM_MAILBOX_SET ∧ data = carrierLayout carrier) := by
  unfold adi_adrv9001_Radio_Carrier_Configure
  simp only [stmt_bind_eq, stmt_pure_eq, sat_toFunc, sat_bind, sat_ADI_EXPECT]
  refine func_sat_mono (sat_Carrier_Configure_Validate_accepted hal port channel carrier d) ?_
  intro av trv dv hv
  have hnw := not_memoryWrite_of_isQuery trv hv.1
  by_cases hav : av = ADI_COMMON_ACT_NO_ACTION
  · rw [if_pos hav]
    obtain ⟨_, _, g1, g2, g3, _, _, _⟩ := hv.2 hav
    have hpay : (carrierPayload carrier).2 = carrierLayout carrier := by
      rw [carrierPayload_eq_layout carrier (by omega) (by omega) (by omega)]
    simp only [sat_callDev, sat_liftOption, MailboxChannel_Get_eq fuel port channel hfuel,
      Option.some.injEq, exists_eq_left', sat_pure, hpay]
    split_ifs <;>
    · intro addr data r hmem
      simp only [List.mem_append, List.mem_cons, List.mem_singleton, List.not_mem_nil, or_false,
        Event.memoryWrite.injEq, reduceCtorEq, false_or] at hmem
      rcases hmem with hmem | hmem
      · exact absurd hmem (hnw addr data r)
      · exact ⟨hmem.1, hmem.2.1⟩
  · rw [if_neg hav]
    intro addr data r hmem
    exact absurd hmem (hnw addr data r)

/-- Every mailbox write of
`adi_adrv9001_Radio_ChannelEnablementDelays_Configure` goes to the SET region
and carries the payload. -/
theorem sat_Delays_Configure_writes {σ : Type} (hal : Platform σ) (fuel : Nat)
    (port : adi_common_Port_e) (channel : adi_common_ChannelNumber_e)
    (delays : adi_adrv9001_ChannelEnablementDelays_t) (d : σ) (hfuel : 2 ≤ fuel) :
    Func.Sat (adi_adrv9001_Radio_ChannelEnablementDelays_Configure hal fuel port channel delays) d
      (fun _ tr _ => ∀ addr data r, Event.memoryWrite addr data r ∈ tr →
        addr = ArmAddr.ADRV9001_ADDR_ARM_MAILBOX_SET ∧ data = (delaysPayload delays).2) := by
  unfold adi_adrv9001_Radio_ChannelEnablementDelays_Configure
  simp only [stmt_bind_eq, stmt_pure_eq, sat_toFunc, sat_bind, sat_ADI_EXPECT]
  refine func_sat_mono (sat_Delays_Configure_Validate hal port channel delays d) ?_
  intro av trv dv hv
  have hnw := not_memoryWrite_of_isQuery trv hv
  by_cases hav : av = ADI_COMMON_ACT_NO_ACTION
  · rw [if_pos hav]
    simp only [sat_callDev, sat_liftOption, MailboxChannel_Get_eq fuel port channel hfuel,
      Option.some.injEq, exists_eq_left', sat_pure]
    split_ifs <;>
    · intro addr data r hmem
      simp only [List.mem_append, List.mem_cons, List.mem_singleton, List.not_mem_nil, or_false,
        Event.memoryWrite.injEq, reduceCtorEq, false_or] at hmem
      rcases hmem with hmem | hmem
      · exact absurd hmem (hnw addr data r)
      · exact ⟨hmem.1, hmem.2.1⟩
  · rw [if_neg hav]
    intro addr data r hmem
    exact absurd hmem (hnw addr data r)

/-- The carrier inspection is total, and on success its output is the parse
of the bytes the mailbox read delivered. -/
theorem sat_Carrier_Inspect_result {σ : Type} (hal : Platform σ) (fuel : Nat)
    (port : adi_common_Port_e) (channel : adi_common_ChannelNumber_e)
    (c0 : adi_adrv9001_Carrier_t) (d : σ) (hfuel : 2 ≤ fuel) :
    FuncOut.Sat (adi_adrv9001_Radio_Carrier_Inspect hal fuel port channel c0) d
      (fun a out _ _ => a = ADI_COMMON_ACT_NO_ACTION →
        out = carrierParse port (readInto 16 (mailboxReply hal
          [batchMask [(port, channel)], hal.ADRV9001_ARM_OBJECTID_CHANNEL_CARRIER_FREQUENCY]
          hal.ADI_ADRV9001_GETCARRIER_FREQUENCY_TIMEOUT_US
          hal.ADI_ADRV9001_GETCARRIER_FREQUENCY_INTERVAL_US 16 d)) c0) := by
  unfold adi_adrv9001_Radio_Carrier_Inspect adi_adrv9001_Radio_Carrier_Inspect_Validate
  simp only [stmt_bind_eq, stmt_pure_eq, sat_toFuncOut, sat_toFunc, sat_bind, sat_ADI_EXPECT,
    sat_expectPure, sat_callDev, sat_callDevVal, sat_liftOption,
    MailboxChannel_Get_eq fuel port channel hfuel, Option.some.injEq, exists_eq_left', sat_pure,
    mailboxReply]
  split_ifs <;> simp_all

/-- The delay inspection is total, and on success its output is the parse of
the bytes the mailbox read delivered after the validation. -/
theorem sat_Delays_Inspect_result {σ : Type} (hal : Platform σ) (fuel : Nat)
    (port : adi_common_Port_e) (channel : adi_common_ChannelNumber_e)
    (delays0 : adi_adrv9001_ChannelEnablementDelays_t) (d : σ) (av : Action)
    (trv : List Event) (dv : σ) (hfuel : 2 ≤ fuel)
    (hval : adi_adrv9001_Radio_ChannelEnablementDelays_Inspect_Validate hal port channel d =
      some (av, trv, dv)) :
    FuncOut.Sat (adi_adrv9001_Radio_ChannelEnablementDelays_Inspect hal fuel port channel
        delays0) d
      (fun a out _ _ => a = ADI_COMMON_ACT_NO_ACTION →
        out = (delaysParse (readInto 20 (mailboxReply hal
          [batchMask [(port, channel)], hal.ADRV9001_ARM_OBJECTID_TDD_TIMING_PARAMS]
          hal.ADI_ADRV9001_DEFAULT_TIMEOUT_US hal.ADI_ADRV9001_DEFAULT_INTERVAL_US 20 dv))).2) := by
  unfold adi_adrv9001_Radio_ChannelEnablementDelays_Inspect
  simp only [stmt_bind_eq, stmt_pure_eq, sat_toFuncOut, sat_bind, sat_ADI_EXPECT,
    func_sat_of_eq hval, sat_callDev, sat_callDevVal, sat_liftOption,
    MailboxChannel_Get_eq fuel port channel hfuel, Option.some.injEq, exists_eq_left', sat_pure,
    mailboxReply]
  split_ifs <;> simp_all

/-! ## PLL loop filter -/

/-- The PLL selectors LO1, LO2 and AUX pass the selector range check. -/
theorem pll_range_ok (pll : adi_adrv9001_Pll_e) (hpll : pll.toNat ≤ ADI_ADRV9001_PLL_AUX.toNat) :
    ¬ (pll.toNat < ADI_ADRV9001_PLL_LO1.toNat ∨ pll.toNat > ADI_ADRV9001_PLL_AUX.toNat) := by
  have h0 : ADI_ADRV9001_PLL_LO1.toNat = 0 := rfl
  omega

/-- The loop filter validation makes no device access; for a selector in
LO1..AUX the first failing range check decides. -/
theorem PllLoopFilter_Set_Validate_eq {σ : Type} (pll : adi_adrv9001_Pll_e)
    (cfg : adi_adrv9001_PllLoopFilterCfg_t) (d : σ)
    (hpll : pll.toNat ≤ ADI_ADRV9001_PLL_AUX.toNat) :
    adi_adrv9001_Radio_PllLoopFilter_Set_Validate pll cfg d =
      if (cfg.phaseMargin_degrees < 40 ∨ cfg.phaseMargin_degrees > 85) ∨
          (cfg.loopBandwidth_kHz < 50 ∨ cfg.loopBandwidth_kHz > 1500) ∨ cfg.powerScale > 10 then
        some (ADI_COMMON_ACT_ERR_CHECK_PARAM, [], d)
      else some (ADI_COMMON_ACT_NO_ACTION, [], d) := by
  have hp := pll_range_ok pll hpll
  by_cases h1 : cfg.phaseMargin_degrees < 40 ∨ cfg.phaseMargin_degrees > 85
  · rw [if_pos (Or.inl h1), ← func_sat_eq]
    unfold adi_adrv9001_Radio_PllLoopFilter_Set_Validate
    simp [stmt_bind_eq, stmt_pure_eq, sat_toFunc, sat_bind, sat_ADI_RANGE_CHECK, if_neg hp, h1]
  by_cases h2 : cfg.loopBandwidth_kHz < 50 ∨ cfg.loopBandwidth_kHz > 1500
  · rw [if_pos (Or.inr (Or.inl h2)), ← func_sat_eq]
    unfold adi_adrv9001_Radio_PllLoopFilter_Set_Validate
    simp [stmt_bind_eq, stmt_pure_eq, sat_toFunc, sat_bind, sat_ADI_RANGE_CHECK, if_neg hp,
      if_neg h1, h2]
  by_cases h3 : cfg.powerScale > 10
  · rw [if_pos (Or.inr (Or.inr h3)), ← func_sat_eq]
    unfold adi_adrv9001_Radio_PllLoopFilter_Set_Validate
    simp [stmt_bind_eq, stmt_pure_eq, sat_toFunc, sat_bind, sat_ADI_RANGE_CHECK, if_neg hp,
      if_neg h1, if_neg h2, h3]
  · rw [if_neg (by tauto), ← func_sat_eq]
    unfold adi_adrv9001_Radio_PllLoopFilter_Set_Validate
    simp [stmt_bind_eq, stmt_pure_eq, sat_toFunc, sat_bind, sat_ADI_RANGE_CHECK, if_neg hp,
      if_neg h1, if_neg h2, h3, sat_pure]

/-- The loop filter payload of a configuration whose fields fit their widths:
the phase margin, the two little-endian bytes of the bandwidth, the power
scale. -/
theorem pllLoopFilterPayload_eq (cfg : adi_adrv9001_PllLoopFilterCfg_t)
    (hpm : cfg.phaseMargin_degrees < 256) (hbw : cfg.loopBandwidth_kHz < 65536)
    (hps : cfg.powerScale < 256) :
    pllLoopFilterPayload cfg =
      [cfg.phaseMargin_degrees, cfg.loopBandwidth_kHz % 256, cfg.loopBandwidth_kHz / 256,
        cfg.powerScale] := by
  have h1 : (cfg.loopBandwidth_kHz &&& 0x00FF) = cfg.loopBandwidth_kHz % 256 :=
    Nat.and_pow_two_sub_one_eq_mod cfg.loopBandwidth_kHz 8
  have h2 : ((cfg.loopBandwidth_kHz >>> 8) &&& 0x00FF) = (cfg.loopBandwidth_kHz >>> 8) % 256 :=
    Nat.and_pow_two_sub_one_eq_mod (cfg.loopBandwidth_kHz >>> 8) 8
  have h3 : cfg.loopBandwidth_kHz >>> 8 = cfg.loopBandwidth_kHz / 256 := by
    rw [Nat.shiftRight_eq_div_pow]
  unfold pllLoopFilterPayload
  rw [h1, h2, h3, Nat.mod_mod, Nat.mod_mod, Nat.mod_eq_of_lt hpm, Nat.mod_eq_of_lt hps,
    Nat.mod_eq_of_lt (by omega : cfg.loopBandwidth_kHz / 256 < 256)]

/-- Two bytes combined as the loop filter deserialisation does give the
little-endian value. -/
theorem or_shiftLeft_eight (lo hi : Nat) (hlo : lo < 256) (hhi : hi < 256) :
    (lo ||| (hi <<< 8)) % 65536 = lo + 256 * hi := by
  rw [or_shiftLeft_eq_add lo hi 8 (by omega)]
  omega

/-- The loop filter deserialisation inverts the serialisation and takes the
effective bandwidth from bytes 4 and 5. -/
theorem pllLoopFilterParse_payload (cfg : adi_adrv9001_PllLoopFilterCfg_t) (e : Nat)
    (hpm : cfg.phaseMargin_degrees < 256) (hbw : cfg.loopBandwidth_kHz < 65536)
    (hps : cfg.powerScale < 256) (he : e < 65536) :
    pllLoopFilterParse (readInto 6 (pllLoopFilterPayload cfg ++ littleEndianBytes 2 e)) =
      { cfg with effectiveLoopBandwidth_kHz := e } := by
  have hbytes : pllLoopFilterPayload cfg ++ littleEndianBytes 2 e =
      [cfg.phaseMargin_degrees, cfg.loopBandwidth_kHz % 256, cfg.loopBandwidth_kHz / 256,
        cfg.powerScale, e % 256, e / 256] := by
    rw [pllLoopFilterPayload_eq cfg hpm hbw hps]
    have h2 : e / 256 % 256 = e / 256 := Nat.mod_eq_of_lt (by omega)
    simp only [littleEndianBytes, List.cons_append, List.nil_append, h2]
  rw [hbytes, readInto_eq_self 6
    [cfg.phaseMargin_degrees, cfg.loopBandwidth_kHz % 256, cfg.loopBandwidth_kHz / 256,
      cfg.powerScale, e % 256, e / 256] rfl]
  · unfold pllLoopFilterParse
    simp only [List.getD_cons_zero, List.getD_cons_succ]
    rw [or_shiftLeft_eight _ _ (by omega) (by omega), or_shiftLeft_eight _ _ (by omega) (by omega)]
    have g1 : cfg.loopBandwidth_kHz % 256 + 256 * (cfg.loopBandwidth_kHz / 256) =
        cfg.loopBandwidth_kHz := by omega
    have g2 : e % 256 + 256 * (e / 256) = e := by omega
    rw [g1, g2]
  · intro b hb
    simp only [List.mem_cons, List.mem_singleton, List.not_mem_nil, or_false] at hb
    rcases hb with hb | hb | hb | hb | hb | hb <;> omega

/-- The loop filter query is total, and on success its output is the
deserialisation of the 6 bytes the mailbox read delivered. -/
theorem sat_PllLoopFilter_Get_result {σ : Type} (hal : Platform σ) (pll : adi_adrv9001_Pll_e)
    (cfg0 : adi_adrv9001_PllLoopFilterCfg_t) (d : σ) :
    FuncOut.Sat (adi_adrv9001_Radio_PllLoopFilter_Get hal pll cfg0) d
      (fun a out _ _ => a = ADI_COMMON_ACT_NO_ACTION →
        out = pllLoopFilterParse (readInto 6
          (hal.adi_adrv9001_arm_Memory_Read ArmAddr.ADRV9001_ADDR_ARM_MAILBOX_GET 6 false
            (hal.adrv9001_ARM_CMD_STATUS_WAIT Opcode.ADRV9001_ARM_GET_OPCODE
              hal.ADRV9001_ARM_OBJECTID_PLL_LOOPFILTER hal.ADI_ADRV9001_GETLOOPFILTER_TIMEOUT_US
              hal.ADI_ADRV9001_GETLOOPFILTER_INTERVAL_US
              (hal.adi_adrv9001_arm_Cmd_Write Opcode.ADRV9001_ARM_GET_OPCODE
                [0, hal.ADRV9001_ARM_OBJECTID_PLL_LOOPFILTER, pll.toNat] d).2).2).2.1)) := by
  unfold adi_adrv9001_Radio_PllLoopFilter_Get adi_adrv9001_Radio_PllLoopFilter_Get_Validate
  simp only [stmt_bind_eq, stmt_pure_eq, sat_toFuncOut, sat_toFunc, sat_bind, sat_ADI_EXPECT,
    sat_ADI_RANGE_CHECK, sat_callDev, sat_callDevVal, sat_pure]
  split_ifs <;> simp_all

/-- An accepted loop filter configuration is written to the SET region of the
mailbox first. -/
theorem sat_PllLoopFilter_Set_writes {σ : Type} (hal : Platform σ) (pll : adi_adrv9001_Pll_e)
    (cfg : adi_adrv9001_PllLoopFilterCfg_t) (d : σ)
    (hval : adi_adrv9001_Radio_PllLoopFilter_Set_Validate pll cfg d =
      some (ADI_COMMON_ACT_NO_ACTION, [], d)) :
    Func.Sat (adi_adrv9001_Radio_PllLoopFilter_Set hal pll cfg) d
      (fun _ tr _ => ∃ r rest,
        tr = Event.memoryWrite ArmAddr.ADRV9001_ADDR_ARM_MAILBOX_SET (pllLoopFilterPayload cfg) r ::
          rest ∧
        ∀ addr data r2, Event.memoryWrite addr data r2 ∉ rest) := by
  unfold adi_adrv9001_Radio_PllLoopFilter_Set
  simp only [stmt_bind_eq, stmt_pure_eq, sat_toFunc, sat_bind, sat_ADI_EXPECT,
    func_sat_of_eq hval, if_true, sat_callDev, sat_pure, List.nil_append]
  split_ifs <;> exact ⟨_, _, rfl, by simp⟩

/-! ## Status register decoding -/

/-- The expression `(v >> k) & 0x03` is the 2-bit field of `v` at bit `k`. -/
theorem twoBitField (v k : Nat) : (v >>> k) &&& 0x03 = v / 2 ^ k % 4 := by
  rw [Nat.shiftRight_eq_div_pow]
  exact Nat.and_pow_two_sub_one_eq_mod _ 2

/-- The expression `(v >> k) & 0x0F` is the 4-bit field of `v` at bit `k`. -/
theorem fourBitField (v k : Nat) : (v >>> k) &&& 0x0F = v / 2 ^ k % 16 := by
  rw [Nat.shiftRight_eq_div_pow]
  exact Nat.and_pow_two_sub_one_eq_mod _ 4

/-- Four 2-bit fields packed by OR and shift. -/
theorem pack_twoBitFields (a b c e : Nat) (ha : a < 4) (hb : b < 4) (hc : c < 4) :
    a ||| (b <<< 2) ||| (c <<< 4) ||| (e <<< 6) = a + 4 * b + 16 * c + 64 * e := by
  rw [or_shiftLeft_eq_add a b 2 (by omega), or_shiftLeft_eq_add _ c 4 (by omega),
    or_shiftLeft_eq_add _ e 6 (by omega)]
  omega

/-- Two 2-bit fields and a 4-bit field packed by OR and shift. -/
theorem pack_statusA (s m b : Nat) (hs : s < 4) (hm : m < 4) :
    s ||| (m <<< 2) ||| (b <<< 4) = s + 4 * m + 16 * b := by
  rw [or_shiftLeft_eq_add s m 2 (by omega), or_shiftLeft_eq_add _ b 4 (by omega)]
  omega

/-- A function with an output is characterised by its result. -/
theorem funcOut_sat_eq {σ α : Type} (f : FuncOut σ α) (d : σ) (a0 : Action) (x0 : α)
    (tr0 : List Event) (d0 : σ) :
    FuncOut.Sat f d (fun a x tr d2 => a = a0 ∧ x = x0 ∧ tr = tr0 ∧ d2 = d0) ↔
      f d = some (a0, x0, tr0, d0) := by
  unfold FuncOut.Sat
  constructor
  · rintro ⟨a, x, tr, d2, h, rfl, rfl, rfl, rfl⟩
    exact h
  · intro h
    exact ⟨_, _, _, _, h, rfl, rfl, rfl, rfl⟩

/-- The radio state query when both register reads succeed: the decoded
fields of the two delivered bytes. -/
theorem State_Get_eq {σ : Type} (hal : Platform σ) (rs0 : adi_adrv9001_RadioState_t)
    (d d1 d2 : σ) (a b : Nat)
    (h8 : hal.spiReadByte RegAddr.ADRV9001_ADDR_ARM_CMD_STATUS_8 d =
      (ADI_COMMON_ACT_NO_ACTION, a, d1))
    (h9 : hal.spiReadByte RegAddr.ADRV9001_ADDR_ARM_CMD_STATUS_9 d1 =
      (ADI_COMMON_ACT_NO_ACTION, b, d2)) :
    adi_adrv9001_Radio_State_Get hal rs0 d =
      some (ADI_COMMON_ACT_NO_ACTION,
        { systemState := a % 256 % 4
          monitorModeState := a % 256 / 4 % 4
          bootState := a % 256 / 16 % 16
          channelStates := [[b % 256 % 4, b % 256 / 4 % 4], [b % 256 / 16 % 4, b % 256 / 64 % 4]] },
        [Event.spiReadByte RegAddr.ADRV9001_ADDR_ARM_CMD_STATUS_8 ADI_COMMON_ACT_NO_ACTION,
         Event.spiReadByte RegAddr.ADRV9001_ADDR_ARM_CMD_STATUS_9 ADI_COMMON_ACT_NO_ACTION],
        d2) := by
  have e0 : (a % 256) &&& 0x03 = a % 256 % 4 := Nat.and_pow_two_sub_one_eq_mod _ 2
  have e1 := twoBitField (a % 256) 2
  have e2 := fourBitField (a % 256) 4
  have f0 := twoBitField (b % 256) 0
  have f1 := twoBitField (b % 256) 2
  have f2 := twoBitField (b % 256) 4
  have f3 := twoBitField (b % 256) 6
  simp only [pow_zero, Nat.div_one, Nat.reducePow] at e1 e2 f0 f1 f2 f3
  unfold adi_adrv9001_Radio_State_Get
  simp only [h8, h9, ne_eq, not_true_eq_false, if_false, e0, e1, e2, f0, f1, f2, f3]

/-- The single-channel state query of an RX/TX channel when the register read
succeeds: the 2-bit field of the channel. -/
theorem Channel_State_Get_eq {σ : Type} (hal : Platform σ) (port : adi_common_Port_e)
    (channel : adi_common_ChannelNumber_e) (st0 : Nat) (d d2 : σ) (b : Nat)
    (hport : port ≠ ADI_ORX)
    (h9 : hal.spiReadByte RegAddr.ADRV9001_ADDR_ARM_CMD_STATUS_9 d =
      (ADI_COMMON_ACT_NO_ACTION, b, d2)) :
    adi_adrv9001_Radio_Channel_State_Get hal port channel st0 d =
      some (ADI_COMMON_ACT_NO_ACTION,
        b % 256 / 2 ^ (4 * adi_common_port_to_index port 0 +
          2 * adi_common_channel_to_index channel 0) % 4,
        [Event.spiReadByte RegAddr.ADRV9001_ADDR_ARM_CMD_STATUS_9 ADI_COMMON_ACT_NO_ACTION],
        d2) := by
  have f0 := twoBitField (b % 256) 0
  have f1 := twoBitField (b % 256) 2
  have f2 := twoBitField (b % 256) 4
  have f3 := twoBitField (b % 256) 6
  rw [← funcOut_sat_eq]
  unfold adi_adrv9001_Radio_Channel_State_Get adi_adrv9001_Radio_Channel_State_Get_Validate
  cases port <;> cases channel <;>
    simp_all [stmt_bind_eq, stmt_pure_eq, sat_toFuncOut, sat_toFunc, sat_bind, sat_ADI_EXPECT,
      sat_ADI_RANGE_CHECK, sat_callDevVal, sat_pure, adi_common_Port_e.toNat,
      adi_common_ChannelNumber_e.toNat, adi_common_port_to_index, adi_common_channel_to_index]

/-- The single-channel state query of an ORX channel fails in validation:
no device access, the output variable keeps its content. -/
theorem Channel_State_Get_orx {σ : Type} (hal : Platform σ)
    (channel : adi_common_ChannelNumber_e) (st0 : Nat) (d : σ) :
    adi_adrv9001_Radio_Channel_State_Get hal ADI_ORX channel st0 d =
      some (ADI_COMMON_ACT_ERR_CHECK_PARAM, st0, [], d) := by
  rw [← funcOut_sat_eq]
  unfold adi_adrv9001_Radio_Channel_State_Get adi_adrv9001_Radio_Channel_State_Get_Validate
  simp [stmt_bind_eq, stmt_pure_eq, sat_toFuncOut, sat_toFunc, sat_bind, sat_ADI_EXPECT,
    sat_ADI_RANGE_CHECK, adi_common_Port_e.toNat]

/-- The radio state query stores the three fields of status register A as
soon as its read succeeds, whatever the read of register B reports. -/
theorem State_Get_statusA {σ : Type} (hal : Platform σ) (rs0 : adi_adrv9001_RadioState_t)
    (d d1 : σ) (a : Nat)
    (h8 : hal.spiReadByte RegAddr.ADRV9001_ADDR_ARM_CMD_STATUS_8 d =
      (ADI_COMMON_ACT_NO_ACTION, a, d1)) :
    ∃ act rs tr d2, adi_adrv9001_Radio_State_Get hal rs0 d = some (act, rs, tr, d2) ∧
      rs.systemState = a % 256 % 4 ∧ rs.monitorModeState = a % 256 / 4 % 4 ∧
      rs.bootState = a % 256 / 16 := by
  have e0 : (a % 256) &&& 0x03 = a % 256 % 4 := Nat.and_pow_two_sub_one_eq_mod _ 2
  have e1 := twoBitField (a % 256) 2
  have e2 := fourBitField (a % 256) 4
  have e3 : a % 256 / 16 % 16 = a % 256 / 16 := Nat.mod_eq_of_lt (by omega)
  simp only [Nat.reducePow] at e1 e2
  unfold adi_adrv9001_Radio_State_Get
  simp only [h8, ne_eq, not_true_eq_false, if_false, e0, e1, e2, e3]
  rcases h9 : hal.spiReadByte RegAddr.ADRV9001_ADDR_ARM_CMD_STATUS_9 d1 with ⟨a2, v2, d2⟩
  split_ifs <;> exact ⟨_, _, _, _, rfl, rfl, rfl, rfl⟩

/-! ## Channel masks -/

/-- One iteration of the mask loop ORs the mask of the entry into the
accumulator. -/
theorem maskStep_eq_or (p : adi_common_Port_e) (c : adi_common_ChannelNumber_e) (m : Nat) :
    maskStep p c m = m ||| batchMask [(p, c)] := by
  cases p <;> cases c <;> simp [maskStep, batchMask]

/-- The mask of a batch is the OR of the masks of its entries. -/
theorem batchMask_eq_foldl_or (batch : List (adi_common_Port_e × adi_common_ChannelNumber_e)) :
    batchMask batch = batch.foldl (fun m pc => m ||| batchMask [pc]) 0 := by
  unfold batchMask
  congr 1
  funext m pc
  exact maskStep_eq_or pc.1 pc.2 m

/-- A bit of an OR over a list is set exactly when it is set in the start
value or in the contribution of some entry. -/
theorem testBit_foldl_or {α : Type} (f : α → Nat) (xs : List α) (m j : Nat) :
    (xs.foldl (fun acc x => acc ||| f x) m).testBit j =
      (m.testBit j || xs.any (fun x => (f x).testBit j)) := by
  induction xs generalizing m with
  | nil => simp
  | cons x rest ih =>
    rw [List.foldl_cons, ih, Nat.testBit_or, List.any_cons, Bool.or_assoc]

/-! ## State validation of a batch -/

/-- The state validation loop of the batch operations on a batch of RX/TX
channels: it makes no device access, passes when no listed channel is in a
state the guard `bad` rejects, and returns the parameter error otherwise. -/
theorem sat_stateValidationLoop {σ : Type}
    (batch : List (adi_common_Port_e × adi_common_ChannelNumber_e))
    (rs : adi_adrv9001_RadioState_t) (bad : Nat → Prop) [DecidablePred bad]
    (body : Nat → Nat × Nat → Stmt σ (Nat × Nat))
    (hbody : ∀ i idx, body i idx =
      if bad (rs.stateAt (adi_common_port_to_index (batchAt batch i).1 idx.1)
          (adi_common_channel_to_index (batchAt batch i).2 idx.2)) then
        Stmt.ret ADI_COMMON_ACT_ERR_CHECK_PARAM
      else Stmt.pure (adi_common_port_to_index (batchAt batch i).1 idx.1,
        adi_common_channel_to_index (batchAt batch i).2 idx.2))
    (hports : ∀ k, k < batch.length → (batchAt batch k).1 ≠ ADI_ORX)
    (fuel : Nat) (hlen : batch.length ≤ 255) (hfuel : batch.length < fuel) (d : σ) :
    (forU8 batch.length body fuel 0 (0, 0)).Sat d (fun r tr d2 => tr = [] ∧ d2 = d ∧
      ((∀ k, k < batch.length →
          ¬ bad (channelStateIn rs (batchAt batch k).1 (batchAt batch k).2)) →
        ∃ b, r = Step.next b) ∧
      ((∃ k, k < batch.length ∧
          bad (channelStateIn rs (batchAt batch k).1 (batchAt batch k).2)) →
        r = Step.ret ADI_COMMON_ACT_ERR_CHECK_PARAM)) := by
  refine stmt_sat_mono (sat_forU8 batch.length body
    (fun i _ tr dd => tr = [] ∧ dd = d ∧
      ∀ k, k < i → ¬ bad (channelStateIn rs (batchAt batch k).1 (batchAt batch k).2))
    (fun r tr dd => tr = [] ∧ dd = d ∧
      ((∀ k, k < batch.length →
          ¬ bad (channelStateIn rs (batchAt batch k).1 (batchAt batch k).2)) →
        ∃ b, r = Step.next b) ∧
      ((∃ k, k < batch.length ∧
          bad (channelStateIn rs (batchAt batch k).1 (batchAt batch k).2)) →
        r = Step.ret ADI_COMMON_ACT_ERR_CHECK_PARAM))
    hlen ?_ ?_ fuel 0 (0, 0) [] d (Nat.zero_le _) (by omega)
    ⟨rfl, rfl, fun k hk => absurd hk (Nat.not_lt_zero k)⟩) ?_
  · intro i b tr dd hi ⟨htr, hdd, hinv⟩
    subst htr hdd
    rw [hbody, port_to_index_of_ne_orx _ _ (hports i hi), channel_to_index_any]
    by_cases hb : bad (rs.stateAt (adi_common_port_to_index (batchAt batch i).1 0)
        (adi_common_channel_to_index (batchAt batch i).2 0))
    · rw [if_pos hb, sat_ret]
      exact ⟨rfl, rfl, fun hall => absurd hb (hall i hi), fun _ => rfl⟩
    · rw [if_neg hb, sat_pure]
      refine ⟨rfl, rfl, fun k hk => ?_⟩
      by_cases hki : k = i
      · subst hki
        exact hb
      · exact hinv k (by omega)
  · intro b tr dd ⟨htr, hdd, hinv⟩
    refine ⟨htr, hdd, fun _ => ⟨b, rfl⟩, fun hex => ?_⟩
    obtain ⟨k, hk, hbad⟩ := hex
    exact absurd hbad (hinv k hk)
  · intro r tr dd h
    simpa using h

/-- No status register read is a mailbox command. -/
theorem filter_isMailboxCommand_statusReads (tr : List Event)
    (h : ∀ e ∈ tr, ∃ addr r, e = Event.spiReadByte addr r) :
    tr.filter Event.isMailboxCommand = [] := by
  rw [List.filter_eq_nil_iff]
  intro e he
  obtain ⟨addr, r, rfl⟩ := h e he
  simp [Event.isMailboxCommand]

/-- No status register read is a command-status wait. -/
theorem filter_isWait_statusReads (tr : List Event)
    (h : ∀ e ∈ tr, ∃ addr r, e = Event.spiReadByte addr r) :
    tr.filter Event.isWait = [] := by
  rw [List.filter_eq_nil_iff]
  intro e he
  obtain ⟨addr, r, rfl⟩ := h e he
  simp [Event.isWait]

/-- The power-down validation of a batch of RX/TX channels once the radio
state has been read: it accepts exactly the batches whose channels are all
CALIBRATED, and its only accesses are those of the state read. -/
theorem sat_PowerDown_Validate_result {σ : Type} (hal : Platform σ) (fuel : Nat)
    (batch : List (adi_common_Port_e × adi_common_ChannelNumber_e)) (d : σ)
    (rs : adi_adrv9001_RadioState_t) (tr0 : List Event) (d0 : σ)
    (hlen : batch.length ≤ 255) (hfuel : batch.length < fuel)
    (hread : adi_adrv9001_Radio_State_Get hal adi_adrv9001_RadioState_t.zero d =
      some (ADI_COMMON_ACT_NO_ACTION, rs, tr0, d0))
    (hports : ∀ k, k < batch.length → (batchAt batch k).1 ≠ ADI_ORX) :
    Func.Sat (adi_adrv9001_Radio_Channels_PowerDown_Validate hal fuel batch) d
      (fun a tr d2 => tr = tr0 ∧ d2 = d0 ∧
        ((∀ k, k < batch.length →
            channelStateIn rs (batchAt batch k).1 (batchAt batch k).2 =
              ADI_ADRV9001_CHANNEL_CALIBRATED) → a = ADI_COMMON_ACT_NO_ACTION) ∧
        ((∃ k, k < batch.length ∧
            channelStateIn rs (batchAt batch k).1 (batchAt batch k).2 ≠
              ADI_ADRV9001_CHANNEL_CALIBRATED) → a = ADI_COMMON_ACT_ERR_CHECK_PARAM)) := by
  unfold adi_adrv9001_Radio_Channels_PowerDown_Validate
  simp only [stmt_bind_eq, stmt_pure_eq, sat_toFunc, sat_bind, sat_ADI_EXPECT_OUT,
    funcOut_sat_of_eq hread, if_true]
  refine stmt_sat_mono (sat_stateValidationLoop batch rs
    (fun s => s ≠ ADI_ADRV9001_CHANNEL_CALIBRATED) _ (fun i idx => rfl) hports fuel hlen hfuel
    d0) ?_
  rintro r tr dd ⟨htr, hdd, hpass, hfail⟩
  subst htr hdd
  cases r with
  | ret a =>
    refine ⟨by simp, rfl, fun hall => ?_, fun hex => ?_⟩
    · obtain ⟨b, hb⟩ := hpass (fun k hk => not_not.mpr (hall k hk))
      cases hb
    · have := hfail hex
      simp only [Step.ret.injEq] at this
      exact this
  | next b =>
    rw [sat_pure]
    refine ⟨by simp, rfl, fun _ => rfl, fun hex => ?_⟩
    have := hfail hex
    cases this

/-- The power-down of a batch of RX/TX channels accepted by the generic
validation, once the radio state has been read: with every channel CALIBRATED
the POWERDOWN command with the mask of the batch follows the state read and is
the only command; otherwise the call fails after the state read. -/
theorem sat_Channels_PowerDown_result {σ : Type} (hal : Platform σ) (fuel : Nat)
    (batch : List (adi_common_Port_e × adi_common_ChannelNumber_e)) (d : σ)
    (rs : adi_adrv9001_RadioState_t) (tr0 : List Event) (d0 : σ)
    (hlen : batch.length ≤ 255) (hfuel : batch.length < fuel)
    (hgen : hal.adi_adrv9001_Channel_State_GenericValidate batch = ADI_COMMON_ACT_NO_ACTION)
    (hread : adi_adrv9001_Radio_State_Get hal adi_adrv9001_RadioState_t.zero d =
      some (ADI_COMMON_ACT_NO_ACTION, rs, tr0, d0))
    (hports : ∀ k, k < batch.length → (batchAt batch k).1 ≠ ADI_ORX) :
    Func.Sat (adi_adrv9001_Radio_Channels_PowerDown hal fuel batch) d
      (fun a tr _ =>
        ((∀ k, k < batch.length →
            channelStateIn rs (batchAt batch k).1 (batchAt batch k).2 =
              ADI_ADRV9001_CHANNEL_CALIBRATED) →
          ∃ r rest, tr = tr0 ++ Event.cmdWrite Opcode.ADRV9001_ARM_POWERDOWN_OPCODE
              [batchMask batch] r :: rest ∧
            (∀ e ∈ rest, e.isMailboxCommand = false) ∧
            (r ≠ ADI_COMMON_ACT_NO_ACTION → a = r ∧ rest = []) ∧
            (r = ADI_COMMON_ACT_NO_ACTION → ∃ w,
              rest = [Event.cmdStatusWait Opcode.ADRV9001_ARM_POWERDOWN_OPCODE 0
                hal.ADI_ADRV9001_RADIOONOFF_TIMEOUT_US hal.ADI_ADRV9001_RADIOONOFF_INTERVAL_US
                w] ∧ a = w)) ∧
        ((∃ k, k < batch.length ∧
            channelStateIn rs (batchAt batch k).1 (batchAt batch k).2 ≠
              ADI_ADRV9001_CHANNEL_CALIBRATED) →
          a = ADI_COMMON_ACT_ERR_CHECK_PARAM ∧ tr = tr0)) := by
  unfold adi_adrv9001_Radio_Channels_PowerDown
  simp only [stmt_bind_eq, stmt_pure_eq, sat_toFunc, sat_bind, sat_ADI_EXPECT, sat_expectPure,
    hgen, if_true, List.nil_append]
  refine func_sat_mono (sat_PowerDown_Validate_result hal fuel batch d rs tr0 d0 hlen hfuel
    hread hports) ?_
  rintro av trv dv ⟨htr, hdd, hpass, hfail⟩
  subst htr hdd
  by_cases hall : ∀ k, k < batch.length →
      channelStateIn rs (batchAt batch k).1 (batchAt batch k).2 =
        ADI_ADRV9001_CHANNEL_CALIBRATED
  · have hav := hpass hall
    subst hav
    have hnex : ¬ ∃ k, k < batch.length ∧
        channelStateIn rs (batchAt batch k).1 (batchAt batch k).2 ≠
          ADI_ADRV9001_CHANNEL_CALIBRATED := by
      rintro ⟨k, hk, hne⟩
      exact hne (hall k hk)
    simp only [if_true, sat_callDev, sat_liftOption,
      MailboxChannelMask_Get_eq fuel batch hlen hfuel, Option.some.injEq, exists_eq_left',
      sat_pure, List.nil_append]
    split_ifs with hc hw
    · refine ⟨fun _ => ⟨_, _, rfl, by simp [Event.isMailboxCommand], fun h => absurd hc h,
        fun _ => ⟨_, rfl, hw.symm⟩⟩, fun hex => absurd hex hnex⟩
    · refine ⟨fun _ => ⟨_, _, rfl, by simp [Event.isMailboxCommand], fun h => absurd hc h,
        fun _ => ⟨_, rfl, rfl⟩⟩, fun hex => absurd hex hnex⟩
    · refine ⟨fun _ => ⟨_, [], rfl, by simp, fun _ => ⟨rfl, rfl⟩, fun h => absurd h hc⟩,
        fun hex => absurd hex hnex⟩
  · have hex : ∃ k, k < batch.length ∧
        channelStateIn rs (batchAt batch k).1 (batchAt batch k).2 ≠
          ADI_ADRV9001_CHANNEL_CALIBRATED := by
      by_contra hcon
      exact hall (fun k hk => by_contra (fun hne => hcon ⟨k, hk, hne⟩))
    have hav := hfail hex
    subst hav
    rw [if_neg (by decide)]
    exact ⟨fun h => absurd h hall, fun _ => ⟨rfl, rfl⟩⟩

/-- A prime or un-prime of a batch of RX/TX channels that passes the generic
and the state validation: the state read is followed by one command write with
the mask of the batch, then by the wait for the same opcode, then, when
priming, by the errata compensation, which makes no mailbox access. -/
theorem sat_Channels_Prime_accepted {σ : Type} (hal : Platform σ) (fuel : Nat)
    (batch : List (adi_common_Port_e × adi_common_ChannelNumber_e)) (prime : Bool) (d : σ)
    (rs : adi_adrv9001_RadioState_t) (tr0 : List Event) (d0 : σ)
    (hlen : batch.length ≤ 255) (hfuel : batch.length < fuel) (h6 : 6 ≤ fuel)
    (hgen : hal.adi_adrv9001_Channel_State_GenericValidate batch = ADI_COMMON_ACT_NO_ACTION)
    (hread : adi_adrv9001_Radio_State_Get hal adi_adrv9001_RadioState_t.zero d =
      some (ADI_COMMON_ACT_NO_ACTION, rs, tr0, d0))
    (hports : ∀ k, k < batch.length → (batchAt batch k).1 ≠ ADI_ORX)
    (hstates : ∀ k, k < batch.length →
      channelStateIn rs (batchAt batch k).1 (batchAt batch k).2 =
        ADI_ADRV9001_CHANNEL_CALIBRATED ∨
      channelStateIn rs (batchAt batch k).1 (batchAt batch k).2 =
        ADI_ADRV9001_CHANNEL_PRIMED) :
    Func.Sat (adi_adrv9001_Radio_Channels_Prime hal fuel batch prime) d
      (fun a tr _ => ∃ r rest,
        tr = tr0 ++ Event.cmdWrite (radioOpcode prime) [batchMask batch] r :: rest ∧
        (r ≠ ADI_COMMON_ACT_NO_ACTION → a = r ∧ rest = []) ∧
        (r = ADI_COMMON_ACT_NO_ACTION → ∃ w trF,
          rest = Event.cmdStatusWait (radioOpcode prime) 0
            hal.ADI_ADRV9001_RADIOONOFF_TIMEOUT_US hal.ADI_ADRV9001_RADIOONOFF_INTERVAL_US w ::
              trF ∧
          noMailboxAccess trF ∧
          (w ≠ ADI_COMMON_ACT_NO_ACTION → a = w ∧ trF = []) ∧
          (prime = false → a = w ∧ trF = []))) := by
  unfold adi_adrv9001_Radio_Channels_Prime
  simp only [stmt_bind_eq, stmt_pure_eq, sat_toFunc, sat_bind, sat_expectPure,
    sat_ADI_EXPECT_OUT, funcOut_sat_of_eq hread, hgen, if_true, List.nil_append]
  refine stmt_sat_mono (sat_stateValidationLoop batch rs
    (fun s => s ≠ ADI_ADRV9001_CHANNEL_CALIBRATED ∧ s ≠ ADI_ADRV9001_CHANNEL_PRIMED) _
    (fun i idx => by cases prime <;> rfl) hports fuel hlen hfuel d0) ?_
  rintro r tr dd ⟨htr, hdd, hpass, _⟩
  subst htr hdd
  obtain ⟨b, hb⟩ := hpass (fun k hk hbad => by
    rcases hstates k hk with h | h
    · exact hbad.1 h
    · exact hbad.2 h)
  subst hb
  simp only [sat_liftOption, MailboxChannelMask_Get_eq fuel batch hlen hfuel,
    Option.some.injEq, exists_eq_left', sat_callDev, sat_bind, List.nil_append,
    List.append_nil]
  cases prime with
  | false =>
    simp only [Bool.false_eq_true, if_false, sat_pure, radioOpcode]
    split_ifs with hc hw
    · exact ⟨_, _, rfl, fun h => absurd hc h, fun _ => ⟨_, [], rfl, by simp [noMailboxAccess],
        fun h => absurd hw h, fun _ => ⟨hw.symm, rfl⟩⟩⟩
    · exact ⟨_, _, rfl, fun h => absurd hc h, fun _ => ⟨_, [], rfl, by simp [noMailboxAccess],
        fun _ => ⟨rfl, rfl⟩, fun _ => ⟨rfl, rfl⟩⟩⟩
    · exact ⟨_, [], rfl, fun _ => ⟨rfl, rfl⟩, fun h => absurd h hc⟩
  | true =>
    simp only [if_true, radioOpcode]
    by_cases hc : (hal.adi_adrv9001_arm_Cmd_Write Opcode.ADRV9001_ARM_RADIOON_OPCODE
        [batchMask batch] dd).1 = ADI_COMMON_ACT_NO_ACTION
    · rw [if_pos hc]
      by_cases hw : (hal.adrv9001_ARM_CMD_STATUS_WAIT Opcode.ADRV9001_ARM_RADIOON_OPCODE 0
          hal.ADI_ADRV9001_RADIOONOFF_TIMEOUT_US hal.ADI_ADRV9001_RADIOONOFF_INTERVAL_US
          (hal.adi_adrv9001_arm_Cmd_Write Opcode.ADRV9001_ARM_RADIOON_OPCODE
            [batchMask batch] dd).2).1 = ADI_COMMON_ACT_NO_ACTION
      · rw [if_pos hw]
        simp only [sat_ADI_EXPECT]
        refine func_sat_mono (sat_ToPrimed_Fix hal fuel batch _ hlen hfuel h6) ?_
        rintro aF trF dF ⟨hno, _⟩
        split_ifs
        · simp only [sat_pure]
          exact ⟨_, _, by simp, fun h => absurd hc h, fun _ => ⟨_, trF, rfl, hno,
            fun h => absurd hw h, fun h => by cases h⟩⟩
        · exact ⟨_, _, by simp, fun h => absurd hc h, fun _ => ⟨_, trF, rfl, hno,
            fun h => absurd hw h, fun h => by cases h⟩⟩
      · rw [if_neg hw]
        exact ⟨_, _, rfl, fun h => absurd hc h, fun _ => ⟨_, [], rfl, by simp [noMailboxAccess],
          fun _ => ⟨rfl, rfl⟩, fun h => by cases h⟩⟩
    · rw [if_neg hc]
      exact ⟨_, [], rfl, fun _ => ⟨rfl, rfl⟩, fun h => absurd h hc⟩

/-! ## Range violations of the set operations -/

/-- A function whose validation fails without device access fails the same
way: the pattern of `ADI_PERFORM_VALIDATION` at the head of a function. -/
theorem sat_after_failed_validation {σ : Type} (validate : Func σ) (rest : Stmt σ Action)
    (d : σ) (a : Action) (tr : List Event) (d1 : σ) (ha : a ≠ ADI_COMMON_ACT_NO_ACTION)
    (hval : validate d = some (a, tr, d1)) :
    Stmt.toFunc (Stmt.bind (ADI_EXPECT validate) (fun _ => rest)) d = some (a, tr, d1) := by
  rw [← func_sat_eq]
  simp only [sat_toFunc, sat_bind, sat_ADI_EXPECT, func_sat_of_eq hval, if_neg ha, and_self]

/-- A carrier with a field outside its bounds, or a port or channel the
platform rejects, fails the carrier validation without any device access. -/
theorem Carrier_Configure_Validate_range {σ : Type} (hal : Platform σ)
    (port : adi_common_Port_e) (channel : adi_common_ChannelNumber_e)
    (carrier : adi_adrv9001_Carrier_t) (d : σ)
    (hviol : hal.adi_adrv9001_Port_Validate port ≠ ADI_COMMON_ACT_NO_ACTION ∨
      hal.adi_adrv9001_Channel_Validate channel ≠ ADI_COMMON_ACT_NO_ACTION ∨
      (carrier.pllCalibration < hal.ADI_ADRV9001_PLL_CALIBRATION_NORMAL ∨
        carrier.pllCalibration > hal.ADI_ADRV9001_PLL_CALIBRATION_RESERVED) ∨
      (carrier.loGenOptimization < hal.ADI_ADRV9001_LO_GEN_OPTIMIZATION_PHASE_NOISE ∨
        carrier.loGenOptimization > hal.ADI_ADRV9001_LO_GEN_OPTIMIZATION_POWER_CONSUMPTION) ∨
      (carrier.pllPower < hal.ADI_ADRV9001_PLL_POWER_LOW ∨
        carrier.pllPower > hal.ADI_ADRV9001_PLL_POWER_HIGH) ∨
      (carrier.carrierFrequency_Hz < 30000000 ∨ carrier.carrierFrequency_Hz > 6000000000) ∨
      (carrier.intermediateFrequency_Hz ≠ 0 ∧
        (carrier.intermediateFrequency_Hz < 200000 ∨
          carrier.intermediateFrequency_Hz > 20000000))) :
    ∃ a, a ≠ ADI_COMMON_ACT_NO_ACTION ∧
      adi_adrv9001_Radio_Carrier_Configure_Validate hal port channel carrier d =
        some (a, [], d) := by
  by_cases hport : hal.adi_adrv9001_Port_Validate port = ADI_COMMON_ACT_NO_ACTION
  swap
  · refine ⟨_, hport, ?_⟩
    rw [← func_sat_eq]
    unfold adi_adrv9001_Radio_Carrier_Configure_Validate
    simp [stmt_bind_eq, stmt_pure_eq, sat_toFunc, sat_bind, sat_expectPure, hport]
  by_cases hchan : hal.adi_adrv9001_Channel_Validate channel = ADI_COMMON_ACT_NO_ACTION
  swap
  · refine ⟨_, hchan, ?_⟩
    rw [← func_sat_eq]
    unfold adi_adrv9001_Radio_Carrier_Configure_Validate
    simp [stmt_bind_eq, stmt_pure_eq, sat_toFunc, sat_bind, sat_expectPure, hport, hchan]
  refine ⟨ADI_COMMON_ACT_ERR_CHECK_PARAM, by decide, ?_⟩
  rw [← func_sat_eq]
  unfold adi_adrv9001_Radio_Carrier_Configure_Validate
  by_cases hcal : carrier.pllCalibration < hal.ADI_ADRV9001_PLL_CALIBRATION_NORMAL ∨
      carrier.pllCalibration > hal.ADI_ADRV9001_PLL_CALIBRATION_RESERVED
  · simp [stmt_bind_eq, stmt_pure_eq, sat_toFunc, sat_bind, sat_expectPure, hport, hchan,
      sat_ADI_RANGE_CHECK, if_pos hcal]
  by_cases hlo : carrier.loGenOptimization < hal.ADI_ADRV9001_LO_GEN_OPTIMIZATION_PHASE_NOISE ∨
      carrier.loGenOptimization > hal.ADI_ADRV9001_LO_GEN_OPTIMIZATION_POWER_CONSUMPTION
  · simp [stmt_bind_eq, stmt_pure_eq, sat_toFunc, sat_bind, sat_expectPure, hport, hchan,
      sat_ADI_RANGE_CHECK, if_neg hcal, if_pos hlo]
  by_cases hpow : carrier.pllPower < hal.ADI_ADRV9001_PLL_POWER_LOW ∨
      carrier.pllPower > hal.ADI_ADRV9001_PLL_POWER_HIGH
  · simp [stmt_bind_eq, stmt_pure_eq, sat_toFunc, sat_bind, sat_expectPure, hport, hchan,
      sat_ADI_RANGE_CHECK, if_neg hcal, if_neg hlo, if_pos hpow]
  by_cases hcf : carrier.carrierFrequency_Hz < 30000000 ∨
      carrier.carrierFrequency_Hz > 6000000000
  · simp [stmt_bind_eq, stmt_pure_eq, sat_toFunc, sat_bind, sat_expectPure, hport, hchan,
      sat_ADI_RANGE_CHECK, if_neg hcal, if_neg hlo, if_neg hpow, if_pos hcf]
  have hif : carrier.intermediateFrequency_Hz ≠ 0 ∧
      (carrier.intermediateFrequency_Hz < 200000 ∨
        carrier.intermediateFrequency_Hz > 20000000) := by tauto
  have h0 : 0 ≠ carrier.intermediateFrequency_Hz := fun h => hif.1 h.symm
  simp [stmt_bind_eq, stmt_pure_eq, sat_toFunc, sat_bind, sat_expectPure, hport, hchan,
    sat_ADI_RANGE_CHECK, if_neg hcal, if_neg hlo, if_neg hpow, if_neg hcf, if_pos h0,
    if_pos hif.2]

/-- Delays with a duration above the maximum, or violating the ordering of the
hold and fall delays for the port, or given for the ORX port, fail the delay
validation without any device access. -/
theorem sat_Delays_Configure_Validate_range {σ : Type} (hal : Platform σ)
    (port : adi_common_Port_e) (channel : adi_common_ChannelNumber_e)
    (delays : adi_adrv9001_ChannelEnablementDelays_t) (d : σ)
    (hviol : port = ADI_ORX ∨
      (delays.riseToOnDelay > 0x00FFFFFF ∨ delays.riseToAnalogOnDelay > 0x00FFFFFF ∨
        delays.fallToOffDelay > 0x00FFFFFF ∨ delays.guardDelay > 0x00FFFFFF ∨
        delays.holdDelay > 0x00FFFFFF) ∨
      (port = ADI_TX ∧ delays.holdDelay > delays.fallToOffDelay) ∨
      (port = ADI_RX ∧ delays.fallToOffDelay > delays.holdDelay))
    (Q : Action → List Event → σ → Prop) :
    Func.Sat (adi_adrv9001_Radio_ChannelEnablementDelays_Configure_Validate hal port channel
        delays) d Q ↔ Q ADI_COMMON_ACT_ERR_CHECK_PARAM [] d := by
  have hcr := channel_range_ok channel
  unfold adi_adrv9001_Radio_ChannelEnablementDelays_Configure_Validate
  simp only [stmt_bind_eq, stmt_pure_eq, sat_toFunc, sat_bind, sat_ADI_RANGE_CHECK,
    if_neg hcr, Nat.not_lt_zero, false_or]
  by_cases hp : port = ADI_ORX
  · subst hp
    simp [adi_common_Port_e.toNat]
  rw [if_neg (port_range_ok port hp)]
  by_cases h1 : delays.riseToOnDelay > 0x00FFFFFF
  · simp [h1]
  rw [if_neg h1]
  by_cases h2 : delays.riseToAnalogOnDelay > 0x00FFFFFF
  · simp [h1, h2]
  rw [if_neg h2]
  by_cases h3 : delays.fallToOffDelay > 0x00FFFFFF
  · simp [h1, h2, h3]
  rw [if_neg h3]
  by_cases h4 : delays.guardDelay > 0x00FFFFFF
  · simp [h1, h2, h3, h4]
  rw [if_neg h4]
  by_cases h5 : delays.holdDelay > 0x00FFFFFF
  · simp [h1, h2, h3, h4, h5]
  rw [if_neg h5]
  have hord : (port = ADI_TX ∧ delays.holdDelay > delays.fallToOffDelay) ∨
      (port = ADI_RX ∧ delays.fallToOffDelay > delays.holdDelay) := by
    rcases hviol with h | h | h
    · exact absurd h hp
    · omega
    · exact h
  rcases hord with ⟨hport, h6⟩ | ⟨hport, h6⟩
  · subst hport
    simp [sat_ADI_RANGE_CHECK, h6]
  · subst hport
    simp [sat_ADI_RANGE_CHECK, sat_pure, h6]

/-- Delays within the unconditional bounds whose rise-to-analog-on delay
exceeds the rise-to-on delay, on a channel whose front-end control signal is
assigned to a pin: the validation fails right after the pin inspection. -/
theorem sat_Delays_Configure_Validate_rise {σ : Type} (hal : Platform σ)
    (port : adi_common_Port_e) (channel : adi_common_ChannelNumber_e)
    (delays : adi_adrv9001_ChannelEnablementDelays_t) (d : σ) (pin : Nat) (d1 : σ)
    (hp : port ≠ ADI_ORX)
    (hmax : delays.riseToOnDelay ≤ 0x00FFFFFF ∧ delays.riseToAnalogOnDelay ≤ 0x00FFFFFF ∧
      delays.fallToOffDelay ≤ 0x00FFFFFF ∧ delays.guardDelay ≤ 0x00FFFFFF ∧
      delays.holdDelay ≤ 0x00FFFFFF)
    (htx : port = ADI_TX → delays.holdDelay ≤ delays.fallToOffDelay)
    (hrx : port = ADI_RX → delays.fallToOffDelay ≤ delays.holdDelay)
    (hgpio : hal.adi_adrv9001_gpio_Inspect (frontendSignalOf port channel) d =
      (ADI_COMMON_ACT_NO_ACTION, pin, d1))
    (hpin : pin ≠ ADI_ADRV9001_GPIO_UNASSIGNED)
    (hrise : delays.riseToAnalogOnDelay > delays.riseToOnDelay)
    (Q : Action → List Event → σ → Prop) :
    Func.Sat (adi_adrv9001_Radio_ChannelEnablementDelays_Configure_Validate hal port channel
        delays) d Q ↔
      Q ADI_COMMON_ACT_ERR_CHECK_PARAM
        [Event.gpioInspect (frontendSignalOf port channel) ADI_COMMON_ACT_NO_ACTION] d1 := by
  have hpr := port_range_ok port hp
  have hcr := channel_range_ok channel
  have hg1 : (hal.adi_adrv9001_gpio_Inspect (frontendSignalOf port channel) d).1 =
      ADI_COMMON_ACT_NO_ACTION := by rw [hgpio]
  have hg2 : (hal.adi_adrv9001_gpio_Inspect (frontendSignalOf port channel) d).2.1 = pin := by
    rw [hgpio]
  have hg3 : (hal.adi_adrv9001_gpio_Inspect (frontendSignalOf port channel) d).2.2 = d1 := by
    rw [hgpio]
  have h1 : ¬ delays.riseToOnDelay > 0x00FFFFFF := by omega
  have h2 : ¬ delays.riseToAnalogOnDelay > 0x00FFFFFF := by omega
  have h3 : ¬ delays.fallToOffDelay > 0x00FFFFFF := by omega
  have h4 : ¬ delays.guardDelay > 0x00FFFFFF := by omega
  have h5 : ¬ delays.holdDelay > 0x00FFFFFF := by omega
  have hpin2 : ADI_ADRV9001_GPIO_UNASSIGNED ≠ pin := Ne.symm hpin
  unfold adi_adrv9001_Radio_ChannelEnablementDelays_Configure_Validate
  simp only [stmt_bind_eq, stmt_pure_eq, sat_toFunc, sat_bind, sat_ADI_RANGE_CHECK, if_neg hpr,
    if_neg hcr, Nat.not_lt_zero, false_or, if_neg h1, if_neg h2, if_neg h3, if_neg h4,
    if_neg h5]
  cases port
  · have h6 : ¬ delays.fallToOffDelay > delays.holdDelay := by
      have := hrx rfl
      omega
    simp only [reduceCtorEq, if_false, if_true, sat_pure, sat_ADI_RANGE_CHECK, Nat.not_lt_zero,
      false_or, List.nil_append, if_neg h6, sat_liftOption,
      frontendControlSignals_lookup ADI_RX channel hp, Option.some.injEq, exists_eq_left',
      sat_callDevVal, hg1, hg2, hg3, if_pos hpin2, if_pos hrise, List.append_nil]
  · have h6 : ¬ delays.holdDelay > delays.fallToOffDelay := by
      have := htx rfl
      omega
    simp only [reduceCtorEq, if_false, if_true, sat_pure, sat_ADI_RANGE_CHECK, Nat.not_lt_zero,
      false_or, List.nil_append, if_neg h6, sat_liftOption,
      frontendControlSignals_lookup ADI_TX channel hp, Option.some.injEq, exists_eq_left',
      sat_callDevVal, hg1, hg2, hg3, if_pos hpin2, if_pos hrise, List.append_nil]
  · exact absurd rfl hp

/-- A loop filter configuration outside its bounds, or a PLL selector outside
LO1..AUX, fails the loop filter validation without any device access. -/
theorem PllLoopFilter_Set_Validate_range {σ : Type} (pll : adi_adrv9001_Pll_e)
    (cfg : adi_adrv9001_PllLoopFilterCfg_t) (d : σ)
    (hviol : pll.toNat > ADI_ADRV9001_PLL_AUX.toNat ∨
      (cfg.phaseMargin_degrees < 40 ∨ cfg.phaseMargin_degrees > 85) ∨
      (cfg.loopBandwidth_kHz < 50 ∨ cfg.loopBandwidth_kHz > 1500) ∨ cfg.powerScale > 10) :
    adi_adrv9001_Radio_PllLoopFilter_Set_Validate pll cfg d =
      some (ADI_COMMON_ACT_ERR_CHECK_PARAM, [], d) := by
  by_cases hpll : pll.toNat ≤ ADI_ADRV9001_PLL_AUX.toNat
  · rw [PllLoopFilter_Set_Validate_eq pll cfg d hpll, if_pos]
    rcases hviol with h | h
    · omega
    · exact h
  · rw [← func_sat_eq]
    unfold adi_adrv9001_Radio_PllLoopFilter_Set_Validate
    have hgt : pll.toNat < ADI_ADRV9001_PLL_LO1.toNat ∨ pll.toNat > ADI_ADRV9001_PLL_AUX.toNat :=
      Or.inr (by omega)
    simp [stmt_bind_eq, stmt_pure_eq, sat_toFunc, sat_bind, sat_ADI_RANGE_CHECK, if_pos hgt]

/-! ## PLL lock status -/

/-- Every PLL selector passes the range check of the lock status query. -/
theorem PllStatus_Get_Validate_eq {σ : Type} (pll : adi_adrv9001_Pll_e) (d : σ) :
    adi_adrv9001_Radio_PllStatus_Get_Validate pll d =
      some (ADI_COMMON_ACT_NO_ACTION, [], d) := by
  rw [← func_sat_eq]
  unfold adi_adrv9001_Radio_PllStatus_Get_Validate
  cases pll <;>
    simp [stmt_bind_eq, stmt_pure_eq, sat_toFunc, sat_bind, sat_ADI_RANGE_CHECK, sat_pure,
      adi_adrv9001_Pll_e.toNat]

/-- The lock status query reads the lock bit of the instance the table gives
for the selector, once, and converts the byte read to a boolean. -/
theorem PllStatus_Get_eq {σ : Type} (hal : Platform σ) (pll : adi_adrv9001_Pll_e)
    (locked0 : Bool) (d : σ) (inst : adrv9001_BfNvsPllMemMap_e)
    (hinst : pllInstances.get? pll.toNat = some inst) :
    adi_adrv9001_Radio_PllStatus_Get hal pll locked0 d =
      some ((hal.adrv9001_NvsPllMemMap_SynLock_Get inst d).1,
        (if (hal.adrv9001_NvsPllMemMap_SynLock_Get inst d).1 = ADI_COMMON_ACT_NO_ACTION then
          decide ((hal.adrv9001_NvsPllMemMap_SynLock_Get inst d).2.1 % 256 ≠ 0)
        else locked0),
        [Event.synLockGet inst (hal.adrv9001_NvsPllMemMap_SynLock_Get inst d).1],
        (hal.adrv9001_NvsPllMemMap_SynLock_Get inst d).2.2) := by
  rw [← funcOut_sat_eq]
  unfold adi_adrv9001_Radio_PllStatus_Get
  simp only [stmt_bind_eq, stmt_pure_eq, sat_toFuncOut, sat_bind, sat_ADI_EXPECT,
    func_sat_of_eq (PllStatus_Get_Validate_eq pll d), if_true, sat_liftOption, hinst,
    Option.some.injEq, exists_eq_left', sat_callDevVal, sat_pure, List.nil_append]
  split_ifs with h <;> simp [h]

/-! ## Channel mask algebra -/

/-- A bit of the mask of a batch is set exactly when it is set in the mask of
some entry. -/
theorem batchMask_testBit (batch : List (adi_common_Port_e × adi_common_ChannelNumber_e))
    (j : Nat) :
    (batchMask batch).testBit j = batch.any (fun pc => (batchMask [pc]).testBit j) := by
  rw [batchMask_eq_foldl_or, testBit_foldl_or]
  simp only [Nat.zero_testBit, Bool.false_or]

/-- Each combination has a mask bit of its own. -/
theorem batchMask_single_bit (pc : adi_common_Port_e × adi_common_ChannelNumber_e) :
    ∃ j, ∀ q : adi_common_Port_e × adi_common_ChannelNumber_e,
      (batchMask [q]).testBit j = decide (q = pc) := by
  rcases pc with ⟨p, c⟩
  cases p <;> cases c
  · exact ⟨0, fun q => by rcases q with ⟨p2, c2⟩; cases p2 <;> cases c2 <;> decide⟩
  · exact ⟨1, fun q => by rcases q with ⟨p2, c2⟩; cases p2 <;> cases c2 <;> decide⟩
  · exact ⟨2, fun q => by rcases q with ⟨p2, c2⟩; cases p2 <;> cases c2 <;> decide⟩
  · exact ⟨3, fun q => by rcases q with ⟨p2, c2⟩; cases p2 <;> cases c2 <;> decide⟩
  · exact ⟨4, fun q => by rcases q with ⟨p2, c2⟩; cases p2 <;> cases c2 <;> decide⟩
  · exact ⟨5, fun q => by rcases q with ⟨p2, c2⟩; cases p2 <;> cases c2 <;> decide⟩

/-- Two batches have the same mask exactly when they list the same
combinations. -/
theorem batchMask_eq_iff (b1 b2 : List (adi_common_Port_e × adi_common_ChannelNumber_e)) :
    batchMask b1 = batchMask b2 ↔ ∀ pc, pc ∈ b1 ↔ pc ∈ b2 := by
  constructor
  · intro h pc
    obtain ⟨j, hj⟩ := batchMask_single_bit pc
    have h1 := batchMask_testBit b1 j
    have h2 := batchMask_testBit b2 j
    rw [h] at h1
    rw [h1] at h2
    have h3 : (b1.any fun q => decide (q = pc)) = (b2.any fun q => decide (q = pc)) := by
      simpa only [hj] using h2
    have key : ∀ b : List (adi_common_Port_e × adi_common_ChannelNumber_e),
        (b.any fun q => decide (q = pc)) = true ↔ pc ∈ b := by
      intro b
      simp [List.any_eq_true]
    rw [← key b1, ← key b2, h3]
  · intro h
    apply Nat.eq_of_testBit_eq
    intro j
    rw [batchMask_testBit, batchMask_testBit, Bool.eq_iff_iff, List.any_eq_true,
      List.any_eq_true]
    constructor
    · rintro ⟨x, hx, hb⟩
      exact ⟨x, (h x).1 hx, hb⟩
    · rintro ⟨x, hx, hb⟩
      exact ⟨x, (h x).2 hx, hb⟩

/-- The mask of a concatenation is the OR of the masks. -/
theorem batchMask_append (b1 b2 : List (adi_common_Port_e × adi_common_ChannelNumber_e)) :
    batchMask (b1 ++ b2) = batchMask b1 ||| batchMask b2 := by
  apply Nat.eq_of_testBit_eq
  intro j
  rw [Nat.testBit_or, batchMask_testBit, batchMask_testBit, batchMask_testBit, List.any_append]

/-! ## The 8-bit loop counter -/

/-- With fuel for at most as many loop tests as entries remain, the mask loop
has not finished. -/
theorem maskLoop_none_of_le (batch : List (adi_common_Port_e × adi_common_ChannelNumber_e))
    (hlen : batch.length ≤ 255) :
    ∀ (fuel i m : Nat), i ≤ batch.length → fuel ≤ batch.length - i →
      maskLoop batch fuel i m = none := by
  intro fuel
  induction fuel with
  | zero => intro i m _ _; rfl
  | succ n ih =>
    intro i m hi hf
    unfold maskLoop
    have hlt : i < batch.length := by omega
    rw [if_pos hlt, Nat.mod_eq_of_lt (by omega : i + 1 < 256)]
    exact ih (i + 1) _ (by omega) (by omega)

/-- For a batch of 256 entries or more the mask loop never finishes: the
counter stays below 256, hence below the length. -/
theorem maskLoop_none_of_long (batch : List (adi_common_Port_e × adi_common_ChannelNumber_e))
    (hlen : 256 ≤ batch.length) :
    ∀ (fuel i m : Nat), i < 256 → maskLoop batch fuel i m = none := by
  intro fuel
  induction fuel with
  | zero => intro i m _; rfl
  | succ n ih =>
    intro i m hi
    unfold maskLoop
    rw [if_pos (by omega : i < batch.length)]
    exact ih _ _ (Nat.mod_lt _ (by decide))

/-- A loop over 256 entries or more whose body never returns does not finish:
the 8-bit counter stays below the length. -/
theorem forU8_none_of_long {σ β : Type} (length : Nat) (body : Nat → β → Stmt σ β)
    (hlen : 256 ≤ length)
    (hbody : ∀ i b d, i < 256 → ∀ r tr d1, body i b d = some (r, tr, d1) → ∃ b1, r = Step.next b1) :
    ∀ (fuel i : Nat) (b : β) (d : σ), i < 256 → forU8 length body fuel i b d = none := by
  intro fuel
  induction fuel with
  | zero => intro i b d _; rfl
  | succ n ih =>
    intro i b d hi
    unfold forU8
    rw [if_pos (by omega : i < length)]
    unfold Stmt.bind
    rcases hb : body i b d with _ | ⟨r, tr, d1⟩
    · rfl
    · obtain ⟨b1, rfl⟩ := hbody i b d hi r tr d1 hb
      simp only [ih _ b1 d1 (Nat.mod_lt _ (by decide))]

/-! ## Transition requests -/

/-- A function that only calls another one under `ADI_EXPECT` and returns
success behaves as the callee. -/
theorem toFunc_expect_eq {σ : Type} (f : Func σ) (d : σ) :
    Stmt.toFunc (Stmt.bind (ADI_EXPECT f) (fun _ => Stmt.pure ADI_COMMON_ACT_NO_ACTION)) d =
      f d := by
  unfold Stmt.toFunc Stmt.bind ADI_EXPECT Stmt.pure
  rcases hf : f d with _ | ⟨a, tr, d1⟩
  · rfl
  · by_cases ha : a = ADI_COMMON_ACT_NO_ACTION
    · subst ha
      simp
    · simp [ha]

/-- A function that, after a validation that passes without device access,
only calls another one under `ADI_EXPECT` and returns success behaves as the
callee. -/
theorem toFunc_validated_expect_eq {σ : Type} (validate f : Func σ) (d : σ)
    (hval : validate d = some (ADI_COMMON_ACT_NO_ACTION, [], d)) :
    Stmt.toFunc (Stmt.bind (ADI_EXPECT validate) (fun _ =>
      Stmt.bind (ADI_EXPECT f) (fun _ => Stmt.pure ADI_COMMON_ACT_NO_ACTION))) d = f d := by
  have e : Stmt.bind (ADI_EXPECT validate) (fun _ =>
      Stmt.bind (ADI_EXPECT f) (fun _ => Stmt.pure ADI_COMMON_ACT_NO_ACTION)) d =
      Stmt.bind (ADI_EXPECT f) (fun _ => Stmt.pure ADI_COMMON_ACT_NO_ACTION) d := by
    have hv : ADI_EXPECT validate d = some (Step.next (), [], d) := by
      unfold ADI_EXPECT
      rw [hval]
      simp
    generalize Stmt.bind (ADI_EXPECT f) (fun _ => Stmt.pure ADI_COMMON_ACT_NO_ACTION) = k
    unfold Stmt.bind
    rw [hv]
    rcases hk : k d with _ | ⟨r, tr, d1⟩
    · simp [hk]
    · simp [hk]
  have h := toFunc_expect_eq f d
  unfold Stmt.toFunc at h ⊢
  rw [e]
  exact h

/-- The result of the validation of a transition request: no device access,
and a rejection exactly for the ORX port or a target outside
CALIBRATED..RF_ENABLED. -/
theorem ToState_Validate_eq {σ : Type} (port : adi_common_Port_e)
    (channel : adi_common_ChannelNumber_e) (state : Nat) (d : σ) :
    adi_adrv9001_Radio_Channel_ToState_Validate port channel state d =
      some (if port = ADI_ORX ∨ state < ADI_ADRV9001_CHANNEL_CALIBRATED ∨
          state > ADI_ADRV9001_CHANNEL_RF_ENABLED then ADI_COMMON_ACT_ERR_CHECK_PARAM
        else ADI_COMMON_ACT_NO_ACTION, [], d) := by
  rw [← func_sat_eq]
  unfold adi_adrv9001_Radio_Channel_ToState_Validate
  simp only [stmt_bind_eq, stmt_pure_eq, sat_toFunc, sat_bind, sat_ADI_RANGE_CHECK, sat_pure,
    if_neg (channel_range_ok channel)]
  by_cases hp : port = ADI_ORX
  · subst hp
    simp [adi_common_Port_e.toNat]
  · rw [if_neg (port_range_ok port hp)]
    by_cases hs : state < ADI_ADRV9001_CHANNEL_CALIBRATED ∨
        state > ADI_ADRV9001_CHANNEL_RF_ENABLED
    · rw [if_pos hs, if_pos (Or.inr hs)]
      simp
    · rw [if_neg hs, if_neg (by tauto)]
      simp

/-- A block whose first part does not finish does not finish. -/
theorem bind_none {σ α β : Type} (m : Stmt σ α) (k : α → Stmt σ β) (d : σ)
    (h : m d = none) : Stmt.bind m k d = none := by
  unfold Stmt.bind
  rw [h]

/-- A block whose first part continues into a part that does not finish does
not finish. -/
theorem bind_next_none {σ α β : Type} (m : Stmt σ α) (k : α → Stmt σ β) (d : σ) (x : α)
    (tr : List Event) (d1 : σ) (h : m d = some (Step.next x, tr, d1)) (hk : k x d1 = none) :
    Stmt.bind m k d = none := by
  unfold Stmt.bind
  rw [h]
  simp only [hk]

/-- A prime or un-prime of 256 entries or more whose first 256 entries are
RX/TX channels in CALIBRATED or PRIMED does not return: its validation loop
never leaves them. -/
theorem Channels_Prime_none_of_long {σ : Type} (hal : Platform σ) (fuel : Nat)
    (batch : List (adi_common_Port_e × adi_common_ChannelNumber_e)) (prime : Bool) (d : σ)
    (rs : adi_adrv9001_RadioState_t) (tr0 : List Event) (d0 : σ)
    (hlen : 256 ≤ batch.length)
    (hgen : hal.adi_adrv9001_Channel_State_GenericValidate batch = ADI_COMMON_ACT_NO_ACTION)
    (hread : adi_adrv9001_Radio_State_Get hal adi_adrv9001_RadioState_t.zero d =
      some (ADI_COMMON_ACT_NO_ACTION, rs, tr0, d0))
    (hports : ∀ k, k < 256 → (batchAt batch k).1 ≠ ADI_ORX)
    (hstates : ∀ k, k < 256 →
      channelStateIn rs (batchAt batch k).1 (batchAt batch k).2 =
        ADI_ADRV9001_CHANNEL_CALIBRATED ∨
      channelStateIn rs (batchAt batch k).1 (batchAt batch k).2 =
        ADI_ADRV9001_CHANNEL_PRIMED) :
    adi_adrv9001_Radio_Channels_Prime hal fuel batch prime d = none := by
  unfold adi_adrv9001_Radio_Channels_Prime Stmt.toFunc
  simp only [stmt_bind_eq, stmt_pure_eq]
  have h1 : (expectPure (hal.adi_adrv9001_Channel_State_GenericValidate batch) : Stmt σ Unit) d =
      some (Step.next (), [], d) := by
    unfold expectPure
    rw [if_pos hgen]
    rfl
  have h2 : ADI_EXPECT_OUT (adi_adrv9001_Radio_State_Get hal adi_adrv9001_RadioState_t.zero) d =
      some (Step.next rs, tr0, d0) := by
    unfold ADI_EXPECT_OUT
    rw [hread]
    simp
  rw [bind_next_none _ _ d () [] d h1]
  refine bind_next_none _ _ d rs tr0 d0 h2 ?_
  refine bind_none _ _ d0 ?_
  refine forU8_none_of_long batch.length _ hlen ?_ fuel 0 (0, 0) d0 (by decide)
  intro i b dd hi r tr d1 hb
  have hok : ¬ (rs.stateAt (adi_common_port_to_index (batchAt batch i).1 b.1)
        (adi_common_channel_to_index (batchAt batch i).2 b.2) ≠
          ADI_ADRV9001_CHANNEL_CALIBRATED ∧
      rs.stateAt (adi_common_port_to_index (batchAt batch i).1 b.1)
        (adi_common_channel_to_index (batchAt batch i).2 b.2) ≠
          ADI_ADRV9001_CHANNEL_PRIMED) := by
    rw [port_to_index_of_ne_orx _ _ (hports i hi), channel_to_index_any]
    rintro ⟨g1, g2⟩
    rcases hstates i hi with h | h
    · exact g1 h
    · exact g2 h
  simp only [if_neg hok, Stmt.pure, Option.some.injEq, Prod.mk.injEq] at hb
  exact ⟨_, hb.1.symm⟩

/-! ## Direction independence of the prime guard -/

/-- Every RX/TX entry of a radio state that was read successfully is one of the
four channel states. -/
theorem State_Get_states_lt {σ : Type} (hal : Platform σ) (rs0 rs : adi_adrv9001_RadioState_t)
    (d d1 : σ) (tr : List Event)
    (hread : adi_adrv9001_Radio_State_Get hal rs0 d = some (ADI_COMMON_ACT_NO_ACTION, rs, tr, d1))
    (port : adi_common_Port_e) (channel : adi_common_ChannelNumber_e) (hport : port ≠ ADI_ORX) :
    channelStateIn rs port channel < 4 := by
  rcases h8 : hal.spiReadByte RegAddr.ADRV9001_ADDR_ARM_CMD_STATUS_8 d with ⟨a8, v8, d8⟩
  rcases h9 : hal.spiReadByte RegAddr.ADRV9001_ADDR_ARM_CMD_STATUS_9 d8 with ⟨a9, v9, d9⟩
  by_cases ha8 : a8 = ADI_COMMON_ACT_NO_ACTION
  · by_cases ha9 : a9 = ADI_COMMON_ACT_NO_ACTION
    · subst ha8 ha9
      rw [State_Get_eq hal rs0 d d8 d9 v8 v9 h8 h9] at hread
      simp only [Option.some.injEq, Prod.mk.injEq, true_and] at hread
      obtain ⟨hrs, _, _⟩ := hread
      subst hrs
      cases port <;> cases channel <;>
        first
          | exact absurd rfl hport
          | (simp only [channelStateIn, adi_adrv9001_RadioState_t.stateAt,
              adi_common_port_to_index, adi_common_channel_to_index, List.getD_cons_zero,
              List.getD_cons_succ]
             omega)
    · exfalso
      unfold adi_adrv9001_Radio_State_Get at hread
      simp [h8, h9, ha8, ha9] at hread
  · exfalso
    unfold adi_adrv9001_Radio_State_Get at hread
    simp [h8, ha8] at hread

/-- A prime or un-prime of a batch of RX/TX channels accepted by the generic
validation in which some channel is neither CALIBRATED nor PRIMED: the call
returns the parameter error right after the state read, in either direction. -/
theorem Channels_Prime_rejected {σ : Type} (hal : Platform σ) (fuel : Nat)
    (batch : List (adi_common_Port_e × adi_common_ChannelNumber_e)) (prime : Bool) (d : σ)
    (rs : adi_adrv9001_RadioState_t) (tr0 : List Event) (d0 : σ)
    (hlen : batch.length ≤ 255) (hfuel : batch.length < fuel)
    (hgen : hal.adi_adrv9001_Channel_State_GenericValidate batch = ADI_COMMON_ACT_NO_ACTION)
    (hread : adi_adrv9001_Radio_State_Get hal adi_adrv9001_RadioState_t.zero d =
      some (ADI_COMMON_ACT_NO_ACTION, rs, tr0, d0))
    (hports : ∀ k, k < batch.length → (batchAt batch k).1 ≠ ADI_ORX)
    (hbad : ∃ k, k < batch.length ∧
      (channelStateIn rs (batchAt batch k).1 (batchAt batch k).2 ≠
          ADI_ADRV9001_CHANNEL_CALIBRATED ∧
        channelStateIn rs (batchAt batch k).1 (batchAt batch k).2 ≠
          ADI_ADRV9001_CHANNEL_PRIMED)) :
    adi_adrv9001_Radio_Channels_Prime hal fuel batch prime d =
      some (ADI_COMMON_ACT_ERR_CHECK_PARAM, tr0, d0) := by
  rw [← func_sat_eq]
  unfold adi_adrv9001_Radio_Channels_Prime
  simp only [stmt_bind_eq, stmt_pure_eq, sat_toFunc, sat_bind, sat_expectPure,
    sat_ADI_EXPECT_OUT, funcOut_sat_of_eq hread, hgen, if_true, List.nil_append]
  refine stmt_sat_mono (sat_stateValidationLoop batch rs
    (fun s => s ≠ ADI_ADRV9001_CHANNEL_CALIBRATED ∧ s ≠ ADI_ADRV9001_CHANNEL_PRIMED) _
    (fun i idx => by cases prime <;> rfl) hports fuel hlen hfuel d0) ?_
  rintro r tr dd ⟨htr, hdd, _, hfail⟩
  subst htr hdd
  rw [hfail hbad]
  simp

/-- A prime or un-prime of a batch of RX/TX channels that are all CALIBRATED
or PRIMED issues exactly one mailbox command, with the mask of the batch. -/
theorem Channels_Prime_accepted_command {σ : Type} (hal : Platform σ) (fuel : Nat)
    (batch : List (adi_common_Port_e × adi_common_ChannelNumber_e)) (prime : Bool) (d : σ)
    (rs : adi_adrv9001_RadioState_t) (tr0 : List Event) (d0 : σ)
    (hlen : batch.length ≤ 255) (hfuel : batch.length < fuel) (h6 : 6 ≤ fuel)
    (hgen : hal.adi_adrv9001_Channel_State_GenericValidate batch = ADI_COMMON_ACT_NO_ACTION)
    (hread : adi_adrv9001_Radio_State_Get hal adi_adrv9001_RadioState_t.zero d =
      some (ADI_COMMON_ACT_NO_ACTION, rs, tr0, d0))
    (hports : ∀ k, k < batch.length → (batchAt batch k).1 ≠ ADI_ORX)
    (hstates : ∀ k, k < batch.length →
      channelStateIn rs (batchAt batch k).1 (batchAt batch k).2 =
        ADI_ADRV9001_CHANNEL_CALIBRATED ∨
      channelStateIn rs (batchAt batch k).1 (batchAt batch k).2 =
        ADI_ADRV9001_CHANNEL_PRIMED) :
    ∃ a tr d2 r, adi_adrv9001_Radio_Channels_Prime hal fuel batch prime d = some (a, tr, d2) ∧
      tr.filter Event.isMailboxCommand =
        [Event.cmdWrite (radioOpcode prime) [batchMask batch] r] := by
  obtain ⟨a, tr, d2, hrun, r, rest, htr, hfailed, hok⟩ :=
    sat_Channels_Prime_accepted hal fuel batch prime d rs tr0 d0 hlen hfuel h6 hgen hread hports
      hstates
  have h0 := State_Get_events hal _ rs d d0 _ tr0 hread
  have hrest : rest.filter Event.isMailboxCommand = [] := by
    by_cases hr : r = ADI_COMMON_ACT_NO_ACTION
    · obtain ⟨w, trF, hrest, hno, _, _⟩ := hok hr
      have hF1 : trF.filter Event.isMailboxCommand = [] := by
        rw [List.filter_eq_nil_iff]
        intro e he
        simp [(hno e he).2.1]
      rw [hrest, List.filter_cons]
      simpa [Event.isMailboxCommand] using hF1
    · obtain ⟨_, hrest⟩ := hfailed hr
      subst hrest
      rfl
  refine ⟨a, tr, d2, r, hrun, ?_⟩
  rw [htr, List.filter_append, filter_isMailboxCommand_statusReads tr0 h0, List.filter_cons,
    hrest]
  simp [Event.isMailboxCommand]

/-! ## Enable writes of a batch -/

/-- The ways the enable-mode query ends: on success it has read the pin-mode
field of an RX/TX channel once; on failure it has made no access or one failed
read. -/
theorem sat_ChannelEnableMode_Get_cases {σ : Type} (hal : Platform σ)
    (port : adi_common_Port_e) (channel : adi_common_ChannelNumber_e) (mode : Nat) (d : σ) :
    FuncOut.Sat (adi_adrv9001_Radio_ChannelEnableMode_Get hal port channel mode) d
      (fun a _ tr _ =>
        (a = ADI_COMMON_ACT_NO_ACTION ∧ port ≠ ADI_ORX ∧
          tr = [Event.pinModeGet (bbicFieldOf port channel) ADI_COMMON_ACT_NO_ACTION]) ∨
        (a ≠ ADI_COMMON_ACT_NO_ACTION ∧
          (tr = [] ∨ tr = [Event.pinModeGet (bbicFieldOf port channel) a]))) := by
  unfold adi_adrv9001_Radio_ChannelEnableMode_Get adi_adrv9001_Radio_ChannelEnableMode_Get_Validate
  simp only [stmt_bind_eq, stmt_pure_eq, sat_toFuncOut, sat_toFunc, sat_bind,
    sat_expectPure, sat_ADI_EXPECT, sat_pure]
  by_cases hc : hal.adi_adrv9001_Channel_Validate channel = ADI_COMMON_ACT_NO_ACTION
  · by_cases hp : hal.adi_adrv9001_Port_Validate port = ADI_COMMON_ACT_NO_ACTION
    · cases port <;> cases channel <;>
        simp [hc, hp, sat_callDevVal, sat_pure, sat_ret, ADI_ERROR_REPORT_RETURN, bbicFieldOf,
          sat_bind] <;> tauto
    · simp [hc, hp]
  · simp [hc]

/-- The enable writes among the accesses of completed iterations: one per
entry, in order. -/
theorem enableWrites_enableRfStep (enable : Bool)
    (entries : List (adi_common_Port_e × adi_common_ChannelNumber_e)) :
    enableWrites (entries.flatMap (enableRfStep enable)) =
      entries.map (fun pc => Event.enableSet (bbicFieldOf pc.1 pc.2) enable
        ADI_COMMON_ACT_NO_ACTION) := by
  induction entries with
  | nil => rfl
  | cons x rest ih =>
    rw [List.flatMap_cons, enableWrites_append, ih]
    rfl

/-- The accesses of `adi_adrv9001_Radio_Channels_EnableRf` on a batch accepted
by the generic validation, once the radio state has been read.  On success
every entry has been processed: one pin-mode read and one enable write per
entry, in batch order.  On failure the loop stopped at an entry `k`: the
entries before it have been processed in full, and the entry `k` contributed
the successful pin-mode read followed by the rejection of its enable mode or
state, or nothing or a failed pin-mode read, or the pin-mode read and a failed
enable write. -/
theorem sat_Channels_EnableRf_prefix {σ : Type} (hal : Platform σ) (fuel : Nat)
    (batch : List (adi_common_Port_e × adi_common_ChannelNumber_e)) (enable : Bool) (d : σ)
    (rs : adi_adrv9001_RadioState_t) (tr0 : List Event) (d0 : σ)
    (hlen : batch.length ≤ 255) (hfuel : batch.length < fuel)
    (hgen : hal.adi_adrv9001_Channel_State_GenericValidate batch = ADI_COMMON_ACT_NO_ACTION)
    (hread : adi_adrv9001_Radio_State_Get hal adi_adrv9001_RadioState_t.zero d =
      some (ADI_COMMON_ACT_NO_ACTION, rs, tr0, d0)) :
    Func.Sat (adi_adrv9001_Radio_Channels_EnableRf hal fuel batch enable) d (fun a tr _ =>
      (a = ADI_COMMON_ACT_NO_ACTION → tr = tr0 ++ batch.flatMap (enableRfStep enable)) ∧
      (a ≠ ADI_COMMON_ACT_NO_ACTION → ∃ k tail, k < batch.length ∧
        tr = tr0 ++ (batch.take k).flatMap (enableRfStep enable) ++ tail ∧
        (∀ j, j < k → (batchAt batch j).1 ≠ ADI_ORX ∧
          (channelStateIn rs (batchAt batch j).1 (batchAt batch j).2 =
              ADI_ADRV9001_CHANNEL_PRIMED ∨
            channelStateIn rs (batchAt batch j).1 (batchAt batch j).2 =
              ADI_ADRV9001_CHANNEL_RF_ENABLED)) ∧
        ((tail = [Event.pinModeGet (bbicFieldOf (batchAt batch k).1 (batchAt batch k).2)
              ADI_COMMON_ACT_NO_ACTION] ∧ a = ADI_COMMON_ACT_ERR_CHECK_PARAM) ∨
          tail = [] ∨
          tail = [Event.pinModeGet (bbicFieldOf (batchAt batch k).1 (batchAt batch k).2) a] ∨
          tail = [Event.pinModeGet (bbicFieldOf (batchAt batch k).1 (batchAt batch k).2)
              ADI_COMMON_ACT_NO_ACTION,
            Event.enableSet (bbicFieldOf (batchAt batch k).1 (batchAt batch k).2) enable
              a]))) := by
  unfold adi_adrv9001_Radio_Channels_EnableRf
  simp only [stmt_bind_eq, stmt_pure_eq, sat_toFunc, sat_bind, sat_expectPure,
    sat_ADI_EXPECT_OUT, funcOut_sat_of_eq hread, enable_chain_eq, hgen, if_true,
    List.nil_append]
  refine stmt_sat_mono (sat_forU8 batch.length _
    (fun i _ tr _ => tr = (batch.take i).flatMap (enableRfStep enable) ∧
      ∀ j, j < i → (batchAt batch j).1 ≠ ADI_ORX ∧
        (channelStateIn rs (batchAt batch j).1 (batchAt batch j).2 =
            ADI_ADRV9001_CHANNEL_PRIMED ∨
          channelStateIn rs (batchAt batch j).1 (batchAt batch j).2 =
            ADI_ADRV9001_CHANNEL_RF_ENABLED))
    (fun r tr _ =>
      (∀ b, r = Step.next b → tr = batch.flatMap (enableRfStep enable)) ∧
      (∀ a, r = Step.ret a → a ≠ ADI_COMMON_ACT_NO_ACTION ∧ ∃ k tail, k < batch.length ∧
        tr = (batch.take k).flatMap (enableRfStep enable) ++ tail ∧
        (∀ j, j < k → (batchAt batch j).1 ≠ ADI_ORX ∧
          (channelStateIn rs (batchAt batch j).1 (batchAt batch j).2 =
              ADI_ADRV9001_CHANNEL_PRIMED ∨
            channelStateIn rs (batchAt batch j).1 (batchAt batch j).2 =
              ADI_ADRV9001_CHANNEL_RF_ENABLED)) ∧
        ((tail = [Event.pinModeGet (bbicFieldOf (batchAt batch k).1 (batchAt batch k).2)
              ADI_COMMON_ACT_NO_ACTION] ∧ a = ADI_COMMON_ACT_ERR_CHECK_PARAM) ∨
          tail = [] ∨
          tail = [Event.pinModeGet (bbicFieldOf (batchAt batch k).1 (batchAt batch k).2) a] ∨
          tail = [Event.pinModeGet (bbicFieldOf (batchAt batch k).1 (batchAt batch k).2)
              ADI_COMMON_ACT_NO_ACTION,
            Event.enableSet (bbicFieldOf (batchAt batch k).1 (batchAt batch k).2) enable
              a])))
    hlen ?_ ?_ fuel 0 (0, 0) [] d0 (Nat.zero_le _) (by omega)
    ⟨rfl, fun j hj => absurd hj (Nat.not_lt_zero j)⟩) ?_
  · intro i b tr dd hi ⟨htr, hP⟩
    subst htr
    rw [sat_bind, sat_ADI_EXPECT_OUT]
    refine funcOut_sat_mono (sat_ChannelEnableMode_Get_cases hal _ _ _ dd) ?_
    intro a mode tr2 d2 hcase
    rcases hcase with ⟨ha, hport, htr2⟩ | ⟨ha, htr2⟩
    · subst ha htr2
      rw [if_pos rfl]
      dsimp only
      by_cases hm : ADI_ADRV9001_SPI_MODE ≠ mode
      · rw [if_pos hm]
        simp only [ADI_ERROR_REPORT_RETURN, sat_ret, List.append_nil]
        refine ⟨fun b h => (by cases h), fun a h => ?_⟩
        cases h
        exact ⟨by decide, i, _, hi, rfl, hP, Or.inl ⟨rfl, rfl⟩⟩
      · rw [if_neg hm]
        by_cases hst : rs.stateAt (adi_common_port_to_index (batchAt batch i).1 b.1)
              (adi_common_channel_to_index (batchAt batch i).2 b.2) ≠
                ADI_ADRV9001_CHANNEL_PRIMED ∧
            rs.stateAt (adi_common_port_to_index (batchAt batch i).1 b.1)
              (adi_common_channel_to_index (batchAt batch i).2 b.2) ≠
                ADI_ADRV9001_CHANNEL_RF_ENABLED
        · rw [if_pos hst]
          simp only [ADI_ERROR_REPORT_RETURN, sat_ret, List.append_nil]
          refine ⟨fun b h => (by cases h), fun a h => ?_⟩
          cases h
          exact ⟨by decide, i, _, hi, rfl, hP, Or.inl ⟨rfl, rfl⟩⟩
        · rw [if_neg hst]
          have hstate : channelStateIn rs (batchAt batch i).1 (batchAt batch i).2 =
                ADI_ADRV9001_CHANNEL_PRIMED ∨
              channelStateIn rs (batchAt batch i).1 (batchAt batch i).2 =
                ADI_ADRV9001_CHANNEL_RF_ENABLED := by
            rw [port_to_index_of_ne_orx _ _ hport, channel_to_index_any] at hst
            unfold channelStateIn
            by_contra hcon
            exact hst ⟨fun h => hcon (Or.inl h), fun h => hcon (Or.inr h)⟩
          rw [sat_bind, sat_callDev]
          split_ifs with hw
          · simp only [sat_pure, List.append_nil]
            refine ⟨?_, fun j hj => ?_⟩
            · rw [take_succ_batchAt batch i hi, List.flatMap_append, hw]
              simp [enableRfStep]
            · by_cases hji : j = i
              · subst hji
                exact ⟨hport, hstate⟩
              · exact hP j (by omega)
          · refine ⟨fun b h => (by cases h), fun a h => ?_⟩
            cases h
            exact ⟨hw, i, _, hi, rfl, hP, Or.inr (Or.inr (Or.inr rfl))⟩
    · rw [if_neg ha]
      dsimp only
      refine ⟨fun b h => (by cases h), fun a2 h => ?_⟩
      cases h
      refine ⟨ha, i, tr2, hi, rfl, hP, ?_⟩
      rcases htr2 with h | h
      · exact Or.inr (Or.inl h)
      · exact Or.inr (Or.inr (Or.inl h))
  · intro b tr dd ⟨htr, hP⟩
    refine ⟨fun _ _ => ?_, fun a h => by cases h⟩
    rw [htr, List.take_length]
  · rintro r tr dd ⟨hnext, hret⟩
    cases r with
    | ret a =>
      obtain ⟨ha, k, tail, hk, htr, hP, hcases⟩ := hret a rfl
      refine ⟨fun h => absurd h ha, fun _ => ⟨k, tail, hk, ?_, hP, hcases⟩⟩
      simp only [List.nil_append] at htr
      rw [htr, List.append_assoc]
    | next b =>
      have htr := hnext b rfl
      simp only [List.nil_append] at htr
      simp only [sat_pure, List.append_nil]
      exact ⟨fun _ => by rw [htr], fun h => absurd rfl h⟩

theorem mem_take_batchAt (batch : List (adi_common_Port_e × adi_common_ChannelNumber_e))
    (k : Nat) (hk : k ≤ batch.length) (pc : adi_common_Port_e × adi_common_ChannelNumber_e)
    (h : pc ∈ batch.take k) : ∃ j, j < k ∧ pc = batchAt batch j := by
  induction k with
  | zero => simp at h
  | succ n ih =>
    rw [take_succ_batchAt batch n (by omega), List.mem_append, List.mem_singleton] at h
    rcases h with h | h
    · obtain ⟨j, hj, hpc⟩ := ih (by omega) h
      exact ⟨j, by omega, hpc⟩
    · exact ⟨n, by omega, h⟩

/-- In a batch whose channels are pairwise distinct, entries at different
indices have different enable fields. -/
theorem bbicFieldOf_batchAt_ne (batch : List (adi_common_Port_e × adi_common_ChannelNumber_e))
    (hnd : batch.Nodup) (i j : Nat) (hi : i < batch.length) (hj : j < batch.length)
    (hij : i ≠ j) :
    bbicFieldOf (batchAt batch i).1 (batchAt batch i).2 ≠
      bbicFieldOf (batchAt batch j).1 (batchAt batch j).2 := by
  intro h
  obtain ⟨hp, hc⟩ := bbicFieldOf_inj _ _ _ _ h
  have heq : batchAt batch i = batchAt batch j := Prod.ext hp hc
  unfold batchAt at heq
  rw [List.getD_eq_getElem _ _ hi, List.getD_eq_getElem _ _ hj] at heq
  exact hij ((List.Nodup.getElem_inj_iff hnd).1 heq)

/-- A trace whose enable writes are those of a list of entries holds no write
of a field that belongs to none of the entries. -/
theorem no_enableWriteOf_other_field (tr : List Event)
    (entries : List (adi_common_Port_e × adi_common_ChannelNumber_e)) (enable : Bool)
    (f : BbicField)
    (h : enableWrites tr = entries.map (fun pc =>
      Event.enableSet (bbicFieldOf pc.1 pc.2) enable ADI_COMMON_ACT_NO_ACTION))
    (hf : ∀ pc ∈ entries, bbicFieldOf pc.1 pc.2 ≠ f) :
    ∀ e ∈ tr, e.isEnableWriteOf f = false := by
  intro e he
  cases hw : e.isEnableWriteOf f with
  | false => rfl
  | true =>
    exfalso
    cases e with
    | enableSet g v r =>
      have hmem : Event.enableSet g v r ∈ enableWrites tr :=
        List.mem_filter.2 ⟨he, rfl⟩
      rw [h] at hmem
      obtain ⟨pc, hpc, heq⟩ := List.mem_map.1 hmem
      simp only [Event.enableSet.injEq] at heq
      simp only [Event.isEnableWriteOf, decide_eq_true_eq] at hw
      exact hf pc hpc (heq.1.trans hw)
    | _ => simp [Event.isEnableWriteOf] at hw

/-! ## The poll loop of the RF disable -/

theorem snapshotState_succ {σ : Type} (hal : Platform σ) (d : σ) (n : Nat) (a : Action)
    (rs : adi_adrv9001_RadioState_t) (tr : List Event) (d1 : σ)
    (h : snapshot hal d n = some (a, rs, tr, d1)) : snapshotState hal d (n + 1) = (rs, d1) := by
  unfold snapshot at h
  rw [snapshotState, h]

theorem snapshotTrace_succ {σ : Type} (hal : Platform σ) (d : σ) (n : Nat) (a : Action)
    (rs : adi_adrv9001_RadioState_t) (tr : List Event) (d1 : σ)
    (h : snapshot hal d n = some (a, rs, tr, d1)) :
    snapshotTrace hal d (n + 1) = snapshotTrace hal d n ++ tr := by
  rw [snapshotTrace, h]

theorem snapshotAction_eq {σ : Type} (hal : Platform σ) (d : σ) (n : Nat) (a : Action)
    (rs : adi_adrv9001_RadioState_t) (tr : List Event) (d1 : σ)
    (h : snapshot hal d n = some (a, rs, tr, d1)) : snapshotAction hal d n = a := by
  rw [snapshotAction, h]

theorem snapshotChannelState_eq {σ : Type} (hal : Platform σ) (port : adi_common_Port_e)
    (channel : adi_common_ChannelNumber_e) (d : σ) (n : Nat) (a : Action)
    (rs : adi_adrv9001_RadioState_t) (tr : List Event) (d1 : σ)
    (h : snapshot hal d n = some (a, rs, tr, d1)) :
    snapshotChannelState hal port channel d n =
      rs.stateAt (adi_common_port_to_index port 0) (adi_common_channel_to_index channel 0) := by
  rw [snapshotChannelState, snapshotState_succ hal d n a rs tr d1 h]

/-- Every read of the radio state starts with exactly one read of the first
status register. -/
theorem State_Get_statusAReads {σ : Type} (hal : Platform σ) (rs0 : adi_adrv9001_RadioState_t)
    (d : σ) (a : Action) (rs : adi_adrv9001_RadioState_t) (tr : List Event) (d1 : σ)
    (h : adi_adrv9001_Radio_State_Get hal rs0 d = some (a, rs, tr, d1)) :
    (tr.filter Event.isStatusARead).length = 1 := by
  unfold adi_adrv9001_Radio_State_Get at h
  rcases h8 : hal.spiReadByte RegAddr.ADRV9001_ADDR_ARM_CMD_STATUS_8 d with ⟨a8, v8, d8⟩
  rw [h8] at h
  rcases h9 : hal.spiReadByte RegAddr.ADRV9001_ADDR_ARM_CMD_STATUS_9 d8 with ⟨a9, v9, d9⟩
  simp only [h9] at h
  split_ifs at h <;>
    (simp only [Option.some.injEq, Prod.mk.injEq] at h
     obtain ⟨_, _, rfl, _⟩ := h
     simp [Event.isStatusARead])

theorem snapshotTrace_statusAReads {σ : Type} (hal : Platform σ) (d : σ) (n : Nat) :
    ((snapshotTrace hal d n).filter Event.isStatusARead).length = n := by
  induction n with
  | zero => rfl
  | succ k ih =>
    obtain ⟨a, rs, tr, d1, h, _⟩ :=
      State_Get_total hal (snapshotState hal d k).1 (snapshotState hal d k).2
    have hs : snapshot hal d k = some (a, rs, tr, d1) := h
    rw [snapshotTrace_succ hal d k a rs tr d1 hs, List.filter_append, List.length_append, ih,
      State_Get_statusAReads hal _ _ a rs tr d1 h]

/-- The poll loop of `adi_adrv9001_Channel_DisableRF_Wait` after a successful RF
disable: it makes the reads `0 .. m - 1` for some `m ≤ numTries` and then
returns.  Either all `numTries` reads succeeded without showing PRIMED and the
result is the reset-module error; or it stopped at the first read `j` that
showed PRIMED, with success; or it stopped at the first read `j` that failed,
with the action of that read. -/
theorem sat_DisableRF_Wait_poll {σ : Type} (hal : Platform σ) (fuel : Nat)
    (port : adi_common_Port_e) (channel : adi_common_ChannelNumber_e) (numTries : Nat) (d : σ)
    (trE : List Event) (d1 : σ)
    (hn255 : numTries ≤ 255) (hn : numTries < fuel)
    (hdis : adi_adrv9001_Radio_Channel_EnableRf hal fuel port channel false d =
      some (ADI_COMMON_ACT_NO_ACTION, trE, d1)) :
    Func.Sat (adi_adrv9001_Channel_DisableRF_Wait hal fuel port channel numTries) d
      (fun a tr d2 => ∃ m, m ≤ numTries ∧ tr = trE ++ snapshotTrace hal d1 m ∧
        d2 = (snapshotState hal d1 m).2 ∧
        ((m = numTries ∧ a = ADI_COMMON_ACT_ERR_RESET_MODULE ∧
            ∀ j, j < numTries → snapshotAction hal d1 j = ADI_COMMON_ACT_NO_ACTION ∧
              snapshotChannelState hal port channel d1 j ≠ ADI_ADRV9001_CHANNEL_PRIMED) ∨
          (∃ j, j < numTries ∧ m = j + 1 ∧
            (∀ i, i < j → snapshotAction hal d1 i = ADI_COMMON_ACT_NO_ACTION ∧
              snapshotChannelState hal port channel d1 i ≠ ADI_ADRV9001_CHANNEL_PRIMED) ∧
            ((snapshotAction hal d1 j = ADI_COMMON_ACT_NO_ACTION ∧
                snapshotChannelState hal port channel d1 j = ADI_ADRV9001_CHANNEL_PRIMED ∧
                a = ADI_COMMON_ACT_NO_ACTION) ∨
              (snapshotAction hal d1 j ≠ ADI_COMMON_ACT_NO_ACTION ∧
                a = snapshotAction hal d1 j))))) := by
  unfold adi_adrv9001_Channel_DisableRF_Wait
  simp only [stmt_bind_eq, stmt_pure_eq, sat_toFunc, sat_bind, sat_ADI_EXPECT,
    func_sat_of_eq hdis, if_true]
  refine stmt_sat_mono (sat_forU8 numTries _
    (fun i b tr dd => (b, dd) = snapshotState hal d1 i ∧ tr = snapshotTrace hal d1 i ∧
      ∀ j, j < i → snapshotAction hal d1 j = ADI_COMMON_ACT_NO_ACTION ∧
        snapshotChannelState hal port channel d1 j ≠ ADI_ADRV9001_CHANNEL_PRIMED)
    (fun r tr dd =>
      (∀ b, r = Step.next b → tr = snapshotTrace hal d1 numTries ∧
        dd = (snapshotState hal d1 numTries).2 ∧
        ∀ j, j < numTries → snapshotAction hal d1 j = ADI_COMMON_ACT_NO_ACTION ∧
          snapshotChannelState hal port channel d1 j ≠ ADI_ADRV9001_CHANNEL_PRIMED) ∧
      (∀ a, r = Step.ret a → ∃ j, j < numTries ∧ tr = snapshotTrace hal d1 (j + 1) ∧
        dd = (snapshotState hal d1 (j + 1)).2 ∧
        (∀ i, i < j → snapshotAction hal d1 i = ADI_COMMON_ACT_NO_ACTION ∧
          snapshotChannelState hal port channel d1 i ≠ ADI_ADRV9001_CHANNEL_PRIMED) ∧
        ((snapshotAction hal d1 j = ADI_COMMON_ACT_NO_ACTION ∧
            snapshotChannelState hal port channel d1 j = ADI_ADRV9001_CHANNEL_PRIMED ∧
            a = ADI_COMMON_ACT_NO_ACTION) ∨
          (snapshotAction hal d1 j ≠ ADI_COMMON_ACT_NO_ACTION ∧
            a = snapshotAction hal d1 j))))
    hn255 ?_ ?_ fuel 0 adi_adrv9001_RadioState_t.zero [] d1 (Nat.zero_le _) (by omega)
    ⟨rfl, rfl, fun j hj => absurd hj (Nat.not_lt_zero j)⟩) ?_
  · intro i b tr dd hi ⟨hst, htr, hP⟩
    obtain ⟨a2, rs2, tr2, d3, hget, _⟩ := State_Get_total hal b dd
    have hs : snapshot hal d1 i = some (a2, rs2, tr2, d3) := by
      unfold snapshot
      rw [← hst]
      exact hget
    rw [sat_bind, sat_ADI_EXPECT_OUT, funcOut_sat_of_eq hget]
    by_cases ha2 : a2 = ADI_COMMON_ACT_NO_ACTION
    · rw [if_pos ha2]
      dsimp only
      by_cases hp : rs2.stateAt (adi_common_port_to_index port 0)
          (adi_common_channel_to_index channel 0) = ADI_ADRV9001_CHANNEL_PRIMED
      · rw [if_pos hp, sat_ret]
        refine ⟨fun b h => (by cases h), fun a h => ?_⟩
        cases h
        refine ⟨i, hi, ?_, ?_, hP, Or.inl ⟨?_, ?_, rfl⟩⟩
        · rw [snapshotTrace_succ hal d1 i a2 rs2 tr2 d3 hs, htr, List.append_nil]
        · rw [snapshotState_succ hal d1 i a2 rs2 tr2 d3 hs]
        · rw [snapshotAction_eq hal d1 i a2 rs2 tr2 d3 hs, ha2]
        · rw [snapshotChannelState_eq hal port channel d1 i a2 rs2 tr2 d3 hs, hp]
      · rw [if_neg hp, sat_pure]
        refine ⟨?_, ?_, fun j hj => ?_⟩
        · rw [snapshotState_succ hal d1 i a2 rs2 tr2 d3 hs]
        · rw [snapshotTrace_succ hal d1 i a2 rs2 tr2 d3 hs, htr, List.append_nil]
        · by_cases hji : j = i
          · subst hji
            rw [snapshotAction_eq hal d1 j a2 rs2 tr2 d3 hs,
              snapshotChannelState_eq hal port channel d1 j a2 rs2 tr2 d3 hs]
            exact ⟨ha2, hp⟩
          · exact hP j (by omega)
    · rw [if_neg ha2]
      dsimp only
      refine ⟨fun b h => (by cases h), fun a h => ?_⟩
      cases h
      refine ⟨i, hi, ?_, ?_, hP, Or.inr ⟨?_, ?_⟩⟩
      · rw [snapshotTrace_succ hal d1 i a2 rs2 tr2 d3 hs, htr]
      · rw [snapshotState_succ hal d1 i a2 rs2 tr2 d3 hs]
      · rw [snapshotAction_eq hal d1 i a2 rs2 tr2 d3 hs]
        exact ha2
      · rw [snapshotAction_eq hal d1 i a2 rs2 tr2 d3 hs]
  · intro b tr dd ⟨hst, htr, hP⟩
    refine ⟨fun _ _ => ⟨htr, ?_, hP⟩, fun a h => (by cases h)⟩
    rw [← hst]
  · rintro r tr dd ⟨hnext, hret⟩
    cases r with
    | ret a =>
      obtain ⟨j, hj, htr, hdd, hP, hcase⟩ := hret a rfl
      simp only [List.nil_append] at htr
      exact ⟨j + 1, by omega, by rw [htr], hdd, Or.inr ⟨j, hj, rfl, hP, hcase⟩⟩
    | next b =>
      obtain ⟨htr, hdd, hP⟩ := hnext b rfl
      simp only [List.nil_append] at htr
      rw [sat_ret]
      exact ⟨numTries, Nat.le_refl _, by rw [htr, List.append_nil], hdd,
        Or.inl ⟨rfl, rfl, hP⟩⟩

/-! ## Claims -/

/-- Claim C1 (as amended): for every batch of at most 255 entries and every
radio state, `adi_adrv9001_Radio_Channels_Prime` fails, in either direction,
whenever the status read shows some listed RX/TX channel neither CALIBRATED nor
PRIMED; the only device accesses are status register reads, so no mailbox
command is issued. -/
theorem C1_prime_rejects_unready_batch {σ : Type} (hal : Platform σ) (fuel : Nat)
    (batch : List (adi_common_Port_e × adi_common_ChannelNumber_e)) (prime : Bool) (d : σ)
    (rs : adi_adrv9001_RadioState_t) (tr1 : List Event) (d1 : σ) (k : Nat)
    (hlen : batch.length ≤ 255) (hfuel : batch.length < fuel)
    (hread : adi_adrv9001_Radio_State_Get hal adi_adrv9001_RadioState_t.zero d =
      some (ADI_COMMON_ACT_NO_ACTION, rs, tr1, d1))
    (hk : k < batch.length) (hport : (batchAt batch k).1 ≠ ADI_ORX)
    (hcal : channelStateIn rs (batchAt batch k).1 (batchAt batch k).2 ≠
      ADI_ADRV9001_CHANNEL_CALIBRATED)
    (hpri : channelStateIn rs (batchAt batch k).1 (batchAt batch k).2 ≠
      ADI_ADRV9001_CHANNEL_PRIMED) :
    ∃ a tr d2, adi_adrv9001_Radio_Channels_Prime hal fuel batch prime d = some (a, tr, d2) ∧
      a ≠ ADI_COMMON_ACT_NO_ACTION ∧
      ∀ e ∈ tr, e.isStatusRead = true ∧ e.isMailboxCommand = false := by
  obtain ⟨a, tr, d2, h1, h2, h3⟩ :=
    Prime_rejects hal fuel batch prime d rs tr1 d1 k hlen hfuel hread hk hport hcal hpri
  refine ⟨a, tr, d2, h1, h2, ?_⟩
  intro e he
  rcases h3 with h3 | h3
  · subst h3
    simp at he
  · subst h3
    obtain ⟨addr, r, rfl⟩ := State_Get_events hal _ _ _ _ _ _ hread e he
    simp [Event.isStatusRead, Event.isMailboxCommand]

/-- Witness of claim C1: priming {TX1} on the simulated device while TX1 is
RF_ENABLED. -/
theorem C1_prime_rejects_unready_batch_witness :
    ∃ a tr d2, adi_adrv9001_Radio_Channels_Prime simPlatform 256 [(ADI_TX, ADI_CHANNEL_1)] true
        (simDev 1 1 3 1) = some (a, tr, d2) ∧
      a ≠ ADI_COMMON_ACT_NO_ACTION ∧
      ∀ e ∈ tr, e.isStatusRead = true ∧ e.isMailboxCommand = false :=
  C1_prime_rejects_unready_batch simPlatform 256 [(ADI_TX, ADI_CHANNEL_1)] true (simDev 1 1 3 1)
    { systemState := 0, monitorModeState := 0, bootState := 0, channelStates := [[1, 1], [3, 1]] }
    [Event.spiReadByte RegAddr.ADRV9001_ADDR_ARM_CMD_STATUS_8 ADI_COMMON_ACT_NO_ACTION,
     Event.spiReadByte RegAddr.ADRV9001_ADDR_ARM_CMD_STATUS_9 ADI_COMMON_ACT_NO_ACTION]
    (simDev 1 1 3 1) 0 (by decide) (by decide) (by decide) (by decide) (by decide) (by decide)
    (by decide)

/-- Counterexample to claim C1 as stated: with RX1 PRIMED (not CALIBRATED),
priming {RX1} succeeds and issues the RADIO-ON command. -/
theorem C1_counterexample_primed_channel_is_primed_again :
    (adi_adrv9001_Radio_State_Get simPlatform adi_adrv9001_RadioState_t.zero
        (simDev 2 1 1 1)).map (fun r => (r.1, channelStateIn r.2.1 ADI_RX ADI_CHANNEL_1)) =
      some (ADI_COMMON_ACT_NO_ACTION, ADI_ADRV9001_CHANNEL_PRIMED) ∧
    (adi_adrv9001_Radio_Channels_Prime simPlatform 256 [(ADI_RX, ADI_CHANNEL_1)] true
        (simDev 2 1 1 1)).map (fun r => (r.1, r.2.1)) =
      some (ADI_COMMON_ACT_NO_ACTION,
        [Event.spiReadByte RegAddr.ADRV9001_ADDR_ARM_CMD_STATUS_8 ADI_COMMON_ACT_NO_ACTION,
         Event.spiReadByte RegAddr.ADRV9001_ADDR_ARM_CMD_STATUS_9 ADI_COMMON_ACT_NO_ACTION,
         Event.cmdWrite Opcode.ADRV9001_ARM_RADIOON_OPCODE [ADI_ADRV9001_RX1]
           ADI_COMMON_ACT_NO_ACTION,
         Event.cmdStatusWait Opcode.ADRV9001_ARM_RADIOON_OPCODE 0 1000000 50000
           ADI_COMMON_ACT_NO_ACTION,
         Event.spiReadByte RegAddr.ADRV9001_ADDR_ARM_CMD_STATUS_8 ADI_COMMON_ACT_NO_ACTION,
         Event.spiReadByte RegAddr.ADRV9001_ADDR_ARM_CMD_STATUS_9 ADI_COMMON_ACT_NO_ACTION]) := by
  decide

/-- Claim C2 (code at the failing input): in the batch {RX1, RX2} with RX2 in
pin enable-mode the call fails, but only after the enable field of RX1 has been
written, which moved RX1 from PRIMED to RF_ENABLED. -/
theorem C2_enable_rf_writes_before_pin_mode_failure :
    (adi_adrv9001_Radio_Channels_EnableRf simPlatform 256
        [(ADI_RX, ADI_CHANNEL_1), (ADI_RX, ADI_CHANNEL_2)] true
        { simDev 2 2 1 1 with pinRx2 := ADI_ADRV9001_PIN_MODE }).map
        (fun r => (r.1, r.2.1, r.2.2.rx1)) =
      some (ADI_COMMON_ACT_ERR_CHECK_PARAM,
        [Event.spiReadByte RegAddr.ADRV9001_ADDR_ARM_CMD_STATUS_8 ADI_COMMON_ACT_NO_ACTION,
         Event.spiReadByte RegAddr.ADRV9001_ADDR_ARM_CMD_STATUS_9 ADI_COMMON_ACT_NO_ACTION,
         Event.pinModeGet BbicField.Rx1 ADI_COMMON_ACT_NO_ACTION,
         Event.enableSet BbicField.Rx1 true ADI_COMMON_ACT_NO_ACTION,
         Event.pinModeGet BbicField.Rx2 ADI_COMMON_ACT_NO_ACTION],
        3) := by
  decide

/-- Claim C3 (as amended): for every batch of at most 255 entries,
`adi_adrv9001_Radio_Channels_EnableRf` fails, in either direction, whenever the
status read shows some listed RX/TX channel neither PRIMED nor RF_ENABLED; it
then issues no mailbox command and does not write the enable field of that
channel. -/
theorem C3_enable_rf_rejects_unprimed_channel {σ : Type} (hal : Platform σ) (fuel : Nat)
    (batch : List (adi_common_Port_e × adi_common_ChannelNumber_e)) (enable : Bool) (d : σ)
    (rs : adi_adrv9001_RadioState_t) (tr1 : List Event) (d1 : σ) (k : Nat)
    (hlen : batch.length ≤ 255) (hfuel : batch.length < fuel)
    (hread : adi_adrv9001_Radio_State_Get hal adi_adrv9001_RadioState_t.zero d =
      some (ADI_COMMON_ACT_NO_ACTION, rs, tr1, d1))
    (hk : k < batch.length) (hport : (batchAt batch k).1 ≠ ADI_ORX)
    (hpri : channelStateIn rs (batchAt batch k).1 (batchAt batch k).2 ≠ ADI_ADRV9001_CHANNEL_PRIMED)
    (hrf : channelStateIn rs (batchAt batch k).1 (batchAt batch k).2 ≠
      ADI_ADRV9001_CHANNEL_RF_ENABLED) :
    ∃ a tr d2, adi_adrv9001_Radio_Channels_EnableRf hal fuel batch enable d = some (a, tr, d2) ∧
      a ≠ ADI_COMMON_ACT_NO_ACTION ∧
      ∀ e ∈ tr, e.isMailboxCommand = false ∧
        e.isEnableWriteOf (bbicFieldOf (batchAt batch k).1 (batchAt batch k).2) = false :=
  EnableRf_rejects hal fuel batch enable d rs tr1 d1 k hlen hfuel hread hk hport hpri hrf

/-- Witness of claim C3: enabling RF on {RX1, TX2} on the simulated device
while TX2 is only CALIBRATED. -/
theorem C3_enable_rf_rejects_unprimed_channel_witness :
    ∃ a tr d2, adi_adrv9001_Radio_Channels_EnableRf simPlatform 256
        [(ADI_RX, ADI_CHANNEL_1), (ADI_TX, ADI_CHANNEL_2)] true (simDev 2 1 1 1) =
          some (a, tr, d2) ∧
      a ≠ ADI_COMMON_ACT_NO_ACTION ∧
      ∀ e ∈ tr, e.isMailboxCommand = false ∧
        e.isEnableWriteOf (bbicFieldOf
          (batchAt [(ADI_RX, ADI_CHANNEL_1), (ADI_TX, ADI_CHANNEL_2)] 1).1
          (batchAt [(ADI_RX, ADI_CHANNEL_1), (ADI_TX, ADI_CHANNEL_2)] 1).2) = false :=
  C3_enable_rf_rejects_unprimed_channel simPlatform 256
    [(ADI_RX, ADI_CHANNEL_1), (ADI_TX, ADI_CHANNEL_2)] true (simDev 2 1 1 1)
    { systemState := 0, monitorModeState := 0, bootState := 0, channelStates := [[2, 1], [1, 1]] }
    [Event.spiReadByte RegAddr.ADRV9001_ADDR_ARM_CMD_STATUS_8 ADI_COMMON_ACT_NO_ACTION,
     Event.spiReadByte RegAddr.ADRV9001_ADDR_ARM_CMD_STATUS_9 ADI_COMMON_ACT_NO_ACTION]
    (simDev 2 1 1 1) 1 (by decide) (by decide) (by decide) (by decide) (by decide) (by decide)
    (by decide)

/-- Counterexample to claim C3 as stated: with RX1 RF_ENABLED (not PRIMED),
enabling RF on {RX1} succeeds and writes the enable field. -/
theorem C3_counterexample_enable_on_rf_enabled_channel :
    (adi_adrv9001_Radio_State_Get simPlatform adi_adrv9001_RadioState_t.zero
        (simDev 3 1 1 1)).map (fun r => (r.1, channelStateIn r.2.1 ADI_RX ADI_CHANNEL_1)) =
      some (ADI_COMMON_ACT_NO_ACTION, ADI_ADRV9001_CHANNEL_RF_ENABLED) ∧
    (adi_adrv9001_Radio_Channels_EnableRf simPlatform 256 [(ADI_RX, ADI_CHANNEL_1)] true
        (simDev 3 1 1 1)).map (fun r => (r.1, r.2.1)) =
      some (ADI_COMMON_ACT_NO_ACTION,
        [Event.spiReadByte RegAddr.ADRV9001_ADDR_ARM_CMD_STATUS_8 ADI_COMMON_ACT_NO_ACTION,
         Event.spiReadByte RegAddr.ADRV9001_ADDR_ARM_CMD_STATUS_9 ADI_COMMON_ACT_NO_ACTION,
         Event.pinModeGet BbicField.Rx1 ADI_COMMON_ACT_NO_ACTION,
         Event.enableSet BbicField.Rx1 true ADI_COMMON_ACT_NO_ACTION]) := by
  decide

/-- Claim C8: no operation moves a channel directly out of STANDBY.  For every
batch of at most 255 entries holding an RX/TX channel that the status read
shows in STANDBY, `adi_adrv9001_Radio_Channels_Prime` and
`adi_adrv9001_Radio_Channels_EnableRf` fail in either direction; no RADIO-ON or
RADIO-OFF command (no mailbox command at all) is issued and the enable field of
that channel is not written. -/
theorem C8_standby_channel_is_never_moved {σ : Type} (hal : Platform σ) (fuel : Nat)
    (batch : List (adi_common_Port_e × adi_common_ChannelNumber_e)) (direction : Bool) (d : σ)
    (rs : adi_adrv9001_RadioState_t) (tr1 : List Event) (d1 : σ) (k : Nat)
    (hlen : batch.length ≤ 255) (hfuel : batch.length < fuel)
    (hread : adi_adrv9001_Radio_State_Get hal adi_adrv9001_RadioState_t.zero d =
      some (ADI_COMMON_ACT_NO_ACTION, rs, tr1, d1))
    (hk : k < batch.length) (hport : (batchAt batch k).1 ≠ ADI_ORX)
    (hstandby : channelStateIn rs (batchAt batch k).1 (batchAt batch k).2 =
      ADI_ADRV9001_CHANNEL_STANDBY) :
    (∃ a tr d2, adi_adrv9001_Radio_Channels_Prime hal fuel batch direction d = some (a, tr, d2) ∧
      a ≠ ADI_COMMON_ACT_NO_ACTION ∧
      ∀ e ∈ tr, e.isMailboxCommand = false ∧ e.isEnableWrite = false) ∧
    (∃ a tr d2, adi_adrv9001_Radio_Channels_EnableRf hal fuel batch direction d =
        some (a, tr, d2) ∧
      a ≠ ADI_COMMON_ACT_NO_ACTION ∧
      ∀ e ∈ tr, e.isMailboxCommand = false ∧
        e.isEnableWriteOf (bbicFieldOf (batchAt batch k).1 (batchAt batch k).2) = false) := by
  constructor
  · obtain ⟨a, tr, d2, h1, h2, h3⟩ :=
      Prime_rejects hal fuel batch direction d rs tr1 d1 k hlen hfuel hread hk hport
        (by rw [hstandby]; decide) (by rw [hstandby]; decide)
    refine ⟨a, tr, d2, h1, h2, ?_⟩
    intro e he
    rcases h3 with h3 | h3
    · subst h3
      simp at he
    · subst h3
      obtain ⟨addr, r, rfl⟩ := State_Get_events hal _ _ _ _ _ _ hread e he
      simp [Event.isEnableWrite, Event.isMailboxCommand]
  · exact EnableRf_rejects hal fuel batch direction d rs tr1 d1 k hlen hfuel hread hk hport
      (by rw [hstandby]; decide) (by rw [hstandby]; decide)

/-- Witness of claim C8: the batch {RX1, TX1} on the simulated device with TX1
in STANDBY. -/
theorem C8_standby_channel_is_never_moved_witness :
    (∃ a tr d2, adi_adrv9001_Radio_Channels_Prime simPlatform 256
        [(ADI_RX, ADI_CHANNEL_1), (ADI_TX, ADI_CHANNEL_1)] true (simDev 1 1 0 1) =
          some (a, tr, d2) ∧
      a ≠ ADI_COMMON_ACT_NO_ACTION ∧
      ∀ e ∈ tr, e.isMailboxCommand = false ∧ e.isEnableWrite = false) ∧
    (∃ a tr d2, adi_adrv9001_Radio_Channels_EnableRf simPlatform 256
        [(ADI_RX, ADI_CHANNEL_1), (ADI_TX, ADI_CHANNEL_1)] true (simDev 1 1 0 1) =
          some (a, tr, d2) ∧
      a ≠ ADI_COMMON_ACT_NO_ACTION ∧
      ∀ e ∈ tr, e.isMailboxCommand = false ∧
        e.isEnableWriteOf (bbicFieldOf
          (batchAt [(ADI_RX, ADI_CHANNEL_1), (ADI_TX, ADI_CHANNEL_1)] 1).1
          (batchAt [(ADI_RX, ADI_CHANNEL_1), (ADI_TX, ADI_CHANNEL_1)] 1).2) = false) :=
  C8_standby_channel_is_never_moved simPlatform 256
    [(ADI_RX, ADI_CHANNEL_1), (ADI_TX, ADI_CHANNEL_1)] true (simDev 1 1 0 1)
    { systemState := 0, monitorModeState := 0, bootState := 0, channelStates := [[1, 1], [0, 1]] }
    [Event.spiReadByte RegAddr.ADRV9001_ADDR_ARM_CMD_STATUS_8 ADI_COMMON_ACT_NO_ACTION,
     Event.spiReadByte RegAddr.ADRV9001_ADDR_ARM_CMD_STATUS_9 ADI_COMMON_ACT_NO_ACTION]
    (simDev 1 1 0 1) 1 (by decide) (by decide) (by decide) (by decide) (by decide) (by decide)

/-- Claim C5 (as amended): for every RX/TX channel and every state s among
CALIBRATED, PRIMED and RF_ENABLED, `adi_adrv9001_Radio_Channel_ToState` with
target s, while the status read shows the channel in state s, returns success
and its only device accesses are the status register reads: no mailbox
command, no mailbox write and no register write. -/
theorem C5_to_current_state_is_noop {σ : Type} (hal : Platform σ) (fuel : Nat)
    (port : adi_common_Port_e) (channel : adi_common_ChannelNumber_e) (s : Nat) (d : σ)
    (rs : adi_adrv9001_RadioState_t) (tr1 : List Event) (d1 : σ)
    (hport : port ≠ ADI_ORX)
    (hs : s = ADI_ADRV9001_CHANNEL_CALIBRATED ∨ s = ADI_ADRV9001_CHANNEL_PRIMED ∨
      s = ADI_ADRV9001_CHANNEL_RF_ENABLED)
    (hread : adi_adrv9001_Radio_State_Get hal adi_adrv9001_RadioState_t.zero d =
      some (ADI_COMMON_ACT_NO_ACTION, rs, tr1, d1))
    (hcur : channelStateIn rs port channel = s) :
    adi_adrv9001_Radio_Channel_ToState hal fuel port channel s d =
      some (ADI_COMMON_ACT_NO_ACTION, tr1, d1) ∧
    ∀ e ∈ tr1, e.isStatusRead = true ∧ e.isMailboxCommand = false ∧
      e.isMailboxWrite = false ∧ e.isRegisterWrite = false := by
  constructor
  · rw [← func_sat_eq]
    unfold adi_adrv9001_Radio_Channel_ToState
    simp only [stmt_bind_eq, stmt_pure_eq, sat_toFunc, sat_bind, sat_ADI_EXPECT,
      func_sat_of_eq (ToState_Validate_ok port channel s d hport hs), if_true]
    have hidx : rs.stateAt (adi_common_port_to_index port 0)
        (adi_common_channel_to_index channel 0) = s := hcur
    rcases hs with rfl | rfl | rfl
    · unfold adi_adrv9001_Radio_Channel_ToCalibrated
      simp [stmt_bind_eq, stmt_pure_eq, sat_toFunc, sat_bind, sat_ADI_EXPECT, sat_ADI_EXPECT_OUT,
        funcOut_sat_of_eq hread, hidx, sat_pure, sat_ret, ADI_ERROR_REPORT_RETURN]
    · unfold adi_adrv9001_Radio_Channel_ToPrimed
      simp [stmt_bind_eq, stmt_pure_eq, sat_toFunc, sat_bind, sat_ADI_EXPECT, sat_ADI_EXPECT_OUT,
        funcOut_sat_of_eq hread, hidx, sat_pure, sat_ret, ADI_ERROR_REPORT_RETURN]
    · unfold adi_adrv9001_Radio_Channel_ToRfEnabled
      simp [stmt_bind_eq, stmt_pure_eq, sat_toFunc, sat_bind, sat_ADI_EXPECT, sat_ADI_EXPECT_OUT,
        funcOut_sat_of_eq hread, hidx, sat_pure, sat_ret, ADI_ERROR_REPORT_RETURN]
  · intro e he
    obtain ⟨addr, r, rfl⟩ := State_Get_events hal _ _ _ _ _ _ hread e he
    simp [Event.isStatusRead, Event.isMailboxCommand, Event.isMailboxWrite, Event.isRegisterWrite]

/-- Witness of claim C5: TX2 of the simulated device is PRIMED and the target
is PRIMED. -/
theorem C5_to_current_state_is_noop_witness :
    adi_adrv9001_Radio_Channel_ToState simPlatform 256 ADI_TX ADI_CHANNEL_2
        ADI_ADRV9001_CHANNEL_PRIMED (simDev 1 1 1 2) =
      some (ADI_COMMON_ACT_NO_ACTION,
        [Event.spiReadByte RegAddr.ADRV9001_ADDR_ARM_CMD_STATUS_8 ADI_COMMON_ACT_NO_ACTION,
         Event.spiReadByte RegAddr.ADRV9001_ADDR_ARM_CMD_STATUS_9 ADI_COMMON_ACT_NO_ACTION],
        simDev 1 1 1 2) ∧
    ∀ e ∈ [Event.spiReadByte RegAddr.ADRV9001_ADDR_ARM_CMD_STATUS_8 ADI_COMMON_ACT_NO_ACTION,
         Event.spiReadByte RegAddr.ADRV9001_ADDR_ARM_CMD_STATUS_9 ADI_COMMON_ACT_NO_ACTION],
      e.isStatusRead = true ∧ e.isMailboxCommand = false ∧
      e.isMailboxWrite = false ∧ e.isRegisterWrite = false :=
  C5_to_current_state_is_noop simPlatform 256 ADI_TX ADI_CHANNEL_2 ADI_ADRV9001_CHANNEL_PRIMED
    (simDev 1 1 1 2)
    { systemState := 0, monitorModeState := 0, bootState := 0, channelStates := [[1, 1], [1, 2]] }
    [Event.spiReadByte RegAddr.ADRV9001_ADDR_ARM_CMD_STATUS_8 ADI_COMMON_ACT_NO_ACTION,
     Event.spiReadByte RegAddr.ADRV9001_ADDR_ARM_CMD_STATUS_9 ADI_COMMON_ACT_NO_ACTION]
    (simDev 1 1 1 2) (by decide) (by decide) (by decide) (by decide)

/-- Counterexample to claim C5 as stated: with RX1 in STANDBY and target
STANDBY the request is rejected by the validation. -/
theorem C5_counterexample_target_standby_is_rejected :
    (adi_adrv9001_Radio_State_Get simPlatform adi_adrv9001_RadioState_t.zero
        (simDev 0 0 0 0)).map (fun r => (r.1, channelStateIn r.2.1 ADI_RX ADI_CHANNEL_1)) =
      some (ADI_COMMON_ACT_NO_ACTION, ADI_ADRV9001_CHANNEL_STANDBY) ∧
    adi_adrv9001_Radio_Channel_ToState simPlatform 256 ADI_RX ADI_CHANNEL_1
        ADI_ADRV9001_CHANNEL_STANDBY (simDev 0 0 0 0) =
      some (ADI_COMMON_ACT_ERR_CHECK_PARAM, [], simDev 0 0 0 0) := by
  decide

/-- Claim C6: for every RX/TX channel that the status read shows in STANDBY and
every target among CALIBRATED, PRIMED and RF_ENABLED,
`adi_adrv9001_Radio_Channel_ToState` fails, and its only device accesses are
the status register reads that discover STANDBY: no mailbox command and no
register write. -/
theorem C6_to_state_from_standby_fails {σ : Type} (hal : Platform σ) (fuel : Nat)
    (port : adi_common_Port_e) (channel : adi_common_ChannelNumber_e) (target : Nat) (d : σ)
    (rs : adi_adrv9001_RadioState_t) (tr1 : List Event) (d1 : σ)
    (hport : port ≠ ADI_ORX)
    (ht : target = ADI_ADRV9001_CHANNEL_CALIBRATED ∨ target = ADI_ADRV9001_CHANNEL_PRIMED ∨
      target = ADI_ADRV9001_CHANNEL_RF_ENABLED)
    (hread : adi_adrv9001_Radio_State_Get hal adi_adrv9001_RadioState_t.zero d =
      some (ADI_COMMON_ACT_NO_ACTION, rs, tr1, d1))
    (hcur : channelStateIn rs port channel = ADI_ADRV9001_CHANNEL_STANDBY) :
    adi_adrv9001_Radio_Channel_ToState hal fuel port channel target d =
      some (ADI_COMMON_ACT_ERR_CHECK_PARAM, tr1, d1) ∧
    ADI_COMMON_ACT_ERR_CHECK_PARAM ≠ ADI_COMMON_ACT_NO_ACTION ∧
    ∀ e ∈ tr1, e.isStatusRead = true ∧ e.isMailboxCommand = false ∧
      e.isMailboxWrite = false ∧ e.isRegisterWrite = false := by
  refine ⟨?_, by decide, ?_⟩
  · rw [← func_sat_eq]
    unfold adi_adrv9001_Radio_Channel_ToState
    simp only [stmt_bind_eq, stmt_pure_eq, sat_toFunc, sat_bind, sat_ADI_EXPECT,
      func_sat_of_eq (ToState_Validate_ok port channel target d hport ht), if_true]
    have hidx : rs.stateAt (adi_common_port_to_index port 0)
        (adi_common_channel_to_index channel 0) = 0 := hcur
    rcases ht with rfl | rfl | rfl
    · unfold adi_adrv9001_Radio_Channel_ToCalibrated
      simp [stmt_bind_eq, stmt_pure_eq, sat_toFunc, sat_bind, sat_ADI_EXPECT, sat_ADI_EXPECT_OUT,
        funcOut_sat_of_eq hread, hidx, sat_pure, sat_ret, ADI_ERROR_REPORT_RETURN]
    · unfold adi_adrv9001_Radio_Channel_ToPrimed
      simp [stmt_bind_eq, stmt_pure_eq, sat_toFunc, sat_bind, sat_ADI_EXPECT, sat_ADI_EXPECT_OUT,
        funcOut_sat_of_eq hread, hidx, sat_pure, sat_ret, ADI_ERROR_REPORT_RETURN]
    · unfold adi_adrv9001_Radio_Channel_ToRfEnabled
      simp [stmt_bind_eq, stmt_pure_eq, sat_toFunc, sat_bind, sat_ADI_EXPECT, sat_ADI_EXPECT_OUT,
        funcOut_sat_of_eq hread, hidx, sat_pure, sat_ret, ADI_ERROR_REPORT_RETURN]
  · intro e he
    obtain ⟨addr, r, rfl⟩ := State_Get_events hal _ _ _ _ _ _ hread e he
    simp [Event.isStatusRead, Event.isMailboxCommand, Event.isMailboxWrite, Event.isRegisterWrite]

/-- Witness of claim C6: RX2 of the simulated device is in STANDBY and the
target is RF_ENABLED. -/
theorem C6_to_state_from_standby_fails_witness :
    adi_adrv9001_Radio_Channel_ToState simPlatform 256 ADI_RX ADI_CHANNEL_2
        ADI_ADRV9001_CHANNEL_RF_ENABLED (simDev 1 0 1 1) =
      some (ADI_COMMON_ACT_ERR_CHECK_PARAM,
        [Event.spiReadByte RegAddr.ADRV9001_ADDR_ARM_CMD_STATUS_8 ADI_COMMON_ACT_NO_ACTION,
         Event.spiReadByte RegAddr.ADRV9001_ADDR_ARM_CMD_STATUS_9 ADI_COMMON_ACT_NO_ACTION],
        simDev 1 0 1 1) ∧
    ADI_COMMON_ACT_ERR_CHECK_PARAM ≠ ADI_COMMON_ACT_NO_ACTION ∧
    ∀ e ∈ [Event.spiReadByte RegAddr.ADRV9001_ADDR_ARM_CMD_STATUS_8 ADI_COMMON_ACT_NO_ACTION,
         Event.spiReadByte RegAddr.ADRV9001_ADDR_ARM_CMD_STATUS_9 ADI_COMMON_ACT_NO_ACTION],
      e.isStatusRead = true ∧ e.isMailboxCommand = false ∧
      e.isMailboxWrite = false ∧ e.isRegisterWrite = false :=
  C6_to_state_from_standby_fails simPlatform 256 ADI_RX ADI_CHANNEL_2
    ADI_ADRV9001_CHANNEL_RF_ENABLED (simDev 1 0 1 1)
    { systemState := 0, monitorModeState := 0, bootState := 0, channelStates := [[1, 0], [1, 1]] }
    [Event.spiReadByte RegAddr.ADRV9001_ADDR_ARM_CMD_STATUS_8 ADI_COMMON_ACT_NO_ACTION,
     Event.spiReadByte RegAddr.ADRV9001_ADDR_ARM_CMD_STATUS_9 ADI_COMMON_ACT_NO_ACTION]
    (simDev 1 0 1 1) (by decide) (by decide) (by decide) (by decide)

/-- Claim C9: errata compensation of a prime batch.  For every batch of at most
255 entries, when `adi_adrv9001_Radio_Channels_Prime` with prime = true
succeeds, the radio state was read from the device state left by the completed
RADIO-ON wait, and the enable field writes of the whole call are, entry by
entry in batch order, an RF disable followed by an RF enable on the RX channel
of the same channel number exactly for the TX entries whose paired RX channel
that state shows RF_ENABLED, and nothing for every other entry (RX or ORX
entries, paired RX channel in another state).  With prime = false no enable
field is written at all.  On the simulated device, priming {TX1} with RX1
RF_ENABLED gives exactly one disable/enable cycle on RX1, and with RX1 PRIMED
gives none. -/
theorem C9_errata_compensation_exactly_for_tx_with_rx_enabled {σ : Type} (hal : Platform σ)
    (fuel : Nat) (batch : List (adi_common_Port_e × adi_common_ChannelNumber_e)) (d : σ)
    (a0 : Action) (rs0 : adi_adrv9001_RadioState_t) (tr0 : List Event) (d0 : σ)
    (hlen : batch.length ≤ 255) (hfuel : batch.length < fuel) (h6 : 6 ≤ fuel)
    (hread0 : adi_adrv9001_Radio_State_Get hal adi_adrv9001_RadioState_t.zero d =
      some (a0, rs0, tr0, d0)) :
    (∃ a tr d2, adi_adrv9001_Radio_Channels_Prime hal fuel batch true d = some (a, tr, d2) ∧
      (a = ADI_COMMON_ACT_NO_ACTION →
        ∃ rs tr1 d1,
          adi_adrv9001_Radio_State_Get hal adi_adrv9001_RadioState_t.zero
            (hal.adrv9001_ARM_CMD_STATUS_WAIT Opcode.ADRV9001_ARM_RADIOON_OPCODE 0
              hal.ADI_ADRV9001_RADIOONOFF_TIMEOUT_US hal.ADI_ADRV9001_RADIOONOFF_INTERVAL_US
              (hal.adi_adrv9001_arm_Cmd_Write Opcode.ADRV9001_ARM_RADIOON_OPCODE
                [batchMask batch] d0).2).2 = some (ADI_COMMON_ACT_NO_ACTION, rs, tr1, d1) ∧
          enableWrites tr = batch.flatMap (errataCompensation rs))) ∧
    (∃ a tr d2, adi_adrv9001_Radio_Channels_Prime hal fuel batch false d = some (a, tr, d2) ∧
      enableWrites tr = []) ∧
    (adi_adrv9001_Radio_Channels_Prime simPlatform 256 [(ADI_TX, ADI_CHANNEL_1)] true
        (simDev 3 1 1 1)).map (fun r => (r.1, enableWrites r.2.1)) =
      some (ADI_COMMON_ACT_NO_ACTION,
        [Event.enableSet BbicField.Rx1 false ADI_COMMON_ACT_NO_ACTION,
         Event.enableSet BbicField.Rx1 true ADI_COMMON_ACT_NO_ACTION]) ∧
    (adi_adrv9001_Radio_Channels_Prime simPlatform 256 [(ADI_TX, ADI_CHANNEL_1)] true
        (simDev 2 1 1 1)).map (fun r => (r.1, enableWrites r.2.1)) =
      some (ADI_COMMON_ACT_NO_ACTION, []) := by
  have h0 := State_Get_events hal _ _ _ _ _ _ hread0
  have hw0 := enableWrites_of_statusReads tr0 h0
  refine ⟨?_, ?_, by decide, by decide⟩
  · obtain ⟨a, tr, d2, heq, hcase⟩ :=
      sat_Channels_Prime hal fuel batch true d a0 rs0 tr0 d0 hlen hfuel h6 hread0
    refine ⟨a, tr, d2, heq, fun ha => ?_⟩
    rcases hcase with ⟨h1, _⟩ | ⟨h1, _⟩ | ⟨h1, _⟩ | ⟨h1, _⟩ | ⟨_, trF, htr, hF⟩
    · exact absurd ha h1
    · exact absurd ha h1
    · exact absurd ha h1
    · cases h1
    · obtain ⟨aF, trF2, dF, hF2, _, hsucc⟩ := sat_ToPrimed_Fix hal fuel batch
        (hal.adrv9001_ARM_CMD_STATUS_WAIT Opcode.ADRV9001_ARM_RADIOON_OPCODE 0
          hal.ADI_ADRV9001_RADIOONOFF_TIMEOUT_US hal.ADI_ADRV9001_RADIOONOFF_INTERVAL_US
          (hal.adi_adrv9001_arm_Cmd_Write Opcode.ADRV9001_ARM_RADIOON_OPCODE
            [batchMask batch] d0).2).2 hlen hfuel h6
      rw [hF] at hF2
      simp only [Option.some.injEq, Prod.mk.injEq] at hF2
      obtain ⟨rfl, rfl, rfl⟩ := hF2
      obtain ⟨rs, tr1, d1, hr, hw⟩ := hsucc ha
      refine ⟨rs, tr1, d1, hr, ?_⟩
      rw [htr, enableWrites_cmd_wait _ _ _ _ _ _ _ _ _ h0]
      exact hw
  · obtain ⟨a, tr, d2, heq, hcase⟩ :=
      sat_Channels_Prime hal fuel batch false d a0 rs0 tr0 d0 hlen hfuel h6 hread0
    refine ⟨a, tr, d2, heq, ?_⟩
    rcases hcase with ⟨_, h | h⟩ | ⟨_, h⟩ | ⟨_, h⟩ | ⟨_, _, h⟩ | ⟨h, _⟩
    · subst h
      rfl
    · subst h
      exact hw0
    · subst h
      simp only [enableWrites_append, hw0, List.nil_append]
      simp [enableWrites, Event.isEnableWrite]
    · subst h
      simp only [enableWrites_append, hw0, List.nil_append]
      simp [enableWrites, Event.isEnableWrite]
    · subst h
      simp only [enableWrites_append, hw0, List.nil_append]
      simp [enableWrites, Event.isEnableWrite]
    · cases h

/-- Witness of claim C9: the batch {TX1, RX2, TX2} on the simulated device with
RX1 RF_ENABLED and RX2 PRIMED; only the entry TX1 is compensated. -/
theorem C9_errata_compensation_exactly_for_tx_with_rx_enabled_witness :
    (adi_adrv9001_Radio_Channels_Prime simPlatform 256
        [(ADI_TX, ADI_CHANNEL_1), (ADI_RX, ADI_CHANNEL_2), (ADI_TX, ADI_CHANNEL_2)] true
        (simDev 3 2 1 1)).map (fun r => (r.1, enableWrites r.2.1)) =
      some (ADI_COMMON_ACT_NO_ACTION,
        [Event.enableSet BbicField.Rx1 false ADI_COMMON_ACT_NO_ACTION,
         Event.enableSet BbicField.Rx1 true ADI_COMMON_ACT_NO_ACTION]) ∧
    (∃ a tr d2, adi_adrv9001_Radio_Channels_Prime simPlatform 256
        [(ADI_TX, ADI_CHANNEL_1), (ADI_RX, ADI_CHANNEL_2), (ADI_TX, ADI_CHANNEL_2)] true
        (simDev 3 2 1 1) = some (a, tr, d2) ∧
      (a = ADI_COMMON_ACT_NO_ACTION →
        ∃ rs tr1 d1,
          adi_adrv9001_Radio_State_Get simPlatform adi_adrv9001_RadioState_t.zero
            (simPlatform.adrv9001_ARM_CMD_STATUS_WAIT Opcode.ADRV9001_ARM_RADIOON_OPCODE 0
              simPlatform.ADI_ADRV9001_RADIOONOFF_TIMEOUT_US
              simPlatform.ADI_ADRV9001_RADIOONOFF_INTERVAL_US
              (simPlatform.adi_adrv9001_arm_Cmd_Write Opcode.ADRV9001_ARM_RADIOON_OPCODE
                [batchMask [(ADI_TX, ADI_CHANNEL_1), (ADI_RX, ADI_CHANNEL_2),
                  (ADI_TX, ADI_CHANNEL_2)]] (simDev 3 2 1 1)).2).2 =
            some (ADI_COMMON_ACT_NO_ACTION, rs, tr1, d1) ∧
          enableWrites tr =
            [(ADI_TX, ADI_CHANNEL_1), (ADI_RX, ADI_CHANNEL_2), (ADI_TX, ADI_CHANNEL_2)].flatMap
              (errataCompensation rs))) :=
  ⟨by decide,
   (C9_errata_compensation_exactly_for_tx_with_rx_enabled simPlatform 256
      [(ADI_TX, ADI_CHANNEL_1), (ADI_RX, ADI_CHANNEL_2), (ADI_TX, ADI_CHANNEL_2)] (simDev 3 2 1 1)
      ADI_COMMON_ACT_NO_ACTION
      { systemState := 0, monitorModeState := 0, bootState := 0,
        channelStates := [[3, 2], [1, 1]] }
      [Event.spiReadByte RegAddr.ADRV9001_ADDR_ARM_CMD_STATUS_8 ADI_COMMON_ACT_NO_ACTION,
       Event.spiReadByte RegAddr.ADRV9001_ADDR_ARM_CMD_STATUS_9 ADI_COMMON_ACT_NO_ACTION]
      (simDev 3 2 1 1) (by decide) (by decide) (by decide) (by decide)).1⟩

/-- Claim C10: a command-status wait that reports a timeout ends the call.  For
every mailbox operation of the file (with a batch of at most 255 entries where
there is one), the call returns, no device access follows a failed wait, and
when the wait failed the call returns a failure, has written no enable field
(`adi_adrv9001_Radio_Channels_Prime` runs no errata compensation) and has not
read the mailbox; the Inspect and Get operations then leave the caller's output
structure as it was. -/
theorem C10_failed_wait_ends_every_mailbox_operation {σ : Type} (hal : Platform σ) (fuel : Nat)
    (batch : List (adi_common_Port_e × adi_common_ChannelNumber_e)) (prime : Bool)
    (port : adi_common_Port_e) (channel : adi_common_ChannelNumber_e)
    (carrier : adi_adrv9001_Carrier_t) (pll : adi_adrv9001_Pll_e)
    (cfg : adi_adrv9001_PllLoopFilterCfg_t) (delays : adi_adrv9001_ChannelEnablementDelays_t)
    (d : σ) (hlen : batch.length ≤ 255) (hfuel : batch.length < fuel) (h6 : 6 ≤ fuel) :
    (∃ a tr d2, adi_adrv9001_Radio_Carrier_Configure hal fuel port channel carrier d =
      some (a, tr, d2) ∧ timeoutRespected a tr) ∧
    (∃ a out tr d2, adi_adrv9001_Radio_Carrier_Inspect hal fuel port channel carrier d =
      some (a, out, tr, d2) ∧ timeoutRespected a tr ∧
      (tr.any Event.isFailedWait = true → out = carrier)) ∧
    (∃ a tr d2, adi_adrv9001_Radio_Channels_Prime hal fuel batch prime d = some (a, tr, d2) ∧
      timeoutRespected a tr) ∧
    (∃ a tr d2, adi_adrv9001_Radio_Channels_PowerDown hal fuel batch d = some (a, tr, d2) ∧
      timeoutRespected a tr) ∧
    (∃ a tr d2, adi_adrv9001_Radio_Channels_PowerUp hal fuel batch d = some (a, tr, d2) ∧
      timeoutRespected a tr) ∧
    (∃ a tr d2, adi_adrv9001_Radio_PllLoopFilter_Set hal pll cfg d = some (a, tr, d2) ∧
      timeoutRespected a tr) ∧
    (∃ a out tr d2, adi_adrv9001_Radio_PllLoopFilter_Get hal pll cfg d = some (a, out, tr, d2) ∧
      timeoutRespected a tr ∧ (tr.any Event.isFailedWait = true → out = cfg)) ∧
    (∃ a tr d2, adi_adrv9001_Radio_ChannelEnablementDelays_Configure hal fuel port channel
      delays d = some (a, tr, d2) ∧ timeoutRespected a tr) ∧
    (∃ a out tr d2, adi_adrv9001_Radio_ChannelEnablementDelays_Inspect hal fuel port channel
      delays d = some (a, out, tr, d2) ∧ timeoutRespected a tr ∧
      (tr.any Event.isFailedWait = true → out = delays)) :=
  ⟨sat_Carrier_Configure_timeout hal fuel port channel carrier d (by omega),
   sat_Carrier_Inspect_timeout hal fuel port channel carrier d (by omega),
   sat_Prime_timeout hal fuel batch prime d hlen hfuel h6,
   sat_PowerDown_timeout hal fuel batch d hlen hfuel,
   sat_PowerUp_timeout hal fuel batch d hlen hfuel,
   sat_PllLoopFilter_Set_timeout hal pll cfg d,
   sat_PllLoopFilter_Get_timeout hal pll cfg d,
   sat_Delays_Configure_timeout hal fuel port channel delays d (by omega),
   sat_Delays_Inspect_timeout hal fuel port channel delays d (by omega)⟩

/-- Witness of claim C10: priming {TX1} on a simulated device whose
co-processor never answers; the wait times out, the call fails and nothing is
accessed after the wait. -/
theorem C10_failed_wait_ends_every_mailbox_operation_witness :
    (adi_adrv9001_Radio_Channels_Prime simPlatform 256 [(ADI_TX, ADI_CHANNEL_1)] true
        { simDev 3 1 1 1 with armResponds := false }).map (fun r => (r.1, r.2.1)) =
      some (transportTimeout,
        [Event.spiReadByte RegAddr.ADRV9001_ADDR_ARM_CMD_STATUS_8 ADI_COMMON_ACT_NO_ACTION,
         Event.spiReadByte RegAddr.ADRV9001_ADDR_ARM_CMD_STATUS_9 ADI_COMMON_ACT_NO_ACTION,
         Event.cmdWrite Opcode.ADRV9001_ARM_RADIOON_OPCODE [ADI_ADRV9001_TX1]
           ADI_COMMON_ACT_NO_ACTION,
         Event.cmdStatusWait Opcode.ADRV9001_ARM_RADIOON_OPCODE 0 1000000 50000
           transportTimeout]) ∧
    (∃ a tr d2, adi_adrv9001_Radio_Channels_Prime simPlatform 256 [(ADI_TX, ADI_CHANNEL_1)] true
        { simDev 3 1 1 1 with armResponds := false } = some (a, tr, d2) ∧
      timeoutRespected a tr) :=
  ⟨by decide,
   (C10_failed_wait_ends_every_mailbox_operation simPlatform 256 [(ADI_TX, ADI_CHANNEL_1)] true
      ADI_TX ADI_CHANNEL_1
      { pllCalibration := 0, loGenOptimization := 1, pllPower := 0,
        carrierFrequency_Hz := 900000000, intermediateFrequency_Hz := 0 }
      adi_adrv9001_Pll_e.ADI_ADRV9001_PLL_LO1
      { effectiveLoopBandwidth_kHz := 0, loopBandwidth_kHz := 300, phaseMargin_degrees := 60,
        powerScale := 5 }
      { riseToOnDelay := 10, riseToAnalogOnDelay := 5, fallToOffDelay := 10, guardDelay := 0,
        holdDelay := 3 }
      { simDev 3 1 1 1 with armResponds := false } (by decide) (by decide) (by decide)).2.2.1⟩

/-- Claim C4: under the ideal device model, for every RX/TX channel whose
current state is CALIBRATED, PRIMED or RF_ENABLED and every target among these
three, `adi_adrv9001_Radio_Channel_ToState` returns success and an
`adi_adrv9001_Radio_Channel_State_Get` that follows returns success with the
target as the channel state. -/
theorem C4_to_state_then_state_get_returns_target {σ : Type} {hal : Platform σ}
    {good : σ → Prop} {st : σ → adi_common_Port_e → adi_common_ChannelNumber_e → Nat}
    (I : IdealDevice hal good st) (fuel : Nat) (port : adi_common_Port_e)
    (channel : adi_common_ChannelNumber_e) (target channelState : Nat) (d : σ)
    (hgood : good d) (hport : port ≠ ADI_ORX) (hfuel : 2 ≤ fuel)
    (hs : st d port channel = ADI_ADRV9001_CHANNEL_CALIBRATED ∨
      st d port channel = ADI_ADRV9001_CHANNEL_PRIMED ∨
      st d port channel = ADI_ADRV9001_CHANNEL_RF_ENABLED)
    (ht : target = ADI_ADRV9001_CHANNEL_CALIBRATED ∨ target = ADI_ADRV9001_CHANNEL_PRIMED ∨
      target = ADI_ADRV9001_CHANNEL_RF_ENABLED) :
    ∃ tr d1, adi_adrv9001_Radio_Channel_ToState hal fuel port channel target d =
        some (ADI_COMMON_ACT_NO_ACTION, tr, d1) ∧
      ∃ tr2 d2, adi_adrv9001_Radio_Channel_State_Get hal port channel channelState d1 =
        some (ADI_COMMON_ACT_NO_ACTION, target, tr2, d2) := by
  obtain ⟨tr, d1, h1, hg1, hst1, _⟩ := ideal_ToState I fuel port channel target d hgood hport
    hfuel hs ht
  refine ⟨tr, d1, h1,
    [Event.spiReadByte RegAddr.ADRV9001_ADDR_ARM_CMD_STATUS_9 ADI_COMMON_ACT_NO_ACTION], d1, ?_⟩
  rw [ideal_Channel_State_Get I port channel channelState d1 hg1 hport, hst1]

/-- Witness of claim C4: RX1 of the simulated device taken from RF_ENABLED to
CALIBRATED. -/
theorem C4_to_state_then_state_get_returns_target_witness :
    simGood (simDev 3 1 1 1) ∧
    ∃ tr d1, adi_adrv9001_Radio_Channel_ToState simPlatform 2 ADI_RX ADI_CHANNEL_1
        ADI_ADRV9001_CHANNEL_CALIBRATED (simDev 3 1 1 1) =
        some (ADI_COMMON_ACT_NO_ACTION, tr, d1) ∧
      ∃ tr2 d2, adi_adrv9001_Radio_Channel_State_Get simPlatform ADI_RX ADI_CHANNEL_1 0 d1 =
        some (ADI_COMMON_ACT_NO_ACTION, ADI_ADRV9001_CHANNEL_CALIBRATED, tr2, d2) :=
  ⟨⟨rfl, rfl, rfl, rfl, rfl⟩,
    C4_to_state_then_state_get_returns_target sim_ideal 2 ADI_RX ADI_CHANNEL_1
      ADI_ADRV9001_CHANNEL_CALIBRATED 0 (simDev 3 1 1 1) ⟨rfl, rfl, rfl, rfl, rfl⟩ (by decide)
      (by decide) (Or.inr (Or.inr rfl)) (Or.inl rfl)⟩

/-- Claim C7: under the ideal device model (every step succeeds), for every
RX/TX channel in state s among CALIBRATED, PRIMED and RF_ENABLED and every
target t among these, `adi_adrv9001_Radio_Channel_ToState` succeeds and the
primitive transitions it performs on that channel (RADIO-ON and RADIO-OFF
commands whose mask holds the channel, writes of its enable field) are exactly
the adjacent transitions from s to t: prime then enable going up, disable then
un-prime going down.  There are |t - s| of them and they take the channel
through the states from s to t one adjacent state at a time. -/
theorem C7_to_state_performs_adjacent_transitions {σ : Type} {hal : Platform σ}
    {good : σ → Prop} {st : σ → adi_common_Port_e → adi_common_ChannelNumber_e → Nat}
    (I : IdealDevice hal good st) (fuel : Nat) (port : adi_common_Port_e)
    (channel : adi_common_ChannelNumber_e) (target : Nat) (d : σ)
    (hgood : good d) (hport : port ≠ ADI_ORX) (hfuel : 2 ≤ fuel)
    (hs : st d port channel = ADI_ADRV9001_CHANNEL_CALIBRATED ∨
      st d port channel = ADI_ADRV9001_CHANNEL_PRIMED ∨
      st d port channel = ADI_ADRV9001_CHANNEL_RF_ENABLED)
    (ht : target = ADI_ADRV9001_CHANNEL_CALIBRATED ∨ target = ADI_ADRV9001_CHANNEL_PRIMED ∨
      target = ADI_ADRV9001_CHANNEL_RF_ENABLED) :
    ∃ tr d1, adi_adrv9001_Radio_Channel_ToState hal fuel port channel target d =
        some (ADI_COMMON_ACT_NO_ACTION, tr, d1) ∧
      tr.filter (Event.isTransitionOf port channel) =
        transitionPlan port channel (st d port channel) target ∧
      (tr.filter (Event.isTransitionOf port channel)).length =
        stateDistance (st d port channel) target ∧
      statesAlong (st d port channel) (tr.filter (Event.isTransitionOf port channel)) =
        adjacentPath (st d port channel) target := by
  obtain ⟨tr, d1, h1, _, _, h4⟩ := ideal_ToState I fuel port channel target d hgood hport
    hfuel hs ht
  refine ⟨tr, d1, h1, h4, ?_, ?_⟩
  · rw [h4]
    rcases hs with hs | hs | hs <;> rcases ht with rfl | rfl | rfl <;> rw [hs] <;> rfl
  · rw [h4]
    rcases hs with hs | hs | hs <;> rcases ht with rfl | rfl | rfl <;> rw [hs] <;> rfl

/-- Witness of claim C7: TX2 of the simulated device taken from CALIBRATED to
RF_ENABLED. -/
theorem C7_to_state_performs_adjacent_transitions_witness :
    simGood (simDev 1 1 1 1) ∧
    ∃ tr d1, adi_adrv9001_Radio_Channel_ToState simPlatform 2 ADI_TX ADI_CHANNEL_2
        ADI_ADRV9001_CHANNEL_RF_ENABLED (simDev 1 1 1 1) =
        some (ADI_COMMON_ACT_NO_ACTION, tr, d1) ∧
      tr.filter (Event.isTransitionOf ADI_TX ADI_CHANNEL_2) =
        transitionPlan ADI_TX ADI_CHANNEL_2 (simState (simDev 1 1 1 1) ADI_TX ADI_CHANNEL_2)
          ADI_ADRV9001_CHANNEL_RF_ENABLED ∧
      (tr.filter (Event.isTransitionOf ADI_TX ADI_CHANNEL_2)).length =
        stateDistance (simState (simDev 1 1 1 1) ADI_TX ADI_CHANNEL_2)
          ADI_ADRV9001_CHANNEL_RF_ENABLED ∧
      statesAlong (simState (simDev 1 1 1 1) ADI_TX ADI_CHANNEL_2)
          (tr.filter (Event.isTransitionOf ADI_TX ADI_CHANNEL_2)) =
        adjacentPath (simState (simDev 1 1 1 1) ADI_TX ADI_CHANNEL_2)
          ADI_ADRV9001_CHANNEL_RF_ENABLED :=
  ⟨⟨rfl, rfl, rfl, rfl, rfl⟩,
    C7_to_state_performs_adjacent_transitions sim_ideal 2 ADI_TX ADI_CHANNEL_2
      ADI_ADRV9001_CHANNEL_RF_ENABLED (simDev 1 1 1 1) ⟨rfl, rfl, rfl, rfl, rfl⟩ (by decide)
      (by decide) (Or.inl rfl) (Or.inr (Or.inr rfl))⟩

/-- Claim C11: for every carrier whose other fields are valid and every channel
that the state query shows in STANDBY or CALIBRATED,
`adi_adrv9001_Radio_Carrier_Configure_Validate` accepts a carrier frequency if
and only if it lies in [30,000,000, 6,000,000,000]; the comparison is made on
the full value, without truncation.  Exactly 30,000,000 and 6,000,000,000 are
accepted; 29,999,999 and 6,000,000,001 are rejected with a parameter error
before any device access. -/
theorem C11_carrier_frequency_accepted_iff_in_range {σ : Type} (hal : Platform σ)
    (port : adi_common_Port_e) (channel : adi_common_ChannelNumber_e)
    (carrier : adi_adrv9001_Carrier_t) (d : σ) (state : Nat) (tr1 : List Event) (d1 : σ)
    (hport : hal.adi_adrv9001_Port_Validate port = ADI_COMMON_ACT_NO_ACTION)
    (hchan : hal.adi_adrv9001_Channel_Validate channel = ADI_COMMON_ACT_NO_ACTION)
    (hcal : hal.ADI_ADRV9001_PLL_CALIBRATION_NORMAL ≤ carrier.pllCalibration ∧
      carrier.pllCalibration ≤ hal.ADI_ADRV9001_PLL_CALIBRATION_RESERVED)
    (hlo : hal.ADI_ADRV9001_LO_GEN_OPTIMIZATION_PHASE_NOISE ≤ carrier.loGenOptimization ∧
      carrier.loGenOptimization ≤ hal.ADI_ADRV9001_LO_GEN_OPTIMIZATION_POWER_CONSUMPTION)
    (hpow : hal.ADI_ADRV9001_PLL_POWER_LOW ≤ carrier.pllPower ∧
      carrier.pllPower ≤ hal.ADI_ADRV9001_PLL_POWER_HIGH)
    (hif : carrier.intermediateFrequency_Hz = 0 ∨
      (200000 ≤ carrier.intermediateFrequency_Hz ∧ carrier.intermediateFrequency_Hz ≤ 20000000))
    (hstate : adi_adrv9001_Radio_Channel_State_Get hal port channel ADI_ADRV9001_CHANNEL_STANDBY d =
      some (ADI_COMMON_ACT_NO_ACTION, state, tr1, d1))
    (hs : state = ADI_ADRV9001_CHANNEL_STANDBY ∨ state = ADI_ADRV9001_CHANNEL_CALIBRATED) :
    (∀ f : Nat, ∃ a tr d2,
      adi_adrv9001_Radio_Carrier_Configure_Validate hal port channel
        { carrier with carrierFrequency_Hz := f } d = some (a, tr, d2) ∧
      (a = ADI_COMMON_ACT_NO_ACTION ↔ 30000000 ≤ f ∧ f ≤ 6000000000)) ∧
    adi_adrv9001_Radio_Carrier_Configure_Validate hal port channel
      { carrier with carrierFrequency_Hz := 30000000 } d =
        some (ADI_COMMON_ACT_NO_ACTION, tr1, d1) ∧
    adi_adrv9001_Radio_Carrier_Configure_Validate hal port channel
      { carrier with carrierFrequency_Hz := 6000000000 } d =
        some (ADI_COMMON_ACT_NO_ACTION, tr1, d1) ∧
    adi_adrv9001_Radio_Carrier_Configure_Validate hal port channel
      { carrier with carrierFrequency_Hz := 29999999 } d =
        some (ADI_COMMON_ACT_ERR_CHECK_PARAM, [], d) ∧
    adi_adrv9001_Radio_Carrier_Configure_Validate hal port channel
      { carrier with carrierFrequency_Hz := 6000000001 } d =
        some (ADI_COMMON_ACT_ERR_CHECK_PARAM, [], d) := by
  have key : ∀ f : Nat, adi_adrv9001_Radio_Carrier_Configure_Validate hal port channel
      { carrier with carrierFrequency_Hz := f } d =
      if f < 30000000 ∨ f > 6000000000 then some (ADI_COMMON_ACT_ERR_CHECK_PARAM, [], d)
      else some (ADI_COMMON_ACT_NO_ACTION, tr1, d1) := by
    intro f
    rw [Carrier_Configure_Validate_eq hal port channel { carrier with carrierFrequency_Hz := f }
      d state tr1 d1 hport hchan hcal hlo hpow hstate]
    have hif2 : ¬ (carrier.intermediateFrequency_Hz ≠ 0 ∧
        (carrier.intermediateFrequency_Hz < 200000 ∨
          carrier.intermediateFrequency_Hz > 20000000)) := by omega
    simp only [if_neg hif2, if_pos hs]
  refine ⟨fun f => ?_, ?_, ?_, ?_, ?_⟩
  · by_cases hf : f < 30000000 ∨ f > 6000000000
    · refine ⟨_, _, _, (key f).trans (if_pos hf), ?_⟩
      constructor
      · intro h
        cases h
      · intro h
        omega
    · refine ⟨_, _, _, (key f).trans (if_neg hf), ?_⟩
      constructor
      · intro _
        omega
      · intro _
        rfl
  · exact (key 30000000).trans (if_neg (by omega))
  · exact (key 6000000000).trans (if_neg (by omega))
  · exact (key 29999999).trans (if_pos (by omega))
  · exact (key 6000000001).trans (if_pos (by omega))

/-- Witness of claim C11: RX1 of the simulated device in CALIBRATED, with a
carrier whose other fields are valid; 30,000,000 Hz is accepted and 29,999,999
Hz is rejected. -/
theorem C11_carrier_frequency_accepted_iff_in_range_witness :
    adi_adrv9001_Radio_Carrier_Configure_Validate simPlatform ADI_RX ADI_CHANNEL_1
        { pllCalibration := 0, loGenOptimization := 1, pllPower := 0,
          carrierFrequency_Hz := 30000000, intermediateFrequency_Hz := 0 } (simDev 1 1 1 1) =
      some (ADI_COMMON_ACT_NO_ACTION,
        [Event.spiReadByte RegAddr.ADRV9001_ADDR_ARM_CMD_STATUS_9 ADI_COMMON_ACT_NO_ACTION],
        simDev 1 1 1 1) ∧
    adi_adrv9001_Radio_Carrier_Configure_Validate simPlatform ADI_RX ADI_CHANNEL_1
        { pllCalibration := 0, loGenOptimization := 1, pllPower := 0,
          carrierFrequency_Hz := 29999999, intermediateFrequency_Hz := 0 } (simDev 1 1 1 1) =
      some (ADI_COMMON_ACT_ERR_CHECK_PARAM, [], simDev 1 1 1 1) :=
  ⟨(C11_carrier_frequency_accepted_iff_in_range simPlatform ADI_RX ADI_CHANNEL_1
      { pllCalibration := 0, loGenOptimization := 1, pllPower := 0,
        carrierFrequency_Hz := 900000000, intermediateFrequency_Hz := 0 } (simDev 1 1 1 1) 1
      [Event.spiReadByte RegAddr.ADRV9001_ADDR_ARM_CMD_STATUS_9 ADI_COMMON_ACT_NO_ACTION]
      (simDev 1 1 1 1) (by decide) (by decide) (by decide) (by decide) (by decide) (by decide)
      (by decide) (by decide)).2.1,
   (C11_carrier_frequency_accepted_iff_in_range simPlatform ADI_RX ADI_CHANNEL_1
      { pllCalibration := 0, loGenOptimization := 1, pllPower := 0,
        carrierFrequency_Hz := 900000000, intermediateFrequency_Hz := 0 } (simDev 1 1 1 1) 1
      [Event.spiReadByte RegAddr.ADRV9001_ADDR_ARM_CMD_STATUS_9 ADI_COMMON_ACT_NO_ACTION]
      (simDev 1 1 1 1) (by decide) (by decide) (by decide) (by decide) (by decide) (by decide)
      (by decide) (by decide)).2.2.2.1⟩

/-- Claim C12: for every carrier whose other fields are valid and every channel
that the state query shows in STANDBY or CALIBRATED,
`adi_adrv9001_Radio_Carrier_Configure_Validate` accepts an intermediate
frequency if and only if it is 0 or lies in [200,000, 20,000,000]; every value
in 1..199,999 and every value above 20,000,000 is rejected with a parameter
error before any device access. -/
theorem C12_intermediate_frequency_accepted_iff_zero_or_in_range {σ : Type} (hal : Platform σ)
    (port : adi_common_Port_e) (channel : adi_common_ChannelNumber_e)
    (carrier : adi_adrv9001_Carrier_t) (d : σ) (state : Nat) (tr1 : List Event) (d1 : σ)
    (hport : hal.adi_adrv9001_Port_Validate port = ADI_COMMON_ACT_NO_ACTION)
    (hchan : hal.adi_adrv9001_Channel_Validate channel = ADI_COMMON_ACT_NO_ACTION)
    (hcal : hal.ADI_ADRV9001_PLL_CALIBRATION_NORMAL ≤ carrier.pllCalibration ∧
      carrier.pllCalibration ≤ hal.ADI_ADRV9001_PLL_CALIBRATION_RESERVED)
    (hlo : hal.ADI_ADRV9001_LO_GEN_OPTIMIZATION_PHASE_NOISE ≤ carrier.loGenOptimization ∧
      carrier.loGenOptimization ≤ hal.ADI_ADRV9001_LO_GEN_OPTIMIZATION_POWER_CONSUMPTION)
    (hpow : hal.ADI_ADRV9001_PLL_POWER_LOW ≤ carrier.pllPower ∧
      carrier.pllPower ≤ hal.ADI_ADRV9001_PLL_POWER_HIGH)
    (hcf : 30000000 ≤ carrier.carrierFrequency_Hz ∧ carrier.carrierFrequency_Hz ≤ 6000000000)
    (hstate : adi_adrv9001_Radio_Channel_State_Get hal port channel ADI_ADRV9001_CHANNEL_STANDBY d =
      some (ADI_COMMON_ACT_NO_ACTION, state, tr1, d1))
    (hs : state = ADI_ADRV9001_CHANNEL_STANDBY ∨ state = ADI_ADRV9001_CHANNEL_CALIBRATED) :
    (∀ f : Nat, ∃ a tr d2,
      adi_adrv9001_Radio_Carrier_Configure_Validate hal port channel
        { carrier with intermediateFrequency_Hz := f } d = some (a, tr, d2) ∧
      (a = ADI_COMMON_ACT_NO_ACTION ↔ f = 0 ∨ (200000 ≤ f ∧ f ≤ 20000000))) ∧
    (∀ f : Nat, (1 ≤ f ∧ f ≤ 199999) ∨ 20000000 < f →
      adi_adrv9001_Radio_Carrier_Configure_Validate hal port channel
        { carrier with intermediateFrequency_Hz := f } d =
          some (ADI_COMMON_ACT_ERR_CHECK_PARAM, [], d)) := by
  have key : ∀ f : Nat, adi_adrv9001_Radio_Carrier_Configure_Validate hal port channel
      { carrier with intermediateFrequency_Hz := f } d =
      if f ≠ 0 ∧ (f < 200000 ∨ f > 20000000) then some (ADI_COMMON_ACT_ERR_CHECK_PARAM, [], d)
      else some (ADI_COMMON_ACT_NO_ACTION, tr1, d1) := by
    intro f
    rw [Carrier_Configure_Validate_eq hal port channel
      { carrier with intermediateFrequency_Hz := f } d state tr1 d1 hport hchan hcal hlo hpow
      hstate]
    have hcf2 : ¬ (carrier.carrierFrequency_Hz < 30000000 ∨
        carrier.carrierFrequency_Hz > 6000000000) := by omega
    simp only [if_neg hcf2, if_pos hs]
  refine ⟨fun f => ?_, fun f hf => ?_⟩
  · by_cases hf : f ≠ 0 ∧ (f < 200000 ∨ f > 20000000)
    · refine ⟨_, _, _, (key f).trans (if_pos hf), ?_⟩
      constructor
      · intro h
        cases h
      · intro h
        omega
    · refine ⟨_, _, _, (key f).trans (if_neg hf), ?_⟩
      constructor
      · intro _
        omega
      · intro _
        rfl
  · exact (key f).trans (if_pos (by omega))

/-- Witness of claim C12: TX2 of the simulated device in STANDBY, with a
carrier whose other fields are valid; an intermediate frequency of 199,999 Hz
is rejected, and 200,000 Hz is accepted. -/
theorem C12_intermediate_frequency_accepted_iff_zero_or_in_range_witness :
    adi_adrv9001_Radio_Carrier_Configure_Validate simPlatform ADI_TX ADI_CHANNEL_2
        { pllCalibration := 1, loGenOptimization := 2, pllPower := 2,
          carrierFrequency_Hz := 2400000000, intermediateFrequency_Hz := 199999 }
        (simDev 1 1 1 0) =
      some (ADI_COMMON_ACT_ERR_CHECK_PARAM, [], simDev 1 1 1 0) ∧
    ∃ a tr d2,
      adi_adrv9001_Radio_Carrier_Configure_Validate simPlatform ADI_TX ADI_CHANNEL_2
        { pllCalibration := 1, loGenOptimization := 2, pllPower := 2,
          carrierFrequency_Hz := 2400000000, intermediateFrequency_Hz := 200000 }
        (simDev 1 1 1 0) = some (a, tr, d2) ∧
      (a = ADI_COMMON_ACT_NO_ACTION ↔
        (200000 : Nat) = 0 ∨ (200000 ≤ (200000 : Nat) ∧ (200000 : Nat) ≤ 20000000)) :=
  ⟨(C12_intermediate_frequency_accepted_iff_zero_or_in_range simPlatform ADI_TX ADI_CHANNEL_2
      { pllCalibration := 1, loGenOptimization := 2, pllPower := 2,
        carrierFrequency_Hz := 2400000000, intermediateFrequency_Hz := 0 } (simDev 1 1 1 0) 0
      [Event.spiReadByte RegAddr.ADRV9001_ADDR_ARM_CMD_STATUS_9 ADI_COMMON_ACT_NO_ACTION]
      (simDev 1 1 1 0) (by decide) (by decide) (by decide) (by decide) (by decide) (by decide)
      (by decide) (by decide)).2 199999 (Or.inl ⟨by decide, by decide⟩),
   (C12_intermediate_frequency_accepted_iff_zero_or_in_range simPlatform ADI_TX ADI_CHANNEL_2
      { pllCalibration := 1, loGenOptimization := 2, pllPower := 2,
        carrierFrequency_Hz := 2400000000, intermediateFrequency_Hz := 0 } (simDev 1 1 1 0) 0
      [Event.spiReadByte RegAddr.ADRV9001_ADDR_ARM_CMD_STATUS_9 ADI_COMMON_ACT_NO_ACTION]
      (simDev 1 1 1 0) (by decide) (by decide) (by decide) (by decide) (by decide) (by decide)
      (by decide) (by decide)).1 200000⟩

/-- Claim C13: for every in-range carrier and every channel whose state query
succeeds, `adi_adrv9001_Radio_Carrier_Configure_Validate` accepts if and only
if the state is STANDBY or CALIBRATED; in any other state (PRIMED, RF_ENABLED)
`adi_adrv9001_Radio_Carrier_Configure` returns a parameter error and its only
device accesses are those of the state query: it neither writes the mailbox
memory nor issues a command. -/
theorem C13_carrier_configure_requires_standby_or_calibrated {σ : Type} (hal : Platform σ)
    (fuel : Nat) (port : adi_common_Port_e) (channel : adi_common_ChannelNumber_e)
    (carrier : adi_adrv9001_Carrier_t) (d : σ) (state : Nat) (tr1 : List Event) (d1 : σ)
    (hport : hal.adi_adrv9001_Port_Validate port = ADI_COMMON_ACT_NO_ACTION)
    (hchan : hal.adi_adrv9001_Channel_Validate channel = ADI_COMMON_ACT_NO_ACTION)
    (hcal : hal.ADI_ADRV9001_PLL_CALIBRATION_NORMAL ≤ carrier.pllCalibration ∧
      carrier.pllCalibration ≤ hal.ADI_ADRV9001_PLL_CALIBRATION_RESERVED)
    (hlo : hal.ADI_ADRV9001_LO_GEN_OPTIMIZATION_PHASE_NOISE ≤ carrier.loGenOptimization ∧
      carrier.loGenOptimization ≤ hal.ADI_ADRV9001_LO_GEN_OPTIMIZATION_POWER_CONSUMPTION)
    (hpow : hal.ADI_ADRV9001_PLL_POWER_LOW ≤ carrier.pllPower ∧
      carrier.pllPower ≤ hal.ADI_ADRV9001_PLL_POWER_HIGH)
    (hcf : 30000000 ≤ carrier.carrierFrequency_Hz ∧ carrier.carrierFrequency_Hz ≤ 6000000000)
    (hif : carrier.intermediateFrequency_Hz = 0 ∨
      (200000 ≤ carrier.intermediateFrequency_Hz ∧ carrier.intermediateFrequency_Hz ≤ 20000000))
    (hstate : adi_adrv9001_Radio_Channel_State_Get hal port channel ADI_ADRV9001_CHANNEL_STANDBY d =
      some (ADI_COMMON_ACT_NO_ACTION, state, tr1, d1)) :
    (∃ a, adi_adrv9001_Radio_Carrier_Configure_Validate hal port channel carrier d =
        some (a, tr1, d1) ∧
      (a = ADI_COMMON_ACT_NO_ACTION ↔
        state = ADI_ADRV9001_CHANNEL_STANDBY ∨ state = ADI_ADRV9001_CHANNEL_CALIBRATED)) ∧
    (¬ (state = ADI_ADRV9001_CHANNEL_STANDBY ∨ state = ADI_ADRV9001_CHANNEL_CALIBRATED) →
      adi_adrv9001_Radio_Carrier_Configure hal fuel port channel carrier d =
        some (ADI_COMMON_ACT_ERR_CHECK_PARAM, tr1, d1) ∧
      ∀ e ∈ tr1, e.isMailboxWrite = false ∧ e.isMailboxCommand = false) := by
  have key : adi_adrv9001_Radio_Carrier_Configure_Validate hal port channel carrier d =
      if state = ADI_ADRV9001_CHANNEL_STANDBY ∨ state = ADI_ADRV9001_CHANNEL_CALIBRATED then
        some (ADI_COMMON_ACT_NO_ACTION, tr1, d1)
      else some (ADI_COMMON_ACT_ERR_CHECK_PARAM, tr1, d1) := by
    rw [Carrier_Configure_Validate_eq hal port channel carrier d state tr1 d1 hport hchan hcal
      hlo hpow hstate]
    have hcf2 : ¬ (carrier.carrierFrequency_Hz < 30000000 ∨
        carrier.carrierFrequency_Hz > 6000000000) := by omega
    have hif2 : ¬ (carrier.intermediateFrequency_Hz ≠ 0 ∧
        (carrier.intermediateFrequency_Hz < 200000 ∨
          carrier.intermediateFrequency_Hz > 20000000)) := by omega
    simp only [if_neg hcf2, if_neg hif2]
  constructor
  · by_cases hs : state = ADI_ADRV9001_CHANNEL_STANDBY ∨ state = ADI_ADRV9001_CHANNEL_CALIBRATED
    · exact ⟨_, key.trans (if_pos hs), fun _ => hs, fun _ => rfl⟩
    · refine ⟨_, key.trans (if_neg hs), fun h => ?_, fun h => absurd h hs⟩
      cases h
  · intro hs
    refine ⟨?_, fun e he => ?_⟩
    · rw [← func_sat_eq]
      unfold adi_adrv9001_Radio_Carrier_Configure
      simp only [stmt_bind_eq, stmt_pure_eq, sat_toFunc, sat_bind, sat_ADI_EXPECT,
        func_sat_of_eq (key.trans (if_neg hs))]
      simp
    · have h := Channel_State_Get_events hal port channel _ d _ state tr1 d1 hstate e he
      exact ⟨h.2.1, h.2.2.1⟩

/-- Witness of claim C13: RX2 of the simulated device is PRIMED. -/
theorem C13_carrier_configure_requires_standby_or_calibrated_witness :
    adi_adrv9001_Radio_Carrier_Configure simPlatform 2 ADI_RX ADI_CHANNEL_2
        { pllCalibration := 0, loGenOptimization := 1, pllPower := 0,
          carrierFrequency_Hz := 900000000, intermediateFrequency_Hz := 200000 }
        (simDev 1 2 1 1) =
      some (ADI_COMMON_ACT_ERR_CHECK_PARAM,
        [Event.spiReadByte RegAddr.ADRV9001_ADDR_ARM_CMD_STATUS_9 ADI_COMMON_ACT_NO_ACTION],
        simDev 1 2 1 1) ∧
    ∀ e ∈ [Event.spiReadByte RegAddr.ADRV9001_ADDR_ARM_CMD_STATUS_9 ADI_COMMON_ACT_NO_ACTION],
      e.isMailboxWrite = false ∧ e.isMailboxCommand = false :=
  (C13_carrier_configure_requires_standby_or_calibrated simPlatform 2 ADI_RX ADI_CHANNEL_2
    { pllCalibration := 0, loGenOptimization := 1, pllPower := 0,
      carrierFrequency_Hz := 900000000, intermediateFrequency_Hz := 200000 }
    (simDev 1 2 1 1) 2
    [Event.spiReadByte RegAddr.ADRV9001_ADDR_ARM_CMD_STATUS_9 ADI_COMMON_ACT_NO_ACTION]
    (simDev 1 2 1 1) (by decide) (by decide) (by decide) (by decide) (by decide) (by decide)
    (by decide) (by decide)).2 (by decide)

/-- Claim C17: for every RX/TX channel that the state query shows in STANDBY or
CALIBRATED and whose front-end-control signal is not assigned to a pin,
`adi_adrv9001_Radio_ChannelEnablementDelays_Configure_Validate` accepts a
delays structure if and only if all five durations are at most 0x00FFFFFF and,
for TX, holdDelay <= fallToOffDelay, for RX, fallToOffDelay <= holdDelay. -/
theorem C17_delays_accepted_iff_in_range_and_ordered {σ : Type} (hal : Platform σ)
    (port : adi_common_Port_e) (channel : adi_common_ChannelNumber_e)
    (delays : adi_adrv9001_ChannelEnablementDelays_t)
    (d : σ) (d1 : σ) (state : Nat) (tr1 : List Event) (d2 : σ)
    (hp : port ≠ ADI_ORX)
    (hgpio : hal.adi_adrv9001_gpio_Inspect (frontendSignalOf port channel) d =
      (ADI_COMMON_ACT_NO_ACTION, ADI_ADRV9001_GPIO_UNASSIGNED, d1))
    (hstate : adi_adrv9001_Radio_Channel_State_Get hal port channel ADI_ADRV9001_CHANNEL_STANDBY
      d1 = some (ADI_COMMON_ACT_NO_ACTION, state, tr1, d2))
    (hs : state = ADI_ADRV9001_CHANNEL_STANDBY ∨ state = ADI_ADRV9001_CHANNEL_CALIBRATED) :
    ∃ a tr d3,
      adi_adrv9001_Radio_ChannelEnablementDelays_Configure_Validate hal port channel delays d =
        some (a, tr, d3) ∧
      (a = ADI_COMMON_ACT_NO_ACTION ↔
        (delays.riseToOnDelay ≤ 0x00FFFFFF ∧ delays.riseToAnalogOnDelay ≤ 0x00FFFFFF ∧
          delays.fallToOffDelay ≤ 0x00FFFFFF ∧ delays.guardDelay ≤ 0x00FFFFFF ∧
          delays.holdDelay ≤ 0x00FFFFFF) ∧
        (port = ADI_TX → delays.holdDelay ≤ delays.fallToOffDelay) ∧
        (port = ADI_RX → delays.fallToOffDelay ≤ delays.holdDelay)) := by
  show Func.Sat _ d (fun a _ _ => a = ADI_COMMON_ACT_NO_ACTION ↔ _)
  rw [sat_Delays_Configure_Validate_iff hal port channel delays d _ d1 state tr1 d2 hp hgpio
    hstate]
  split_ifs with c1 c2 c3 c4
  · refine ⟨fun h => (by cases h), fun h => ?_⟩
    omega
  · refine ⟨fun h => (by cases h), fun h => ?_⟩
    have := h.2.1 c2.1
    omega
  · refine ⟨fun h => (by cases h), fun h => ?_⟩
    have := h.2.2 c3.1
    omega
  · exact absurd rfl c4.1
  · refine ⟨fun _ => ⟨by omega, fun h => ?_, fun h => ?_⟩, fun _ => rfl⟩
    · have : ¬ delays.holdDelay > delays.fallToOffDelay := fun h2 => c2 ⟨h, h2⟩
      omega
    · have : ¬ delays.fallToOffDelay > delays.holdDelay := fun h2 => c3 ⟨h, h2⟩
      omega

/-- Witness of claim C17: TX1 of the simulated device in CALIBRATED, no pin
assigned. -/
theorem C17_delays_accepted_iff_in_range_and_ordered_witness :
    ∃ a tr d3,
      adi_adrv9001_Radio_ChannelEnablementDelays_Configure_Validate simPlatform ADI_TX
        ADI_CHANNEL_1
        { riseToOnDelay := 10, riseToAnalogOnDelay := 5, fallToOffDelay := 10, guardDelay := 0,
          holdDelay := 3 } (simDev 1 1 1 1) = some (a, tr, d3) ∧
      (a = ADI_COMMON_ACT_NO_ACTION ↔
        ((10 : Nat) ≤ 0x00FFFFFF ∧ (5 : Nat) ≤ 0x00FFFFFF ∧ (10 : Nat) ≤ 0x00FFFFFF ∧
          (0 : Nat) ≤ 0x00FFFFFF ∧ (3 : Nat) ≤ 0x00FFFFFF) ∧
        (ADI_TX = ADI_TX → (3 : Nat) ≤ 10) ∧ (ADI_TX = ADI_RX → (10 : Nat) ≤ 3)) :=
  C17_delays_accepted_iff_in_range_and_ordered simPlatform ADI_TX ADI_CHANNEL_1
    { riseToOnDelay := 10, riseToAnalogOnDelay := 5, fallToOffDelay := 10, guardDelay := 0,
      holdDelay := 3 } (simDev 1 1 1 1) (simDev 1 1 1 1) 1
    [Event.spiReadByte RegAddr.ADRV9001_ADDR_ARM_CMD_STATUS_9 ADI_COMMON_ACT_NO_ACTION]
    (simDev 1 1 1 1) (by decide) (by decide) (by decide) (by decide)

/-- Claim C18: in
`adi_adrv9001_Radio_ChannelEnablementDelays_Configure_Validate`, for an RX/TX
channel in STANDBY or CALIBRATED and delays that satisfy the range and
ordering checks, the pin inspection consults exactly the front-end-control
signal of the (port, channel) argument, and the structure is accepted if and
only if that signal is unassigned or riseToAnalogOnDelay <= riseToOnDelay: the
constraint is enforced exactly when the signal is assigned to a pin. -/
theorem C18_analog_delay_checked_iff_pin_assigned {σ : Type} (hal : Platform σ)
    (port : adi_common_Port_e) (channel : adi_common_ChannelNumber_e)
    (delays : adi_adrv9001_ChannelEnablementDelays_t)
    (d : σ) (pin : Nat) (d1 : σ) (state : Nat) (tr1 : List Event) (d2 : σ)
    (hp : port ≠ ADI_ORX)
    (hrange : delays.riseToOnDelay ≤ 0x00FFFFFF ∧ delays.riseToAnalogOnDelay ≤ 0x00FFFFFF ∧
      delays.fallToOffDelay ≤ 0x00FFFFFF ∧ delays.guardDelay ≤ 0x00FFFFFF ∧
      delays.holdDelay ≤ 0x00FFFFFF)
    (htx : port = ADI_TX → delays.holdDelay ≤ delays.fallToOffDelay)
    (hrx : port = ADI_RX → delays.fallToOffDelay ≤ delays.holdDelay)
    (hgpio : hal.adi_adrv9001_gpio_Inspect (frontendSignalOf port channel) d =
      (ADI_COMMON_ACT_NO_ACTION, pin, d1))
    (hstate : adi_adrv9001_Radio_Channel_State_Get hal port channel ADI_ADRV9001_CHANNEL_STANDBY
      d1 = some (ADI_COMMON_ACT_NO_ACTION, state, tr1, d2))
    (hs : state = ADI_ADRV9001_CHANNEL_STANDBY ∨ state = ADI_ADRV9001_CHANNEL_CALIBRATED) :
    ∃ a tr d3,
      adi_adrv9001_Radio_ChannelEnablementDelays_Configure_Validate hal port channel delays d =
        some (a, tr, d3) ∧
      (a = ADI_COMMON_ACT_NO_ACTION ↔
        pin = ADI_ADRV9001_GPIO_UNASSIGNED ∨
          delays.riseToAnalogOnDelay ≤ delays.riseToOnDelay) ∧
      Event.gpioInspect (frontendSignalOf port channel) ADI_COMMON_ACT_NO_ACTION ∈ tr ∧
      ∀ signal r, Event.gpioInspect signal r ∈ tr → signal = frontendSignalOf port channel := by
  have hev := Channel_State_Get_events hal port channel _ d1 _ state tr1 d2 hstate
  have hno : ∀ signal r, Event.gpioInspect signal r ∉ tr1 := by
    intro signal r hmem
    have := (hev _ hmem).1
    simp [Event.isStatusRead] at this
  show Func.Sat _ d (fun a tr _ => (a = ADI_COMMON_ACT_NO_ACTION ↔ _) ∧ _ ∈ tr ∧
    ∀ signal r, Event.gpioInspect signal r ∈ tr → signal = frontendSignalOf port channel)
  rw [sat_Delays_Configure_Validate_iff hal port channel delays d pin d1 state tr1 d2 hp hgpio
    hstate]
  split_ifs with c1 c2 c3 c4
  · omega
  · have := htx c2.1
    omega
  · have := hrx c3.1
    omega
  · refine ⟨⟨fun h => (by cases h), fun h => ?_⟩, by simp, ?_⟩
    · rcases h with h | h
      · exact absurd h c4.1
      · omega
    · intro signal r hmem
      simp only [List.mem_singleton, Event.gpioInspect.injEq] at hmem
      exact hmem.1
  · refine ⟨⟨fun _ => ?_, fun _ => rfl⟩, by simp, ?_⟩
    · by_cases hpin : pin = ADI_ADRV9001_GPIO_UNASSIGNED
      · exact Or.inl hpin
      · right
        have : ¬ delays.riseToAnalogOnDelay > delays.riseToOnDelay := fun h => c4 ⟨hpin, h⟩
        omega
    · intro signal r hmem
      simp only [List.mem_cons, Event.gpioInspect.injEq] at hmem
      rcases hmem with hmem | hmem
      · exact hmem.1
      · exact absurd hmem (hno signal r)

/-- Witness of claim C18: RX2 of the simulated device in CALIBRATED with its
front-end-control signal assigned to pin 7, and riseToAnalogOnDelay above
riseToOnDelay. -/
theorem C18_analog_delay_checked_iff_pin_assigned_witness :
    ∃ a tr d3,
      adi_adrv9001_Radio_ChannelEnablementDelays_Configure_Validate simPlatform ADI_RX
        ADI_CHANNEL_2
        { riseToOnDelay := 5, riseToAnalogOnDelay := 10, fallToOffDelay := 3, guardDelay := 0,
          holdDelay := 4 } { simDev 1 1 1 1 with frontendPin := 7 } = some (a, tr, d3) ∧
      (a = ADI_COMMON_ACT_NO_ACTION ↔
        (7 : Nat) = ADI_ADRV9001_GPIO_UNASSIGNED ∨ (10 : Nat) ≤ 5) ∧
      Event.gpioInspect (frontendSignalOf ADI_RX ADI_CHANNEL_2) ADI_COMMON_ACT_NO_ACTION ∈ tr ∧
      ∀ signal r, Event.gpioInspect signal r ∈ tr →
        signal = frontendSignalOf ADI_RX ADI_CHANNEL_2 :=
  C18_analog_delay_checked_iff_pin_assigned simPlatform ADI_RX ADI_CHANNEL_2
    { riseToOnDelay := 5, riseToAnalogOnDelay := 10, fallToOffDelay := 3, guardDelay := 0,
      holdDelay := 4 } { simDev 1 1 1 1 with frontendPin := 7 } 7
    { simDev 1 1 1 1 with frontendPin := 7 } 1
    [Event.spiReadByte RegAddr.ADRV9001_ADDR_ARM_CMD_STATUS_9 ADI_COMMON_ACT_NO_ACTION]
    { simDev 1 1 1 1 with frontendPin := 7 } (by decide) (by decide) (by decide) (by decide)
    (by decide) (by decide) (by decide)

/-- Claim C19: the two enablement-delay operations have complementary state
preconditions.  For every RX/TX channel and otherwise valid arguments,
`adi_adrv9001_Radio_ChannelEnablementDelays_Configure_Validate` accepts if and
only if the state query shows STANDBY or CALIBRATED, and
`adi_adrv9001_Radio_ChannelEnablementDelays_Inspect_Validate` accepts if and
only if it shows PRIMED or RF_ENABLED.  On a state violation
`adi_adrv9001_Radio_ChannelEnablementDelays_Configure` and
`adi_adrv9001_Radio_ChannelEnablementDelays_Inspect` return a failure without
any mailbox command, mailbox write or mailbox read, and the inspection leaves
the caller's structure as it was. -/
theorem C19_delay_operations_have_complementary_states {σ : Type} (hal : Platform σ)
    (fuel : Nat) (port : adi_common_Port_e) (channel : adi_common_ChannelNumber_e)
    (delays delays0 : adi_adrv9001_ChannelEnablementDelays_t)
    (d : σ) (pin : Nat) (d1 : σ) (s1 : Nat) (tr1 : List Event) (d2 : σ)
    (s2 : Nat) (tr2 : List Event) (d3 : σ)
    (hp : port ≠ ADI_ORX)
    (hrange : delays.riseToOnDelay ≤ 0x00FFFFFF ∧ delays.riseToAnalogOnDelay ≤ 0x00FFFFFF ∧
      delays.fallToOffDelay ≤ 0x00FFFFFF ∧ delays.guardDelay ≤ 0x00FFFFFF ∧
      delays.holdDelay ≤ 0x00FFFFFF)
    (htx : port = ADI_TX → delays.holdDelay ≤ delays.fallToOffDelay)
    (hrx : port = ADI_RX → delays.fallToOffDelay ≤ delays.holdDelay)
    (hgpio : hal.adi_adrv9001_gpio_Inspect (frontendSignalOf port channel) d =
      (ADI_COMMON_ACT_NO_ACTION, pin, d1))
    (hpin : pin = ADI_ADRV9001_GPIO_UNASSIGNED ∨
      delays.riseToAnalogOnDelay ≤ delays.riseToOnDelay)
    (hstate1 : adi_adrv9001_Radio_Channel_State_Get hal port channel ADI_ADRV9001_CHANNEL_STANDBY
      d1 = some (ADI_COMMON_ACT_NO_ACTION, s1, tr1, d2))
    (hstate2 : adi_adrv9001_Radio_Channel_State_Get hal port channel ADI_ADRV9001_CHANNEL_STANDBY
      d = some (ADI_COMMON_ACT_NO_ACTION, s2, tr2, d3)) :
    (∃ a tr d4,
      adi_adrv9001_Radio_ChannelEnablementDelays_Configure_Validate hal port channel delays d =
        some (a, tr, d4) ∧
      (a = ADI_COMMON_ACT_NO_ACTION ↔
        s1 = ADI_ADRV9001_CHANNEL_STANDBY ∨ s1 = ADI_ADRV9001_CHANNEL_CALIBRATED)) ∧
    (∃ a tr d4,
      adi_adrv9001_Radio_ChannelEnablementDelays_Inspect_Validate hal port channel d =
        some (a, tr, d4) ∧
      (a = ADI_COMMON_ACT_NO_ACTION ↔
        s2 = ADI_ADRV9001_CHANNEL_PRIMED ∨ s2 = ADI_ADRV9001_CHANNEL_RF_ENABLED)) ∧
    (¬ (s1 = ADI_ADRV9001_CHANNEL_STANDBY ∨ s1 = ADI_ADRV9001_CHANNEL_CALIBRATED) →
      ∃ a tr d4,
        adi_adrv9001_Radio_ChannelEnablementDelays_Configure hal fuel port channel delays d =
          some (a, tr, d4) ∧
        a ≠ ADI_COMMON_ACT_NO_ACTION ∧
        ∀ e ∈ tr, e.isMailboxCommand = false ∧ e.isMailboxWrite = false ∧
          e.isMailboxRead = false) ∧
    (¬ (s2 = ADI_ADRV9001_CHANNEL_PRIMED ∨ s2 = ADI_ADRV9001_CHANNEL_RF_ENABLED) →
      ∃ a tr d4,
        adi_adrv9001_Radio_ChannelEnablementDelays_Inspect hal fuel port channel delays0 d =
          some (a, delays0, tr, d4) ∧
        a ≠ ADI_COMMON_ACT_NO_ACTION ∧
        ∀ e ∈ tr, e.isMailboxCommand = false ∧ e.isMailboxWrite = false ∧
          e.isMailboxRead = false) := by
  have hev1 := Channel_State_Get_events hal port channel _ d1 _ s1 tr1 d2 hstate1
  have hev2 := Channel_State_Get_events hal port channel _ d _ s2 tr2 d3 hstate2
  have c1 : ¬ (delays.riseToOnDelay > 0x00FFFFFF ∨ delays.riseToAnalogOnDelay > 0x00FFFFFF ∨
      delays.fallToOffDelay > 0x00FFFFFF ∨ delays.guardDelay > 0x00FFFFFF ∨
      delays.holdDelay > 0x00FFFFFF) := by omega
  have c2 : ¬ (port = ADI_TX ∧ delays.holdDelay > delays.fallToOffDelay) := by
    rintro ⟨h, h2⟩
    have := htx h
    omega
  have c3 : ¬ (port = ADI_RX ∧ delays.fallToOffDelay > delays.holdDelay) := by
    rintro ⟨h, h2⟩
    have := hrx h
    omega
  have c4 : ¬ (pin ≠ ADI_ADRV9001_GPIO_UNASSIGNED ∧
      delays.riseToAnalogOnDelay > delays.riseToOnDelay) := by
    rintro ⟨h, h2⟩
    rcases hpin with h3 | h3
    · exact h h3
    · omega
  have hcfg : ∀ Q : Action → List Event → σ → Prop,
      Func.Sat (adi_adrv9001_Radio_ChannelEnablementDelays_Configure_Validate hal port channel
        delays) d Q ↔
      if s1 = ADI_ADRV9001_CHANNEL_STANDBY ∨ s1 = ADI_ADRV9001_CHANNEL_CALIBRATED then
        Q ADI_COMMON_ACT_NO_ACTION
          (Event.gpioInspect (frontendSignalOf port channel) ADI_COMMON_ACT_NO_ACTION :: tr1) d2
      else
        Q ADI_COMMON_ACT_ERR_CHECK_PARAM
          (Event.gpioInspect (frontendSignalOf port channel) ADI_COMMON_ACT_NO_ACTION :: tr1)
          d2 := by
    intro Q
    rw [sat_Delays_Configure_Validate_iff hal port channel delays d pin d1 s1 tr1 d2 hp hgpio
      hstate1, if_neg c1, if_neg c2, if_neg c3, if_neg c4]
  refine ⟨?_, ?_, fun hs => ?_, fun hs => ?_⟩
  · show Func.Sat _ d (fun a _ _ => a = ADI_COMMON_ACT_NO_ACTION ↔ _)
    rw [hcfg]
    split_ifs with hs
    · exact ⟨fun _ => hs, fun _ => rfl⟩
    · exact ⟨fun h => (by cases h), fun h => absurd h hs⟩
  · show Func.Sat _ d (fun a _ _ => a = ADI_COMMON_ACT_NO_ACTION ↔ _)
    rw [sat_Delays_Inspect_Validate_iff hal port channel d s2 tr2 d3 hp hstate2]
    split_ifs with hs
    · exact ⟨fun _ => hs, fun _ => rfl⟩
    · exact ⟨fun h => (by cases h), fun h => absurd h hs⟩
  · show Func.Sat _ d (fun a tr _ => a ≠ ADI_COMMON_ACT_NO_ACTION ∧
      ∀ e ∈ tr, e.isMailboxCommand = false ∧ e.isMailboxWrite = false ∧
        e.isMailboxRead = false)
    unfold adi_adrv9001_Radio_ChannelEnablementDelays_Configure
    simp only [stmt_bind_eq, stmt_pure_eq, sat_toFunc, sat_bind, sat_ADI_EXPECT, hcfg, if_neg hs,
      reduceCtorEq, if_false]
    refine ⟨by decide, fun e he => ?_⟩
    simp only [List.mem_cons] at he
    rcases he with rfl | he
    · exact ⟨rfl, rfl, rfl⟩
    · exact ⟨(hev1 e he).2.2.1, (hev1 e he).2.1, (hev1 e he).2.2.2.1⟩
  · have h : FuncOut.Sat
        (adi_adrv9001_Radio_ChannelEnablementDelays_Inspect hal fuel port channel delays0) d
        (fun a out tr _ => out = delays0 ∧ a ≠ ADI_COMMON_ACT_NO_ACTION ∧
          ∀ e ∈ tr, e.isMailboxCommand = false ∧ e.isMailboxWrite = false ∧
            e.isMailboxRead = false) := by
      unfold adi_adrv9001_Radio_ChannelEnablementDelays_Inspect
      simp only [stmt_bind_eq, stmt_pure_eq, sat_toFuncOut, sat_bind, sat_ADI_EXPECT,
        sat_Delays_Inspect_Validate_iff hal port channel d s2 tr2 d3 hp hstate2, if_neg hs,
        reduceCtorEq, if_false]
      exact ⟨trivial, by decide, fun e he =>
        ⟨(hev2 e he).2.2.1, (hev2 e he).2.1, (hev2 e he).2.2.2.1⟩⟩
    obtain ⟨a, out, tr, d4, h1, rfl, h2, h3⟩ := h
    exact ⟨a, tr, d4, h1, h2, h3⟩

/-- Witness of claim C19: TX2 of the simulated device is PRIMED, so the
configuration is refused and the inspection is admitted. -/
theorem C19_delay_operations_have_complementary_states_witness :
    (∃ a tr d4,
      adi_adrv9001_Radio_ChannelEnablementDelays_Configure_Validate simPlatform ADI_TX
        ADI_CHANNEL_2
        { riseToOnDelay := 10, riseToAnalogOnDelay := 5, fallToOffDelay := 10, guardDelay := 0,
          holdDelay := 3 } (simDev 1 1 1 2) = some (a, tr, d4) ∧
      (a = ADI_COMMON_ACT_NO_ACTION ↔
        (2 : Nat) = ADI_ADRV9001_CHANNEL_STANDBY ∨ (2 : Nat) = ADI_ADRV9001_CHANNEL_CALIBRATED)) ∧
    (∃ a tr d4,
      adi_adrv9001_Radio_ChannelEnablementDelays_Inspect_Validate simPlatform ADI_TX
        ADI_CHANNEL_2 (simDev 1 1 1 2) = some (a, tr, d4) ∧
      (a = ADI_COMMON_ACT_NO_ACTION ↔
        (2 : Nat) = ADI_ADRV9001_CHANNEL_PRIMED ∨ (2 : Nat) = ADI_ADRV9001_CHANNEL_RF_ENABLED)) :=
  ⟨(C19_delay_operations_have_complementary_states simPlatform 2 ADI_TX ADI_CHANNEL_2
      { riseToOnDelay := 10, riseToAnalogOnDelay := 5, fallToOffDelay := 10, guardDelay := 0,
        holdDelay := 3 }
      { riseToOnDelay := 0, riseToAnalogOnDelay := 0, fallToOffDelay := 0, guardDelay := 0,
        holdDelay := 0 }
      (simDev 1 1 1 2) 0 (simDev 1 1 1 2) 2
      [Event.spiReadByte RegAddr.ADRV9001_ADDR_ARM_CMD_STATUS_9 ADI_COMMON_ACT_NO_ACTION]
      (simDev 1 1 1 2) 2
      [Event.spiReadByte RegAddr.ADRV9001_ADDR_ARM_CMD_STATUS_9 ADI_COMMON_ACT_NO_ACTION]
      (simDev 1 1 1 2) (by decide) (by decide) (by decide) (by decide) (by decide) (by decide)
      (by decide) (by decide)).1,
   (C19_delay_operations_have_complementary_states simPlatform 2 ADI_TX ADI_CHANNEL_2
      { riseToOnDelay := 10, riseToAnalogOnDelay := 5, fallToOffDelay := 10, guardDelay := 0,
        holdDelay := 3 }
      { riseToOnDelay := 0, riseToAnalogOnDelay := 0, fallToOffDelay := 0, guardDelay := 0,
        holdDelay := 0 }
      (simDev 1 1 1 2) 0 (simDev 1 1 1 2) 2
      [Event.spiReadByte RegAddr.ADRV9001_ADDR_ARM_CMD_STATUS_9 ADI_COMMON_ACT_NO_ACTION]
      (simDev 1 1 1 2) 2
      [Event.spiReadByte RegAddr.ADRV9001_ADDR_ARM_CMD_STATUS_9 ADI_COMMON_ACT_NO_ACTION]
      (simDev 1 1 1 2) (by decide) (by decide) (by decide) (by decide) (by decide) (by decide)
      (by decide) (by decide)).2.1⟩

/-- Claim C14: the payload `adi_adrv9001_Radio_Carrier_Configure` writes to the
mailbox.  The serialisation ends with the cursor at 16 and fills an array of
exactly 16 bytes; for enumeration values that fit a byte it is the layout of
the specification (bytes 0..7 carrierFrequency_Hz little-endian, byte 8
pllCalibration, byte 9 zero, byte 10 loGenOptimization, byte 11 pllPower,
bytes 12..15 intermediateFrequency_Hz little-endian).  On a platform whose
enumeration maxima fit a byte, the call returns and every mailbox write it
makes goes to the SET region and carries exactly these 16 bytes. -/
theorem C14_carrier_payload_layout {σ : Type} (hal : Platform σ) (fuel : Nat)
    (port : adi_common_Port_e) (channel : adi_common_ChannelNumber_e)
    (carrier : adi_adrv9001_Carrier_t) (d : σ) (hfuel : 2 ≤ fuel)
    (h8 : hal.ADI_ADRV9001_PLL_CALIBRATION_RESERVED < 256 ∧
      hal.ADI_ADRV9001_LO_GEN_OPTIMIZATION_POWER_CONSUMPTION < 256 ∧
      hal.ADI_ADRV9001_PLL_POWER_HIGH < 256) :
    (carrierPayload carrier).1 = 16 ∧ (carrierPayload carrier).2.length = 16 ∧
    (carrier.pllCalibration < 256 → carrier.loGenOptimization < 256 → carrier.pllPower < 256 →
      (carrierPayload carrier).2 = carrierLayout carrier) ∧
    ∃ a tr d2, adi_adrv9001_Radio_Carrier_Configure hal fuel port channel carrier d =
        some (a, tr, d2) ∧
      ∀ addr data r, Event.memoryWrite addr data r ∈ tr →
        addr = ArmAddr.ADRV9001_ADDR_ARM_MAILBOX_SET ∧ data = carrierLayout carrier ∧
        data.length = 16 := by
  refine ⟨by rw [carrierPayload_eq], ?_, ?_, ?_⟩
  · rw [carrierPayload_eq]
    simp [littleEndianBytes_length]
  · intro hcal hlo hpow
    rw [carrierPayload_eq_layout carrier hcal hlo hpow]
  · obtain ⟨a, tr, d2, h1, h2⟩ := sat_Carrier_Configure_writes hal fuel port channel carrier d
      hfuel h8
    refine ⟨a, tr, d2, h1, fun addr data r hmem => ?_⟩
    obtain ⟨g1, g2⟩ := h2 addr data r hmem
    exact ⟨g1, g2, by rw [g2, carrierLayout_length]⟩

/-- Witness of claim C14: a 900 MHz carrier with a 200 kHz intermediate
frequency on RX1 of the simulated device. -/
theorem C14_carrier_payload_layout_witness :
    (carrierPayload
        { pllCalibration := 0, loGenOptimization := 1, pllPower := 0,
          carrierFrequency_Hz := 900000000, intermediateFrequency_Hz := 200000 }).2 =
      [0x00, 0xE9, 0xA4, 0x35, 0, 0, 0, 0, 0, 0, 1, 0, 0x40, 0x0D, 0x03, 0x00] ∧
    ∃ a tr d2, adi_adrv9001_Radio_Carrier_Configure simPlatform 2 ADI_RX ADI_CHANNEL_1
        { pllCalibration := 0, loGenOptimization := 1, pllPower := 0,
          carrierFrequency_Hz := 900000000, intermediateFrequency_Hz := 200000 }
        (simDev 1 1 1 1) = some (a, tr, d2) ∧
      ∀ addr data r, Event.memoryWrite addr data r ∈ tr →
        addr = ArmAddr.ADRV9001_ADDR_ARM_MAILBOX_SET ∧
        data = carrierLayout
          { pllCalibration := 0, loGenOptimization := 1, pllPower := 0,
            carrierFrequency_Hz := 900000000, intermediateFrequency_Hz := 200000 } ∧
        data.length = 16 :=
  ⟨by decide,
   (C14_carrier_payload_layout simPlatform 2 ADI_RX ADI_CHANNEL_1
      { pllCalibration := 0, loGenOptimization := 1, pllPower := 0,
        carrierFrequency_Hz := 900000000, intermediateFrequency_Hz := 200000 }
      (simDev 1 1 1 1) (by decide) (by decide)).2.2.2⟩

/-- Claim C15 (as amended): for every port, every channel and every carrier
accepted by `adi_adrv9001_Radio_Carrier_Configure_Validate` (on a platform
whose enumeration maxima fit a byte), when the mailbox read of
`adi_adrv9001_Radio_Carrier_Inspect` delivers the 16 bytes that
`adi_adrv9001_Radio_Carrier_Configure` serialises, the inspection returns, and
on success the inspected carrier equals the configured one in carrier
frequency, calibration mode, LO optimisation and PLL power; its intermediate
frequency is the configured one for RX and 0 for any other port.  So it equals
the configured carrier in every field when the port is RX or the configured
intermediate frequency is 0. -/
theorem C15_carrier_round_trip {σ : Type} (hal : Platform σ) (fuel : Nat)
    (port : adi_common_Port_e) (channel : adi_common_ChannelNumber_e)
    (carrier c0 : adi_adrv9001_Carrier_t) (dv : σ) (trv : List Event) (dv1 : σ) (d : σ)
    (hfuel : 2 ≤ fuel)
    (h8 : hal.ADI_ADRV9001_PLL_CALIBRATION_RESERVED < 256 ∧
      hal.ADI_ADRV9001_LO_GEN_OPTIMIZATION_POWER_CONSUMPTION < 256 ∧
      hal.ADI_ADRV9001_PLL_POWER_HIGH < 256)
    (hacc : adi_adrv9001_Radio_Carrier_Configure_Validate hal port channel carrier dv =
      some (ADI_COMMON_ACT_NO_ACTION, trv, dv1))
    (hreply : mailboxReply hal
        [batchMask [(port, channel)], hal.ADRV9001_ARM_OBJECTID_CHANNEL_CARRIER_FREQUENCY]
        hal.ADI_ADRV9001_GETCARRIER_FREQUENCY_TIMEOUT_US
        hal.ADI_ADRV9001_GETCARRIER_FREQUENCY_INTERVAL_US 16 d = (carrierPayload carrier).2) :
    ∃ a out tr d1, adi_adrv9001_Radio_Carrier_Inspect hal fuel port channel c0 d =
        some (a, out, tr, d1) ∧
      (a = ADI_COMMON_ACT_NO_ACTION →
        out = { carrier with
          intermediateFrequency_Hz :=
            if port = ADI_RX then carrier.intermediateFrequency_Hz else 0 } ∧
        (port = ADI_RX ∨ carrier.intermediateFrequency_Hz = 0 → out = carrier)) := by
  obtain ⟨_, _, g1, g2, g3, _, g5, g6⟩ :=
    ((func_sat_of_eq hacc _).mp
      (sat_Carrier_Configure_Validate_accepted hal port channel carrier dv)).2 rfl
  obtain ⟨a, out, tr, d1, h1, h2⟩ := sat_Carrier_Inspect_result hal fuel port channel c0 d hfuel
  refine ⟨a, out, tr, d1, h1, fun ha => ?_⟩
  have hout := h2 ha
  rw [hreply, carrierParse_payload port carrier c0 (by omega) (by omega) (by omega) (by omega)
    (by omega)] at hout
  refine ⟨hout, fun hp => ?_⟩
  rw [hout]
  rcases hp with hp | hp
  · rw [if_pos hp]
  · by_cases hrx : port = ADI_RX
    · rw [if_pos hrx]
    · rw [if_neg hrx, ← hp]

/-- Witness of claim C15: RX1 of the simulated device, whose GET mailbox holds
the payload of a 900 MHz carrier with a 200 kHz intermediate frequency. -/
theorem C15_carrier_round_trip_witness :
    ∃ a out tr d1, adi_adrv9001_Radio_Carrier_Inspect simPlatform 2 ADI_RX ADI_CHANNEL_1
        { pllCalibration := 0, loGenOptimization := 0, pllPower := 0,
          carrierFrequency_Hz := 0, intermediateFrequency_Hz := 0 }
        { simDev 1 1 1 1 with
          mailboxGet := [0x00, 0xE9, 0xA4, 0x35, 0, 0, 0, 0, 0, 0, 1, 0, 0x40, 0x0D, 0x03, 0x00] } =
        some (a, out, tr, d1) ∧
      (a = ADI_COMMON_ACT_NO_ACTION →
        out =
          { pllCalibration := 0, loGenOptimization := 1, pllPower := 0,
            carrierFrequency_Hz := 900000000,
            intermediateFrequency_Hz := if ADI_RX = ADI_RX then 200000 else 0 } ∧
        (ADI_RX = ADI_RX ∨ (200000 : Nat) = 0 →
          out =
            { pllCalibration := 0, loGenOptimization := 1, pllPower := 0,
              carrierFrequency_Hz := 900000000, intermediateFrequency_Hz := 200000 })) :=
  C15_carrier_round_trip simPlatform 2 ADI_RX ADI_CHANNEL_1
    { pllCalibration := 0, loGenOptimization := 1, pllPower := 0,
      carrierFrequency_Hz := 900000000, intermediateFrequency_Hz := 200000 }
    { pllCalibration := 0, loGenOptimization := 0, pllPower := 0,
      carrierFrequency_Hz := 0, intermediateFrequency_Hz := 0 }
    (simDev 1 1 1 1)
    [Event.spiReadByte RegAddr.ADRV9001_ADDR_ARM_CMD_STATUS_9 ADI_COMMON_ACT_NO_ACTION]
    (simDev 1 1 1 1)
    { simDev 1 1 1 1 with
      mailboxGet := [0x00, 0xE9, 0xA4, 0x35, 0, 0, 0, 0, 0, 0, 1, 0, 0x40, 0x0D, 0x03, 0x00] }
    (by decide) (by decide) (by decide) (by decide)

/-- Counterexample to claim C15 as stated: on TX1 of the simulated device a
carrier with a 200 kHz intermediate frequency is accepted and configured, the
device returns the bytes written, and the inspection yields an intermediate
frequency of 0. -/
theorem C15_counterexample_tx_intermediate_frequency_is_dropped :
    (adi_adrv9001_Radio_Carrier_Configure simPlatform 2 ADI_TX ADI_CHANNEL_1
        { pllCalibration := 0, loGenOptimization := 1, pllPower := 0,
          carrierFrequency_Hz := 900000000, intermediateFrequency_Hz := 200000 }
        (simDev 1 1 1 1)).bind
      (fun r =>
        (adi_adrv9001_Radio_Carrier_Inspect simPlatform 2 ADI_TX ADI_CHANNEL_1
          { pllCalibration := 0, loGenOptimization := 0, pllPower := 0,
            carrierFrequency_Hz := 0, intermediateFrequency_Hz := 0 } r.2.2).map
          (fun q => (r.1, r.2.2.mailboxGet, q.1, q.2.1))) =
      some (ADI_COMMON_ACT_NO_ACTION,
        [0x00, 0xE9, 0xA4, 0x35, 0, 0, 0, 0, 0, 0, 1, 0, 0x40, 0x0D, 0x03, 0x00],
        ADI_COMMON_ACT_NO_ACTION,
        { pllCalibration := 0, loGenOptimization := 1, pllPower := 0,
          carrierFrequency_Hz := 900000000, intermediateFrequency_Hz := 0 }) := by
  decide

/-- Claim C16: the intermediate frequency is an RX-only field of the inspected
carrier.  `adi_adrv9001_Radio_Carrier_Inspect` returns, and on success the
intermediate frequency it stores is, for RX, the little-endian value of bytes
12..15 of the 16 bytes read from the mailbox and, for every other port, 0
whatever the mailbox holds. -/
theorem C16_intermediate_frequency_is_rx_only {σ : Type} (hal : Platform σ) (fuel : Nat)
    (port : adi_common_Port_e) (channel : adi_common_ChannelNumber_e)
    (c0 : adi_adrv9001_Carrier_t) (d : σ) (hfuel : 2 ≤ fuel) :
    ∃ a out tr d1, adi_adrv9001_Radio_Carrier_Inspect hal fuel port channel c0 d =
        some (a, out, tr, d1) ∧
      (a = ADI_COMMON_ACT_NO_ACTION →
        out.intermediateFrequency_Hz =
          if port = ADI_RX then
            littleEndianValue ((readInto 16 (mailboxReply hal
              [batchMask [(port, channel)], hal.ADRV9001_ARM_OBJECTID_CHANNEL_CARRIER_FREQUENCY]
              hal.ADI_ADRV9001_GETCARRIER_FREQUENCY_TIMEOUT_US
              hal.ADI_ADRV9001_GETCARRIER_FREQUENCY_INTERVAL_US 16 d)).drop 12)
          else 0) := by
  obtain ⟨a, out, tr, d1, h1, h2⟩ := sat_Carrier_Inspect_result hal fuel port channel c0 d hfuel
  refine ⟨a, out, tr, d1, h1, fun ha => ?_⟩
  rw [h2 ha, carrierParse_intermediateFrequency]

/-- Witness of claim C16: inspecting TX2 of the simulated device, whose GET
mailbox holds non-zero bytes 12..15, gives an intermediate frequency of 0. -/
theorem C16_intermediate_frequency_is_rx_only_witness :
    (adi_adrv9001_Radio_Carrier_Inspect simPlatform 2 ADI_TX ADI_CHANNEL_2
        { pllCalibration := 0, loGenOptimization := 0, pllPower := 0,
          carrierFrequency_Hz := 0, intermediateFrequency_Hz := 7 }
        { simDev 1 1 1 1 with
          mailboxGet := [0x00, 0xE9, 0xA4, 0x35, 0, 0, 0, 0, 0, 0, 1, 0, 0x40, 0x0D, 0x03, 0x00] }).map
        (fun r => (r.1, r.2.1.intermediateFrequency_Hz)) =
      some (ADI_COMMON_ACT_NO_ACTION, 0) ∧
    ∃ a out tr d1, adi_adrv9001_Radio_Carrier_Inspect simPlatform 2 ADI_RX ADI_CHANNEL_2
        { pllCalibration := 0, loGenOptimization := 0, pllPower := 0,
          carrierFrequency_Hz := 0, intermediateFrequency_Hz := 7 }
        { simDev 1 1 1 1 with
          mailboxGet := [0x00, 0xE9, 0xA4, 0x35, 0, 0, 0, 0, 0, 0, 1, 0, 0x40, 0x0D, 0x03, 0x00] } =
        some (a, out, tr, d1) ∧
      (a = ADI_COMMON_ACT_NO_ACTION →
        out.intermediateFrequency_Hz =
          if ADI_RX = ADI_RX then
            littleEndianValue ((readInto 16 (mailboxReply simPlatform
              [batchMask [(ADI_RX, ADI_CHANNEL_2)],
                simPlatform.ADRV9001_ARM_OBJECTID_CHANNEL_CARRIER_FREQUENCY]
              simPlatform.ADI_ADRV9001_GETCARRIER_FREQUENCY_TIMEOUT_US
              simPlatform.ADI_ADRV9001_GETCARRIER_FREQUENCY_INTERVAL_US 16
              { simDev 1 1 1 1 with
                mailboxGet :=
                  [0x00, 0xE9, 0xA4, 0x35, 0, 0, 0, 0, 0, 0, 1, 0, 0x40, 0x0D, 0x03, 0x00] })).drop
              12)
          else 0) :=
  ⟨by decide,
   C16_intermediate_frequency_is_rx_only simPlatform 2 ADI_RX ADI_CHANNEL_2
    { pllCalibration := 0, loGenOptimization := 0, pllPower := 0,
      carrierFrequency_Hz := 0, intermediateFrequency_Hz := 7 }
    { simDev 1 1 1 1 with
      mailboxGet := [0x00, 0xE9, 0xA4, 0x35, 0, 0, 0, 0, 0, 0, 1, 0, 0x40, 0x0D, 0x03, 0x00] }
    (by decide)⟩

/-- Claim C20: for every delays structure (five 32-bit fields),
`adi_adrv9001_Radio_ChannelEnablementDelays_Configure` serialises exactly 20
bytes, five consecutive little-endian 32-bit fields in the order riseToOnDelay,
riseToAnalogOnDelay, fallToOffDelay, guardDelay, holdDelay, with the cursor
ending at 20, and every mailbox write of the call carries these bytes; the
parsing of `adi_adrv9001_Radio_ChannelEnablementDelays_Inspect` applied to
these 20 bytes returns the same five values with the cursor ending at 20, so
an inspection whose mailbox read delivers them returns the configured
delays. -/
theorem C20_delays_payload_round_trip {σ : Type} (hal : Platform σ) (fuel : Nat)
    (port : adi_common_Port_e) (channel : adi_common_ChannelNumber_e)
    (delays delays0 : adi_adrv9001_ChannelEnablementDelays_t) (d : σ)
    (hfuel : 2 ≤ fuel)
    (h1 : delays.riseToOnDelay < 2 ^ 32) (h2 : delays.riseToAnalogOnDelay < 2 ^ 32)
    (h3 : delays.fallToOffDelay < 2 ^ 32) (h4 : delays.guardDelay < 2 ^ 32)
    (h5 : delays.holdDelay < 2 ^ 32) :
    delaysPayload delays = (20, delaysLayout delays) ∧
    (delaysLayout delays).length = 20 ∧
    delaysParse (readInto 20 (delaysPayload delays).2) = (20, delays) ∧
    (∃ a tr d2,
      adi_adrv9001_Radio_ChannelEnablementDelays_Configure hal fuel port channel delays d =
        some (a, tr, d2) ∧
      ∀ addr data r, Event.memoryWrite addr data r ∈ tr →
        addr = ArmAddr.ADRV9001_ADDR_ARM_MAILBOX_SET ∧ data = delaysLayout delays) ∧
    (∀ (av : Action) (trv : List Event) (dv : σ),
      adi_adrv9001_Radio_ChannelEnablementDelays_Inspect_Validate hal port channel d =
        some (av, trv, dv) →
      mailboxReply hal [batchMask [(port, channel)], hal.ADRV9001_ARM_OBJECTID_TDD_TIMING_PARAMS]
        hal.ADI_ADRV9001_DEFAULT_TIMEOUT_US hal.ADI_ADRV9001_DEFAULT_INTERVAL_US 20 dv =
          delaysLayout delays →
      ∃ a out tr d3,
        adi_adrv9001_Radio_ChannelEnablementDelays_Inspect hal fuel port channel delays0 d =
          some (a, out, tr, d3) ∧
        (a = ADI_COMMON_ACT_NO_ACTION → out = delays)) := by
  have hpay : delaysPayload delays = (20, delaysLayout delays) := delaysPayload_eq delays
  have hparse := delaysParse_payload delays h1 h2 h3 h4 h5
  refine ⟨hpay, delaysLayout_length delays, hparse, ?_, ?_⟩
  · obtain ⟨a, tr, d2, g1, g2⟩ := sat_Delays_Configure_writes hal fuel port channel delays d hfuel
    refine ⟨a, tr, d2, g1, fun addr data r hmem => ?_⟩
    obtain ⟨g3, g4⟩ := g2 addr data r hmem
    exact ⟨g3, by rw [g4, hpay]⟩
  · intro av trv dv hval hreply
    obtain ⟨a, out, tr, d3, g1, g2⟩ :=
      sat_Delays_Inspect_result hal fuel port channel delays0 d av trv dv hfuel hval
    refine ⟨a, out, tr, d3, g1, fun ha => ?_⟩
    rw [g2 ha, hreply]
    rw [hpay] at hparse
    rw [hparse]

/-- Witness of claim C20: delays configured on TX1 of the simulated device in
CALIBRATED and read back once the channel is PRIMED. -/
theorem C20_delays_payload_round_trip_witness :
    (delaysPayload
        { riseToOnDelay := 0x01020304, riseToAnalogOnDelay := 5, fallToOffDelay := 0x00FFFFFF,
          guardDelay := 0, holdDelay := 256 }).2 =
      [0x04, 0x03, 0x02, 0x01, 5, 0, 0, 0, 0xFF, 0xFF, 0xFF, 0x00, 0, 0, 0, 0, 0, 1, 0, 0] ∧
    (adi_adrv9001_Radio_ChannelEnablementDelays_Inspect simPlatform 2 ADI_TX ADI_CHANNEL_1
        { riseToOnDelay := 0, riseToAnalogOnDelay := 0, fallToOffDelay := 0, guardDelay := 0,
          holdDelay := 0 }
        { simDev 1 1 2 1 with
          mailboxGet :=
            [0x04, 0x03, 0x02, 0x01, 5, 0, 0, 0, 0xFF, 0xFF, 0xFF, 0x00, 0, 0, 0, 0, 0, 1, 0,
              0] }).map (fun r => (r.1, r.2.1)) =
      some (ADI_COMMON_ACT_NO_ACTION,
        { riseToOnDelay := 0x01020304, riseToAnalogOnDelay := 5, fallToOffDelay := 0x00FFFFFF,
          guardDelay := 0, holdDelay := 256 }) ∧
    delaysParse (readInto 20 (delaysPayload
        { riseToOnDelay := 0x01020304, riseToAnalogOnDelay := 5, fallToOffDelay := 0x00FFFFFF,
          guardDelay := 0, holdDelay := 256 }).2) =
      (20, { riseToOnDelay := 0x01020304, riseToAnalogOnDelay := 5, fallToOffDelay := 0x00FFFFFF,
             guardDelay := 0, holdDelay := 256 }) :=
  ⟨by decide, by decide,
   (C20_delays_payload_round_trip simPlatform 2 ADI_TX ADI_CHANNEL_1
      { riseToOnDelay := 0x01020304, riseToAnalogOnDelay := 5, fallToOffDelay := 0x00FFFFFF,
        guardDelay := 0, holdDelay := 256 }
      { riseToOnDelay := 0, riseToAnalogOnDelay := 0, fallToOffDelay := 0, guardDelay := 0,
        holdDelay := 0 }
      (simDev 1 1 1 1) (by decide) (by decide) (by decide) (by decide) (by decide)
      (by decide)).2.2.1⟩

/-- Claim C21: for every PLL selector in LO1..AUX,
`adi_adrv9001_Radio_PllLoopFilter_Set_Validate` accepts a configuration if and
only if 40 <= phaseMargin_degrees <= 85, 50 <= loopBandwidth_kHz <= 1500 and
powerScale <= 10, without any device access.  With the other fields valid, the
boundary values 40, 85, 50, 1500, 0 and 10 are accepted and 39, 86, 49, 1501
and 11 are rejected. -/
theorem C21_loop_filter_accepted_iff_in_range {σ : Type} (pll : adi_adrv9001_Pll_e)
    (cfg : adi_adrv9001_PllLoopFilterCfg_t) (d : σ)
    (hpll : pll.toNat ≤ ADI_ADRV9001_PLL_AUX.toNat) :
    (∃ a, adi_adrv9001_Radio_PllLoopFilter_Set_Validate pll cfg d = some (a, [], d) ∧
      (a = ADI_COMMON_ACT_NO_ACTION ↔
        (40 ≤ cfg.phaseMargin_degrees ∧ cfg.phaseMargin_degrees ≤ 85) ∧
        (50 ≤ cfg.loopBandwidth_kHz ∧ cfg.loopBandwidth_kHz ≤ 1500) ∧ cfg.powerScale ≤ 10)) ∧
    ((40 ≤ cfg.phaseMargin_degrees ∧ cfg.phaseMargin_degrees ≤ 85) ∧
      (50 ≤ cfg.loopBandwidth_kHz ∧ cfg.loopBandwidth_kHz ≤ 1500) ∧ cfg.powerScale ≤ 10 →
      (∀ v ∈ [40, 85], adi_adrv9001_Radio_PllLoopFilter_Set_Validate pll
          { cfg with phaseMargin_degrees := v } d = some (ADI_COMMON_ACT_NO_ACTION, [], d)) ∧
      (∀ v ∈ [39, 86], adi_adrv9001_Radio_PllLoopFilter_Set_Validate pll
          { cfg with phaseMargin_degrees := v } d =
            some (ADI_COMMON_ACT_ERR_CHECK_PARAM, [], d)) ∧
      (∀ v ∈ [50, 1500], adi_adrv9001_Radio_PllLoopFilter_Set_Validate pll
          { cfg with loopBandwidth_kHz := v } d = some (ADI_COMMON_ACT_NO_ACTION, [], d)) ∧
      (∀ v ∈ [49, 1501], adi_adrv9001_Radio_PllLoopFilter_Set_Validate pll
          { cfg with loopBandwidth_kHz := v } d =
            some (ADI_COMMON_ACT_ERR_CHECK_PARAM, [], d)) ∧
      (∀ v ∈ [0, 10], adi_adrv9001_Radio_PllLoopFilter_Set_Validate pll
          { cfg with powerScale := v } d = some (ADI_COMMON_ACT_NO_ACTION, [], d)) ∧
      adi_adrv9001_Radio_PllLoopFilter_Set_Validate pll { cfg with powerScale := 11 } d =
        some (ADI_COMMON_ACT_ERR_CHECK_PARAM, [], d)) := by
  constructor
  · rw [PllLoopFilter_Set_Validate_eq pll cfg d hpll]
    split_ifs with h
    · exact ⟨_, rfl, fun h2 => (by cases h2), fun h2 => (by omega)⟩
    · exact ⟨_, rfl, fun _ => (by omega), fun _ => rfl⟩
  · intro hv
    refine ⟨?_, ?_, ?_, ?_, ?_, ?_⟩
    · intro v hmem
      rw [PllLoopFilter_Set_Validate_eq pll _ d hpll]
      simp only [List.mem_cons, List.mem_singleton, List.not_mem_nil, or_false] at hmem
      rw [if_neg]
      simp only []
      omega
    · intro v hmem
      rw [PllLoopFilter_Set_Validate_eq pll _ d hpll]
      simp only [List.mem_cons, List.mem_singleton, List.not_mem_nil, or_false] at hmem
      rw [if_pos]
      simp only []
      omega
    · intro v hmem
      rw [PllLoopFilter_Set_Validate_eq pll _ d hpll]
      simp only [List.mem_cons, List.mem_singleton, List.not_mem_nil, or_false] at hmem
      rw [if_neg]
      simp only []
      omega
    · intro v hmem
      rw [PllLoopFilter_Set_Validate_eq pll _ d hpll]
      simp only [List.mem_cons, List.mem_singleton, List.not_mem_nil, or_false] at hmem
      rw [if_pos]
      simp only []
      omega
    · intro v hmem
      rw [PllLoopFilter_Set_Validate_eq pll _ d hpll]
      simp only [List.mem_cons, List.mem_singleton, List.not_mem_nil, or_false] at hmem
      rw [if_neg]
      simp only []
      omega
    · rw [PllLoopFilter_Set_Validate_eq pll _ d hpll, if_pos]
      simp only []
      omega

/-- Witness of claim C21: the selector LO2 and a configuration at the lower
bounds, on the simulated device. -/
theorem C21_loop_filter_accepted_iff_in_range_witness :
    ∃ a, adi_adrv9001_Radio_PllLoopFilter_Set_Validate ADI_ADRV9001_PLL_LO2
        { effectiveLoopBandwidth_kHz := 0, loopBandwidth_kHz := 50, phaseMargin_degrees := 40,
          powerScale := 0 } (simDev 1 1 1 1) = some (a, [], simDev 1 1 1 1) ∧
      (a = ADI_COMMON_ACT_NO_ACTION ↔
        ((40 : Nat) ≤ 40 ∧ (40 : Nat) ≤ 85) ∧ ((50 : Nat) ≤ 50 ∧ (50 : Nat) ≤ 1500) ∧
          (0 : Nat) ≤ 10) :=
  (C21_loop_filter_accepted_iff_in_range ADI_ADRV9001_PLL_LO2
    { effectiveLoopBandwidth_kHz := 0, loopBandwidth_kHz := 50, phaseMargin_degrees := 40,
      powerScale := 0 } (simDev 1 1 1 1) (by decide)).1

/-- Claim C22: for every PLL loop filter configuration whose fields fit their
widths (8-bit phase margin and power scale, 16-bit bandwidth), the payload of
`adi_adrv9001_Radio_PllLoopFilter_Set` is the 4 bytes [phaseMargin_degrees,
loopBandwidth_kHz low byte, loopBandwidth_kHz high byte, powerScale], an
accepted call writes exactly these bytes to the mailbox, and for every 16-bit
value e the deserialisation of `adi_adrv9001_Radio_PllLoopFilter_Get` applied to
these 4 bytes followed by the 2 little-endian bytes of e returns the same
phaseMargin_degrees, loopBandwidth_kHz and powerScale with
effectiveLoopBandwidth_kHz = e, so a query whose mailbox read delivers them
returns that configuration. -/
theorem C22_loop_filter_payload_round_trip {σ : Type} (hal : Platform σ)
    (pll : adi_adrv9001_Pll_e) (cfg cfg0 : adi_adrv9001_PllLoopFilterCfg_t) (e : Nat) (d : σ)
    (hpm : cfg.phaseMargin_degrees < 256) (hbw : cfg.loopBandwidth_kHz < 65536)
    (hps : cfg.powerScale < 256) (he : e < 65536) :
    pllLoopFilterPayload cfg =
      [cfg.phaseMargin_degrees] ++ littleEndianBytes 2 cfg.loopBandwidth_kHz ++
        [cfg.powerScale] ∧
    pllLoopFilterPayload cfg =
      [cfg.phaseMargin_degrees, cfg.loopBandwidth_kHz % 256, cfg.loopBandwidth_kHz / 256,
        cfg.powerScale] ∧
    pllLoopFilterParse (readInto 6 (pllLoopFilterPayload cfg ++ littleEndianBytes 2 e)) =
      { cfg with effectiveLoopBandwidth_kHz := e } ∧
    (adi_adrv9001_Radio_PllLoopFilter_Set_Validate pll cfg d =
        some (ADI_COMMON_ACT_NO_ACTION, [], d) →
      ∃ a r rest d2,
        adi_adrv9001_Radio_PllLoopFilter_Set hal pll cfg d =
          some (a, Event.memoryWrite ArmAddr.ADRV9001_ADDR_ARM_MAILBOX_SET
            (pllLoopFilterPayload cfg) r :: rest, d2) ∧
        ∀ addr data r2, Event.memoryWrite addr data r2 ∉ rest) ∧
    ((hal.adi_adrv9001_arm_Memory_Read ArmAddr.ADRV9001_ADDR_ARM_MAILBOX_GET 6 false
        (hal.adrv9001_ARM_CMD_STATUS_WAIT Opcode.ADRV9001_ARM_GET_OPCODE
          hal.ADRV9001_ARM_OBJECTID_PLL_LOOPFILTER hal.ADI_ADRV9001_GETLOOPFILTER_TIMEOUT_US
          hal.ADI_ADRV9001_GETLOOPFILTER_INTERVAL_US
          (hal.adi_adrv9001_arm_Cmd_Write Opcode.ADRV9001_ARM_GET_OPCODE
            [0, hal.ADRV9001_ARM_OBJECTID_PLL_LOOPFILTER, pll.toNat] d).2).2).2.1 =
        pllLoopFilterPayload cfg ++ littleEndianBytes 2 e →
      ∃ a out tr d3,
        adi_adrv9001_Radio_PllLoopFilter_Get hal pll cfg0 d = some (a, out, tr, d3) ∧
        (a = ADI_COMMON_ACT_NO_ACTION → out = { cfg with effectiveLoopBandwidth_kHz := e })) := by
  have hpay := pllLoopFilterPayload_eq cfg hpm hbw hps
  have hparse := pllLoopFilterParse_payload cfg e hpm hbw hps he
  refine ⟨?_, hpay, hparse, ?_, ?_⟩
  · rw [hpay]
    have h2 : cfg.loopBandwidth_kHz / 256 % 256 = cfg.loopBandwidth_kHz / 256 :=
      Nat.mod_eq_of_lt (by omega)
    simp only [littleEndianBytes, List.cons_append, List.nil_append, h2]
  · intro hval
    obtain ⟨a, tr, d2, g1, r, rest, g2, g3⟩ := sat_PllLoopFilter_Set_writes hal pll cfg d hval
    exact ⟨a, r, rest, d2, by rw [g1, g2], g3⟩
  · intro hreply
    obtain ⟨a, out, tr, d3, g1, g2⟩ := sat_PllLoopFilter_Get_result hal pll cfg0 d
    refine ⟨a, out, tr, d3, g1, fun ha => ?_⟩
    rw [g2 ha, hreply, hparse]

/-- Witness of claim C22: a configuration with a two-byte bandwidth, and the
query on the simulated device whose mailbox holds the six bytes. -/
theorem C22_loop_filter_payload_round_trip_witness :
    pllLoopFilterPayload
      { effectiveLoopBandwidth_kHz := 0, loopBandwidth_kHz := 300, phaseMargin_degrees := 60,
        powerScale := 5 } = [60, 44, 1, 5] ∧
    pllLoopFilterParse (readInto 6 (pllLoopFilterPayload
      { effectiveLoopBandwidth_kHz := 0, loopBandwidth_kHz := 300, phaseMargin_degrees := 60,
        powerScale := 5 } ++ littleEndianBytes 2 513)) =
      { effectiveLoopBandwidth_kHz := 513, loopBandwidth_kHz := 300, phaseMargin_degrees := 60,
        powerScale := 5 } ∧
    (adi_adrv9001_Radio_PllLoopFilter_Get simPlatform ADI_ADRV9001_PLL_LO1
        { effectiveLoopBandwidth_kHz := 0, loopBandwidth_kHz := 0, phaseMargin_degrees := 0,
          powerScale := 0 }
        { simDev 1 1 1 1 with mailboxGet := [60, 44, 1, 5, 1, 2] }).map (fun r => (r.1, r.2.1)) =
      some (ADI_COMMON_ACT_NO_ACTION,
        { effectiveLoopBandwidth_kHz := 513, loopBandwidth_kHz := 300, phaseMargin_degrees := 60,
          powerScale := 5 }) :=
  ⟨(C22_loop_filter_payload_round_trip simPlatform ADI_ADRV9001_PLL_LO1
      { effectiveLoopBandwidth_kHz := 0, loopBandwidth_kHz := 300, phaseMargin_degrees := 60,
        powerScale := 5 }
      { effectiveLoopBandwidth_kHz := 0, loopBandwidth_kHz := 0, phaseMargin_degrees := 0,
        powerScale := 0 }
      513 (simDev 1 1 1 1) (by decide) (by decide) (by decide) (by decide)).2.1,
   (C22_loop_filter_payload_round_trip simPlatform ADI_ADRV9001_PLL_LO1
      { effectiveLoopBandwidth_kHz := 0, loopBandwidth_kHz := 300, phaseMargin_degrees := 60,
        powerScale := 5 }
      { effectiveLoopBandwidth_kHz := 0, loopBandwidth_kHz := 0, phaseMargin_degrees := 0,
        powerScale := 0 }
      513 (simDev 1 1 1 1) (by decide) (by decide) (by decide) (by decide)).2.2.1,
   by decide⟩

/-- Claim C23: for every value b delivered for status register B (an 8-bit
register, so b mod 256), `adi_adrv9001_Radio_State_Get` decodes
channelStates[0][0] (Rx1) = bits [1:0], channelStates[0][1] (Rx2) = bits [3:2],
channelStates[1][0] (Tx1) = bits [5:4] and channelStates[1][1] (Tx2) = bits
[7:6].  The decoding is a bijection between the 256 byte values and the
4-tuples of channel states: the byte is Rx1 | Rx2<<2 | Tx1<<4 | Tx2<<6 of the
decoded states, and every 4-tuple of states packs to a byte that decodes to
that tuple. -/
theorem C23_status_register_b_decoding {σ : Type} (hal : Platform σ)
    (rs0 : adi_adrv9001_RadioState_t) (d d1 d2 : σ) (a b : Nat)
    (h8 : hal.spiReadByte RegAddr.ADRV9001_ADDR_ARM_CMD_STATUS_8 d =
      (ADI_COMMON_ACT_NO_ACTION, a, d1))
    (h9 : hal.spiReadByte RegAddr.ADRV9001_ADDR_ARM_CMD_STATUS_9 d1 =
      (ADI_COMMON_ACT_NO_ACTION, b, d2)) :
    ∃ rs, adi_adrv9001_Radio_State_Get hal rs0 d =
        some (ADI_COMMON_ACT_NO_ACTION, rs,
          [Event.spiReadByte RegAddr.ADRV9001_ADDR_ARM_CMD_STATUS_8 ADI_COMMON_ACT_NO_ACTION,
           Event.spiReadByte RegAddr.ADRV9001_ADDR_ARM_CMD_STATUS_9 ADI_COMMON_ACT_NO_ACTION],
          d2) ∧
      rs.channelStates =
        [[b % 256 % 4, b % 256 / 4 % 4], [b % 256 / 16 % 4, b % 256 / 64 % 4]] ∧
      (rs.stateAt 0 0 < 4 ∧ rs.stateAt 0 1 < 4 ∧ rs.stateAt 1 0 < 4 ∧ rs.stateAt 1 1 < 4) ∧
      b % 256 = rs.stateAt 0 0 ||| (rs.stateAt 0 1 <<< 2) ||| (rs.stateAt 1 0 <<< 4) |||
        (rs.stateAt 1 1 <<< 6) ∧
      ∀ rx1 rx2 tx1 tx2 : Nat, rx1 < 4 → rx2 < 4 → tx1 < 4 → tx2 < 4 →
        rx1 ||| (rx2 <<< 2) ||| (tx1 <<< 4) ||| (tx2 <<< 6) < 256 ∧
        (b % 256 = rx1 ||| (rx2 <<< 2) ||| (tx1 <<< 4) ||| (tx2 <<< 6) →
          rs.channelStates = [[rx1, rx2], [tx1, tx2]]) := by
  refine ⟨_, State_Get_eq hal rs0 d d1 d2 a b h8 h9, rfl, ?_, ?_, ?_⟩
  · simp only [adi_adrv9001_RadioState_t.stateAt, List.getD_cons_zero, List.getD_cons_succ]
    omega
  · simp only [adi_adrv9001_RadioState_t.stateAt, List.getD_cons_zero, List.getD_cons_succ]
    rw [pack_twoBitFields _ _ _ _ (by omega) (by omega) (by omega)]
    omega
  · intro rx1 rx2 tx1 tx2 h1 h2 h3 h4
    rw [pack_twoBitFields rx1 rx2 tx1 tx2 h1 h2 h3]
    refine ⟨by omega, fun hb => ?_⟩
    have g1 : b % 256 % 4 = rx1 := by omega
    have g2 : b % 256 / 4 % 4 = rx2 := by omega
    have g3 : b % 256 / 16 % 4 = tx1 := by omega
    have g4 : b % 256 / 64 % 4 = tx2 := by omega
    rw [g1, g2, g3, g4]

/-- Witness of claim C23: the simulated device with Rx1 CALIBRATED, Rx2
PRIMED, Tx1 RF_ENABLED and Tx2 STANDBY, whose register B reads 57. -/
theorem C23_status_register_b_decoding_witness :
    ∃ rs, adi_adrv9001_Radio_State_Get simPlatform adi_adrv9001_RadioState_t.zero
        (simDev 1 2 3 0) =
        some (ADI_COMMON_ACT_NO_ACTION, rs,
          [Event.spiReadByte RegAddr.ADRV9001_ADDR_ARM_CMD_STATUS_8 ADI_COMMON_ACT_NO_ACTION,
           Event.spiReadByte RegAddr.ADRV9001_ADDR_ARM_CMD_STATUS_9 ADI_COMMON_ACT_NO_ACTION],
          simDev 1 2 3 0) ∧
      rs.channelStates = [[1, 2], [3, 0]] ∧
      (57 : Nat) % 256 = rs.stateAt 0 0 ||| (rs.stateAt 0 1 <<< 2) ||| (rs.stateAt 1 0 <<< 4) |||
        (rs.stateAt 1 1 <<< 6) := by
  obtain ⟨rs, g1, _, _, g4, g5⟩ :=
    C23_status_register_b_decoding simPlatform adi_adrv9001_RadioState_t.zero
      (simDev 1 2 3 0) (simDev 1 2 3 0) (simDev 1 2 3 0) 0 57 rfl (by decide)
  exact ⟨rs, g1, (g5 1 2 3 0 (by decide) (by decide) (by decide) (by decide)).2 (by decide), g4⟩

/-- Claim C24 (as amended): for every value a delivered for status register A
(an 8-bit register, so a mod 256), the fields `adi_adrv9001_Radio_State_Get`
decodes from it partition the byte: systemState is the 2-bit field of bits
[1:0] and monitorModeState the 2-bit field of bits [3:2], each in 0..3, and
bootState is the 4-bit field of bits [7:4], in 0..15.  The fields are stored
whatever the read of register B reports, the byte is
systemState | monitorModeState<<2 | bootState<<4, and every triple of field
values is decoded from the byte it packs to. -/
theorem C24_status_register_a_fields {σ : Type} (hal : Platform σ)
    (rs0 : adi_adrv9001_RadioState_t) (d d1 : σ) (a : Nat)
    (h8 : hal.spiReadByte RegAddr.ADRV9001_ADDR_ARM_CMD_STATUS_8 d =
      (ADI_COMMON_ACT_NO_ACTION, a, d1)) :
    ∃ act rs tr d2, adi_adrv9001_Radio_State_Get hal rs0 d = some (act, rs, tr, d2) ∧
      rs.systemState = a % 256 % 4 ∧ rs.monitorModeState = a % 256 / 4 % 4 ∧
      rs.bootState = a % 256 / 16 ∧
      rs.systemState < 4 ∧ rs.monitorModeState < 4 ∧ rs.bootState < 16 ∧
      a % 256 = rs.systemState ||| (rs.monitorModeState <<< 2) ||| (rs.bootState <<< 4) ∧
      ∀ s m bt : Nat, s < 4 → m < 4 → bt < 16 →
        s ||| (m <<< 2) ||| (bt <<< 4) < 256 ∧
        (a % 256 = s ||| (m <<< 2) ||| (bt <<< 4) →
          rs.systemState = s ∧ rs.monitorModeState = m ∧ rs.bootState = bt) := by
  obtain ⟨act, rs, tr, d2, g, g1, g2, g3⟩ := State_Get_statusA hal rs0 d d1 a h8
  refine ⟨act, rs, tr, d2, g, g1, g2, g3, by omega, by omega, by omega, ?_, ?_⟩
  · rw [pack_statusA _ _ _ (by omega) (by omega)]
    omega
  · intro s m bt hs hm hbt
    rw [pack_statusA s m bt hs hm]
    exact ⟨by omega, fun hb => ⟨by omega, by omega, by omega⟩⟩

/-- Witness of claim C24: the simulated device whose register A reads 0xF6:
system state 2, monitor mode state 1, boot state 15. -/
theorem C24_status_register_a_fields_witness :
    ∃ act rs tr d2,
      adi_adrv9001_Radio_State_Get simPlatform adi_adrv9001_RadioState_t.zero
        { simDev 1 1 1 1 with status8 := 0xF6 } = some (act, rs, tr, d2) ∧
      rs.systemState = 2 ∧ rs.monitorModeState = 1 ∧ rs.bootState = 15 := by
  obtain ⟨act, rs, tr, d2, g, _, _, _, _, _, _, _, g8⟩ :=
    C24_status_register_a_fields simPlatform adi_adrv9001_RadioState_t.zero
      { simDev 1 1 1 1 with status8 := 0xF6 } { simDev 1 1 1 1 with status8 := 0xF6 } 0xF6 rfl
  exact ⟨act, rs, tr, d2, g, (g8 2 1 15 (by decide) (by decide) (by decide)).2 (by decide)⟩

/-- Counterexample to claim C24 as stated: with register A reading 0xF0 the
decoded boot state is 15, outside 0..3; and the register values 0x10 and 0x50,
which agree on bits 4 and 5, decode to the boot states 1 and 5. -/
theorem C24_counterexample_boot_state_is_four_bits :
    (adi_adrv9001_Radio_State_Get simPlatform adi_adrv9001_RadioState_t.zero
        { simDev 1 1 1 1 with status8 := 0xF0 }).map
      (fun r => (r.1, r.2.1.systemState, r.2.1.monitorModeState, r.2.1.bootState)) =
      some (ADI_COMMON_ACT_NO_ACTION, 0, 0, 15) ∧
    (adi_adrv9001_Radio_State_Get simPlatform adi_adrv9001_RadioState_t.zero
        { simDev 1 1 1 1 with status8 := 0x10 }).map (fun r => r.2.1.bootState) = some 1 ∧
    (adi_adrv9001_Radio_State_Get simPlatform adi_adrv9001_RadioState_t.zero
        { simDev 1 1 1 1 with status8 := 0x50 }).map (fun r => r.2.1.bootState) = some 5 := by
  decide

/-- Claim C25: for every value delivered for status register B and every
(port, channel) with port RX or TX, `adi_adrv9001_Radio_Channel_State_Get`
returns one of the four defined states (a value in 0..3), and it is the entry
channelStates[index(port)][index(channel)] that
`adi_adrv9001_Radio_State_Get` computes from the same register value. -/
theorem C25_channel_state_get_agrees_with_state_get {σ : Type} (hal : Platform σ)
    (port : adi_common_Port_e) (channel : adi_common_ChannelNumber_e) (st0 : Nat)
    (rs0 : adi_adrv9001_RadioState_t) (d d1 d2 dq dq2 : σ) (a b : Nat)
    (hport : port ≠ ADI_ORX)
    (h8 : hal.spiReadByte RegAddr.ADRV9001_ADDR_ARM_CMD_STATUS_8 d =
      (ADI_COMMON_ACT_NO_ACTION, a, d1))
    (h9 : hal.spiReadByte RegAddr.ADRV9001_ADDR_ARM_CMD_STATUS_9 d1 =
      (ADI_COMMON_ACT_NO_ACTION, b, d2))
    (hq : hal.spiReadByte RegAddr.ADRV9001_ADDR_ARM_CMD_STATUS_9 dq =
      (ADI_COMMON_ACT_NO_ACTION, b, dq2)) :
    ∃ rs tr, adi_adrv9001_Radio_State_Get hal rs0 d =
        some (ADI_COMMON_ACT_NO_ACTION, rs, tr, d2) ∧
      adi_adrv9001_Radio_Channel_State_Get hal port channel st0 dq =
        some (ADI_COMMON_ACT_NO_ACTION,
          rs.stateAt (adi_common_port_to_index port 0) (adi_common_channel_to_index channel 0),
          [Event.spiReadByte RegAddr.ADRV9001_ADDR_ARM_CMD_STATUS_9 ADI_COMMON_ACT_NO_ACTION],
          dq2) ∧
      channelStateIn rs port channel < 4 ∧
      (channelStateIn rs port channel = ADI_ADRV9001_CHANNEL_STANDBY ∨
        channelStateIn rs port channel = ADI_ADRV9001_CHANNEL_CALIBRATED ∨
        channelStateIn rs port channel = ADI_ADRV9001_CHANNEL_PRIMED ∨
        channelStateIn rs port channel = ADI_ADRV9001_CHANNEL_RF_ENABLED) := by
  refine ⟨_, _, State_Get_eq hal rs0 d d1 d2 a b h8 h9, ?_, ?_, ?_⟩
  · rw [Channel_State_Get_eq hal port channel st0 dq dq2 b hport hq]
    cases port <;> cases channel <;>
      first
        | exact absurd rfl hport
        | simp [adi_adrv9001_RadioState_t.stateAt, adi_common_port_to_index,
            adi_common_channel_to_index]
  · cases port <;> cases channel <;>
      simp only [channelStateIn, adi_adrv9001_RadioState_t.stateAt, adi_common_port_to_index,
        adi_common_channel_to_index, List.getD_cons_zero, List.getD_cons_succ] <;> omega
  · cases port <;> cases channel <;>
      simp only [channelStateIn, adi_adrv9001_RadioState_t.stateAt, adi_common_port_to_index,
        adi_common_channel_to_index, List.getD_cons_zero, List.getD_cons_succ,
        ADI_ADRV9001_CHANNEL_STANDBY, ADI_ADRV9001_CHANNEL_CALIBRATED,
        ADI_ADRV9001_CHANNEL_PRIMED, ADI_ADRV9001_CHANNEL_RF_ENABLED] <;> omega

/-- Witness of claim C25: TX1 of the simulated device with Tx1 RF_ENABLED. -/
theorem C25_channel_state_get_agrees_with_state_get_witness :
    ∃ rs tr, adi_adrv9001_Radio_State_Get simPlatform adi_adrv9001_RadioState_t.zero
        (simDev 1 2 3 0) = some (ADI_COMMON_ACT_NO_ACTION, rs, tr, simDev 1 2 3 0) ∧
      adi_adrv9001_Radio_Channel_State_Get simPlatform ADI_TX ADI_CHANNEL_1 0 (simDev 1 2 3 0) =
        some (ADI_COMMON_ACT_NO_ACTION,
          rs.stateAt (adi_common_port_to_index ADI_TX 0)
            (adi_common_channel_to_index ADI_CHANNEL_1 0),
          [Event.spiReadByte RegAddr.ADRV9001_ADDR_ARM_CMD_STATUS_9 ADI_COMMON_ACT_NO_ACTION],
          simDev 1 2 3 0) ∧
      channelStateIn rs ADI_TX ADI_CHANNEL_1 < 4 := by
  obtain ⟨rs, tr, g1, g2, g3, _⟩ :=
    C25_channel_state_get_agrees_with_state_get simPlatform ADI_TX ADI_CHANNEL_1 0
      adi_adrv9001_RadioState_t.zero (simDev 1 2 3 0) (simDev 1 2 3 0) (simDev 1 2 3 0)
      (simDev 1 2 3 0) (simDev 1 2 3 0) 0 57 (by decide) rfl (by decide) (by decide)
  exact ⟨rs, tr, g1, g2, g3⟩

/-- Claim C26: `adi_adrv9001_Radio_Channel_State_Get` is RX/TX-only.  For port
ORX it fails in validation with no device access, so without reading the
status register, and the output state keeps its content; the channel range
check of the validation rejects every numeric value outside CHANNEL_1..CHANNEL_2
the same way.  For every RX/TX port and either channel it succeeds whenever the
register read succeeds, and reports the failure of the read otherwise, leaving
the output state as it was. -/
theorem C26_channel_state_get_is_rx_tx_only {σ : Type} (hal : Platform σ)
    (port : adi_common_Port_e) (channel : adi_common_ChannelNumber_e) (st0 : Nat) (d : σ) :
    adi_adrv9001_Radio_Channel_State_Get hal ADI_ORX channel st0 d =
      some (ADI_COMMON_ACT_ERR_CHECK_PARAM, st0, [], d) ∧
    (∀ v : Nat, ¬ (ADI_CHANNEL_1.toNat ≤ v ∧ v ≤ ADI_CHANNEL_2.toNat) →
      (ADI_RANGE_CHECK v ADI_CHANNEL_1.toNat ADI_CHANNEL_2.toNat : Stmt σ Unit) d =
        some (Step.ret ADI_COMMON_ACT_ERR_CHECK_PARAM, [], d)) ∧
    (port ≠ ADI_ORX → ∀ (act : Action) (b : Nat) (d2 : σ),
      hal.spiReadByte RegAddr.ADRV9001_ADDR_ARM_CMD_STATUS_9 d = (act, b, d2) →
      ∃ st, adi_adrv9001_Radio_Channel_State_Get hal port channel st0 d =
          some (act, st, [Event.spiReadByte RegAddr.ADRV9001_ADDR_ARM_CMD_STATUS_9 act], d2) ∧
        (act ≠ ADI_COMMON_ACT_NO_ACTION → st = st0)) := by
  refine ⟨Channel_State_Get_orx hal channel st0 d, ?_, ?_⟩
  · intro v hv
    unfold ADI_RANGE_CHECK
    rw [if_pos (by omega)]
    rfl
  · intro hport act b d2 hread
    by_cases hact : act = ADI_COMMON_ACT_NO_ACTION
    · subst hact
      exact ⟨_, Channel_State_Get_eq hal port channel st0 d d2 b hport hread,
        fun h => absurd rfl h⟩
    · refine ⟨st0, ?_, fun _ => rfl⟩
      rw [← funcOut_sat_eq]
      unfold adi_adrv9001_Radio_Channel_State_Get adi_adrv9001_Radio_Channel_State_Get_Validate
      cases port <;> cases channel <;>
        simp_all [stmt_bind_eq, stmt_pure_eq, sat_toFuncOut, sat_toFunc, sat_bind,
          sat_ADI_EXPECT, sat_ADI_RANGE_CHECK, sat_callDevVal, sat_pure,
          adi_common_Port_e.toNat, adi_common_ChannelNumber_e.toNat]

/-- Witness of claim C26: RX2 of the simulated device with Rx2 PRIMED. -/
theorem C26_channel_state_get_is_rx_tx_only_witness :
    adi_adrv9001_Radio_Channel_State_Get simPlatform ADI_ORX ADI_CHANNEL_2 7 (simDev 1 2 3 0) =
      some (ADI_COMMON_ACT_ERR_CHECK_PARAM, 7, [], simDev 1 2 3 0) ∧
    ∃ st, adi_adrv9001_Radio_Channel_State_Get simPlatform ADI_RX ADI_CHANNEL_2 7
        (simDev 1 2 3 0) =
      some (ADI_COMMON_ACT_NO_ACTION, st,
        [Event.spiReadByte RegAddr.ADRV9001_ADDR_ARM_CMD_STATUS_9 ADI_COMMON_ACT_NO_ACTION],
        simDev 1 2 3 0) ∧
      (ADI_COMMON_ACT_NO_ACTION ≠ ADI_COMMON_ACT_NO_ACTION → st = 7) :=
  ⟨(C26_channel_state_get_is_rx_tx_only simPlatform ADI_RX ADI_CHANNEL_2 7 (simDev 1 2 3 0)).1,
   (C26_channel_state_get_is_rx_tx_only simPlatform ADI_RX ADI_CHANNEL_2 7
      (simDev 1 2 3 0)).2.2 (by decide) ADI_COMMON_ACT_NO_ACTION 57 (simDev 1 2 3 0)
      (by decide)⟩

/-- Claim C27: `adi_adrv9001_Radio_MailboxChannel_Get` maps the six (port,
channel) combinations RX1, RX2, TX1, TX2, ORX1, ORX2 to the six pairwise
distinct single-bit masks 0x01, 0x02, 0x04, 0x08, 0x10, 0x20, and for every
batch of length at most 255
`adi_adrv9001_Radio_MailboxChannelMask_Get(ports, channels, length)` returns the
bitwise OR over i < length of
`adi_adrv9001_Radio_MailboxChannel_Get(ports[i], channels[i])`, which is 0 for
the empty batch: a bit of the result is set exactly when it is set in the mask
of some entry. -/
theorem C27_channel_mask_is_or_of_single_bit_masks (fuel : Nat)
    (batch : List (adi_common_Port_e × adi_common_ChannelNumber_e))
    (hlen : batch.length ≤ 255) (hfuel : batch.length < fuel) (h2 : 2 ≤ fuel) :
    (adi_adrv9001_Radio_MailboxChannel_Get fuel ADI_RX ADI_CHANNEL_1 = some 0x01 ∧
      adi_adrv9001_Radio_MailboxChannel_Get fuel ADI_RX ADI_CHANNEL_2 = some 0x02 ∧
      adi_adrv9001_Radio_MailboxChannel_Get fuel ADI_TX ADI_CHANNEL_1 = some 0x04 ∧
      adi_adrv9001_Radio_MailboxChannel_Get fuel ADI_TX ADI_CHANNEL_2 = some 0x08 ∧
      adi_adrv9001_Radio_MailboxChannel_Get fuel ADI_ORX ADI_CHANNEL_1 = some 0x10 ∧
      adi_adrv9001_Radio_MailboxChannel_Get fuel ADI_ORX ADI_CHANNEL_2 = some 0x20) ∧
    (∀ p c, ∃ k, k < 6 ∧ adi_adrv9001_Radio_MailboxChannel_Get fuel p c = some (2 ^ k)) ∧
    (∀ p c p2 c2, adi_adrv9001_Radio_MailboxChannel_Get fuel p c =
        adi_adrv9001_Radio_MailboxChannel_Get fuel p2 c2 → p = p2 ∧ c = c2) ∧
    adi_adrv9001_Radio_MailboxChannelMask_Get fuel batch =
      some (batch.foldl
        (fun m pc => m ||| (adi_adrv9001_Radio_MailboxChannel_Get fuel pc.1 pc.2).getD 0) 0) ∧
    (∃ mask, adi_adrv9001_Radio_MailboxChannelMask_Get fuel batch = some mask ∧
      ∀ j, mask.testBit j = batch.any (fun pc =>
        ((adi_adrv9001_Radio_MailboxChannel_Get fuel pc.1 pc.2).getD 0).testBit j)) ∧
    adi_adrv9001_Radio_MailboxChannelMask_Get fuel [] = some 0 := by
  have hone : ∀ p c, adi_adrv9001_Radio_MailboxChannel_Get fuel p c =
      some (batchMask [(p, c)]) := fun p c => MailboxChannel_Get_eq fuel p c h2
  have hfun : (fun (m : Nat) (pc : adi_common_Port_e × adi_common_ChannelNumber_e) =>
      m ||| (adi_adrv9001_Radio_MailboxChannel_Get fuel pc.1 pc.2).getD 0) =
      (fun m pc => m ||| batchMask [pc]) := by
    funext m pc
    rw [hone pc.1 pc.2]
    rfl
  have hfun2 : (fun (pc : adi_common_Port_e × adi_common_ChannelNumber_e) =>
      ((adi_adrv9001_Radio_MailboxChannel_Get fuel pc.1 pc.2).getD 0)) =
      (fun pc => batchMask [pc]) := by
    funext pc
    rw [hone pc.1 pc.2]
    rfl
  refine ⟨⟨?_, ?_, ?_, ?_, ?_, ?_⟩, ?_, ?_, ?_, ?_, ?_⟩
  · rw [hone]; rfl
  · rw [hone]; rfl
  · rw [hone]; rfl
  · rw [hone]; rfl
  · rw [hone]; rfl
  · rw [hone]; rfl
  · intro p c
    rw [hone]
    cases p <;> cases c
    · exact ⟨0, by decide, rfl⟩
    · exact ⟨1, by decide, rfl⟩
    · exact ⟨2, by decide, rfl⟩
    · exact ⟨3, by decide, rfl⟩
    · exact ⟨4, by decide, rfl⟩
    · exact ⟨5, by decide, rfl⟩
  · intro p c p2 c2
    rw [hone, hone]
    cases p <;> cases c <;> cases p2 <;> cases c2 <;> decide
  · rw [MailboxChannelMask_Get_eq fuel batch hlen hfuel, hfun, batchMask_eq_foldl_or]
  · refine ⟨batchMask batch, MailboxChannelMask_Get_eq fuel batch hlen hfuel, fun j => ?_⟩
    rw [batchMask_eq_foldl_or, testBit_foldl_or]
    simp only [Nat.zero_testBit, Bool.false_or]
    congr 1
    funext pc
    rw [hone pc.1 pc.2]
    rfl
  · exact MailboxChannelMask_Get_eq fuel [] (by simp) (by simp; omega)

/-- Witness of claim C27: the batch RX1, TX2, RX1 has the mask 0x09. -/
theorem C27_channel_mask_is_or_of_single_bit_masks_witness :
    adi_adrv9001_Radio_MailboxChannelMask_Get 4
        [(ADI_RX, ADI_CHANNEL_1), (ADI_TX, ADI_CHANNEL_2), (ADI_RX, ADI_CHANNEL_1)] =
      some ([(ADI_RX, ADI_CHANNEL_1), (ADI_TX, ADI_CHANNEL_2), (ADI_RX, ADI_CHANNEL_1)].foldl
        (fun m pc => m ||| (adi_adrv9001_Radio_MailboxChannel_Get 4 pc.1 pc.2).getD 0) 0) ∧
    adi_adrv9001_Radio_MailboxChannelMask_Get 4
        [(ADI_RX, ADI_CHANNEL_1), (ADI_TX, ADI_CHANNEL_2), (ADI_RX, ADI_CHANNEL_1)] = some 0x09 :=
  ⟨(C27_channel_mask_is_or_of_single_bit_masks 4
      [(ADI_RX, ADI_CHANNEL_1), (ADI_TX, ADI_CHANNEL_2), (ADI_RX, ADI_CHANNEL_1)]
      (by decide) (by decide) (by decide)).2.2.2.1, by decide⟩

/-- Claim C28: for every batch of at most 255 RX/TX channels that passes the
generic validation and the state validation (every listed channel CALIBRATED or
PRIMED in the radio state read), `adi_adrv9001_Radio_Channels_Prime` issues
exactly one mailbox command.  Its single operand byte is the combined channel
mask of the whole batch, as `adi_adrv9001_Radio_MailboxChannelMask_Get`
computes it, and its opcode is RADIO-ON when prime = true and RADIO-OFF when
prime = false; when the command write succeeds the next access is the one wait
of the call, for that same opcode, and what follows the wait makes no mailbox
access, so no per-channel command is issued. -/
theorem C28_prime_issues_one_command_for_the_batch {σ : Type} (hal : Platform σ) (fuel : Nat)
    (batch : List (adi_common_Port_e × adi_common_ChannelNumber_e)) (prime : Bool) (d : σ)
    (rs : adi_adrv9001_RadioState_t) (tr0 : List Event) (d0 : σ)
    (hlen : batch.length ≤ 255) (hfuel : batch.length < fuel) (h6 : 6 ≤ fuel)
    (hgen : hal.adi_adrv9001_Channel_State_GenericValidate batch = ADI_COMMON_ACT_NO_ACTION)
    (hread : adi_adrv9001_Radio_State_Get hal adi_adrv9001_RadioState_t.zero d =
      some (ADI_COMMON_ACT_NO_ACTION, rs, tr0, d0))
    (hports : ∀ k, k < batch.length → (batchAt batch k).1 ≠ ADI_ORX)
    (hstates : ∀ k, k < batch.length →
      channelStateIn rs (batchAt batch k).1 (batchAt batch k).2 =
        ADI_ADRV9001_CHANNEL_CALIBRATED ∨
      channelStateIn rs (batchAt batch k).1 (batchAt batch k).2 =
        ADI_ADRV9001_CHANNEL_PRIMED) :
    ∃ a tr d2 r rest,
      adi_adrv9001_Radio_Channels_Prime hal fuel batch prime d = some (a, tr, d2) ∧
      adi_adrv9001_Radio_MailboxChannelMask_Get fuel batch = some (batchMask batch) ∧
      tr = tr0 ++ Event.cmdWrite
        (if prime = true then Opcode.ADRV9001_ARM_RADIOON_OPCODE
          else Opcode.ADRV9001_ARM_RADIOOFF_OPCODE) [batchMask batch] r :: rest ∧
      tr.filter Event.isMailboxCommand =
        [Event.cmdWrite
          (if prime = true then Opcode.ADRV9001_ARM_RADIOON_OPCODE
            else Opcode.ADRV9001_ARM_RADIOOFF_OPCODE) [batchMask batch] r] ∧
      (r ≠ ADI_COMMON_ACT_NO_ACTION → a = r ∧ rest = []) ∧
      (r = ADI_COMMON_ACT_NO_ACTION → ∃ w trF,
        rest = Event.cmdStatusWait
          (if prime = true then Opcode.ADRV9001_ARM_RADIOON_OPCODE
            else Opcode.ADRV9001_ARM_RADIOOFF_OPCODE) 0
          hal.ADI_ADRV9001_RADIOONOFF_TIMEOUT_US hal.ADI_ADRV9001_RADIOONOFF_INTERVAL_US w ::
            trF ∧
        tr.filter Event.isWait =
          [Event.cmdStatusWait
            (if prime = true then Opcode.ADRV9001_ARM_RADIOON_OPCODE
              else Opcode.ADRV9001_ARM_RADIOOFF_OPCODE) 0
            hal.ADI_ADRV9001_RADIOONOFF_TIMEOUT_US hal.ADI_ADRV9001_RADIOONOFF_INTERVAL_US w] ∧
        noMailboxAccess trF ∧
        (w ≠ ADI_COMMON_ACT_NO_ACTION → a = w ∧ trF = []) ∧
        (prime = false → a = w ∧ trF = [])) := by
  obtain ⟨a, tr, d2, hrun, r, rest, htr, hfailed, hok⟩ :=
    sat_Channels_Prime_accepted hal fuel batch prime d rs tr0 d0 hlen hfuel h6 hgen hread hports
      hstates
  have hop : radioOpcode prime = (if prime = true then Opcode.ADRV9001_ARM_RADIOON_OPCODE
      else Opcode.ADRV9001_ARM_RADIOOFF_OPCODE) := rfl
  rw [hop] at htr hok
  have h0 := State_Get_events hal _ rs d d0 _ tr0 hread
  have hrest : rest.filter Event.isMailboxCommand = [] ∧
      (r = ADI_COMMON_ACT_NO_ACTION → ∃ w trF,
        rest = Event.cmdStatusWait
          (if prime = true then Opcode.ADRV9001_ARM_RADIOON_OPCODE
            else Opcode.ADRV9001_ARM_RADIOOFF_OPCODE) 0
          hal.ADI_ADRV9001_RADIOONOFF_TIMEOUT_US hal.ADI_ADRV9001_RADIOONOFF_INTERVAL_US w ::
            trF ∧
        rest.filter Event.isWait =
          [Event.cmdStatusWait
            (if prime = true then Opcode.ADRV9001_ARM_RADIOON_OPCODE
              else Opcode.ADRV9001_ARM_RADIOOFF_OPCODE) 0
            hal.ADI_ADRV9001_RADIOONOFF_TIMEOUT_US hal.ADI_ADRV9001_RADIOONOFF_INTERVAL_US w] ∧
        noMailboxAccess trF ∧
        (w ≠ ADI_COMMON_ACT_NO_ACTION → a = w ∧ trF = []) ∧
        (prime = false → a = w ∧ trF = [])) := by
    by_cases hr : r = ADI_COMMON_ACT_NO_ACTION
    · obtain ⟨w, trF, hrest, hno, hw, hp⟩ := hok hr
      have hF1 : trF.filter Event.isMailboxCommand = [] := by
        rw [List.filter_eq_nil_iff]
        intro e he
        simp [(hno e he).2.1]
      have hF2 : trF.filter Event.isWait = [] := by
        rw [List.filter_eq_nil_iff]
        intro e he
        simp [(hno e he).1]
      refine ⟨?_, fun _ => ⟨w, trF, hrest, ?_, hno, hw, hp⟩⟩
      · rw [hrest, List.filter_cons]
        simpa [Event.isMailboxCommand] using hF1
      · rw [hrest, List.filter_cons]
        simpa [Event.isWait] using hF2
    · obtain ⟨_, hrest⟩ := hfailed hr
      subst hrest
      exact ⟨rfl, fun h => absurd h hr⟩
  refine ⟨a, tr, d2, r, rest, hrun, MailboxChannelMask_Get_eq fuel batch hlen hfuel, htr, ?_,
    hfailed, fun hr => ?_⟩
  · rw [htr, List.filter_append, filter_isMailboxCommand_statusReads tr0 h0, List.filter_cons,
      hrest.1]
    simp [Event.isMailboxCommand]
  · obtain ⟨w, trF, g1, g2, g3, g4, g5⟩ := hrest.2 hr
    refine ⟨w, trF, g1, ?_, g3, g4, g5⟩
    rw [htr, List.filter_append, filter_isWait_statusReads tr0 h0, List.filter_cons, g2]
    simp [Event.isWait]

/-- Witness of claim C28: priming RX1 and TX1 of the simulated device, both
CALIBRATED: the one command is RADIO-ON with the mask 0x05. -/
theorem C28_prime_issues_one_command_for_the_batch_witness :
    ∃ a tr d2 r,
      adi_adrv9001_Radio_Channels_Prime simPlatform 6
        [(ADI_RX, ADI_CHANNEL_1), (ADI_TX, ADI_CHANNEL_1)] true (simDev 1 1 1 1) =
        some (a, tr, d2) ∧
      tr.filter Event.isMailboxCommand =
        [Event.cmdWrite Opcode.ADRV9001_ARM_RADIOON_OPCODE [0x05] r] := by
  obtain ⟨a, tr, d2, r, rest, g1, _, _, g4, _⟩ :=
    C28_prime_issues_one_command_for_the_batch simPlatform 6
      [(ADI_RX, ADI_CHANNEL_1), (ADI_TX, ADI_CHANNEL_1)] true (simDev 1 1 1 1)
      { systemState := 0, monitorModeState := 0, bootState := 0,
        channelStates := [[1, 1], [1, 1]] }
      [Event.spiReadByte RegAddr.ADRV9001_ADDR_ARM_CMD_STATUS_8 ADI_COMMON_ACT_NO_ACTION,
       Event.spiReadByte RegAddr.ADRV9001_ADDR_ARM_CMD_STATUS_9 ADI_COMMON_ACT_NO_ACTION]
      (simDev 1 1 1 1) (by decide) (by decide) (by decide) (by decide) (by decide)
      (by decide) (by decide)
  exact ⟨a, tr, d2, r, g1, g4⟩

/-- Claim C29: for every batch of at most 255 RX/TX channels accepted by the
generic validation, once the radio state has been read,
`adi_adrv9001_Radio_Channels_PowerDown` issues the POWERDOWN mailbox command,
exactly once and with the combined channel mask of the batch, if and only if
every listed channel is in the CALIBRATED state; if any listed channel is in
another state the call fails with the parameter error after the state read and
issues no mailbox command. -/
theorem C29_power_down_requires_calibrated {σ : Type} (hal : Platform σ) (fuel : Nat)
    (batch : List (adi_common_Port_e × adi_common_ChannelNumber_e)) (d : σ)
    (rs : adi_adrv9001_RadioState_t) (tr0 : List Event) (d0 : σ)
    (hlen : batch.length ≤ 255) (hfuel : batch.length < fuel)
    (hgen : hal.adi_adrv9001_Channel_State_GenericValidate batch = ADI_COMMON_ACT_NO_ACTION)
    (hread : adi_adrv9001_Radio_State_Get hal adi_adrv9001_RadioState_t.zero d =
      some (ADI_COMMON_ACT_NO_ACTION, rs, tr0, d0))
    (hports : ∀ k, k < batch.length → (batchAt batch k).1 ≠ ADI_ORX) :
    ∃ a tr d2, adi_adrv9001_Radio_Channels_PowerDown hal fuel batch d = some (a, tr, d2) ∧
      adi_adrv9001_Radio_MailboxChannelMask_Get fuel batch = some (batchMask batch) ∧
      ((∃ r, tr.filter Event.isMailboxCommand =
          [Event.cmdWrite Opcode.ADRV9001_ARM_POWERDOWN_OPCODE [batchMask batch] r]) ↔
        ∀ k, k < batch.length →
          channelStateIn rs (batchAt batch k).1 (batchAt batch k).2 =
            ADI_ADRV9001_CHANNEL_CALIBRATED) ∧
      ((∃ k, k < batch.length ∧
          channelStateIn rs (batchAt batch k).1 (batchAt batch k).2 ≠
            ADI_ADRV9001_CHANNEL_CALIBRATED) →
        a = ADI_COMMON_ACT_ERR_CHECK_PARAM ∧ tr = tr0 ∧
          tr.filter Event.isMailboxCommand = []) := by
  obtain ⟨a, tr, d2, hrun, hpass, hfail⟩ :=
    sat_Channels_PowerDown_result hal fuel batch d rs tr0 d0 hlen hfuel hgen hread hports
  have h0 := State_Get_events hal _ rs d d0 _ tr0 hread
  have hf0 := filter_isMailboxCommand_statusReads tr0 h0
  refine ⟨a, tr, d2, hrun, MailboxChannelMask_Get_eq fuel batch hlen hfuel, ⟨?_, ?_⟩, ?_⟩
  · rintro ⟨r, hr⟩
    by_contra hall
    have hex : ∃ k, k < batch.length ∧
        channelStateIn rs (batchAt batch k).1 (batchAt batch k).2 ≠
          ADI_ADRV9001_CHANNEL_CALIBRATED := by
      by_contra hcon
      exact hall (fun k hk => by_contra (fun hne => hcon ⟨k, hk, hne⟩))
    obtain ⟨_, htr⟩ := hfail hex
    rw [htr, hf0] at hr
    cases hr
  · intro hall
    obtain ⟨r, rest, htr, hrest, _, _⟩ := hpass hall
    refine ⟨r, ?_⟩
    have hfr : rest.filter Event.isMailboxCommand = [] := by
      rw [List.filter_eq_nil_iff]
      intro e he
      simp [hrest e he]
    rw [htr, List.filter_append, hf0, List.filter_cons, hfr]
    simp [Event.isMailboxCommand]
  · intro hex
    obtain ⟨ha, htr⟩ := hfail hex
    exact ⟨ha, htr, by rw [htr, hf0]⟩

/-- Witness of claim C29: on the simulated device with Rx1 CALIBRATED and Tx1
PRIMED, powering down the batch RX1, TX1 fails after the state read without
any mailbox command. -/
theorem C29_power_down_requires_calibrated_witness :
    ∃ a tr d2,
      adi_adrv9001_Radio_Channels_PowerDown simPlatform 3
        [(ADI_RX, ADI_CHANNEL_1), (ADI_TX, ADI_CHANNEL_1)] (simDev 1 1 2 1) =
        some (a, tr, d2) ∧
      a = ADI_COMMON_ACT_ERR_CHECK_PARAM ∧
      tr = [Event.spiReadByte RegAddr.ADRV9001_ADDR_ARM_CMD_STATUS_8 ADI_COMMON_ACT_NO_ACTION,
        Event.spiReadByte RegAddr.ADRV9001_ADDR_ARM_CMD_STATUS_9 ADI_COMMON_ACT_NO_ACTION] ∧
      tr.filter Event.isMailboxCommand = [] := by
  obtain ⟨a, tr, d2, g1, _, _, g4⟩ :=
    C29_power_down_requires_calibrated simPlatform 3
      [(ADI_RX, ADI_CHANNEL_1), (ADI_TX, ADI_CHANNEL_1)] (simDev 1 1 2 1)
      { systemState := 0, monitorModeState := 0, bootState := 0,
        channelStates := [[1, 1], [2, 1]] }
      [Event.spiReadByte RegAddr.ADRV9001_ADDR_ARM_CMD_STATUS_8 ADI_COMMON_ACT_NO_ACTION,
       Event.spiReadByte RegAddr.ADRV9001_ADDR_ARM_CMD_STATUS_9 ADI_COMMON_ACT_NO_ACTION]
      (simDev 1 1 2 1) (by decide) (by decide) (by decide) (by decide) (by decide)
  exact ⟨a, tr, d2, g1, g4 ⟨1, by decide, by decide⟩⟩

/-- Claim C30 (as amended): in the three set operations every violation of an
unconditional parameter bound is reported before any device access.
`adi_adrv9001_Radio_Carrier_Configure` (a port or channel the platform rejects,
an enumeration field, the carrier frequency or a non-zero intermediate
frequency out of range), `adi_adrv9001_Radio_PllLoopFilter_Set` (the selector,
the phase margin, the bandwidth or the power scale out of range) and
`adi_adrv9001_Radio_ChannelEnablementDelays_Configure` (the ORX port, a duration
above 0x00FFFFFF, or the hold and fall delays in the wrong order for the port)
then fail with an empty device-access trace and an unchanged device.  The
constraint riseToAnalogOnDelay <= riseToOnDelay applies only when the
front-end control signal of the channel is assigned to a pin: its violation is
reported after the one pin inspection that decides it, which is the only
device access of the call. -/
theorem C30_range_violations_reported_before_device_access {σ : Type} (hal : Platform σ)
    (fuel : Nat) (port : adi_common_Port_e) (channel : adi_common_ChannelNumber_e)
    (carrier : adi_adrv9001_Carrier_t) (pll : adi_adrv9001_Pll_e)
    (cfg : adi_adrv9001_PllLoopFilterCfg_t) (delays : adi_adrv9001_ChannelEnablementDelays_t)
    (d : σ) :
    ((hal.adi_adrv9001_Port_Validate port ≠ ADI_COMMON_ACT_NO_ACTION ∨
        hal.adi_adrv9001_Channel_Validate channel ≠ ADI_COMMON_ACT_NO_ACTION ∨
        (carrier.pllCalibration < hal.ADI_ADRV9001_PLL_CALIBRATION_NORMAL ∨
          carrier.pllCalibration > hal.ADI_ADRV9001_PLL_CALIBRATION_RESERVED) ∨
        (carrier.loGenOptimization < hal.ADI_ADRV9001_LO_GEN_OPTIMIZATION_PHASE_NOISE ∨
          carrier.loGenOptimization > hal.ADI_ADRV9001_LO_GEN_OPTIMIZATION_POWER_CONSUMPTION) ∨
        (carrier.pllPower < hal.ADI_ADRV9001_PLL_POWER_LOW ∨
          carrier.pllPower > hal.ADI_ADRV9001_PLL_POWER_HIGH) ∨
        (carrier.carrierFrequency_Hz < 30000000 ∨ carrier.carrierFrequency_Hz > 6000000000) ∨
        (carrier.intermediateFrequency_Hz ≠ 0 ∧
          (carrier.intermediateFrequency_Hz < 200000 ∨
            carrier.intermediateFrequency_Hz > 20000000))) →
      ∃ a, a ≠ ADI_COMMON_ACT_NO_ACTION ∧
        adi_adrv9001_Radio_Carrier_Configure hal fuel port channel carrier d =
          some (a, [], d)) ∧
    ((pll.toNat > ADI_ADRV9001_PLL_AUX.toNat ∨
        (cfg.phaseMargin_degrees < 40 ∨ cfg.phaseMargin_degrees > 85) ∨
        (cfg.loopBandwidth_kHz < 50 ∨ cfg.loopBandwidth_kHz > 1500) ∨ cfg.powerScale > 10) →
      adi_adrv9001_Radio_PllLoopFilter_Set hal pll cfg d =
        some (ADI_COMMON_ACT_ERR_CHECK_PARAM, [], d)) ∧
    ((port = ADI_ORX ∨
        (delays.riseToOnDelay > 0x00FFFFFF ∨ delays.riseToAnalogOnDelay > 0x00FFFFFF ∨
          delays.fallToOffDelay > 0x00FFFFFF ∨ delays.guardDelay > 0x00FFFFFF ∨
          delays.holdDelay > 0x00FFFFFF) ∨
        (port = ADI_TX ∧ delays.holdDelay > delays.fallToOffDelay) ∨
        (port = ADI_RX ∧ delays.fallToOffDelay > delays.holdDelay)) →
      adi_adrv9001_Radio_ChannelEnablementDelays_Configure hal fuel port channel delays d =
        some (ADI_COMMON_ACT_ERR_CHECK_PARAM, [], d)) ∧
    (port ≠ ADI_ORX →
      (delays.riseToOnDelay ≤ 0x00FFFFFF ∧ delays.riseToAnalogOnDelay ≤ 0x00FFFFFF ∧
        delays.fallToOffDelay ≤ 0x00FFFFFF ∧ delays.guardDelay ≤ 0x00FFFFFF ∧
        delays.holdDelay ≤ 0x00FFFFFF) →
      (port = ADI_TX → delays.holdDelay ≤ delays.fallToOffDelay) →
      (port = ADI_RX → delays.fallToOffDelay ≤ delays.holdDelay) →
      ∀ (pin : Nat) (d1 : σ),
        hal.adi_adrv9001_gpio_Inspect (frontendSignalOf port channel) d =
          (ADI_COMMON_ACT_NO_ACTION, pin, d1) →
        pin ≠ ADI_ADRV9001_GPIO_UNASSIGNED →
        delays.riseToAnalogOnDelay > delays.riseToOnDelay →
        adi_adrv9001_Radio_ChannelEnablementDelays_Configure hal fuel port channel delays d =
          some (ADI_COMMON_ACT_ERR_CHECK_PARAM,
            [Event.gpioInspect (frontendSignalOf port channel) ADI_COMMON_ACT_NO_ACTION],
            d1)) := by
  refine ⟨fun hviol => ?_, fun hviol => ?_, fun hviol => ?_, ?_⟩
  · obtain ⟨a, ha, hval⟩ := Carrier_Configure_Validate_range hal port channel carrier d hviol
    exact ⟨a, ha, sat_after_failed_validation _ _ d a [] d ha hval⟩
  · exact sat_after_failed_validation _ _ d _ [] d (by decide)
      (PllLoopFilter_Set_Validate_range pll cfg d hviol)
  · exact sat_after_failed_validation _ _ d _ [] d (by decide)
      ((func_sat_eq _ d _ _ _).mp
        ((sat_Delays_Configure_Validate_range hal port channel delays d hviol _).mpr
          ⟨rfl, rfl, rfl⟩))
  · intro hp hmax htx hrx pin d1 hgpio hpin hrise
    exact sat_after_failed_validation _ _ d _ _ d1 (by decide)
      ((func_sat_eq _ d _ _ _).mp
        ((sat_Delays_Configure_Validate_rise hal port channel delays d pin d1 hp hmax htx hrx
          hgpio hpin hrise _).mpr ⟨rfl, rfl, rfl⟩))

/-- Witness of claim C30: a loop filter configuration with a phase margin of
39 degrees, and delays on RX2 of the simulated device whose front-end control
signal is assigned to pin 7. -/
theorem C30_range_violations_reported_before_device_access_witness :
    adi_adrv9001_Radio_PllLoopFilter_Set simPlatform ADI_ADRV9001_PLL_LO1
        { effectiveLoopBandwidth_kHz := 0, loopBandwidth_kHz := 300, phaseMargin_degrees := 39,
          powerScale := 5 } { simDev 1 1 1 1 with frontendPin := 7 } =
      some (ADI_COMMON_ACT_ERR_CHECK_PARAM, [], { simDev 1 1 1 1 with frontendPin := 7 }) ∧
    adi_adrv9001_Radio_ChannelEnablementDelays_Configure simPlatform 2 ADI_RX ADI_CHANNEL_2
        { riseToOnDelay := 5, riseToAnalogOnDelay := 10, fallToOffDelay := 0, guardDelay := 0,
          holdDelay := 0 } { simDev 1 1 1 1 with frontendPin := 7 } =
      some (ADI_COMMON_ACT_ERR_CHECK_PARAM,
        [Event.gpioInspect (frontendSignalOf ADI_RX ADI_CHANNEL_2) ADI_COMMON_ACT_NO_ACTION],
        { simDev 1 1 1 1 with frontendPin := 7 }) :=
  ⟨(C30_range_violations_reported_before_device_access simPlatform 2 ADI_RX ADI_CHANNEL_2
      { pllCalibration := 0, loGenOptimization := 1, pllPower := 0,
        carrierFrequency_Hz := 900000000, intermediateFrequency_Hz := 0 }
      ADI_ADRV9001_PLL_LO1
      { effectiveLoopBandwidth_kHz := 0, loopBandwidth_kHz := 300, phaseMargin_degrees := 39,
        powerScale := 5 }
      { riseToOnDelay := 5, riseToAnalogOnDelay := 10, fallToOffDelay := 0, guardDelay := 0,
        holdDelay := 0 }
      { simDev 1 1 1 1 with frontendPin := 7 }).2.1 (Or.inr (Or.inl (Or.inl (by decide)))),
   (C30_range_violations_reported_before_device_access simPlatform 2 ADI_RX ADI_CHANNEL_2
      { pllCalibration := 0, loGenOptimization := 1, pllPower := 0,
        carrierFrequency_Hz := 900000000, intermediateFrequency_Hz := 0 }
      ADI_ADRV9001_PLL_LO1
      { effectiveLoopBandwidth_kHz := 0, loopBandwidth_kHz := 300, phaseMargin_degrees := 39,
        powerScale := 5 }
      { riseToOnDelay := 5, riseToAnalogOnDelay := 10, fallToOffDelay := 0, guardDelay := 0,
        holdDelay := 0 }
      { simDev 1 1 1 1 with frontendPin := 7 }).2.2.2 (by decide)
      ⟨by decide, by decide, by decide, by decide, by decide⟩ (fun h => by cases h)
      (fun _ => by decide) 7 { simDev 1 1 1 1 with frontendPin := 7 } rfl (by decide)
      (by decide)⟩

/-- Counterexample to claim C30 as stated: on RX2 of the simulated device,
whose front-end control signal is assigned to pin 7, delays with
riseToAnalogOnDelay = 10 above riseToOnDelay = 5 violate the rise ordering
constraint, and the call fails with a trace that is not empty: it holds the
inspection of the front-end control pin. -/
theorem C30_counterexample_rise_ordering_reported_after_pin_inspection :
    adi_adrv9001_Radio_ChannelEnablementDelays_Configure simPlatform 2 ADI_RX ADI_CHANNEL_2
        { riseToOnDelay := 5, riseToAnalogOnDelay := 10, fallToOffDelay := 0, guardDelay := 0,
          holdDelay := 0 } { simDev 1 1 1 1 with frontendPin := 7 } =
      some (ADI_COMMON_ACT_ERR_CHECK_PARAM,
        [Event.gpioInspect
          adi_adrv9001_GpioSignal_e.ADI_ADRV9001_GPIO_SIGNAL_RX2_EXT_FRONTEND_CONTROL
          ADI_COMMON_ACT_NO_ACTION],
        { simDev 1 1 1 1 with frontendPin := 7 }) ∧
    adi_adrv9001_Radio_ChannelEnablementDelays_Configure simPlatform 2 ADI_RX ADI_CHANNEL_2
        { riseToOnDelay := 5, riseToAnalogOnDelay := 10, fallToOffDelay := 0, guardDelay := 0,
          holdDelay := 0 } (simDev 1 1 1 1) =
      some (ADI_COMMON_ACT_NO_ACTION,
        [Event.gpioInspect
          adi_adrv9001_GpioSignal_e.ADI_ADRV9001_GPIO_SIGNAL_RX2_EXT_FRONTEND_CONTROL
          ADI_COMMON_ACT_NO_ACTION,
         Event.spiReadByte RegAddr.ADRV9001_ADDR_ARM_CMD_STATUS_9 ADI_COMMON_ACT_NO_ACTION,
         Event.memoryWrite ArmAddr.ADRV9001_ADDR_ARM_MAILBOX_SET
           [5, 0, 0, 0, 10, 0, 0, 0, 0, 0, 0, 0, 0, 0, 0, 0, 0, 0, 0, 0]
           ADI_COMMON_ACT_NO_ACTION,
         Event.cmdWrite Opcode.ADRV9001_ARM_SET_OPCODE [0x02, 0x56] ADI_COMMON_ACT_NO_ACTION,
         Event.cmdStatusWait Opcode.ADRV9001_ARM_SET_OPCODE 0x56 500000 50000
           ADI_COMMON_ACT_NO_ACTION],
        { simDev 1 1 1 1 with
          mailboxSet := [5, 0, 0, 0, 10, 0, 0, 0, 0, 0, 0, 0, 0, 0, 0, 0, 0, 0, 0, 0],
          mailboxGet := [5, 0, 0, 0, 10, 0, 0, 0, 0, 0, 0, 0, 0, 0, 0, 0, 0, 0, 0, 0] }) := by
  decide

/-- Claim C32: every PLL selector, LO1 through CLK_LP, is accepted by
`adi_adrv9001_Radio_PllStatus_Get_Validate`; the index
`adi_adrv9001_Radio_PllStatus_Get` uses into its five-entry instance table is
in bounds and the mapping selector -> hardware instance is injective (LO1->RF1,
LO2->RF2, AUX->AUX, CLK->CLK, CLK_LP->CLK_LP).  The only device access of the
operation is the read of the lock bit of that instance, so no mailbox command
is issued, and on success `*locked` is true iff the byte read is non-zero. -/
theorem C32_pll_status_reads_the_selected_lock_bit {σ : Type} (hal : Platform σ)
    (pll : adi_adrv9001_Pll_e) (locked0 : Bool) (d : σ) :
    adi_adrv9001_Radio_PllStatus_Get_Validate pll d = some (ADI_COMMON_ACT_NO_ACTION, [], d) ∧
    pllInstances.length = 5 ∧ pll.toNat < pllInstances.length ∧
    pllInstances.get? pll.toNat =
      some (match pll with
        | ADI_ADRV9001_PLL_LO1 => adrv9001_BfNvsPllMemMap_e.ADRV9001_BF_RF1_PLL
        | ADI_ADRV9001_PLL_LO2 => adrv9001_BfNvsPllMemMap_e.ADRV9001_BF_RF2_PLL
        | ADI_ADRV9001_PLL_AUX => adrv9001_BfNvsPllMemMap_e.ADRV9001_BF_AUX_PLL
        | ADI_ADRV9001_PLL_CLK => adrv9001_BfNvsPllMemMap_e.ADRV9001_BF_CLK_PLL
        | ADI_ADRV9001_PLL_CLK_LP => adrv9001_BfNvsPllMemMap_e.ADRV9001_BF_CLK_PLL_LP) ∧
    (∀ q : adi_adrv9001_Pll_e,
      pllInstances.get? pll.toNat = pllInstances.get? q.toNat → pll = q) ∧
    ∃ inst a v d1 out,
      pllInstances.get? pll.toNat = some inst ∧
      hal.adrv9001_NvsPllMemMap_SynLock_Get inst d = (a, v, d1) ∧
      adi_adrv9001_Radio_PllStatus_Get hal pll locked0 d =
        some (a, out, [Event.synLockGet inst a], d1) ∧
      (∀ e ∈ [Event.synLockGet inst a], e.isMailboxCommand = false ∧ e.isMailboxWrite = false ∧
        e.isMailboxRead = false ∧ e.isWait = false) ∧
      (a = ADI_COMMON_ACT_NO_ACTION → (out = true ↔ v % 256 ≠ 0)) ∧
      (a ≠ ADI_COMMON_ACT_NO_ACTION → out = locked0) := by
  have hget : ∃ inst, pllInstances.get? pll.toNat = some inst := by
    cases pll <;> exact ⟨_, rfl⟩
  obtain ⟨inst, hinst⟩ := hget
  refine ⟨PllStatus_Get_Validate_eq pll d, rfl, by cases pll <;> decide,
    by cases pll <;> rfl, fun q => by cases pll <;> cases q <;> decide, ?_⟩
  refine ⟨inst, (hal.adrv9001_NvsPllMemMap_SynLock_Get inst d).1,
    (hal.adrv9001_NvsPllMemMap_SynLock_Get inst d).2.1,
    (hal.adrv9001_NvsPllMemMap_SynLock_Get inst d).2.2, _, hinst, rfl,
    PllStatus_Get_eq hal pll locked0 d inst hinst, ?_, ?_, ?_⟩
  · intro e he
    simp only [List.mem_singleton] at he
    subst he
    exact ⟨rfl, rfl, rfl, rfl⟩
  · intro ha
    rw [if_pos ha]
    simp
  · intro ha
    rw [if_neg ha]

/-- Witness of claim C32: the CLK PLL of the simulated device, whose lock bit
reads 1. -/
theorem C32_pll_status_reads_the_selected_lock_bit_witness :
    adi_adrv9001_Radio_PllStatus_Get simPlatform ADI_ADRV9001_PLL_CLK false (simDev 1 1 1 1) =
      some (ADI_COMMON_ACT_NO_ACTION, true,
        [Event.synLockGet adrv9001_BfNvsPllMemMap_e.ADRV9001_BF_CLK_PLL
          ADI_COMMON_ACT_NO_ACTION], simDev 1 1 1 1) ∧
    pllInstances.get? ADI_ADRV9001_PLL_CLK.toNat =
      some adrv9001_BfNvsPllMemMap_e.ADRV9001_BF_CLK_PLL :=
  ⟨by decide,
   (C32_pll_status_reads_the_selected_lock_bit simPlatform ADI_ADRV9001_PLL_CLK false
      (simDev 1 1 1 1)).2.2.2.1⟩

/-- Claim C36: `adi_adrv9001_Radio_MailboxChannelMask_Get` depends only on the
set of (port, channel) pairs listed.  For batches of at most 255 entries two
batches have equal masks if and only if they list the same set of combinations;
so the mask is invariant under permutation of the entries and under
duplication of an entry, and the mask of a concatenation is the OR of the
masks. -/
theorem C36_channel_mask_depends_on_the_set_of_entries (fuel : Nat)
    (b1 b2 : List (adi_common_Port_e × adi_common_ChannelNumber_e))
    (h1 : b1.length ≤ 255) (h2 : b2.length ≤ 255)
    (hf1 : b1.length < fuel) (hf2 : b2.length < fuel) :
    (adi_adrv9001_Radio_MailboxChannelMask_Get fuel b1 =
        adi_adrv9001_Radio_MailboxChannelMask_Get fuel b2 ↔ ∀ pc, pc ∈ b1 ↔ pc ∈ b2) ∧
    (b1.Perm b2 → adi_adrv9001_Radio_MailboxChannelMask_Get fuel b1 =
      adi_adrv9001_Radio_MailboxChannelMask_Get fuel b2) ∧
    (∀ pc, pc ∈ b1 → (pc :: b1).length ≤ 255 → (pc :: b1).length < fuel →
      adi_adrv9001_Radio_MailboxChannelMask_Get fuel (pc :: b1) =
        adi_adrv9001_Radio_MailboxChannelMask_Get fuel b1) ∧
    ((b1 ++ b1).length ≤ 255 → (b1 ++ b1).length < fuel →
      adi_adrv9001_Radio_MailboxChannelMask_Get fuel (b1 ++ b1) =
        adi_adrv9001_Radio_MailboxChannelMask_Get fuel b1) ∧
    ((b1 ++ b2).length ≤ 255 → (b1 ++ b2).length < fuel →
      ∃ m1 m2, adi_adrv9001_Radio_MailboxChannelMask_Get fuel b1 = some m1 ∧
        adi_adrv9001_Radio_MailboxChannelMask_Get fuel b2 = some m2 ∧
        adi_adrv9001_Radio_MailboxChannelMask_Get fuel (b1 ++ b2) = some (m1 ||| m2)) := by
  have e1 := MailboxChannelMask_Get_eq fuel b1 h1 hf1
  have e2 := MailboxChannelMask_Get_eq fuel b2 h2 hf2
  refine ⟨?_, ?_, ?_, ?_, ?_⟩
  · rw [e1, e2, Option.some.injEq]
    exact batchMask_eq_iff b1 b2
  · intro hperm
    rw [e1, e2, Option.some.injEq, batchMask_eq_iff]
    exact fun pc => hperm.mem_iff
  · intro pc hpc hl hf
    rw [MailboxChannelMask_Get_eq fuel _ hl hf, e1, Option.some.injEq, batchMask_eq_iff]
    intro q
    simp only [List.mem_cons]
    constructor
    · rintro (rfl | h)
      · exact hpc
      · exact h
    · exact fun h => Or.inr h
  · intro hl hf
    rw [MailboxChannelMask_Get_eq fuel _ hl hf, e1, Option.some.injEq, batchMask_eq_iff]
    intro q
    simp only [List.mem_append, or_self]
  · intro hl hf
    exact ⟨_, _, e1, e2, by rw [MailboxChannelMask_Get_eq fuel _ hl hf, batchMask_append]⟩

/-- Witness of claim C36: the batches TX2, RX1, TX2 and RX1, TX2 list the same
set and have the same mask. -/
theorem C36_channel_mask_depends_on_the_set_of_entries_witness :
    adi_adrv9001_Radio_MailboxChannelMask_Get 4
        [(ADI_TX, ADI_CHANNEL_2), (ADI_RX, ADI_CHANNEL_1), (ADI_TX, ADI_CHANNEL_2)] =
      adi_adrv9001_Radio_MailboxChannelMask_Get 4
        [(ADI_RX, ADI_CHANNEL_1), (ADI_TX, ADI_CHANNEL_2)] :=
  (C36_channel_mask_depends_on_the_set_of_entries 4
    [(ADI_TX, ADI_CHANNEL_2), (ADI_RX, ADI_CHANNEL_1), (ADI_TX, ADI_CHANNEL_2)]
    [(ADI_RX, ADI_CHANNEL_1), (ADI_TX, ADI_CHANNEL_2)]
    (by decide) (by decide) (by decide) (by decide)).1.2
    (fun pc => by
      simp only [List.mem_cons, List.mem_singleton, List.not_mem_nil, or_false]
      tauto)

/-- Claim C37: the batch loops compare an 8-bit counter against the length.
For every batch of at most 255 entries the loop of
`adi_adrv9001_Radio_MailboxChannelMask_Get` finishes after exactly `length`
iterations: the result is there with fuel for `length + 1` loop tests and not
with less.  For every batch of 256 entries or more the counter wraps modulo 256
and stays below the length, so the loop does not finish whatever the fuel; the
same holds for the validation loop of `adi_adrv9001_Radio_Channels_Prime` over
channels that pass the state check. -/
theorem C37_mask_loop_finishes_iff_length_fits_the_counter {σ : Type} (hal : Platform σ)
    (fuel : Nat) (batch : List (adi_common_Port_e × adi_common_ChannelNumber_e)) :
    (batch.length ≤ 255 →
      ((adi_adrv9001_Radio_MailboxChannelMask_Get fuel batch).isSome = true ↔
        batch.length < fuel) ∧
      adi_adrv9001_Radio_MailboxChannelMask_Get (batch.length + 1) batch =
        some (batchMask batch) ∧
      adi_adrv9001_Radio_MailboxChannelMask_Get batch.length batch = none) ∧
    (256 ≤ batch.length →
      adi_adrv9001_Radio_MailboxChannelMask_Get fuel batch = none ∧
      (∀ i m : Nat, i < 256 → maskLoop batch fuel i m = none) ∧
      (∀ i : Nat, (i + 1) % 256 < batch.length) ∧
      ∀ (prime : Bool) (d : σ) (rs : adi_adrv9001_RadioState_t) (tr0 : List Event) (d0 : σ),
        hal.adi_adrv9001_Channel_State_GenericValidate batch = ADI_COMMON_ACT_NO_ACTION →
        adi_adrv9001_Radio_State_Get hal adi_adrv9001_RadioState_t.zero d =
          some (ADI_COMMON_ACT_NO_ACTION, rs, tr0, d0) →
        (∀ k, k < 256 → (batchAt batch k).1 ≠ ADI_ORX) →
        (∀ k, k < 256 →
          channelStateIn rs (batchAt batch k).1 (batchAt batch k).2 =
            ADI_ADRV9001_CHANNEL_CALIBRATED ∨
          channelStateIn rs (batchAt batch k).1 (batchAt batch k).2 =
            ADI_ADRV9001_CHANNEL_PRIMED) →
        adi_adrv9001_Radio_Channels_Prime hal fuel batch prime d = none) := by
  constructor
  · intro hlen
    refine ⟨?_, MailboxChannelMask_Get_eq _ batch hlen (Nat.lt_succ_self _), ?_⟩
    · by_cases hf : batch.length < fuel
      · rw [MailboxChannelMask_Get_eq fuel batch hlen hf]
        simp [hf]
      · have hnone : adi_adrv9001_Radio_MailboxChannelMask_Get fuel batch = none :=
          maskLoop_none_of_le batch hlen fuel 0 0 (Nat.zero_le _) (by omega)
        rw [hnone]
        simp [hf]
    · exact maskLoop_none_of_le batch hlen batch.length 0 0 (Nat.zero_le _) (by omega)
  · intro hlen
    refine ⟨maskLoop_none_of_long batch hlen fuel 0 0 (by decide),
      fun i m hi => maskLoop_none_of_long batch hlen fuel i m hi, fun i => ?_, ?_⟩
    · have := Nat.mod_lt (i + 1) (by decide : 256 > 0)
      omega
    · intro prime d rs tr0 d0 hgen hread hports hstates
      exact Channels_Prime_none_of_long hal fuel batch prime d rs tr0 d0 hlen hgen hread hports
        hstates

/-- Witness of claim C37: a batch of three entries needs fuel for four loop
tests; a batch of 256 entries does not finish with fuel 1000. -/
theorem C37_mask_loop_finishes_iff_length_fits_the_counter_witness :
    ((adi_adrv9001_Radio_MailboxChannelMask_Get 4
        [(ADI_RX, ADI_CHANNEL_1), (ADI_TX, ADI_CHANNEL_2), (ADI_RX, ADI_CHANNEL_1)]).isSome =
        true ↔
      [(ADI_RX, ADI_CHANNEL_1), (ADI_TX, ADI_CHANNEL_2), (ADI_RX, ADI_CHANNEL_1)].length < 4) ∧
    adi_adrv9001_Radio_MailboxChannelMask_Get 1000
      (List.replicate 256 (ADI_RX, ADI_CHANNEL_1)) = none :=
  ⟨((C37_mask_loop_finishes_iff_length_fits_the_counter simPlatform 4
      [(ADI_RX, ADI_CHANNEL_1), (ADI_TX, ADI_CHANNEL_2), (ADI_RX, ADI_CHANNEL_1)]).1
      (by decide)).1,
   ((C37_mask_loop_finishes_iff_length_fits_the_counter simPlatform 1000
      (List.replicate 256 (ADI_RX, ADI_CHANNEL_1))).2
      (by simp only [List.length_replicate, Nat.le_refl])).1⟩

/-- Claim C38: `adi_adrv9001_Radio_Channel_ToState_Validate` rejects, without
any device access, every request whose target is STANDBY (or above
RF_ENABLED) or whose port is ORX, and its channel range check rejects every
numeric channel outside CHANNEL_1..CHANNEL_2; `adi_adrv9001_Radio_Channel_ToState`
then fails with an empty trace.  For an accepted request the port index and the
channel index used by ToCalibrated, ToPrimed and ToRfEnabled are both 0 or 1, so
the read of the 2x2 `channelStates` matrix filled by the state query is in
bounds, and the target is one of the three cases of the switch: the call
behaves as the function of that case and the default branch is not taken. -/
theorem C38_to_state_validate_bounds_the_matrix_access {σ : Type} (hal : Platform σ)
    (fuel : Nat) (port : adi_common_Port_e) (channel : adi_common_ChannelNumber_e)
    (state : Nat) (d : σ) :
    (∃ a, adi_adrv9001_Radio_Channel_ToState_Validate port channel state d = some (a, [], d) ∧
      (a ≠ ADI_COMMON_ACT_NO_ACTION ↔
        port = ADI_ORX ∨ state = ADI_ADRV9001_CHANNEL_STANDBY ∨
          state > ADI_ADRV9001_CHANNEL_RF_ENABLED) ∧
      (a ≠ ADI_COMMON_ACT_NO_ACTION →
        adi_adrv9001_Radio_Channel_ToState hal fuel port channel state d = some (a, [], d))) ∧
    (∀ v : Nat, ¬ (ADI_CHANNEL_1.toNat ≤ v ∧ v ≤ ADI_CHANNEL_2.toNat) →
      (ADI_RANGE_CHECK v ADI_CHANNEL_1.toNat ADI_CHANNEL_2.toNat : Stmt σ Unit) d =
        some (Step.ret ADI_COMMON_ACT_ERR_CHECK_PARAM, [], d)) ∧
    (adi_adrv9001_Radio_Channel_ToState_Validate port channel state d =
        some (ADI_COMMON_ACT_NO_ACTION, [], d) →
      adi_common_port_to_index port 0 < 2 ∧ adi_common_channel_to_index channel 0 < 2 ∧
      (∀ rs0 rs tr d1,
        adi_adrv9001_Radio_State_Get hal rs0 d =
          some (ADI_COMMON_ACT_NO_ACTION, rs, tr, d1) →
        (rs.channelStates.get? (adi_common_port_to_index port 0)).bind
            (fun row => row.get? (adi_common_channel_to_index channel 0)) =
          some (rs.stateAt (adi_common_port_to_index port 0)
            (adi_common_channel_to_index channel 0))) ∧
      (state = ADI_ADRV9001_CHANNEL_CALIBRATED ∨ state = ADI_ADRV9001_CHANNEL_PRIMED ∨
        state = ADI_ADRV9001_CHANNEL_RF_ENABLED) ∧
      adi_adrv9001_Radio_Channel_ToState hal fuel port channel state d =
        (if state = ADI_ADRV9001_CHANNEL_CALIBRATED then
          adi_adrv9001_Radio_Channel_ToCalibrated hal fuel port channel d
        else if state = ADI_ADRV9001_CHANNEL_PRIMED then
          adi_adrv9001_Radio_Channel_ToPrimed hal fuel port channel d
        else adi_adrv9001_Radio_Channel_ToRfEnabled hal fuel port channel d)) := by
  have hval := ToState_Validate_eq (σ := σ) port channel state d
  refine ⟨⟨_, hval, ?_, ?_⟩, ?_, ?_⟩
  · simp only [ADI_ADRV9001_CHANNEL_CALIBRATED, ADI_ADRV9001_CHANNEL_STANDBY,
      ADI_ADRV9001_CHANNEL_RF_ENABLED]
    split_ifs with h
    · refine ⟨fun _ => ?_, fun _ => by decide⟩
      rcases h with h | h | h
      · exact Or.inl h
      · exact Or.inr (Or.inl (by omega))
      · exact Or.inr (Or.inr h)
    · refine ⟨fun h2 => absurd rfl h2, fun h2 => absurd ?_ h⟩
      rcases h2 with h2 | h2 | h2
      · exact Or.inl h2
      · exact Or.inr (Or.inl (by omega))
      · exact Or.inr (Or.inr h2)
  · intro ha
    unfold adi_adrv9001_Radio_Channel_ToState
    exact sat_after_failed_validation _ _ d _ [] d ha hval
  · intro v hv
    unfold ADI_RANGE_CHECK
    rw [if_pos (by omega)]
    rfl
  · intro hok
    rw [hval] at hok
    simp only [Option.some.injEq, Prod.mk.injEq, and_true] at hok
    have hcond : ¬ (port = ADI_ORX ∨ state < ADI_ADRV9001_CHANNEL_CALIBRATED ∨
        state > ADI_ADRV9001_CHANNEL_RF_ENABLED) := by
      intro h
      rw [if_pos h] at hok
      cases hok
    have hport : port ≠ ADI_ORX := fun h => hcond (Or.inl h)
    have hs : state = ADI_ADRV9001_CHANNEL_CALIBRATED ∨ state = ADI_ADRV9001_CHANNEL_PRIMED ∨
        state = ADI_ADRV9001_CHANNEL_RF_ENABLED := by
      simp only [ADI_ADRV9001_CHANNEL_CALIBRATED, ADI_ADRV9001_CHANNEL_RF_ENABLED,
        ADI_ADRV9001_CHANNEL_PRIMED] at hcond ⊢
      omega
    refine ⟨by cases port <;> first | exact absurd rfl hport | decide,
      by cases channel <;> decide, ?_, hs, ?_⟩
    · intro rs0 rs tr d1 hread
      rcases h8 : hal.spiReadByte RegAddr.ADRV9001_ADDR_ARM_CMD_STATUS_8 d with ⟨a8, v8, d8⟩
      rcases h9 : hal.spiReadByte RegAddr.ADRV9001_ADDR_ARM_CMD_STATUS_9 d8 with ⟨a9, v9, d9⟩
      by_cases ha8 : a8 = ADI_COMMON_ACT_NO_ACTION
      · by_cases ha9 : a9 = ADI_COMMON_ACT_NO_ACTION
        · subst ha8 ha9
          rw [State_Get_eq hal rs0 d d8 d9 v8 v9 h8 h9] at hread
          simp only [Option.some.injEq, Prod.mk.injEq, true_and] at hread
          obtain ⟨hrs, _, _⟩ := hread
          subst hrs
          cases port <;> cases channel <;> first | exact absurd rfl hport | rfl
        · exfalso
          unfold adi_adrv9001_Radio_State_Get at hread
          simp [h8, h9, ha8, ha9] at hread
      · exfalso
        unfold adi_adrv9001_Radio_State_Get at hread
        simp [h8, ha8] at hread
    · have hv : adi_adrv9001_Radio_Channel_ToState_Validate port channel state d =
          some (ADI_COMMON_ACT_NO_ACTION, [], d) := by
        rw [hval, if_neg hcond]
      unfold adi_adrv9001_Radio_Channel_ToState
      simp only [stmt_bind_eq, stmt_pure_eq]
      rcases hs with rfl | rfl | rfl
      · exact toFunc_validated_expect_eq _ _ d hv
      · exact toFunc_validated_expect_eq _ _ d hv
      · exact toFunc_validated_expect_eq _ _ d hv

/-- Witness of claim C38: the request to move TX2 of the simulated device to
PRIMED is accepted, and an ORX request is rejected without device access. -/
theorem C38_to_state_validate_bounds_the_matrix_access_witness :
    (adi_common_port_to_index ADI_TX 0 < 2 ∧ adi_common_channel_to_index ADI_CHANNEL_2 0 < 2) ∧
    adi_adrv9001_Radio_Channel_ToState simPlatform 256 ADI_ORX ADI_CHANNEL_1
        ADI_ADRV9001_CHANNEL_PRIMED (simDev 1 1 1 1) =
      some (ADI_COMMON_ACT_ERR_CHECK_PARAM, [], simDev 1 1 1 1) :=
  ⟨⟨((C38_to_state_validate_bounds_the_matrix_access simPlatform 256 ADI_TX ADI_CHANNEL_2
        ADI_ADRV9001_CHANNEL_PRIMED (simDev 1 1 1 1)).2.2 (by decide)).1,
    ((C38_to_state_validate_bounds_the_matrix_access simPlatform 256 ADI_TX ADI_CHANNEL_2
        ADI_ADRV9001_CHANNEL_PRIMED (simDev 1 1 1 1)).2.2 (by decide)).2.1⟩,
   by decide⟩

/-- Claim C33: the state check coded in `adi_adrv9001_Radio_Channels_Prime`
does not depend on the direction.  For a batch of at most 255 RX/TX channels
accepted by the generic validation, once the radio state has been read, the
batch is rejected (parameter error right after the state read, no mailbox
command), for prime = true and for prime = false alike, if and only if some
listed channel is in STANDBY or RF_ENABLED, and the rejected call is the same
in both directions.  Consequently a batch whose channels are all CALIBRATED or
PRIMED, in any mix, passes and the RADIO-ON or RADIO-OFF command is issued,
once, with the mask of the whole batch. -/
theorem C33_prime_guard_is_direction_independent {σ : Type} (hal : Platform σ) (fuel : Nat)
    (batch : List (adi_common_Port_e × adi_common_ChannelNumber_e)) (d : σ)
    (rs : adi_adrv9001_RadioState_t) (tr0 : List Event) (d0 : σ)
    (hlen : batch.length ≤ 255) (hfuel : batch.length < fuel) (h6 : 6 ≤ fuel)
    (hgen : hal.adi_adrv9001_Channel_State_GenericValidate batch = ADI_COMMON_ACT_NO_ACTION)
    (hread : adi_adrv9001_Radio_State_Get hal adi_adrv9001_RadioState_t.zero d =
      some (ADI_COMMON_ACT_NO_ACTION, rs, tr0, d0))
    (hports : ∀ k, k < batch.length → (batchAt batch k).1 ≠ ADI_ORX) :
    (∀ prime : Bool, ∃ a tr d2,
      adi_adrv9001_Radio_Channels_Prime hal fuel batch prime d = some (a, tr, d2) ∧
      ((a = ADI_COMMON_ACT_ERR_CHECK_PARAM ∧ tr = tr0 ∧ d2 = d0 ∧
          tr.filter Event.isMailboxCommand = []) ↔
        ∃ k, k < batch.length ∧
          (channelStateIn rs (batchAt batch k).1 (batchAt batch k).2 =
              ADI_ADRV9001_CHANNEL_STANDBY ∨
            channelStateIn rs (batchAt batch k).1 (batchAt batch k).2 =
              ADI_ADRV9001_CHANNEL_RF_ENABLED))) ∧
    ((∃ k, k < batch.length ∧
        (channelStateIn rs (batchAt batch k).1 (batchAt batch k).2 =
            ADI_ADRV9001_CHANNEL_STANDBY ∨
          channelStateIn rs (batchAt batch k).1 (batchAt batch k).2 =
            ADI_ADRV9001_CHANNEL_RF_ENABLED)) →
      adi_adrv9001_Radio_Channels_Prime hal fuel batch true d =
        adi_adrv9001_Radio_Channels_Prime hal fuel batch false d) ∧
    ((∀ k, k < batch.length →
        channelStateIn rs (batchAt batch k).1 (batchAt batch k).2 =
          ADI_ADRV9001_CHANNEL_CALIBRATED ∨
        channelStateIn rs (batchAt batch k).1 (batchAt batch k).2 =
          ADI_ADRV9001_CHANNEL_PRIMED) →
      ∀ prime : Bool, ∃ a tr d2 r,
        adi_adrv9001_Radio_Channels_Prime hal fuel batch prime d = some (a, tr, d2) ∧
        tr.filter Event.isMailboxCommand =
          [Event.cmdWrite
            (if prime = true then Opcode.ADRV9001_ARM_RADIOON_OPCODE
              else Opcode.ADRV9001_ARM_RADIOOFF_OPCODE) [batchMask batch] r]) := by
  have hlt : ∀ k, k < batch.length →
      channelStateIn rs (batchAt batch k).1 (batchAt batch k).2 < 4 := fun k hk =>
    State_Get_states_lt hal _ rs d d0 tr0 hread _ _ (hports k hk)
  have hbad : (∃ k, k < batch.length ∧
        (channelStateIn rs (batchAt batch k).1 (batchAt batch k).2 =
            ADI_ADRV9001_CHANNEL_STANDBY ∨
          channelStateIn rs (batchAt batch k).1 (batchAt batch k).2 =
            ADI_ADRV9001_CHANNEL_RF_ENABLED)) →
      ∃ k, k < batch.length ∧
        (channelStateIn rs (batchAt batch k).1 (batchAt batch k).2 ≠
            ADI_ADRV9001_CHANNEL_CALIBRATED ∧
          channelStateIn rs (batchAt batch k).1 (batchAt batch k).2 ≠
            ADI_ADRV9001_CHANNEL_PRIMED) := by
    rintro ⟨k, hk, h⟩
    refine ⟨k, hk, ?_⟩
    simp only [ADI_ADRV9001_CHANNEL_STANDBY, ADI_ADRV9001_CHANNEL_RF_ENABLED,
      ADI_ADRV9001_CHANNEL_CALIBRATED, ADI_ADRV9001_CHANNEL_PRIMED] at h ⊢
    omega
  have h0 := State_Get_events hal _ rs d d0 _ tr0 hread
  refine ⟨fun prime => ?_, fun hex => ?_, fun hall prime => ?_⟩
  · by_cases hex : ∃ k, k < batch.length ∧
        (channelStateIn rs (batchAt batch k).1 (batchAt batch k).2 =
            ADI_ADRV9001_CHANNEL_STANDBY ∨
          channelStateIn rs (batchAt batch k).1 (batchAt batch k).2 =
            ADI_ADRV9001_CHANNEL_RF_ENABLED)
    · refine ⟨_, _, _, Channels_Prime_rejected hal fuel batch prime d rs tr0 d0 hlen hfuel hgen
        hread hports (hbad hex), fun _ => hex, fun _ => ⟨rfl, rfl, rfl, ?_⟩⟩
      exact filter_isMailboxCommand_statusReads tr0 h0
    · have hall : ∀ k, k < batch.length →
          channelStateIn rs (batchAt batch k).1 (batchAt batch k).2 =
            ADI_ADRV9001_CHANNEL_CALIBRATED ∨
          channelStateIn rs (batchAt batch k).1 (batchAt batch k).2 =
            ADI_ADRV9001_CHANNEL_PRIMED := by
        intro k hk
        have h4 := hlt k hk
        have hn : ¬ (channelStateIn rs (batchAt batch k).1 (batchAt batch k).2 =
              ADI_ADRV9001_CHANNEL_STANDBY ∨
            channelStateIn rs (batchAt batch k).1 (batchAt batch k).2 =
              ADI_ADRV9001_CHANNEL_RF_ENABLED) := fun h => hex ⟨k, hk, h⟩
        simp only [ADI_ADRV9001_CHANNEL_STANDBY, ADI_ADRV9001_CHANNEL_RF_ENABLED,
          ADI_ADRV9001_CHANNEL_CALIBRATED, ADI_ADRV9001_CHANNEL_PRIMED] at hn ⊢
        omega
      obtain ⟨a, tr, d2, r, hrun, hcmd⟩ :=
        Channels_Prime_accepted_command hal fuel batch prime d rs tr0 d0 hlen hfuel h6 hgen
          hread hports hall
      refine ⟨a, tr, d2, hrun, fun h => ?_, fun h => absurd h hex⟩
      rw [hcmd] at h
      exact absurd h.2.2.2 (by simp)
  · rw [Channels_Prime_rejected hal fuel batch true d rs tr0 d0 hlen hfuel hgen hread hports
        (hbad hex),
      Channels_Prime_rejected hal fuel batch false d rs tr0 d0 hlen hfuel hgen hread hports
        (hbad hex)]
  · exact Channels_Prime_accepted_command hal fuel batch prime d rs tr0 d0 hlen hfuel h6 hgen
      hread hports hall

/-- Witness of claim C33: un-priming the batch RX1 (CALIBRATED), TX1 (PRIMED)
of the simulated device issues RADIO-OFF with the mask 0x05. -/
theorem C33_prime_guard_is_direction_independent_witness :
    ∃ a tr d2 r,
      adi_adrv9001_Radio_Channels_Prime simPlatform 6
        [(ADI_RX, ADI_CHANNEL_1), (ADI_TX, ADI_CHANNEL_1)] false (simDev 1 1 2 1) =
        some (a, tr, d2) ∧
      tr.filter Event.isMailboxCommand =
        [Event.cmdWrite
          (if false = true then Opcode.ADRV9001_ARM_RADIOON_OPCODE
            else Opcode.ADRV9001_ARM_RADIOOFF_OPCODE)
          [batchMask [(ADI_RX, ADI_CHANNEL_1), (ADI_TX, ADI_CHANNEL_1)]] r] :=
  (C33_prime_guard_is_direction_independent simPlatform 6
    [(ADI_RX, ADI_CHANNEL_1), (ADI_TX, ADI_CHANNEL_1)] (simDev 1 1 2 1)
    { systemState := 0, monitorModeState := 0, bootState := 0,
      channelStates := [[1, 1], [2, 1]] }
    [Event.spiReadByte RegAddr.ADRV9001_ADDR_ARM_CMD_STATUS_8 ADI_COMMON_ACT_NO_ACTION,
     Event.spiReadByte RegAddr.ADRV9001_ADDR_ARM_CMD_STATUS_9 ADI_COMMON_ACT_NO_ACTION]
    (simDev 1 1 2 1) (by decide) (by decide) (by decide) (by decide) (by decide)
    (by decide)).2.2 (by decide) false

/-- Claim C35: `adi_adrv9001_Radio_Channels_Prime` is not atomic with respect to
the errata compensation.  Priming TX1 (CALIBRATED) while RX1 is RF_ENABLED, the
RADIO-ON command is issued and completes, TX1 is PRIMED afterwards, and yet the
call returns a failure: the parameter error when RX1 is in pin enable-mode, and
the reset-module error when RX1 is not observed PRIMED in any of the 5 state
reads that follow its disable. -/
theorem C35_prime_fails_after_completed_radio_on :
    (adi_adrv9001_Radio_Channels_Prime simPlatform 6 [(ADI_TX, ADI_CHANNEL_1)] true
        { simDev 3 1 1 1 with pinRx1 := ADI_ADRV9001_PIN_MODE }).map
        (fun r => (r.1, r.2.1, r.2.2.tx1)) =
      some (ADI_COMMON_ACT_ERR_CHECK_PARAM,
        [Event.spiReadByte RegAddr.ADRV9001_ADDR_ARM_CMD_STATUS_8 ADI_COMMON_ACT_NO_ACTION,
         Event.spiReadByte RegAddr.ADRV9001_ADDR_ARM_CMD_STATUS_9 ADI_COMMON_ACT_NO_ACTION,
         Event.cmdWrite Opcode.ADRV9001_ARM_RADIOON_OPCODE [ADI_ADRV9001_TX1]
           ADI_COMMON_ACT_NO_ACTION,
         Event.cmdStatusWait Opcode.ADRV9001_ARM_RADIOON_OPCODE 0 1000000 50000
           ADI_COMMON_ACT_NO_ACTION,
         Event.spiReadByte RegAddr.ADRV9001_ADDR_ARM_CMD_STATUS_8 ADI_COMMON_ACT_NO_ACTION,
         Event.spiReadByte RegAddr.ADRV9001_ADDR_ARM_CMD_STATUS_9 ADI_COMMON_ACT_NO_ACTION,
         Event.spiReadByte RegAddr.ADRV9001_ADDR_ARM_CMD_STATUS_8 ADI_COMMON_ACT_NO_ACTION,
         Event.spiReadByte RegAddr.ADRV9001_ADDR_ARM_CMD_STATUS_9 ADI_COMMON_ACT_NO_ACTION,
         Event.pinModeGet BbicField.Rx1 ADI_COMMON_ACT_NO_ACTION],
        2) ∧
    (adi_adrv9001_Radio_Channels_Prime stuckPlatform 6 [(ADI_TX, ADI_CHANNEL_1)] true
        (simDev 3 1 1 1)).map (fun r => (r.1, r.2.1, r.2.2.tx1)) =
      some (ADI_COMMON_ACT_ERR_RESET_MODULE,
        [Event.spiReadByte RegAddr.ADRV9001_ADDR_ARM_CMD_STATUS_8 ADI_COMMON_ACT_NO_ACTION,
         Event.spiReadByte RegAddr.ADRV9001_ADDR_ARM_CMD_STATUS_9 ADI_COMMON_ACT_NO_ACTION,
         Event.cmdWrite Opcode.ADRV9001_ARM_RADIOON_OPCODE [ADI_ADRV9001_TX1]
           ADI_COMMON_ACT_NO_ACTION,
         Event.cmdStatusWait Opcode.ADRV9001_ARM_RADIOON_OPCODE 0 1000000 50000
           ADI_COMMON_ACT_NO_ACTION,
         Event.spiReadByte RegAddr.ADRV9001_ADDR_ARM_CMD_STATUS_8 ADI_COMMON_ACT_NO_ACTION,
         Event.spiReadByte RegAddr.ADRV9001_ADDR_ARM_CMD_STATUS_9 ADI_COMMON_ACT_NO_ACTION,
         Event.spiReadByte RegAddr.ADRV9001_ADDR_ARM_CMD_STATUS_8 ADI_COMMON_ACT_NO_ACTION,
         Event.spiReadByte RegAddr.ADRV9001_ADDR_ARM_CMD_STATUS_9 ADI_COMMON_ACT_NO_ACTION,
         Event.pinModeGet BbicField.Rx1 ADI_COMMON_ACT_NO_ACTION,
         Event.enableSet BbicField.Rx1 false ADI_COMMON_ACT_NO_ACTION,
         Event.spiReadByte RegAddr.ADRV9001_ADDR_ARM_CMD_STATUS_8 ADI_COMMON_ACT_NO_ACTION,
         Event.spiReadByte RegAddr.ADRV9001_ADDR_ARM_CMD_STATUS_9 ADI_COMMON_ACT_NO_ACTION,
         Event.spiReadByte RegAddr.ADRV9001_ADDR_ARM_CMD_STATUS_8 ADI_COMMON_ACT_NO_ACTION,
         Event.spiReadByte RegAddr.ADRV9001_ADDR_ARM_CMD_STATUS_9 ADI_COMMON_ACT_NO_ACTION,
         Event.spiReadByte RegAddr.ADRV9001_ADDR_ARM_CMD_STATUS_8 ADI_COMMON_ACT_NO_ACTION,
         Event.spiReadByte RegAddr.ADRV9001_ADDR_ARM_CMD_STATUS_9 ADI_COMMON_ACT_NO_ACTION,
         Event.spiReadByte RegAddr.ADRV9001_ADDR_ARM_CMD_STATUS_8 ADI_COMMON_ACT_NO_ACTION,
         Event.spiReadByte RegAddr.ADRV9001_ADDR_ARM_CMD_STATUS_9 ADI_COMMON_ACT_NO_ACTION,
         Event.spiReadByte RegAddr.ADRV9001_ADDR_ARM_CMD_STATUS_8 ADI_COMMON_ACT_NO_ACTION,
         Event.spiReadByte RegAddr.ADRV9001_ADDR_ARM_CMD_STATUS_9 ADI_COMMON_ACT_NO_ACTION],
        2) := by
  decide

/-- Claim C34: the enable writes of `adi_adrv9001_Radio_Channels_EnableRf` are
those of a prefix of the batch.  For a batch of at most 255 entries accepted by
the generic validation and a successful read of the radio state, the call
returns.  When it succeeds, its accesses after the state read are one pin-mode
read and one successful write of `enable` per batch entry, so its enable writes
are exactly one per entry, in batch order.  When it fails, it stopped at an
index `k` of the batch: every entry before `k` was accepted (an RX or TX channel
that the snapshot shows PRIMED or RF_ENABLED) and has had its enable field
written with `enable`, in batch order, and what follows in the trace is the
access of entry `k` alone: a successful pin-mode read followed by the rejection
of the enable mode or of the state (parameter error), or no access or a failed
pin-mode read, or the pin-mode read and a failed enable write.  Unless that last
case occurred, the enable writes of the call are exactly those of the entries
before `k`; no enable field other than theirs has been written; and in a batch
of distinct channels the fields of the entries at `k` and after are not written.
-/
theorem C34_enable_rf_writes_a_prefix_of_the_batch {σ : Type} (hal : Platform σ) (fuel : Nat)
    (batch : List (adi_common_Port_e × adi_common_ChannelNumber_e)) (enable : Bool) (d : σ)
    (rs : adi_adrv9001_RadioState_t) (tr0 : List Event) (d0 : σ)
    (hlen : batch.length ≤ 255) (hfuel : batch.length < fuel)
    (hgen : hal.adi_adrv9001_Channel_State_GenericValidate batch = ADI_COMMON_ACT_NO_ACTION)
    (hread : adi_adrv9001_Radio_State_Get hal adi_adrv9001_RadioState_t.zero d =
      some (ADI_COMMON_ACT_NO_ACTION, rs, tr0, d0)) :
    ∃ a tr d2, adi_adrv9001_Radio_Channels_EnableRf hal fuel batch enable d = some (a, tr, d2) ∧
      (a = ADI_COMMON_ACT_NO_ACTION →
        tr = tr0 ++ batch.flatMap (enableRfStep enable) ∧
        enableWrites tr = batch.map (fun pc =>
          Event.enableSet (bbicFieldOf pc.1 pc.2) enable ADI_COMMON_ACT_NO_ACTION)) ∧
      (a ≠ ADI_COMMON_ACT_NO_ACTION → ∃ k tail, k < batch.length ∧
        tr = tr0 ++ (batch.take k).flatMap (enableRfStep enable) ++ tail ∧
        (∀ j, j < k → (batchAt batch j).1 ≠ ADI_ORX ∧
          (channelStateIn rs (batchAt batch j).1 (batchAt batch j).2 =
              ADI_ADRV9001_CHANNEL_PRIMED ∨
            channelStateIn rs (batchAt batch j).1 (batchAt batch j).2 =
              ADI_ADRV9001_CHANNEL_RF_ENABLED)) ∧
        ((tail = [Event.pinModeGet (bbicFieldOf (batchAt batch k).1 (batchAt batch k).2)
              ADI_COMMON_ACT_NO_ACTION] ∧ a = ADI_COMMON_ACT_ERR_CHECK_PARAM) ∨
          tail = [] ∨
          tail = [Event.pinModeGet (bbicFieldOf (batchAt batch k).1 (batchAt batch k).2) a] ∨
          tail = [Event.pinModeGet (bbicFieldOf (batchAt batch k).1 (batchAt batch k).2)
              ADI_COMMON_ACT_NO_ACTION,
            Event.enableSet (bbicFieldOf (batchAt batch k).1 (batchAt batch k).2) enable a]) ∧
        (tail ≠ [Event.pinModeGet (bbicFieldOf (batchAt batch k).1 (batchAt batch k).2)
              ADI_COMMON_ACT_NO_ACTION,
            Event.enableSet (bbicFieldOf (batchAt batch k).1 (batchAt batch k).2) enable a] →
          enableWrites tr = (batch.take k).map (fun pc =>
            Event.enableSet (bbicFieldOf pc.1 pc.2) enable ADI_COMMON_ACT_NO_ACTION) ∧
          (∀ f, (∀ j, j < k → bbicFieldOf (batchAt batch j).1 (batchAt batch j).2 ≠ f) →
            ∀ e ∈ tr, e.isEnableWriteOf f = false) ∧
          (batch.Nodup → ∀ j, k ≤ j → j < batch.length →
            ∀ e ∈ tr, e.isEnableWriteOf
              (bbicFieldOf (batchAt batch j).1 (batchAt batch j).2) = false))) := by
  have htr0 : enableWrites tr0 = [] := by
    obtain ⟨a, rs2, tr2, d2, h1, h2⟩ := State_Get_total hal adi_adrv9001_RadioState_t.zero d
    rw [hread] at h1
    simp only [Option.some.injEq, Prod.mk.injEq] at h1
    obtain ⟨_, _, rfl, _⟩ := h1
    exact enableWrites_of_statusReads _ h2
  obtain ⟨a, tr, d2, hres, hok, hfail⟩ :=
    sat_Channels_EnableRf_prefix hal fuel batch enable d rs tr0 d0 hlen hfuel hgen hread
  refine ⟨a, tr, d2, hres, fun ha => ?_, fun ha => ?_⟩
  · have htr := hok ha
    refine ⟨htr, ?_⟩
    rw [htr, enableWrites_append, htr0, List.nil_append, enableWrites_enableRfStep]
  · obtain ⟨k, tail, hk, htr, hP, hcases⟩ := hfail ha
    refine ⟨k, tail, hk, htr, hP, hcases, fun hne => ?_⟩
    have htail : enableWrites tail = [] := by
      rcases hcases with ⟨h, _⟩ | h | h | h
      · rw [h]; rfl
      · rw [h]; rfl
      · rw [h]; rfl
      · exact absurd h hne
    have hw : enableWrites tr = (batch.take k).map (fun pc =>
        Event.enableSet (bbicFieldOf pc.1 pc.2) enable ADI_COMMON_ACT_NO_ACTION) := by
      rw [htr, enableWrites_append, enableWrites_append, htr0, htail, List.nil_append,
        List.append_nil, enableWrites_enableRfStep]
    have hframe : ∀ f, (∀ j, j < k → bbicFieldOf (batchAt batch j).1 (batchAt batch j).2 ≠ f) →
        ∀ e ∈ tr, e.isEnableWriteOf f = false := by
      intro f hf
      refine no_enableWriteOf_other_field tr (batch.take k) enable f hw ?_
      intro pc hpc
      obtain ⟨j, hj, rfl⟩ := mem_take_batchAt batch k (by omega) pc hpc
      exact hf j hj
    refine ⟨hw, hframe, fun hnd j hkj hj => ?_⟩
    exact hframe _ (fun i hi => bbicFieldOf_batchAt_ne batch hnd i j (by omega) hj (by omega))

/-- Witness of claim C34: enabling RF on the batch RX1, RX2 of the simulated
device with both channels PRIMED and RX2 in pin enable-mode. -/
theorem C34_enable_rf_writes_a_prefix_of_the_batch_witness :
    ∃ a tr d2, adi_adrv9001_Radio_Channels_EnableRf simPlatform 3
        [(ADI_RX, ADI_CHANNEL_1), (ADI_RX, ADI_CHANNEL_2)] true
        { simDev 2 2 1 1 with pinRx2 := ADI_ADRV9001_PIN_MODE } = some (a, tr, d2) ∧
      (a ≠ ADI_COMMON_ACT_NO_ACTION → ∃ k tail,
        k < [(ADI_RX, ADI_CHANNEL_1), (ADI_RX, ADI_CHANNEL_2)].length ∧
        tr = [Event.spiReadByte RegAddr.ADRV9001_ADDR_ARM_CMD_STATUS_8 ADI_COMMON_ACT_NO_ACTION,
            Event.spiReadByte RegAddr.ADRV9001_ADDR_ARM_CMD_STATUS_9
              ADI_COMMON_ACT_NO_ACTION] ++
          ([(ADI_RX, ADI_CHANNEL_1), (ADI_RX, ADI_CHANNEL_2)].take k).flatMap
            (enableRfStep true) ++ tail) :=
  (C34_enable_rf_writes_a_prefix_of_the_batch simPlatform 3
    [(ADI_RX, ADI_CHANNEL_1), (ADI_RX, ADI_CHANNEL_2)] true
    { simDev 2 2 1 1 with pinRx2 := ADI_ADRV9001_PIN_MODE }
    { systemState := 0, monitorModeState := 0, bootState := 0,
      channelStates := [[2, 2], [1, 1]] }
    [Event.spiReadByte RegAddr.ADRV9001_ADDR_ARM_CMD_STATUS_8 ADI_COMMON_ACT_NO_ACTION,
     Event.spiReadByte RegAddr.ADRV9001_ADDR_ARM_CMD_STATUS_9 ADI_COMMON_ACT_NO_ACTION]
    { simDev 2 2 1 1 with pinRx2 := ADI_ADRV9001_PIN_MODE }
    (by decide) (by decide) (by decide) (by decide)).imp
    (fun _ h => h.imp (fun _ h => h.imp (fun _ h =>
      ⟨h.1, fun ha => (h.2.2 ha).imp (fun _ h => h.imp (fun _ h => ⟨h.1, h.2.1⟩))⟩)))

/-- Claim C31: the poll loop of `adi_adrv9001_Channel_DisableRF_Wait`.  After a
successful RF disable of the channel (accesses `trE`, device `d1`) and for every
`numTries` of the 8-bit parameter, the call returns having made the state reads
`0 .. m - 1` and nothing else, with `m ≤ numTries`; the number of reads is the
number of reads of the first status register in its trace.  If all `numTries`
reads succeed and none shows the channel PRIMED, all of them are made and the
result is the reset-module error; in particular with `numTries = 0` no read is
made and the result is that error.  If read `j` is the first to show PRIMED,
the reads before it having succeeded, the call returns success right after it.
If read `j` is the first to fail, the call returns the action of that read
right after it.  Success is only returned after a read that showed PRIMED, the
last one made. -/
theorem C31_disable_wait_polls_until_primed {σ : Type} (hal : Platform σ) (fuel : Nat)
    (port : adi_common_Port_e) (channel : adi_common_ChannelNumber_e) (numTries : Nat) (d : σ)
    (trE : List Event) (d1 : σ)
    (hn255 : numTries ≤ 255) (hn : numTries < fuel)
    (hdis : adi_adrv9001_Radio_Channel_EnableRf hal fuel port channel false d =
      some (ADI_COMMON_ACT_NO_ACTION, trE, d1)) :
    ∃ a tr d2 m,
      adi_adrv9001_Channel_DisableRF_Wait hal fuel port channel numTries d = some (a, tr, d2) ∧
      m ≤ numTries ∧ tr = trE ++ snapshotTrace hal d1 m ∧
      ((snapshotTrace hal d1 m).filter Event.isStatusARead).length = m ∧
      ((∀ j, j < numTries → snapshotAction hal d1 j = ADI_COMMON_ACT_NO_ACTION ∧
          snapshotChannelState hal port channel d1 j ≠ ADI_ADRV9001_CHANNEL_PRIMED) →
        a = ADI_COMMON_ACT_ERR_RESET_MODULE ∧ m = numTries) ∧
      (numTries = 0 → a = ADI_COMMON_ACT_ERR_RESET_MODULE ∧ tr = trE) ∧
      (∀ j, j < numTries →
        (∀ i, i < j → snapshotAction hal d1 i = ADI_COMMON_ACT_NO_ACTION ∧
          snapshotChannelState hal port channel d1 i ≠ ADI_ADRV9001_CHANNEL_PRIMED) →
        snapshotAction hal d1 j = ADI_COMMON_ACT_NO_ACTION →
        snapshotChannelState hal port channel d1 j = ADI_ADRV9001_CHANNEL_PRIMED →
        a = ADI_COMMON_ACT_NO_ACTION ∧ m = j + 1) ∧
      (∀ j, j < numTries →
        (∀ i, i < j → snapshotAction hal d1 i = ADI_COMMON_ACT_NO_ACTION ∧
          snapshotChannelState hal port channel d1 i ≠ ADI_ADRV9001_CHANNEL_PRIMED) →
        snapshotAction hal d1 j ≠ ADI_COMMON_ACT_NO_ACTION →
        a = snapshotAction hal d1 j ∧ m = j + 1) ∧
      (a = ADI_COMMON_ACT_NO_ACTION → ∃ j, j < numTries ∧ m = j + 1 ∧
        snapshotAction hal d1 j = ADI_COMMON_ACT_NO_ACTION ∧
        snapshotChannelState hal port channel d1 j = ADI_ADRV9001_CHANNEL_PRIMED) := by
  obtain ⟨a, tr, d2, hres, m, hm, htr, _, hcase⟩ :=
    sat_DisableRF_Wait_poll hal fuel port channel numTries d trE d1 hn255 hn hdis
  refine ⟨a, tr, d2, m, hres, hm, htr, snapshotTrace_statusAReads hal d1 m, ?_, ?_, ?_, ?_, ?_⟩
  · intro hall
    rcases hcase with ⟨hmn, ha, _⟩ | ⟨j, hj, _, _, h | h⟩
    · exact ⟨ha, hmn⟩
    · exact absurd h.2.1 (hall j hj).2
    · exact absurd (hall j hj).1 h.1
  · intro h0
    rcases hcase with ⟨hmn, ha, _⟩ | ⟨j, hj, _, _, _⟩
    · refine ⟨ha, ?_⟩
      rw [htr, hmn, h0]
      exact List.append_nil trE
    · omega
  · intro j hj hbefore haj hpj
    rcases hcase with ⟨_, _, hall⟩ | ⟨k, hk, hmk, hbk, h | h⟩
    · exact absurd hpj (hall j hj).2
    · rcases Nat.lt_trichotomy k j with hlt | heq | hgt
      · exact absurd h.2.1 (hbefore k hlt).2
      · subst heq
        exact ⟨h.2.2, hmk⟩
      · exact absurd hpj (hbk j hgt).2
    · rcases Nat.lt_trichotomy k j with hlt | heq | hgt
      · exact absurd (hbefore k hlt).1 h.1
      · subst heq
        exact absurd haj h.1
      · exact absurd hpj (hbk j hgt).2
  · intro j hj hbefore haj
    rcases hcase with ⟨_, _, hall⟩ | ⟨k, hk, hmk, hbk, h | h⟩
    · exact absurd (hall j hj).1 haj
    · rcases Nat.lt_trichotomy k j with hlt | heq | hgt
      · exact absurd h.2.1 (hbefore k hlt).2
      · subst heq
        exact absurd h.1 haj
      · exact absurd (hbk j hgt).1 haj
    · rcases Nat.lt_trichotomy k j with hlt | heq | hgt
      · exact absurd (hbefore k hlt).1 h.1
      · subst heq
        exact ⟨h.2, hmk⟩
      · exact absurd (hbk j hgt).1 haj
  · intro ha
    rcases hcase with ⟨_, ha2, _⟩ | ⟨j, hj, hmj, _, h | h⟩
    · rw [ha] at ha2
      exact absurd ha2 (by decide)
    · exact ⟨j, hj, hmj, h.1, h.2.1⟩
    · rw [ha] at h
      exact absurd h.2.symm h.1

/-- Witness of claim C31: on a device whose enable writes have no effect, the
disable of RX1 (RF_ENABLED) with 5 tries makes all 5 reads and returns the
reset-module error. -/
theorem C31_disable_wait_polls_until_primed_witness :
    ∃ a tr d2 m,
      adi_adrv9001_Channel_DisableRF_Wait stuckPlatform 6 ADI_RX ADI_CHANNEL_1 5
        (simDev 3 1 1 1) = some (a, tr, d2) ∧
      a = ADI_COMMON_ACT_ERR_RESET_MODULE ∧ m = 5 := by
  obtain ⟨a, tr, d2, m, h, _, _, _, hex, _⟩ :=
    C31_disable_wait_polls_until_primed stuckPlatform 6 ADI_RX ADI_CHANNEL_1 5
      (simDev 3 1 1 1)
      [Event.spiReadByte RegAddr.ADRV9001_ADDR_ARM_CMD_STATUS_8 ADI_COMMON_ACT_NO_ACTION,
       Event.spiReadByte RegAddr.ADRV9001_ADDR_ARM_CMD_STATUS_9 ADI_COMMON_ACT_NO_ACTION,
       Event.pinModeGet BbicField.Rx1 ADI_COMMON_ACT_NO_ACTION,
       Event.enableSet BbicField.Rx1 false ADI_COMMON_ACT_NO_ACTION]
      (simDev 3 1 1 1) (by decide) (by decide) (by decide)
  exact ⟨a, tr, d2, m, h, hex (by decide)⟩

end Adrv9001
